import Mathlib

/-!
# NetworkManager device activation pipeline

A shallow embedding of `src/nm-device.c`: the five-stage activation state
machine of one `NMDevice`, its cancellation and deactivation paths and the
DHCP notification handler.

Conventions of the embedding

* One device lives in a `World` together with the activation requests it can
  refer to, the GLib main-loop queue of idle sources and a chronological
  trace of every call that leaves `nm-device.c` (backend, DHCP manager,
  policy, signals, device-class hooks).
* Pointers to requests are `ReqId`s; the record a pointer refers to is looked
  up in `World.reqs`.  A request handed to the device was created for this
  device, so `nm_act_request_get_dev (req)` is the device of the world and
  `nm_act_request_get_data (req)` is non-NULL.
* `g_return_if_fail` is an early return that leaves the world as it is;
  a failing `g_assert` aborts the process and is the result `none`.
* Results of calls into the operating system, the backend and the DHCP
  manager are read from an `Env` record given to every operation.
* Logging (`nm_info`, `nm_warning`, `nm_ioctl_info`) is left out.
-/

namespace NetworkManager

/-! ## Enumerations -/

/-- Modelled from the spec: the `NMDeviceState` enumeration (its declaration
is in a header outside `src/`); the members are the `NM_DEVICE_STATE_*`
constants used by `nm-device.c`, which are the eight lifecycle states of the
data model. -/
inductive NMDeviceState
  | unknown
  | disconnected
  | prepare
  | config
  | need_auth
  | ip_config
  | activated
  | failed
  deriving DecidableEq, Repr

/-- Modelled from the spec: the `NMActStage` enumeration of
`nm-activation-request.h` (outside `src/`); the members are the
`NM_ACT_STAGE_*` constants listed in `nm_device_is_activated`. -/
inductive NMActStage
  | unknown
  | device_prepare
  | device_config
  | need_user_key
  | ip_config_start
  | ip_config_get
  | ip_config_commit
  | activated
  | failed
  | cancelled
  deriving DecidableEq, Repr

/-- The tri-state result of a stage hook (`NMActStageReturn`). -/
inductive NMActStageReturn
  | failure
  | success
  | postpone
  deriving DecidableEq, Repr

/-- Modelled from the spec: the `NMDHCPState` enumeration of
`nm-dhcp-manager.h` (outside `src/`).  The eight named members are the
`DHCDBD_*` cases of the switch in `dhcp_state_changed`; `other` stands for
every remaining member, which the switch sends to `default`. -/
inductive NMDHCPState
  | bound
  | renew
  | reboot
  | rebind
  | timeout
  | fail
  | abend
  | end_
  | other (code : Nat)
  deriving DecidableEq, Repr

/-- Status argument of `nm_dbus_schedule_device_status_change_signal`. -/
inductive DeviceStatus
  | activating
  | no_longer_active
  deriving DecidableEq, Repr

/-- The idle callbacks `nm-device.c` registers with `g_idle_add`. -/
inductive StageCallback
  | stage1_device_prepare
  | stage2_device_config
  | stage3_ip_config_start
  | stage4_ip_config_get
  | stage4_ip_config_timeout
  | stage5_ip_config_commit
  deriving DecidableEq, Repr

/-- The slots of the device class (`NMDeviceClass`) called by the pipeline. -/
inductive ClassHook
  | act_stage1_prepare
  | act_stage2_config
  | act_stage3_ip_config_start
  | act_stage4_get_ip4_config
  | act_stage4_ip_config_timeout
  | update_link
  | activation_cancel_handler
  | deactivate
  | deactivate_quickly
  | set_hw_address
  | init
  | start
  deriving DecidableEq, Repr

/-! ## Records -/

/-- Pointer to an activation request. -/
abbrev ReqId := Nat

/-- Modelled from the spec: the in-memory IPv4 configuration record
(`NMIP4Config`, implemented outside `src/`): address, netmask, broadcast,
gateway, MTU, ordered nameservers and ordered search domains. -/
structure NMIP4Config where
  address : Nat := 0
  netmask : Nat := 0
  broadcast : Nat := 0
  gateway : Nat := 0
  mtu : Nat := 0
  nameservers : List Nat := []
  domains : List String := []
  deriving DecidableEq, Repr

/-- Modelled from the spec: the mutable part of an activation request
(`NMActRequest`, implemented outside `src/`): the stage tag, the IPv4
configuration held between stage 4 and stage 5, and the reference count. -/
structure NMActRequest where
  stage : NMActStage := NMActStage.unknown
  ip4_config : Option NMIP4Config := none
  refcount : Nat := 1
  deriving DecidableEq, Repr

/-- Every call that leaves `nm-device.c`, in the order it is made. -/
inductive Event
  | policy_activation_failed (req : ReqId)
  | policy_activation_finish (req : ReqId)
  | state_changed_signal (state : NMDeviceState)
  | carrier_changed_signal (link_active : Bool)
  | state_change_signal_broadcast
  | dbus_device_status_change (status : DeviceStatus)
  | act_request_ref (req : ReqId)
  | act_request_unref (req : ReqId)
  | class_hook (hook : ClassHook)
  | custom (tag : Nat)
  | dhcp_begin_transaction (iface : String)
  | dhcp_cancel_transaction (manager : Bool) (iface : String) (flag : Bool)
  | dhcp_get_ip4_config (iface : String)
  | system_device_set_up_down (up : Bool)
  | system_device_new_ip4_system_config
  | system_get_mtu
  | system_device_set_from_ip4_config (cfg : Option NMIP4Config)
  | system_device_add_ip6_link_address
  | system_restart_mdns_responder
  | system_set_hostname (cfg : Option NMIP4Config)
  | system_activate_nis (cfg : Option NMIP4Config)
  | system_set_mtu
  | system_shutdown_nis
  | vpn_manager_deactivate_vpn_connection
  | named_manager_remove_ip4_config (cfg : NMIP4Config)
  | system_device_flush_routes
  | system_device_flush_addresses
  | get_ifaddr
  | get_autoip
  | wait_for_completion
  | system_device_get_system_config
  | system_device_get_use_dhcp
  | system_device_get_disabled
  | print_device_capabilities
  | dhcp_manager_get
  | dhcp_manager_unref
  | dbus_register_g_object
  | object_unref
  deriving DecidableEq, Repr

/-- The fields of `struct _NMDevicePrivate` the pipeline reads or writes.
Pointers that are only tested against NULL are booleans (`app_data`,
`dhcp_manager`); initial values are those of `nm_device_init`. -/
structure NMDevicePrivate where
  state : NMDeviceState := NMDeviceState.disconnected
  iface : String := ""
  capabilities : Nat := 0
  link_active : Bool := false
  ip4_address : Nat := 0
  app_data : Bool := false
  act_request : Option ReqId := none
  act_source_id : Nat := 0
  ip4_config : Option NMIP4Config := none
  dhcp_manager : Bool := false
  dhcp_signal_id : Nat := 0
  deriving DecidableEq, Repr

/-- An idle source attached to the main loop by `g_idle_add (callback, req)`. -/
structure GSource where
  id : Nat
  callback : StageCallback
  user_data : ReqId
  deriving DecidableEq, Repr

/-- The device, the requests, the main-loop queue and the trace. -/
structure World where
  dev : NMDevicePrivate := {}
  reqs : ReqId → NMActRequest := fun _ => {}
  sources : List GSource := []
  sources_created : Nat := 0
  dhcp_handlers : List Nat := []
  handlers_connected : Nat := 0
  trace : List Event := []

/-- Results of the calls into the operating system, the backend adapter and
the DHCP manager made during one operation. -/
structure Env where
  device_is_up : Bool := true
  ifaddr : Option Nat := none
  dhcp_begin_transaction : Bool := true
  dhcp_ip4_config : Option NMIP4Config := none
  system_ip4_config : Option NMIP4Config := none
  system_mtu : Nat := 0
  set_from_ip4_config : Bool := true
  autoip : Option Nat := none
  little_endian : Bool := true
  system_use_dhcp : Bool := false
  system_disabled : Bool := false
  deriving DecidableEq, Repr

/-- A stage hook of stages 1 to 3: it reads the device, performs external
calls (returned as events) and yields a stage result. -/
abbrev StageHook := Env → World → ReqId → NMActStageReturn × List Event

/-- A hook without result (`update_link`, `deactivate`, ...). -/
abbrev VoidHook := Env → World → List Event

/-- A stage-4 hook: as `StageHook`, and it may hand back a configuration
through its `NMIP4Config **` argument.  The first argument is the
`set_hw_address` slot of the class of `self`, which a hook reaches when it
brings the device up. -/
abbrev ConfigHook :=
  Option VoidHook → Env → World → ReqId → (NMActStageReturn × Option NMIP4Config) × List Event

/-- The activation-cancel handler slot; the request argument may be NULL. -/
abbrev CancelHook := Env → World → Option ReqId → List Event

/-- The virtual-method table of a device variant (`NMDeviceClass`).  A slot
that may be NULL is an `Option`.  Hooks of variants are code outside
`src/`; they are taken as observers of the device that perform external
calls and return a result. -/
structure NMDeviceClass where
  get_generic_capabilities : Nat
  get_type_capabilities : Nat
  is_test_device : Bool
  set_hw_address : Option VoidHook
  act_stage1_prepare : StageHook
  act_stage2_config : StageHook
  act_stage3_ip_config_start : StageHook
  act_stage4_get_ip4_config : ConfigHook
  act_stage4_ip_config_timeout : ConfigHook
  update_link : Option VoidHook
  activation_cancel_handler : Option CancelHook
  deactivate : Option VoidHook
  deactivate_quickly : Option VoidHook
  init : Option VoidHook := none
  start : VoidHook := fun _ _ => []

/-! ## Small helpers on the world -/

/-- Append one external call to the trace. -/
def World.emit (w : World) (e : Event) : World :=
  { w with trace := w.trace ++ [e] }

/-- Append several external calls to the trace. -/
def World.emits (w : World) (es : List Event) : World :=
  { w with trace := w.trace ++ es }

/-- Overwrite the record a request pointer refers to. -/
def World.setReq (w : World) (r : ReqId) (v : NMActRequest) : World :=
  { w with reqs := fun x => if x = r then v else w.reqs x }

/-- Call a class slot: the call is logged, then the calls made by the hook. -/
def World.callHook (w : World) (h : ClassHook) (es : List Event) : World :=
  (w.emit (Event.class_hook h)).emits es

/-- Number of idle sources in the main-loop queue whose data is request `r`. -/
def World.scheduledFor (w : World) (r : ReqId) : Nat :=
  (w.sources.filter (fun s => s.user_data = r)).length

/-! ## GLib main loop -/

/-- `g_idle_add`: attach a new idle source; the id is fresh and positive. -/
def g_idle_add (cb : StageCallback) (req : ReqId) (w : World) : Nat × World :=
  (w.sources_created + 1,
   { w with sources := w.sources ++ [⟨w.sources_created + 1, cb, req⟩],
            sources_created := w.sources_created + 1 })

/-- `g_source_remove`: detach the source with the given id, if any. -/
def g_source_remove (id : Nat) (w : World) : World :=
  { w with sources := w.sources.filter (fun s => s.id ≠ id) }

/-! ## Activation request accessors -/

/-- `nm_act_request_get_stage`. -/
def nm_act_request_get_stage (w : World) (r : ReqId) : NMActStage :=
  (w.reqs r).stage

/-- `nm_act_request_set_stage`. -/
def nm_act_request_set_stage (r : ReqId) (s : NMActStage) (w : World) : World :=
  w.setReq r { w.reqs r with stage := s }

/-- `nm_act_request_get_ip4_config`. -/
def nm_act_request_get_ip4_config (w : World) (r : ReqId) : Option NMIP4Config :=
  (w.reqs r).ip4_config

/-- `nm_act_request_set_ip4_config`. -/
def nm_act_request_set_ip4_config (r : ReqId) (c : NMIP4Config) (w : World) : World :=
  w.setReq r { w.reqs r with ip4_config := some c }

/-- Modelled from the spec: `nm_act_request_ref` (outside `src/`) takes one
more reference on the reference-counted request. -/
def nm_act_request_ref (r : ReqId) (w : World) : World :=
  (w.setReq r { w.reqs r with refcount := (w.reqs r).refcount + 1 }).emit (Event.act_request_ref r)

/-- Modelled from the spec: `nm_act_request_unref` (outside `src/`) drops one
reference; the request is destroyed when the count reaches zero. -/
def nm_act_request_unref (r : ReqId) (w : World) : World :=
  (w.setReq r { w.reqs r with refcount := (w.reqs r).refcount - 1 }).emit (Event.act_request_unref r)

/-- `nm_policy_schedule_activation_failed` (policy, outside `src/`). -/
def nm_policy_schedule_activation_failed (r : ReqId) (w : World) : World :=
  w.emit (Event.policy_activation_failed r)

/-- `nm_policy_schedule_activation_finish` (policy, outside `src/`). -/
def nm_policy_schedule_activation_finish (r : ReqId) (w : World) : World :=
  w.emit (Event.policy_activation_finish r)

/-! ## Device accessors -/

/-- `nm_device_get_state`. -/
def nm_device_get_state (w : World) : NMDeviceState := w.dev.state

/-- `nm_device_get_act_request`. -/
def nm_device_get_act_request (w : World) : Option ReqId := w.dev.act_request

/-- `nm_device_get_iface`. -/
def nm_device_get_iface (w : World) : String := w.dev.iface

/-- `nm_device_get_use_dhcp`: a DHCP manager is attached. -/
def nm_device_get_use_dhcp (w : World) : Bool := w.dev.dhcp_manager

/-- `nm_device_get_ip4_config`. -/
def nm_device_get_ip4_config (w : World) : Option NMIP4Config := w.dev.ip4_config

/-- `nm_device_set_ip4_config`: the old configuration is dropped, the new one
(if any) is installed. -/
def nm_device_set_ip4_config (c : Option NMIP4Config) (w : World) : World :=
  { w with dev := { w.dev with ip4_config := c } }

/-- `nm_device_is_activating`. -/
def nm_device_is_activating (w : World) : Bool :=
  match nm_device_get_state w with
  | NMDeviceState.prepare => true
  | NMDeviceState.config => true
  | NMDeviceState.need_auth => true
  | NMDeviceState.ip_config => true
  | _ => false

/-- `nm_device_is_up`: the interface flags read with `SIOCGIFFLAGS`. -/
def nm_device_is_up (env : Env) (_w : World) : Bool := env.device_is_up

/-- `nm_device_set_address`: the variant's `set_hw_address`, if it has one. -/
def nm_device_set_address (set_hw_address : Option VoidHook) (env : Env) (w : World) : World :=
  match set_hw_address with
  | some h => w.callHook ClassHook.set_hw_address (h env w)
  | none => w

/-- `nm_device_set_up_down`. -/
def nm_device_set_up_down (set_hw_address : Option VoidHook) (env : Env) (up : Bool)
    (w : World) : World :=
  nm_device_set_address set_hw_address env (w.emit (Event.system_device_set_up_down up))

/-- `nm_device_bring_up`. -/
def nm_device_bring_up (set_hw_address : Option VoidHook) (env : Env) (w : World) : World :=
  nm_device_set_up_down set_hw_address env true w

/-- `nm_device_update_ip4_address`: re-read the address with `SIOCGIFADDR`;
`env.ifaddr = none` is a socket or ioctl failure. -/
def nm_device_update_ip4_address (env : Env) (w : World) : World :=
  if w.dev.app_data = false then w
  else
    let w := w.emit Event.get_ifaddr
    match env.ifaddr with
    | none => w
    | some a => if a ≠ w.dev.ip4_address then { w with dev := { w.dev with ip4_address := a } } else w

/-! ## Default hooks of the base class -/

/-- `real_act_stage1_prepare`: nothing to do. -/
def real_act_stage1_prepare : StageHook :=
  fun _ _ _ => (NMActStageReturn.success, [])

/-- `real_act_stage2_config`: nothing to do. -/
def real_act_stage2_config : StageHook :=
  fun _ _ _ => (NMActStageReturn.success, [])

/-- `real_act_stage3_ip_config_start`: DHCP devices begin a transaction (the
handler of the device is blocked around the call), others succeed at once. -/
def real_act_stage3_ip_config_start : StageHook :=
  fun env w _ =>
    if nm_device_get_use_dhcp w then
      if env.dhcp_begin_transaction then
        (NMActStageReturn.postpone, [Event.dhcp_begin_transaction (nm_device_get_iface w)])
      else
        (NMActStageReturn.failure, [Event.dhcp_begin_transaction (nm_device_get_iface w)])
    else
      (NMActStageReturn.success, [])

/-- Swap the four bytes of a 32-bit value. -/
def bswap32 (x : Nat) : Nat :=
  (x % 256) * 16777216 + (x / 256 % 256) * 65536 + (x / 65536 % 256) * 256 + (x / 16777216 % 256)

/-- `ntohl`: network to host byte order on a 32-bit value. -/
def ntohl (little_endian : Bool) (x : Nat) : Nat :=
  if little_endian then bswap32 (x % 4294967296) else x % 4294967296

/-- `LINKLOCAL_BCAST`. -/
def LINKLOCAL_BCAST : Nat := 0xa9feffff

/-- `nm_device_new_ip4_autoip_config`: a link-local configuration around the
address `get_autoip` produced (`env.autoip`), or no configuration. -/
def nm_device_new_ip4_autoip_config (env : Env) : Option NMIP4Config :=
  match env.autoip with
  | some ip =>
      some { address := ip % 4294967296,
             netmask := ntohl env.little_endian 0xFFFF0000,
             broadcast := ntohl env.little_endian LINKLOCAL_BCAST,
             gateway := 0 }
  | none => none

/-- `real_act_stage4_get_ip4_config`: the lease of the DHCP manager (with the
MTU taken from the backend when the lease has none) or the static system
configuration; without a configuration the device is still brought up. -/
def real_act_stage4_get_ip4_config : ConfigHook :=
  fun set_hw_address env w _ =>
    let got : Option NMIP4Config × List Event :=
      if nm_device_get_use_dhcp w then
        match env.dhcp_ip4_config with
        | some c =>
            if c.mtu = 0 then
              (some { c with mtu := env.system_mtu },
               [Event.dhcp_get_ip4_config (nm_device_get_iface w), Event.system_get_mtu])
            else
              (some c, [Event.dhcp_get_ip4_config (nm_device_get_iface w)])
        | none => (none, [Event.dhcp_get_ip4_config (nm_device_get_iface w)])
      else
        (env.system_ip4_config, [Event.system_device_new_ip4_system_config])
    match got.1 with
    | some c => ((NMActStageReturn.success, some c), got.2)
    | none =>
        if nm_device_is_up env w then ((NMActStageReturn.failure, none), got.2)
        else
          ((NMActStageReturn.failure, none),
           got.2 ++ (nm_device_bring_up set_hw_address env { w with trace := [] }).trace)

/-- `real_act_stage4_ip_config_timeout`: no DHCP reply, fall back to a
link-local address; the result is Success whether or not one was found. -/
def real_act_stage4_ip_config_timeout : ConfigHook :=
  fun _ env _ _ =>
    ((NMActStageReturn.success, nm_device_new_ip4_autoip_config env), [Event.get_autoip])

/-- `real_activation_cancel_handler`: in state IpConfig the DHCP transaction
of the interface is cancelled. -/
def real_activation_cancel_handler : CancelHook :=
  fun _ w req =>
    match req with
    | none => []
    | some _ =>
        if nm_device_get_state w = NMDeviceState.ip_config then
          [Event.dhcp_cancel_transaction w.dev.dhcp_manager (nm_device_get_iface w) true]
        else []

/-- `real_start`: nothing to do. -/
def real_start : VoidHook := fun _ _ => []

/-- `nm_device_class_init`: the slots the base class fills in; every other
slot of the zero-initialised class structure is NULL. -/
def nm_device_class_init : NMDeviceClass where
  get_generic_capabilities := 0
  get_type_capabilities := 0
  is_test_device := false
  set_hw_address := none
  act_stage1_prepare := real_act_stage1_prepare
  act_stage2_config := real_act_stage2_config
  act_stage3_ip_config_start := real_act_stage3_ip_config_start
  act_stage4_get_ip4_config := real_act_stage4_get_ip4_config
  act_stage4_ip_config_timeout := real_act_stage4_ip_config_timeout
  update_link := none
  activation_cancel_handler := some real_activation_cancel_handler
  deactivate := none
  deactivate_quickly := none
  init := none
  start := real_start

/-! ## Construction of a device -/

/-- `nm_device_set_use_dhcp`: a device that is to use DHCP and has no DHCP
manager yet takes the manager and connects `dhcp_state_changed` to its
"state-changed" signal; a device that is not to use DHCP disconnects the
handler and drops the manager. -/
def nm_device_set_use_dhcp (use_dhcp : Bool) (w : World) : World :=
  if use_dhcp then
    if w.dev.dhcp_manager = false then
      let w := w.emit Event.dhcp_manager_get
      { w with
        dev := { w.dev with dhcp_manager := true, dhcp_signal_id := w.handlers_connected + 1 }
        dhcp_handlers := w.dhcp_handlers ++ [w.handlers_connected + 1]
        handlers_connected := w.handlers_connected + 1 }
    else w
  else if w.dev.dhcp_manager then
    let w := w.emit Event.dhcp_manager_unref
    { w with
      dev := { w.dev with dhcp_manager := false }
      dhcp_handlers := w.dhcp_handlers.filter (fun id => id ≠ w.dev.dhcp_signal_id) }
  else w

/-- `nm_device_bring_up_wait`: bring the device up and wait until it is up;
the result is the `err` flag, which the completion test sets exactly when
the wait is cancelable. -/
def nm_device_bring_up_wait (set_hw_address : Option VoidHook) (env : Env) (cancelable : Bool)
    (w : World) : Bool × World :=
  let w := nm_device_bring_up set_hw_address env w
  let w := w.emit Event.wait_for_completion
  (cancelable, w)

/-- `constructor`: the object the parent constructor made (`none` when it
made none) has the generic capabilities of its class added; without the
capability bit `NM_DEVICE_CAP_NM_SUPPORTED` (declared outside `src/`, taken
as a parameter) it is released and NULL is returned; otherwise the device
is brought up and read out, released again if the distribution disables
it, and else started and registered on the bus.  The result is the world
the calls leave behind and whether the object is returned (`false` is
NULL); with no object there is no result world. -/
def constructor (NM_DEVICE_CAP_NM_SUPPORTED : Nat) (cls : NMDeviceClass) (env : Env)
    (object : Option World) : Option (Bool × World) :=
  match object with
  | none => none
  | some w =>
      let w := { w with dev := { w.dev with
        capabilities := w.dev.capabilities ||| cls.get_generic_capabilities } }
      if w.dev.capabilities &&& NM_DEVICE_CAP_NM_SUPPORTED = 0 then
        some (false, w.emit Event.object_unref)
      else
        let w := (nm_device_bring_up_wait cls.set_hw_address env false w).2
        let w := nm_device_update_ip4_address env w
        let w := nm_device_set_address cls.set_hw_address env w
        let w := w.emit Event.system_device_get_system_config
        let w := w.emit Event.system_device_get_use_dhcp
        let w := nm_device_set_use_dhcp env.system_use_dhcp w
        let w := w.emit Event.system_device_get_disabled
        if env.system_disabled then some (false, w.emit Event.object_unref)
        else
          let w := w.emit Event.print_device_capabilities
          let w :=
            match cls.init with
            | some h => w.callHook ClassHook.init (h env w)
            | none => w
          let w := w.callHook ClassHook.start (cls.start env w)
          some (true, w.emit Event.dbus_register_g_object)

/-! ## Cancellation and deactivation -/

/-- `nm_device_activation_cancel`.  The handler is looked up in the class
obtained by `g_type_class_peek (NM_TYPE_DEVICE)`, which is the base class
set up by `nm_device_class_init`. -/
def nm_device_activation_cancel (env : Env) (w : World) : Option World :=
  if nm_device_is_activating w = false then some w
  else if w.dev.app_data = false then none
  else
    let w :=
      if w.dev.act_source_id ≠ 0 then
        let w := g_source_remove w.dev.act_source_id w
        { w with dev := { w.dev with act_source_id := 0 } }
      else w
    let w :=
      match nm_device_class_init.activation_cancel_handler with
      | some h => w.callHook ClassHook.activation_cancel_handler (h env w w.dev.act_request)
      | none => w
    let w :=
      match w.dev.act_request with
      | some r => nm_act_request_unref r w
      | none => w
    let w := { w with dev := { w.dev with act_request := none } }
    some (w.emit Event.state_change_signal_broadcast)

/-- `nm_device_deactivate_quickly`. -/
def nm_device_deactivate_quickly (cls : NMDeviceClass) (env : Env) (w : World) :
    Option (Bool × World) :=
  if w.dev.app_data = false then some (false, w)
  else
    let w := w.emit Event.system_shutdown_nis
    let w := w.emit Event.vpn_manager_deactivate_vpn_connection
    let cancelled : Option World :=
      if nm_device_get_state w = NMDeviceState.activated then
        some (w.emit (Event.dbus_device_status_change DeviceStatus.no_longer_active))
      else if nm_device_is_activating w then nm_device_activation_cancel env w
      else some w
    match cancelled with
    | none => none
    | some w =>
        let w :=
          match nm_device_get_act_request w with
          | some r =>
              let w := w.emit
                (Event.dhcp_cancel_transaction w.dev.dhcp_manager (nm_device_get_iface w) false)
              let w := nm_act_request_unref r w
              { w with dev := { w.dev with act_request := none } }
          | none => w
        let w :=
          match cls.deactivate_quickly with
          | some h => w.callHook ClassHook.deactivate_quickly (h env w)
          | none => w
        some (true, w)

/-- The body of `nm_device_state_changed` for a state other than Failed:
store the state (the switch does nothing but log) and emit the signal. -/
def nm_device_state_changed_plain (state : NMDeviceState) (w : World) : World :=
  ({ w with dev := { w.dev with state := state } }).emit (Event.state_changed_signal state)

/-- `nm_device_deactivate`, the `deactivate` method of the device
interface.  Its last state change has the constant argument Disconnected. -/
def nm_device_deactivate (cls : NMDeviceClass) (env : Env) (w : World) : Option World :=
  if w.dev.app_data = false then some w
  else
    match nm_device_deactivate_quickly cls env w with
    | none => none
    | some (_, w) =>
        let w :=
          match nm_device_get_ip4_config w with
          | some c => nm_device_set_ip4_config none (w.emit (Event.named_manager_remove_ip4_config c))
          | none => w
        let w := w.emit Event.system_device_flush_routes
        let w := w.emit Event.system_device_flush_addresses
        let w := nm_device_update_ip4_address env w
        let w :=
          match cls.deactivate with
          | some h => w.callHook ClassHook.deactivate (h env w)
          | none => w
        let w := nm_device_state_changed_plain NMDeviceState.disconnected w
        some (w.emit Event.state_change_signal_broadcast)

/-- Modelled from the spec: `nm_device_interface_deactivate` (in
`nm-device-interface.c`, outside `src/`) calls the `deactivate` method of
the device interface, which `device_interface_init` sets to
`nm_device_deactivate`. -/
def nm_device_interface_deactivate (cls : NMDeviceClass) (env : Env) (w : World) : Option World :=
  nm_device_deactivate cls env w

/-- `nm_device_state_changed`: store the state; for Failed run the
deactivation of the device interface; then emit "state-changed". -/
def nm_device_state_changed (cls : NMDeviceClass) (env : Env) (state : NMDeviceState)
    (w : World) : Option World :=
  match state with
  | NMDeviceState.failed =>
      match nm_device_interface_deactivate cls env
          { w with dev := { w.dev with state := NMDeviceState.failed } } with
      | none => none
      | some w => some (w.emit (Event.state_changed_signal NMDeviceState.failed))
  | s => some (nm_device_state_changed_plain s w)

/-! ## Scheduling the stages -/

/-- The common tail of the `nm_device_activate_schedule_stage*` functions:
set the stage tag, add the idle source, store its id in `act_source_id`. -/
def schedule_stage (tag : NMActStage) (cb : StageCallback) (req : ReqId) (w : World) : World :=
  let w := nm_act_request_set_stage req tag w
  let (id, w) := g_idle_add cb req w
  { w with dev := { w.dev with act_source_id := id } }

/-- `nm_device_activate_schedule_stage1_device_prepare`. -/
def nm_device_activate_schedule_stage1_device_prepare (req : ReqId) (w : World) : World :=
  schedule_stage NMActStage.device_prepare StageCallback.stage1_device_prepare req w

/-- `nm_device_activate_schedule_stage2_device_config`. -/
def nm_device_activate_schedule_stage2_device_config (req : ReqId) (w : World) : World :=
  schedule_stage NMActStage.device_config StageCallback.stage2_device_config req w

/-- `nm_device_activate_schedule_stage3_ip_config_start`. -/
def nm_device_activate_schedule_stage3_ip_config_start (req : ReqId) (w : World) : World :=
  schedule_stage NMActStage.ip_config_start StageCallback.stage3_ip_config_start req w

/-- `nm_device_activate_schedule_stage4_ip_config_get`. -/
def nm_device_activate_schedule_stage4_ip_config_get (req : ReqId) (w : World) : World :=
  schedule_stage NMActStage.ip_config_get StageCallback.stage4_ip_config_get req w

/-- `nm_device_activate_schedule_stage4_ip_config_timeout`: the tag is
IpConfigGet here as well. -/
def nm_device_activate_schedule_stage4_ip_config_timeout (req : ReqId) (w : World) : World :=
  schedule_stage NMActStage.ip_config_get StageCallback.stage4_ip_config_timeout req w

/-- `nm_device_activate_schedule_stage5_ip_config_commit`. -/
def nm_device_activate_schedule_stage5_ip_config_commit (req : ReqId) (w : World) : World :=
  schedule_stage NMActStage.ip_config_commit StageCallback.stage5_ip_config_commit req w

/-! ## The stage bodies -/

/-- "Clear the activation source ID now that this stage has run". -/
def clear_act_source_id (w : World) : World :=
  if w.dev.act_source_id > 0 then { w with dev := { w.dev with act_source_id := 0 } } else w

/-- The failure branch shared by all stage bodies: state change to Failed,
then the policy is told. -/
def stage_failed (cls : NMDeviceClass) (env : Env) (req : ReqId) (w : World) : Option World :=
  match nm_device_state_changed cls env NMDeviceState.failed w with
  | none => none
  | some w => some (nm_policy_schedule_activation_failed req w)

/-- The world in which stage 1 calls its hook: marker cleared, state Prepare. -/
def stage1_hook_world (w : World) : World :=
  nm_device_state_changed_plain NMDeviceState.prepare (clear_act_source_id w)

/-- `nm_device_activate_stage1_device_prepare`. -/
def nm_device_activate_stage1_device_prepare (cls : NMDeviceClass) (env : Env) (req : ReqId)
    (w : World) : Option World := do
  let w := clear_act_source_id w
  let w ← nm_device_state_changed cls env NMDeviceState.prepare w
  let r := cls.act_stage1_prepare env w req
  let w := w.callHook ClassHook.act_stage1_prepare r.2
  match r.1 with
  | NMActStageReturn.postpone => some w
  | NMActStageReturn.failure => stage_failed cls env req w
  | NMActStageReturn.success => some (nm_device_activate_schedule_stage2_device_config req w)

/-- The world in which stage 2 calls its hook: marker cleared, state Config,
device brought up if it was not. -/
def stage2_hook_world (cls : NMDeviceClass) (env : Env) (w : World) : World :=
  let w := nm_device_state_changed_plain NMDeviceState.config (clear_act_source_id w)
  if nm_device_is_up env w then w else nm_device_bring_up cls.set_hw_address env w

/-- `nm_device_activate_stage2_device_config`. -/
def nm_device_activate_stage2_device_config (cls : NMDeviceClass) (env : Env) (req : ReqId)
    (w : World) : Option World := do
  let w := clear_act_source_id w
  let w ← nm_device_state_changed cls env NMDeviceState.config w
  let w := if nm_device_is_up env w then w else nm_device_bring_up cls.set_hw_address env w
  let r := cls.act_stage2_config env w req
  let w := w.callHook ClassHook.act_stage2_config r.2
  match r.1 with
  | NMActStageReturn.postpone => some w
  | NMActStageReturn.failure => stage_failed cls env req w
  | NMActStageReturn.success => some (nm_device_activate_schedule_stage3_ip_config_start req w)

/-- The world in which stage 3 calls its hook: marker cleared, state IpConfig. -/
def stage3_hook_world (w : World) : World :=
  nm_device_state_changed_plain NMDeviceState.ip_config (clear_act_source_id w)

/-- `nm_device_activate_stage3_ip_config_start`. -/
def nm_device_activate_stage3_ip_config_start (cls : NMDeviceClass) (env : Env) (req : ReqId)
    (w : World) : Option World := do
  let w := clear_act_source_id w
  let w ← nm_device_state_changed cls env NMDeviceState.ip_config w
  let r := cls.act_stage3_ip_config_start env w req
  let w := w.callHook ClassHook.act_stage3_ip_config_start r.2
  match r.1 with
  | NMActStageReturn.postpone => some w
  | NMActStageReturn.failure => stage_failed cls env req w
  | NMActStageReturn.success => some (nm_device_activate_schedule_stage4_ip_config_get req w)

/-- What both stage-4 bodies do with the result of their hook. -/
def stage4_finish (cls : NMDeviceClass) (env : Env) (req : ReqId)
    (r : NMActStageReturn × Option NMIP4Config) (w : World) : Option World :=
  match r with
  | (NMActStageReturn.postpone, _) => some w
  | (NMActStageReturn.failure, _) => stage_failed cls env req w
  | (NMActStageReturn.success, none) => stage_failed cls env req w
  | (NMActStageReturn.success, some c) =>
      some (nm_device_activate_schedule_stage5_ip_config_commit req
        (nm_act_request_set_ip4_config req c w))

/-- `nm_device_activate_stage4_ip_config_get`. -/
def nm_device_activate_stage4_ip_config_get (cls : NMDeviceClass) (env : Env) (req : ReqId)
    (w : World) : Option World :=
  let w := clear_act_source_id w
  let r := cls.act_stage4_get_ip4_config cls.set_hw_address env w req
  let w := w.callHook ClassHook.act_stage4_get_ip4_config r.2
  stage4_finish cls env req r.1 w

/-- `nm_device_activate_stage4_ip_config_timeout`. -/
def nm_device_activate_stage4_ip_config_timeout (cls : NMDeviceClass) (env : Env) (req : ReqId)
    (w : World) : Option World :=
  let w := clear_act_source_id w
  let r := cls.act_stage4_ip_config_timeout cls.set_hw_address env w req
  let w := w.callHook ClassHook.act_stage4_ip_config_timeout r.2
  stage4_finish cls env req r.1 w

/-- `nm_device_activate_stage5_ip_config_commit`; the request must hold a
configuration (`g_assert (ip4_config)`). -/
def nm_device_activate_stage5_ip_config_commit (cls : NMDeviceClass) (env : Env) (req : ReqId)
    (w : World) : Option World :=
  match nm_act_request_get_ip4_config w req with
  | none => none
  | some ip4_config =>
      let w := clear_act_source_id w
      let w := nm_device_set_ip4_config (some ip4_config) w
      let w := w.emit (Event.system_device_set_from_ip4_config w.dev.ip4_config)
      if env.set_from_ip4_config then do
        let w := nm_device_update_ip4_address env w
        let w := w.emit Event.system_device_add_ip6_link_address
        let w := w.emit Event.system_restart_mdns_responder
        let w := w.emit (Event.system_set_hostname w.dev.ip4_config)
        let w := w.emit (Event.system_activate_nis w.dev.ip4_config)
        let w := w.emit Event.system_set_mtu
        let w :=
          match cls.update_link with
          | some h => w.callHook ClassHook.update_link (h env w)
          | none => w
        let w ← nm_device_state_changed cls env NMDeviceState.activated w
        some (nm_policy_schedule_activation_finish req w)
      else
        stage_failed cls env req w

/-! ## Entry points -/

/-- `nm_device_activate`: "Tell the device to begin activation". -/
def nm_device_activate (req : ReqId) (w : World) : World :=
  if w.dev.state ≠ NMDeviceState.disconnected then w
  else
    let w := nm_act_request_ref req w
    let w := { w with dev := { w.dev with act_request := some req } }
    let w := nm_act_request_set_stage req NMActStage.device_prepare w
    let w := nm_device_activate_schedule_stage1_device_prepare req w
    let w := w.emit Event.state_change_signal_broadcast
    w.emit (Event.dbus_device_status_change DeviceStatus.activating)

/-- `dhcp_state_changed`: the handler connected to the "state-changed" signal
of the DHCP manager. -/
def dhcp_state_changed (iface : String) (state : NMDHCPState) (w : World) : World :=
  match nm_device_get_act_request w with
  | none => w
  | some req =>
      if nm_device_get_iface w = iface ∧
          nm_act_request_get_stage w req = NMActStage.ip_config_start then
        match state with
        | NMDHCPState.bound => nm_device_activate_schedule_stage4_ip_config_get req w
        | NMDHCPState.renew => nm_device_activate_schedule_stage4_ip_config_get req w
        | NMDHCPState.reboot => nm_device_activate_schedule_stage4_ip_config_get req w
        | NMDHCPState.rebind => nm_device_activate_schedule_stage4_ip_config_get req w
        | NMDHCPState.timeout => nm_device_activate_schedule_stage4_ip_config_timeout req w
        | NMDHCPState.fail => nm_policy_schedule_activation_failed req w
        | NMDHCPState.abend => nm_policy_schedule_activation_failed req w
        | NMDHCPState.end_ => nm_policy_schedule_activation_failed req w
        | NMDHCPState.other _ => w
      else w

/-- Run one idle callback; each of them returns FALSE. -/
def run_callback (cls : NMDeviceClass) (env : Env) (cb : StageCallback) (req : ReqId)
    (w : World) : Option World :=
  match cb with
  | StageCallback.stage1_device_prepare => nm_device_activate_stage1_device_prepare cls env req w
  | StageCallback.stage2_device_config => nm_device_activate_stage2_device_config cls env req w
  | StageCallback.stage3_ip_config_start => nm_device_activate_stage3_ip_config_start cls env req w
  | StageCallback.stage4_ip_config_get => nm_device_activate_stage4_ip_config_get cls env req w
  | StageCallback.stage4_ip_config_timeout =>
      nm_device_activate_stage4_ip_config_timeout cls env req w
  | StageCallback.stage5_ip_config_commit => nm_device_activate_stage5_ip_config_commit cls env req w

/-- One iteration of the GLib main loop: the oldest idle source is
dispatched and, its callback having returned FALSE, destroyed. -/
def g_main_context_iteration (cls : NMDeviceClass) (env : Env) (w : World) : Option World :=
  match w.sources with
  | [] => some w
  | s :: _ => (run_callback cls env s.callback s.user_data w).map (g_source_remove s.id)

/-- The DHCP manager emits "state-changed": every handler the device has
connected runs once. -/
def nm_dhcp_manager_emit_state_changed (iface : String) (state : NMDHCPState) (w : World) : World :=
  w.dhcp_handlers.foldl (fun acc _ => dhcp_state_changed iface state acc) w

/-! ## Runs of the device -/

/-- One step of a run: an activation request arrives, the main loop runs the
next idle source, the DHCP manager emits a notification, the activation is
cancelled, or the device is deactivated. -/
inductive Step (cls : NMDeviceClass) : World → World → Prop
  | activate (w : World) (req : ReqId) : Step cls w (nm_device_activate req w)
  | run (w w2 : World) (env : Env) (h : g_main_context_iteration cls env w = some w2) :
      Step cls w w2
  | dhcp (w : World) (iface : String) (state : NMDHCPState) :
      Step cls w (nm_dhcp_manager_emit_state_changed iface state w)
  | cancel (w w2 : World) (env : Env) (h : nm_device_activation_cancel env w = some w2) :
      Step cls w w2
  | deactivate (w w2 : World) (env : Env) (h : nm_device_deactivate cls env w = some w2) :
      Step cls w w2

/-- A device as `nm_device_init` leaves it: Disconnected, no request, no
pending continuation, nothing of it in the main-loop queue. -/
def Initial (w : World) : Prop :=
  w.dev.state = NMDeviceState.disconnected ∧ w.dev.act_request = none ∧
    w.dev.act_source_id = 0 ∧ w.sources = []

/-- The worlds a device of class `cls` can be in after finitely many steps. -/
inductive Reachable (cls : NMDeviceClass) : World → Prop
  | init (w : World) (h : Initial w) : Reachable cls w
  | step (w w2 : World) (h : Reachable cls w) (s : Step cls w w2) : Reachable cls w2

/-! ## Predicates used by the theorems -/

/-- Number of times the reference on request `r` is dropped in a trace. -/
def unrefs (r : ReqId) (l : List Event) : Nat := l.count (Event.act_request_unref r)

/-- What a failing stage callback leaves behind when started in world `w`:
it returns, the device has gone through Failed (its "state-changed" signal
is among the new calls) and through full deactivation, so that the state is
Disconnected and no request is attached, and the last call made is the
failure notification of the policy for `req`. -/
def StageFailureOutcome (req : ReqId) (w : World) (res : Option World) : Prop :=
  ∃ w2 es, res = some w2 ∧ w2.trace = w.trace ++ es ∧
    w2.dev.state = NMDeviceState.disconnected ∧ w2.dev.act_request = none ∧
    Event.state_changed_signal NMDeviceState.failed ∈ es ∧
    es.getLast? = some (Event.policy_activation_failed req)

/-- What scheduling a stage does: one more idle source at the end of the
queue, its id stored in `act_source_id`, the stage tag of the request set. -/
def ScheduleEffect (tag : NMActStage) (cb : StageCallback) (req : ReqId) (w w2 : World) : Prop :=
  w2.sources = w.sources ++ [⟨w.sources_created + 1, cb, req⟩] ∧
    w2.dev.act_source_id = w.sources_created + 1 ∧ (w2.reqs req).stage = tag

/-- The ids of the queued sources were handed out by `g_idle_add` and are
pairwise distinct. -/
def IdsOk (w : World) : Prop :=
  (∀ s ∈ w.sources, s.id ≤ w.sources_created) ∧ (w.sources.map GSource.id).Nodup

/-- The pending-continuation marker is 0 or the id of a queued source. -/
def MarkerInv (w : World) : Prop :=
  IdsOk w ∧ (w.dev.act_source_id = 0 ∨ ∃ s ∈ w.sources, s.id = w.dev.act_source_id)

/-- Queue, id counter and marker agree in two worlds. -/
def SameQueue (x y : World) : Prop :=
  y.sources = x.sources ∧ y.sources_created = x.sources_created ∧
    y.dev.act_source_id = x.dev.act_source_id

/-- The queue of `w` with the marker cleared. -/
def Cleared (w x : World) : Prop :=
  x.sources = w.sources ∧ x.sources_created = w.sources_created ∧ x.dev.act_source_id = 0

/-- The ways an operation acts on queue and marker: it leaves the queue
alone (marker kept or cleared), schedules one source, or removes the source
the marker names. -/
def QueueEffect (w w2 : World) : Prop :=
  (w2.sources = w.sources ∧ w2.sources_created = w.sources_created ∧
      (w2.dev.act_source_id = w.dev.act_source_id ∨ w2.dev.act_source_id = 0)) ∨
  (∃ cb r, w2.sources = w.sources ++ [⟨w.sources_created + 1, cb, r⟩] ∧
      w2.sources_created = w.sources_created + 1 ∧
      w2.dev.act_source_id = w.sources_created + 1) ∨
  (w2.sources = w.sources.filter (fun s => s.id ≠ w.dev.act_source_id) ∧
      w2.sources_created = w.sources_created ∧ w2.dev.act_source_id = 0)

/-- The ways a stage body acts on queue and marker: the marker is cleared,
and at most one further stage is scheduled. -/
def BodyEffect (w w2 : World) : Prop :=
  Cleared w w2 ∨
  (∃ cb r, w2.sources = w.sources ++ [⟨w.sources_created + 1, cb, r⟩] ∧
      w2.sources_created = w.sources_created + 1 ∧
      w2.dev.act_source_id = w.sources_created + 1)

/-! ## Example inputs -/

/-- A wired DHCP device "eth0" as the constructor leaves it. -/
def eth0 : World :=
  { dev := { iface := "eth0", app_data := true, dhcp_manager := true, dhcp_signal_id := 1 },
    dhcp_handlers := [1], handlers_connected := 1 }

/-- The device "eth0" in state Config, request 7 attached and holding a
configuration, stage 3 scheduled as source 3. -/
def eth0Config : World :=
  { eth0 with
    dev := { eth0.dev with state := NMDeviceState.config, act_request := some 7, act_source_id := 3 }
    reqs := fun _ => { stage := NMActStage.ip_config_start, ip4_config := some {}, refcount := 2 }
    sources := [⟨3, StageCallback.stage3_ip_config_start, 7⟩]
    sources_created := 3 }

/-- A device variant all of whose stage hooks fail: stages 1 to 3 and the
timeout hook report Failure, the stage-4 hook reports Success without a
configuration. -/
def failingClass : NMDeviceClass :=
  { nm_device_class_init with
    act_stage1_prepare := fun _ _ _ => (NMActStageReturn.failure, [])
    act_stage2_config := fun _ _ _ => (NMActStageReturn.failure, [])
    act_stage3_ip_config_start := fun _ _ _ => (NMActStageReturn.failure, [])
    act_stage4_get_ip4_config := fun _ _ _ _ => ((NMActStageReturn.success, none), [])
    act_stage4_ip_config_timeout := fun _ _ _ _ => ((NMActStageReturn.failure, none), []) }

/-- A backend whose `nm_system_device_set_from_ip4_config` fails. -/
def failingInstall : Env := { set_from_ip4_config := false }

/-- The run: activate "eth0" with request 7, run stage 1, run stage 2 (which
schedules stage 3), then the DHCP manager reports a lease for "eth0" before
the main loop has run stage 3. -/
def leaseBeforeStage3 : Option World :=
  ((g_main_context_iteration nm_device_class_init {} (nm_device_activate 7 eth0)).bind
    (g_main_context_iteration nm_device_class_init {})).map
      (nm_dhcp_manager_emit_state_changed "eth0" NMDHCPState.bound)

/-! ## Predicates for the later stages and deactivation -/

/-- The world in which stage 5 calls the `update_link` hook: configuration
`c` committed on the device and installed, side effects performed. -/
def stage5_link_world (env : Env) (c : NMIP4Config) (w : World) : World :=
  let w := clear_act_source_id w
  let w := nm_device_set_ip4_config (some c) w
  let w := w.emit (Event.system_device_set_from_ip4_config w.dev.ip4_config)
  let w := nm_device_update_ip4_address env w
  let w := w.emit Event.system_device_add_ip6_link_address
  let w := w.emit Event.system_restart_mdns_responder
  let w := w.emit (Event.system_set_hostname w.dev.ip4_config)
  let w := w.emit (Event.system_activate_nis w.dev.ip4_config)
  w.emit Event.system_set_mtu

/-- The calls of the `update_link` slot in world `x`: none when the slot is
NULL, else the call and what the hook does. -/
def update_link_events (cls : NMDeviceClass) (env : Env) (x : World) : List Event :=
  match cls.update_link with
  | some h => Event.class_hook ClassHook.update_link :: h env x
  | none => []

/-- Everything outside queue, marker, lifecycle state and trace is kept from
`x` to `y`: stage tags and configurations of the requests, the DHCP
subscription, interface name and application data; the attached request is
kept or dropped. -/
def Frame (x y : World) : Prop :=
  (∀ r, (y.reqs r).stage = (x.reqs r).stage) ∧
  (∀ r, (y.reqs r).ip4_config = (x.reqs r).ip4_config) ∧
  y.dev.dhcp_manager = x.dev.dhcp_manager ∧ y.dhcp_handlers = x.dhcp_handlers ∧
  y.dev.iface = x.dev.iface ∧ y.dev.app_data = x.dev.app_data ∧
  (y.dev.act_request = x.dev.act_request ∨ y.dev.act_request = none)

/-- The failure transition was taken by a stage-4 body started in `w`: the
body returns, its last call is the policy's failure notification for `req`,
the queue is as before (stage 5 is not scheduled) and the request holds the
configuration it held before (none is stored). -/
def Stage4FailureTaken (req : ReqId) (w : World) (res : Option World) : Prop :=
  ∃ w2, res = some w2 ∧
    w2.trace.getLast? = some (Event.policy_activation_failed req) ∧
    w2.sources = w.sources ∧ (w2.reqs req).ip4_config = (w.reqs req).ip4_config

/-- The four bytes of a 32-bit value in the order they lie in memory on a
host of the given byte order; for a value kept in network byte order these
are the dotted-quad components. -/
def memory_bytes (little_endian : Bool) (x : Nat) : List Nat :=
  if little_endian then [x % 256, x / 256 % 256, x / 65536 % 256, x / 16777216 % 256]
  else [x / 16777216 % 256, x / 65536 % 256, x / 256 % 256, x % 256]

/-- Modelled from the spec: `get_autoip` (in `autoip.c`, outside `src/`)
derives the fallback address from the hardware address; the address it
yields lies within 169.254.0.0/16. -/
def AutoipLinkLocal (env : Env) : Prop :=
  ∀ ip, env.autoip = some ip →
    (memory_bytes env.little_endian (ip % 4294967296)).take 2 = [169, 254]

/-- The calls stage 5 makes once the backend has installed the
configuration (IPv6 link-local address, mDNS restart, hostname, NIS, MTU)
and the two notifications of the policy. -/
def isCommitOrPolicyCall : Event → Bool
  | Event.system_device_add_ip6_link_address => true
  | Event.system_restart_mdns_responder => true
  | Event.system_set_hostname _ => true
  | Event.system_activate_nis _ => true
  | Event.system_set_mtu => true
  | Event.policy_activation_finish _ => true
  | Event.policy_activation_failed _ => true
  | _ => false

/-- The variant's `deactivate` and `deactivate_quickly` hooks make none of
the calls singled out by `isCommitOrPolicyCall`. -/
def DeactivateHooksQuiet (cls : NMDeviceClass) (env : Env) : Prop :=
  (∀ h x, cls.deactivate = some h → ∀ e ∈ h env x, isCommitOrPolicyCall e = false) ∧
  (∀ h x, cls.deactivate_quickly = some h → ∀ e ∈ h env x, isCommitOrPolicyCall e = false)

/-- Trace `y` extends trace `x`, and the commit and policy calls among the
new entries are exactly `l`. -/
def NewCalls (x y : List Event) (l : List Event) : Prop :=
  ∃ es, y = x ++ es ∧ es.filter isCommitOrPolicyCall = l

/-- The end of `nm_device_deactivate_quickly`, after the cancellation: a
request still held is torn down, then the variant's hook runs. -/
def deactivate_quickly_tail (cls : NMDeviceClass) (env : Env) (w : World) : World :=
  let w :=
    match nm_device_get_act_request w with
    | some r =>
        let w := w.emit
          (Event.dhcp_cancel_transaction w.dev.dhcp_manager (nm_device_get_iface w) false)
        let w := nm_act_request_unref r w
        { w with dev := { w.dev with act_request := none } }
    | none => w
  match cls.deactivate_quickly with
  | some h => w.callHook ClassHook.deactivate_quickly (h env w)
  | none => w

/-- The part of `nm_device_deactivate` that follows
`nm_device_deactivate_quickly`. -/
def deactivate_tail (cls : NMDeviceClass) (env : Env) (w : World) : World :=
  let w :=
    match nm_device_get_ip4_config w with
    | some c => nm_device_set_ip4_config none (w.emit (Event.named_manager_remove_ip4_config c))
    | none => w
  let w := w.emit Event.system_device_flush_routes
  let w := w.emit Event.system_device_flush_addresses
  let w := nm_device_update_ip4_address env w
  let w :=
    match cls.deactivate with
    | some h => w.callHook ClassHook.deactivate (h env w)
    | none => w
  let w := nm_device_state_changed_plain NMDeviceState.disconnected w
  w.emit Event.state_change_signal_broadcast

/-- The world a device not in an activating state and other than Activated
is left in by full deactivation (the device has its application data). -/
def deactivated_world (cls : NMDeviceClass) (env : Env) (w : World) : World :=
  deactivate_tail cls env
    (deactivate_quickly_tail cls env
      ((w.emit Event.system_shutdown_nis).emit Event.vpn_manager_deactivate_vpn_connection))

/-! ## Further example inputs -/

/-- The device "eth0" Activated with request 7 and a committed
configuration. -/
def eth0Activated : World :=
  { eth0 with
    dev := { eth0.dev with
      state := NMDeviceState.activated, act_request := some 7, ip4_config := some {} }
    reqs := fun _ => { stage := NMActStage.ip_config_commit, ip4_config := some {}, refcount := 1 } }

/-- A DHCP manager whose lease carries no MTU, over a backend reporting an
MTU of 1500. -/
def leaseWithoutMtu : Env := { dhcp_ip4_config := some {}, system_mtu := 1500 }

/-- A little-endian host on which `get_autoip` yields 169.254.1.2 (in
network byte order). -/
def linkLocalBackend : Env := { autoip := some 33685161 }

/-- A wired device "eth1" with a static configuration (no DHCP manager). -/
def eth1Static : World := { dev := { iface := "eth1", app_data := true } }

/-- A backend holding a static configuration with MTU 1500 for the device. -/
def staticBackend : Env := { system_ip4_config := some { address := 16885952, mtu := 1500 } }

/-! ## Runs with a record of the stage bodies -/

/-- Calls of `nm_system_device_set_from_ip4_config`. -/
def isInstall : Event → Bool
  | Event.system_device_set_from_ip4_config _ => true
  | _ => false

/-- Number of times the backend was asked to install a configuration. -/
def installs (l : List Event) : Nat := l.countP isInstall

/-- An operation that schedules nothing: queue and id counter as before, the
marker kept or cleared, `Frame` holds, and the backend was asked `n` times
to install a configuration. -/
def Kept (n : Nat) (x y : World) : Prop :=
  y.sources = x.sources ∧ y.sources_created = x.sources_created ∧
  (y.dev.act_source_id = x.dev.act_source_id ∨ y.dev.act_source_id = 0) ∧
  Frame x y ∧ installs y.trace = installs x.trace + n

/-- An operation that removed the source named by the (non-zero) marker: the
request is detached as well. -/
def Cancelled (x y : World) : Prop :=
  x.dev.act_source_id ≠ 0 ∧
  y.sources = x.sources.filter (fun s => s.id ≠ x.dev.act_source_id) ∧
  y.sources_created = x.sources_created ∧ y.dev.act_source_id = 0 ∧
  Frame x y ∧ y.dev.act_request = none ∧ installs y.trace = installs x.trace

/-- An operation that scheduled callback `cb` for request `req` and set the
stage tag of `req` to `tag`. -/
def Scheduled (cb : StageCallback) (tag : NMActStage) (req : ReqId) (x y : World) : Prop :=
  y.sources = x.sources ++ [⟨x.sources_created + 1, cb, req⟩] ∧
  y.sources_created = x.sources_created + 1 ∧
  y.dev.act_source_id = x.sources_created + 1 ∧
  (∀ r, (y.reqs r).stage = if r = req then tag else (x.reqs r).stage) ∧
  y.dev.dhcp_manager = x.dev.dhcp_manager ∧ y.dhcp_handlers = x.dhcp_handlers ∧
  (y.dev.act_request = x.dev.act_request ∨ y.dev.act_request = none) ∧
  installs y.trace = installs x.trace

/-- The stage bodies that have run, oldest first, each with the request it
ran for. -/
abbrev History := List (StageCallback × ReqId)

/-- The bodies `l` have run for request `r`, in this order. -/
def Passed (l : List StageCallback) (r : ReqId) (hist : History) : Prop :=
  (l.map (fun cb => (cb, r))).Sublist hist

/-- Stages 1, 2, 3 and one of the two stage-4 bodies have run for `r`, in
this order. -/
def PassedFour (r : ReqId) (hist : History) : Prop :=
  Passed [StageCallback.stage1_device_prepare, StageCallback.stage2_device_config,
    StageCallback.stage3_ip_config_start, StageCallback.stage4_ip_config_get] r hist ∨
  Passed [StageCallback.stage1_device_prepare, StageCallback.stage2_device_config,
    StageCallback.stage3_ip_config_start, StageCallback.stage4_ip_config_timeout] r hist

/-- Runs of a device from world `w0`: the world reached, the number of
`nm_device_activate` calls made and the stage bodies the main loop has run. -/
inductive Run (cls : NMDeviceClass) (w0 : World) : World → Nat → History → Prop
  | init : Run cls w0 w0 0 []
  | activate (w : World) (n : Nat) (hist : History) (req : ReqId) (h : Run cls w0 w n hist) :
      Run cls w0 (nm_device_activate req w) (n + 1) hist
  | run (w w2 : World) (n : Nat) (hist : History) (env : Env) (s : GSource)
      (rest : List GSource) (h : Run cls w0 w n hist) (hq : w.sources = s :: rest)
      (hr : g_main_context_iteration cls env w = some w2) :
      Run cls w0 w2 n (hist ++ [(s.callback, s.user_data)])
  | dhcp (w : World) (n : Nat) (hist : History) (iface : String) (state : NMDHCPState)
      (h : Run cls w0 w n hist) :
      Run cls w0 (nm_dhcp_manager_emit_state_changed iface state w) n hist
  | cancel (w w2 : World) (n : Nat) (hist : History) (env : Env) (h : Run cls w0 w n hist)
      (hc : nm_device_activation_cancel env w = some w2) : Run cls w0 w2 n hist
  | deactivate (w w2 : World) (n : Nat) (hist : History) (env : Env) (h : Run cls w0 w n hist)
      (hd : nm_device_deactivate cls env w = some w2) : Run cls w0 w2 n hist

/-- What must have run for the request of a queued source `s`: the stages
before its own; for a stage-4 source scheduled by a DHCP notification,
stage 3 may instead still be queued ahead of it. -/
def Justified (hist : History) (q : List GSource) (s : GSource) : Prop :=
  match s.callback with
  | StageCallback.stage1_device_prepare => True
  | StageCallback.stage2_device_config =>
      Passed [StageCallback.stage1_device_prepare] s.user_data hist
  | StageCallback.stage3_ip_config_start =>
      Passed [StageCallback.stage1_device_prepare, StageCallback.stage2_device_config]
        s.user_data hist
  | StageCallback.stage5_ip_config_commit => PassedFour s.user_data hist
  | _ =>
      Passed [StageCallback.stage1_device_prepare, StageCallback.stage2_device_config,
        StageCallback.stage3_ip_config_start] s.user_data hist ∨
      (Passed [StageCallback.stage1_device_prepare, StageCallback.stage2_device_config]
          s.user_data hist ∧
        ∃ t ∈ q, t.callback = StageCallback.stage3_ip_config_start ∧
          t.user_data = s.user_data ∧ t.id < s.id)

/-- The invariant behind the stage order: ids grow along the queue, the
marker is 0 or the newest id, every queued source is justified, a request
that is attached and tagged IpConfigStart has had stage 2 run and stage 3
run or queued, and every stage-5 run in the history is preceded by the four
earlier stages. -/
def OrderInv (w : World) (hist : History) : Prop :=
  w.sources.Pairwise (fun a b => a.id < b.id) ∧
  (∀ s ∈ w.sources, s.id ≤ w.sources_created) ∧
  (w.dev.act_source_id = 0 ∨ w.dev.act_source_id = w.sources_created) ∧
  (∀ s ∈ w.sources, Justified hist w.sources s) ∧
  (∀ r, w.dev.act_request = some r → (w.reqs r).stage = NMActStage.ip_config_start →
    Passed [StageCallback.stage1_device_prepare, StageCallback.stage2_device_config,
        StageCallback.stage3_ip_config_start] r hist ∨
      (Passed [StageCallback.stage1_device_prepare, StageCallback.stage2_device_config] r hist ∧
        ∃ t ∈ w.sources, t.callback = StageCallback.stage3_ip_config_start ∧ t.user_data = r)) ∧
  (∀ pre post r, hist = pre ++ (StageCallback.stage5_ip_config_commit, r) :: post →
    PassedFour r pre)

/-- The installations a queued source can still lead to: one, except for a
stage-3 source of a DHCP device, whose body waits for a notification. -/
def weight (dhcp : Bool) (s : GSource) : Nat :=
  if s.callback = StageCallback.stage3_ip_config_start ∧ dhcp = true then 0 else 1

/-- One when a DHCP notification would be accepted and schedule stage 4: a
DHCP device whose attached request is tagged IpConfigStart. -/
def armed (w : World) : Nat :=
  match w.dev.act_request with
  | some r =>
      if w.dev.dhcp_manager = true ∧ (w.reqs r).stage = NMActStage.ip_config_start then 1 else 0
  | none => 0

/-- Installations made so far plus those the queue and a pending DHCP
notification can still lead to. -/
def budget (w : World) : Nat :=
  installs w.trace + (w.sources.map (weight w.dev.dhcp_manager)).sum + armed w

/-! ## Predicates and inputs for quick deactivation, DHCP failures and postponed stages -/

/-- Calls of `nm_system_device_flush_routes` and
`nm_system_device_flush_addresses`. -/
def isFlush : Event → Bool
  | Event.system_device_flush_routes => true
  | Event.system_device_flush_addresses => true
  | _ => false

/-- The run: activate "eth0" with request 7 and run stages 1, 2 and 3; the
DHCP transaction is begun and the device waits for the DHCP manager. -/
def eth0WaitingForLease : Option World :=
  ((g_main_context_iteration nm_device_class_init {} (nm_device_activate 7 eth0)).bind
    (g_main_context_iteration nm_device_class_init {})).bind
      (g_main_context_iteration nm_device_class_init {})

/-- A device variant that overrides the activation-cancel handler of the
base class with one of its own. -/
def overridingClass : NMDeviceClass :=
  { nm_device_class_init with
    activation_cancel_handler := some (fun _ _ _ => [Event.custom 1]) }

/-- From `x` to `y` the lifecycle state and the committed configuration are
kept and the calls made include no flush of routes or addresses. -/
def QuietStep (x y : World) : Prop :=
  y.dev.state = x.dev.state ∧ y.dev.ip4_config = x.dev.ip4_config ∧
    ∃ es, y.trace = x.trace ++ es ∧ ∀ e ∈ es, isFlush e = false

/-! ## One uninterrupted activation attempt -/

/-- The stage a body schedules when its hook succeeds, and the tag the
scheduling sets. -/
def nextStage : StageCallback → Option (StageCallback × NMActStage)
  | StageCallback.stage1_device_prepare =>
      some (StageCallback.stage2_device_config, NMActStage.device_config)
  | StageCallback.stage2_device_config =>
      some (StageCallback.stage3_ip_config_start, NMActStage.ip_config_start)
  | StageCallback.stage3_ip_config_start =>
      some (StageCallback.stage4_ip_config_get, NMActStage.ip_config_get)
  | StageCallback.stage4_ip_config_get =>
      some (StageCallback.stage5_ip_config_commit, NMActStage.ip_config_commit)
  | StageCallback.stage4_ip_config_timeout =>
      some (StageCallback.stage5_ip_config_commit, NMActStage.ip_config_commit)
  | StageCallback.stage5_ip_config_commit => none

/-- Position of a stage tag in the order DevicePrepare < DeviceConfig <
IpConfigStart < IpConfigGet < IpConfigCommit (0 for the other tags). -/
def stageRank : NMActStage → Nat
  | NMActStage.device_prepare => 1
  | NMActStage.device_config => 2
  | NMActStage.ip_config_start => 3
  | NMActStage.ip_config_get => 4
  | NMActStage.ip_config_commit => 5
  | _ => 0

/-- One activation attempt that is not interrupted: `nm_device_activate`
with request `r` on the device in world `w0`, then main-loop iterations and
DHCP notifications in any order.  The list holds the stage tag of `r` after
the activation and after each later step. -/
inductive Attempt (cls : NMDeviceClass) (w0 : World) (r : ReqId) :
    World → List NMActStage → Prop
  | start : Attempt cls w0 r (nm_device_activate r w0) [((nm_device_activate r w0).reqs r).stage]
  | run (w w2 : World) (tags : List NMActStage) (env : Env) (h : Attempt cls w0 r w tags)
      (hr : g_main_context_iteration cls env w = some w2) :
      Attempt cls w0 r w2 (tags ++ [(w2.reqs r).stage])
  | dhcp (w : World) (tags : List NMActStage) (iface : String) (state : NMDHCPState)
      (h : Attempt cls w0 r w tags) :
      Attempt cls w0 r (nm_dhcp_manager_emit_state_changed iface state w)
        (tags ++ [((nm_dhcp_manager_emit_state_changed iface state w).reqs r).stage])

/-- The stage tag that scheduling a callback sets
(`nm_device_activate_schedule_stage*`). -/
def stageTag : StageCallback → NMActStage
  | StageCallback.stage1_device_prepare => NMActStage.device_prepare
  | StageCallback.stage2_device_config => NMActStage.device_config
  | StageCallback.stage3_ip_config_start => NMActStage.ip_config_start
  | StageCallback.stage4_ip_config_get => NMActStage.ip_config_get
  | StageCallback.stage4_ip_config_timeout => NMActStage.ip_config_get
  | StageCallback.stage5_ip_config_commit => NMActStage.ip_config_commit

/-- The queue during one attempt for request `r`, with the stage tag that
goes with it: empty, or the continuation of one stage (the tag being the
one its scheduling set), or stage 3 followed by a stage 4 that a DHCP
notification scheduled early. -/
def QueueShape (r : ReqId) (w : World) : Prop :=
  w.sources = [] ∨
  (∃ id cb, w.sources = [⟨id, cb, r⟩] ∧ (w.reqs r).stage = stageTag cb) ∨
  (∃ id id2 cb, w.sources = [⟨id, StageCallback.stage3_ip_config_start, r⟩, ⟨id2, cb, r⟩] ∧
    (cb = StageCallback.stage4_ip_config_get ∨ cb = StageCallback.stage4_ip_config_timeout) ∧
    (w.reqs r).stage = NMActStage.ip_config_get ∧ w.dev.dhcp_manager = true)

/-- The invariant of one uninterrupted attempt for request `r`: no other
request is attached, an empty queue goes with a marker of 0, an Activated
device has an empty queue and the tag IpConfigCommit, and the queue has one
of the shapes of `QueueShape`. -/
def AttemptCore (r : ReqId) (w : World) : Prop :=
  (w.dev.act_request = none ∨ w.dev.act_request = some r) ∧
  (w.sources = [] → w.dev.act_source_id = 0) ∧
  (w.dev.state = NMDeviceState.activated →
    w.sources = [] ∧ (w.reqs r).stage = NMActStage.ip_config_commit) ∧
  QueueShape r w

/-- `AttemptCore`, and the tags seen so far are in non-decreasing order and
not above the present one. -/
def AttemptInv (r : ReqId) (w : World) (tags : List NMActStage) : Prop :=
  AttemptCore r w ∧
  tags.Pairwise (fun a b => stageRank a ≤ stageRank b) ∧
  (∀ t ∈ tags, stageRank t ≤ stageRank (w.reqs r).stage)

/-! ## Predicates and inputs for the Disconnected state, the DHCP subscription and the type tag -/

/-- Full deactivation accounts for the device fields of `w2`, reached from
`w` by one operation: within the operation `nm_device_deactivate` ran, past
its guard on the application data, from a world `x` to a world `y`, and the
device fields of `w2` are those of `y`. -/
def ByFullDeactivation (cls : NMDeviceClass) (w w2 : World) : Prop :=
  ∃ env x y, x.dev.app_data = true ∧ nm_device_deactivate cls env x = some y ∧
    w.trace <+: x.trace ∧ y.trace <+: w2.trace ∧ w2.dev = y.dev

/-- A sequence of `nm_device_set_use_dhcp` calls, one per argument. -/
def set_use_dhcp_calls (bs : List Bool) (w : World) : World :=
  bs.foldl (fun acc b => nm_device_set_use_dhcp b acc) w

/-- The DHCP subscription matches the manager pointer: with a manager the
one connected handler is the one whose id the device keeps, without a
manager no handler is connected. -/
def SubscriptionInv (w : World) : Prop :=
  (w.dev.dhcp_manager = true → w.dhcp_handlers = [w.dev.dhcp_signal_id]) ∧
  (w.dev.dhcp_manager = false → w.dhcp_handlers = [])

/-- `NMDeviceType` (declared outside `src/`): `DEVICE_TYPE_UNKNOWN` and the
tags of the device types, kept by their number. -/
inductive NMDeviceType
  | unknown
  | other (code : Nat)
  deriving DecidableEq, Repr

/-- `nm_device_set_device_type`, on the `type` field of the private
structure, the only field it reads or writes (`nm_device_init` sets it to
`DEVICE_TYPE_UNKNOWN`). -/
def nm_device_set_device_type (priv_type : NMDeviceType) (type : NMDeviceType) : NMDeviceType :=
  if priv_type ≠ NMDeviceType.unknown then priv_type else type

/-- `nm_device_get_device_type`. -/
def nm_device_get_device_type (priv_type : NMDeviceType) : NMDeviceType := priv_type

/-- The run: activate the static device "eth1" with request 7 and run
stages 1, 2 and 3; the state is IpConfig and stage 4 is scheduled. -/
def eth1InIpConfig : Option World :=
  ((g_main_context_iteration nm_device_class_init staticBackend
      (nm_device_activate 7 eth1Static)).bind
    (g_main_context_iteration nm_device_class_init staticBackend)).bind
      (g_main_context_iteration nm_device_class_init staticBackend)

/-- The run continued through stages 4 and 5: "eth1" is Activated and still
holds request 7. -/
def eth1Activated : Option World :=
  (eth1InIpConfig.bind (g_main_context_iteration nm_device_class_init staticBackend)).bind
    (g_main_context_iteration nm_device_class_init staticBackend)

/-! ## The Debian backend -/

/-- `htonl`: host to network byte order on a 32-bit value. -/
def htonl (little_endian : Bool) (x : Nat) : Nat :=
  if little_endian then bswap32 (x % 4294967296) else x % 4294967296

/-- Bitwise complement of a `guint32`. -/
def not32 (x : Nat) : Nat := 4294967295 - x % 4294967296

/-- Modelled from the spec: `nm_ip4_config_set_address` stores the address
in the configuration record; a NULL configuration (`none`) is refused and
nothing is stored (`nm-ip4-config.c` is outside `src/`). -/
def nm_ip4_config_set_address (config : Option NMIP4Config) (addr : Nat) :
    Option NMIP4Config :=
  config.map (fun c => { c with address := addr % 4294967296 })

/-- Modelled from the spec: `nm_ip4_config_set_gateway`. -/
def nm_ip4_config_set_gateway (config : Option NMIP4Config) (gateway : Nat) :
    Option NMIP4Config :=
  config.map (fun c => { c with gateway := gateway % 4294967296 })

/-- Modelled from the spec: `nm_ip4_config_set_netmask`. -/
def nm_ip4_config_set_netmask (config : Option NMIP4Config) (netmask : Nat) :
    Option NMIP4Config :=
  config.map (fun c => { c with netmask := netmask % 4294967296 })

/-- Modelled from the spec: `nm_ip4_config_set_broadcast`. -/
def nm_ip4_config_set_broadcast (config : Option NMIP4Config) (broadcast : Nat) :
    Option NMIP4Config :=
  config.map (fun c => { c with broadcast := broadcast % 4294967296 })

/-- Modelled from the spec: `nm_ip4_config_get_address`; for a NULL
configuration the result is 0. -/
def nm_ip4_config_get_address (config : Option NMIP4Config) : Nat :=
  match config with
  | some c => c.address
  | none => 0

/-- Modelled from the spec: `nm_ip4_config_get_netmask`; for a NULL
configuration the result is 0. -/
def nm_ip4_config_get_netmask (config : Option NMIP4Config) : Nat :=
  match config with
  | some c => c.netmask
  | none => 0

/-- Modelled from the spec: `nm_ip4_config_add_domain` appends a search
domain to the ordered list of the configuration. -/
def nm_ip4_config_add_domain (config : NMIP4Config) (domain : String) : NMIP4Config :=
  { config with domains := config.domains ++ [domain] }

/-- Modelled from the spec: `nm_ip4_config_add_nameserver` appends a
nameserver to the ordered list of the configuration. -/
def nm_ip4_config_add_nameserver (config : NMIP4Config) (nameserver : Nat) : NMIP4Config :=
  { config with nameservers := config.nameservers ++ [nameserver] }

/-- `g_ascii_isspace`: space, and the characters from tab to carriage
return. -/
def g_ascii_isspace (c : Char) : Bool :=
  c.toNat = 32 || (9 ≤ c.toNat && c.toNat ≤ 13)

/-- `g_strstrip`: leading and trailing white space removed. -/
def g_strstrip (string : List Char) : List Char :=
  ((string.dropWhile g_ascii_isspace).reverse.dropWhile g_ascii_isspace).reverse

/-- The pieces of a string between the occurrences of a delimiter. -/
def strsplit_pieces (delimiter : Char) : List Char → List (List Char)
  | [] => [[]]
  | c :: cs =>
      if c = delimiter then [] :: strsplit_pieces delimiter cs
      else
        match strsplit_pieces delimiter cs with
        | p :: ps => (c :: p) :: ps
        | [] => [[c]]

/-- `g_strsplit (string, delimiter, 0)` for a delimiter of one character;
the vector of an empty string has no element. -/
def g_strsplit (string : List Char) (delimiter : Char) : List (List Char) :=
  if string = [] then [] else strsplit_pieces delimiter string

/-- The body of the loop of `set_ip4_config_from_resolv_conf` for one line.
`split_searches` is NULL when it is compared with the vector `g_strsplit`
returns.  `inet_addr` is the function of the C library. -/
def resolv_conf_line (inet_addr : String → Nat) (ip4_config : NMIP4Config)
    (line : List Char) : NMIP4Config :=
  if line.head? = some ';' then ip4_config
  else
    let line := g_strstrip line
    if line.take 6 = "search".data ∧ line.length > 6 then
      let searches := line.drop 7
      let split_searches : Option (List (List Char)) := none
      if searches.length = 0 then ip4_config
      else if split_searches = some (g_strsplit searches ' ') then
        (g_strsplit searches ' ').foldl
          (fun c d => nm_ip4_config_add_domain c (String.mk d)) ip4_config
      else
        nm_ip4_config_add_domain ip4_config (String.mk searches)
    else if line.take 10 = "nameserver".data ∧ line.length > 10 then
      let addr := inet_addr (String.mk (line.drop 11)) % 4294967296
      if addr ≠ 4294967295 then nm_ip4_config_add_nameserver ip4_config addr else ip4_config
    else ip4_config

/-- `set_ip4_config_from_resolv_conf`: "Add nameservers and search names
from a resolv.conf format file".  `contents` is what `g_file_get_contents`
yields for the file, `none` when it fails. -/
def set_ip4_config_from_resolv_conf (inet_addr : String → Nat) (contents : Option String)
    (ip4_config : NMIP4Config) : NMIP4Config :=
  match contents with
  | none => ip4_config
  | some c => (g_strsplit c.data (Char.ofNat 10)).foldl (resolv_conf_line inet_addr) ip4_config

/-- `DebSystemConfigData`; `config` is a pointer, `none` when it is NULL. -/
structure DebSystemConfigData where
  config : Option NMIP4Config
  use_dhcp : Bool
  deriving DecidableEq, Repr

/-- A call of one of the setters of the configuration, with the value
handed to it. -/
inductive Ip4ConfigCall
  | set_address (addr : Nat)
  | set_gateway (gateway : Nat)
  | set_netmask (netmask : Nat)
  | set_broadcast (broadcast : Nat)
  deriving DecidableEq, Repr

/-- The data `nm_system_device_get_system_config` builds, and the calls it
has made to the setters of the configuration, in order. -/
structure SystemConfigState where
  sys_data : DebSystemConfigData
  calls : List Ip4ConfigCall
  deriving DecidableEq, Repr

/-- The block of `nm_system_device_get_system_config` for the key "inet":
anything but "dhcp" switches DHCP off. -/
def system_config_inet (ifparser_getkey : String → Option String)
    (s : SystemConfigState) : SystemConfigState :=
  match ifparser_getkey "inet" with
  | some buf =>
      if buf ≠ "dhcp" then { s with sys_data := { s.sys_data with use_dhcp := false } } else s
  | none => s

/-- The block for the key "address". -/
def system_config_address (inet_addr : String → Nat)
    (ifparser_getkey : String → Option String) (s : SystemConfigState) : SystemConfigState :=
  match ifparser_getkey "address" with
  | some buf =>
      { sys_data := { s.sys_data with
          config := nm_ip4_config_set_address s.sys_data.config (inet_addr buf) }
        calls := s.calls ++ [Ip4ConfigCall.set_address (inet_addr buf % 4294967296)] }
  | none => s

/-- The block for the key "gateway". -/
def system_config_gateway (inet_addr : String → Nat)
    (ifparser_getkey : String → Option String) (s : SystemConfigState) : SystemConfigState :=
  match ifparser_getkey "gateway" with
  | some buf =>
      { sys_data := { s.sys_data with
          config := nm_ip4_config_set_gateway s.sys_data.config (inet_addr buf) }
        calls := s.calls ++ [Ip4ConfigCall.set_gateway (inet_addr buf % 4294967296)] }
  | none => s

/-- The block for the key "netmask"; without the key: "Make a default
netmask if we have an IP address". -/
def system_config_netmask (little_endian : Bool) (inet_addr : String → Nat)
    (ifparser_getkey : String → Option String) (s : SystemConfigState) : SystemConfigState :=
  let netmask :=
    match ifparser_getkey "netmask" with
    | some buf => inet_addr buf % 4294967296
    | none =>
        let addr := nm_ip4_config_get_address s.sys_data.config
        if (ntohl little_endian addr &&& 0xFF000000) >>> 24 ≤ 127 then
          htonl little_endian 0xFF000000
        else if (ntohl little_endian addr &&& 0xFF000000) >>> 24 ≤ 191 then
          htonl little_endian 0xFFFF0000
        else htonl little_endian 0xFFFFFF00
  { sys_data := { s.sys_data with
      config := nm_ip4_config_set_netmask s.sys_data.config netmask }
    calls := s.calls ++ [Ip4ConfigCall.set_netmask netmask] }

/-- The block for the key "broadcast". -/
def system_config_broadcast (inet_addr : String → Nat)
    (ifparser_getkey : String → Option String) (s : SystemConfigState) : SystemConfigState :=
  let broadcast :=
    match ifparser_getkey "broadcast" with
    | some buf => inet_addr buf % 4294967296
    | none =>
        ((nm_ip4_config_get_address s.sys_data.config &&&
            nm_ip4_config_get_netmask s.sys_data.config) |||
          not32 (nm_ip4_config_get_netmask s.sys_data.config)) % 4294967296
  { sys_data := { s.sys_data with
      config := nm_ip4_config_set_broadcast s.sys_data.config broadcast }
    calls := s.calls ++ [Ip4ConfigCall.set_broadcast broadcast] }

/-- The last block: without DHCP, nameservers and search domains are read
from resolv.conf; `set_ip4_config_from_resolv_conf` returns at once when the
configuration is NULL (`g_return_if_fail (ip4_config != NULL)`). -/
def system_config_resolv_conf (inet_addr : String → Nat) (resolv_conf : Option String)
    (s : SystemConfigState) : SystemConfigState :=
  if s.sys_data.use_dhcp = false then
    match s.sys_data.config with
    | some c =>
        { s with sys_data := { s.sys_data with
            config := some (set_ip4_config_from_resolv_conf inet_addr resolv_conf c) } }
    | none => s
  else s

/-- `nm_system_device_get_system_config`, its blocks in the order of the
source, with the calls it makes to the setters.  `sys_data` comes from
`g_malloc0`, so `sys_data->config` is NULL, and no block assigns it.
`curr_device` is the block `ifparser_getif` finds for the interface (with
the lookup `ifparser_getkey` makes in it), `resolv_conf` the contents of the
resolv.conf file. -/
def nm_system_device_get_system_config (little_endian : Bool) (inet_addr : String → Nat)
    (curr_device : Option (String → Option String)) (resolv_conf : Option String) :
    SystemConfigState :=
  let s : SystemConfigState := { sys_data := { config := none, use_dhcp := true }, calls := [] }
  match curr_device with
  | none => s
  | some ifparser_getkey =>
      system_config_resolv_conf inet_addr resolv_conf
        (system_config_broadcast inet_addr ifparser_getkey
          (system_config_netmask little_endian inet_addr ifparser_getkey
            (system_config_gateway inet_addr ifparser_getkey
              (system_config_address inet_addr ifparser_getkey
                (system_config_inet ifparser_getkey s)))))

/-- Write `bytes` into `buf` from position `pos` on. -/
def write_bytes (buf : List Nat) (pos : Nat) (bytes : List Nat) : List Nat :=
  buf.take pos ++ bytes ++ buf.drop (pos + bytes.length)

/-- `memcpy (dest, src, n)` to the start of the array `dest`. -/
def memcpy (dest src : List Nat) (n : Nat) : List Nat :=
  write_bytes dest 0 (src.take n)

/-- `memmove (buf + dest, buf + src, n)` within one array. -/
def memmove (buf : List Nat) (dest src n : Nat) : List Nat :=
  write_bytes buf dest ((buf.drop src).take n)

/-- The conversion `%x` of `printf`: hexadecimal digits, no padding. -/
def printf_x (v : Nat) : List Char := Nat.toDigits 16 v

/-- The conversion `%02x` of `printf`: hexadecimal digits, padded with
zeros to two characters. -/
def printf_02x (v : Nat) : List Char :=
  List.replicate (2 - (Nat.toDigits 16 v).length) '0' ++ Nat.toDigits 16 v

/-- The array `eui` of `nm_system_device_add_ip6_link_address` when the
command is formatted; `stack` is what the array holds before it is
written. -/
def link_address_eui (hw_addr : List Nat) (stack : List Nat) : List Nat :=
  let eui := memcpy stack hw_addr 6
  let eui := memmove eui 5 3 3
  let eui := eui.set 3 0xff
  let eui := eui.set 4 0xfe
  eui.set 0 (eui.getD 0 0 ^^^ 2)

/-- The four groups `%x%02x` of the command, one per pair of bytes. -/
def link_address_groups (eui : List Nat) : List String :=
  [String.mk (printf_x (eui.getD 0 0) ++ printf_02x (eui.getD 1 0)),
   String.mk (printf_x (eui.getD 2 0) ++ printf_02x (eui.getD 3 0)),
   String.mk (printf_x (eui.getD 4 0) ++ printf_02x (eui.getD 5 0)),
   String.mk (printf_x (eui.getD 6 0) ++ printf_02x (eui.getD 7 0))]

/-- `nm_system_device_add_ip6_link_address`: the command it hands to
`nm_spawn_process`.  `hw_addr` holds the six octets
`nm_device_get_hw_address` yields. -/
def nm_system_device_add_ip6_link_address (hw_addr : List Nat) (iface : String)
    (stack : List Nat) : String :=
  "/sbin/ip -6 address add fe80::" ++
    ":".intercalate (link_address_groups (link_address_eui hw_addr stack)) ++
    "/64 dev " ++ iface

/-- The value of a hexadecimal digit. -/
def hexDigitValue (c : Char) : Nat :=
  if c.isDigit then c.toNat - 48 else c.toNat - 87

/-- The number a string of hexadecimal digits denotes. -/
def hexValue (s : String) : Nat :=
  s.data.foldl (fun acc c => 16 * acc + hexDigitValue c) 0

/-- An `inet_addr` for the examples: the four dotted-quad addresses used
there, in network byte order on a little-endian host, and -1 for anything
else. -/
def inet_addr_example (s : String) : Nat :=
  if s = "10.1.2.3" then 0x0302010a
  else if s = "172.16.5.4" then 0x040510ac
  else if s = "192.168.1.2" then 0x0201a8c0
  else if s = "192.168.1.1" then 0x0101a8c0
  else 4294967295

/-- An interface block with a static address and nothing else. -/
def staticBlock (address : String) (key : String) : Option String :=
  if key = "inet" then some "static"
  else if key = "address" then some address
  else none

/-! ## The settings plugin -/

/-- A `GError`: domain, code and message. -/
structure GError where
  domain : Nat
  code : Nat
  message : String
  deriving DecidableEq, Repr

/-- An output argument: `none` is the NULL pointer, `some v` a pointer to a
location that holds `v` (`none` when it holds NULL). -/
abbrev Out (α : Type) := Option (Option α)

/-- `g_set_error_literal` (and `g_set_error` with a constant message): does
nothing for a NULL `err`, stores a new error in an empty location, and
leaves an error that is already there. -/
def g_set_error_literal (err : Out GError) (domain code : Nat) (message : String) :
    Out GError :=
  match err with
  | none => none
  | some none => some (some { domain := domain, code := code, message := message })
  | some (some e) => some (some e)

/-- Modelled from the spec: `NM_SET_OUT (out, value)` stores the value when
the output pointer is not NULL (the macro is defined outside `src/`). -/
def NM_SET_OUT {α : Type} (out : Out α) (value : Option α) : Out α :=
  out.map (fun _ => value)

/-- An `NMConnection`, by its identity. -/
abbrev NMConnection := Nat

/-- An `NMSettingsStorage`: its identity and the plugin it belongs to
(`nm_settings_storage_get_plugin`). -/
structure NMSettingsStorage where
  id : Nat
  plugin : Nat
  deriving DecidableEq, Repr

/-- The arguments of `load_connection` after `self`, with the locations the
output pointers refer to. -/
structure LoadCall where
  filename : Option String
  out_storage : Out NMSettingsStorage
  out_connection : Out NMConnection
  out_replaced_storages : Out (List NMSettingsStorage)
  error : Out GError
  deriving DecidableEq, Repr

/-- The arguments of `add_connection` after `self`. -/
structure AddCall where
  connection : Option NMConnection
  out_storage : Out NMSettingsStorage
  out_connection : Out NMConnection
  error : Out GError
  deriving DecidableEq, Repr

/-- The arguments of `update_connection` after `self`. -/
structure UpdateCall where
  storage : Option NMSettingsStorage
  connection : Option NMConnection
  out_storage : Out NMSettingsStorage
  out_connection : Out NMConnection
  error : Out GError
  deriving DecidableEq, Repr

/-- The arguments of `delete_connection` after `self`. -/
structure DeleteCall where
  storage : Option NMSettingsStorage
  remove_from_disk : Bool
  error : Out GError
  deriving DecidableEq, Repr

/-- The four connection operations of `NMSettingsPluginClass`; a slot the
variant leaves NULL is `none`.  An operation gets `self` and the arguments
and yields its return value and what the output locations hold
afterwards. -/
structure NMSettingsPluginClass where
  load_connection : Option (Nat → LoadCall → Bool × LoadCall) := none
  add_connection : Option (Nat → AddCall → Bool × AddCall) := none
  update_connection : Option (Nat → UpdateCall → Bool × UpdateCall) := none
  delete_connection : Option (Nat → DeleteCall → Bool × DeleteCall) := none

/-- An `NMSettingsPlugin`: its identity and its class. -/
structure NMSettingsPlugin where
  id : Nat
  klass : NMSettingsPluginClass

/-- `nm_settings_plugin_load_connection`; `self` is `none` when the pointer
is not a settings plugin.  The error domain and code are declared outside
`src/`. -/
def nm_settings_plugin_load_connection (NM_SETTINGS_ERROR NM_SETTINGS_ERROR_NOT_SUPPORTED : Nat)
    (self : Option NMSettingsPlugin) (call : LoadCall) : Bool × LoadCall :=
  match self with
  | none => (false, call)
  | some self =>
      if call.filename.map (fun f => f.data.head?) ≠ some (some '/') then (false, call)
      else if call.out_storage ≠ some none then (false, call)
      else if call.out_connection ≠ some none then (false, call)
      else if call.out_replaced_storages ≠ some none then (false, call)
      else
        match self.klass.load_connection with
        | none =>
            (false,
              { call with
                error := g_set_error_literal call.error NM_SETTINGS_ERROR
                  NM_SETTINGS_ERROR_NOT_SUPPORTED
                  "settings plugin does not support loading connection" })
        | some load_connection => load_connection self.id call

/-- `nm_settings_plugin_add_connection`. -/
def nm_settings_plugin_add_connection (NM_SETTINGS_ERROR NM_SETTINGS_ERROR_NOT_SUPPORTED : Nat)
    (self : Option NMSettingsPlugin) (call : AddCall) : Bool × AddCall :=
  match self with
  | none => (false, call)
  | some self =>
      if call.connection = none then (false, call)
      else
        let call := { call with out_storage := NM_SET_OUT call.out_storage none }
        let call := { call with out_connection := NM_SET_OUT call.out_connection none }
        match self.klass.add_connection with
        | none =>
            (false,
              { call with
                error := g_set_error_literal call.error NM_SETTINGS_ERROR
                  NM_SETTINGS_ERROR_NOT_SUPPORTED
                  "settings plugin does not support adding connections" })
        | some add_connection => add_connection self.id call

/-- `nm_settings_plugin_update_connection`. -/
def nm_settings_plugin_update_connection
    (NM_SETTINGS_ERROR NM_SETTINGS_ERROR_NOT_SUPPORTED : Nat)
    (self : Option NMSettingsPlugin) (call : UpdateCall) : Bool × UpdateCall :=
  match self with
  | none => (false, call)
  | some self =>
      match call.storage with
      | none => (false, call)
      | some storage =>
          if storage.plugin ≠ self.id then (false, call)
          else if call.connection = none then (false, call)
          else
            let call := { call with out_storage := NM_SET_OUT call.out_storage none }
            let call := { call with out_connection := NM_SET_OUT call.out_connection none }
            match self.klass.update_connection with
            | none =>
                (false,
                  { call with
                    error := g_set_error_literal call.error NM_SETTINGS_ERROR
                      NM_SETTINGS_ERROR_NOT_SUPPORTED
                      "settings plugin does not support modifying connections" })
            | some update_connection => update_connection self.id call

/-- `nm_settings_plugin_delete_connection`. -/
def nm_settings_plugin_delete_connection
    (NM_SETTINGS_ERROR NM_SETTINGS_ERROR_NOT_SUPPORTED : Nat)
    (self : Option NMSettingsPlugin) (call : DeleteCall) : Bool × DeleteCall :=
  match self with
  | none => (false, call)
  | some self =>
      match call.storage with
      | none => (false, call)
      | some storage =>
          if storage.plugin ≠ self.id then (false, call)
          else
            match self.klass.delete_connection with
            | none =>
                (false,
                  { call with
                    error := g_set_error_literal call.error NM_SETTINGS_ERROR
                      NM_SETTINGS_ERROR_NOT_SUPPORTED
                      "settings plugin does not support deleting connections" })
            | some delete_connection => delete_connection self.id call

/-- The error a wrapper sets for an operation the variant lacks. -/
def NotSupported (NM_SETTINGS_ERROR NM_SETTINGS_ERROR_NOT_SUPPORTED : Nat) (error : Out GError) :
    Prop :=
  ∃ text : String,
    error = some (some ⟨NM_SETTINGS_ERROR, NM_SETTINGS_ERROR_NOT_SUPPORTED, text⟩)

/-- A plugin variant that implements none of the four operations. -/
def readOnlyPlugin : NMSettingsPlugin := { id := 1, klass := {} }

/-- A plugin variant whose `add_connection` stores the connection: it
returns TRUE and hands back storage 5 and the connection. -/
def storingPlugin : NMSettingsPlugin :=
  { id := 2
    klass :=
      { add_connection := some (fun self call =>
          (true, { call with
            out_storage := NM_SET_OUT call.out_storage (some { id := 5, plugin := self })
            out_connection := NM_SET_OUT call.out_connection call.connection })) } }
/-! ## Circular lists -/

/-- The `next` and `prev` pointers of the `CList` nodes in memory, by the
address of the node. -/
structure CListHeap where
  next : Nat → Nat
  prev : Nat → Nat

/-- Modelled from the spec: `c_list_unlink_stale` of the bundled c-list
library (`c-list/src/c-list.h`, outside `src/`): the neighbours of `what`
are linked to each other, `what` itself is left as it is. -/
def c_list_unlink_stale (what : Nat) (h : CListHeap) : CListHeap :=
  let prev := h.prev what
  let next := h.next what
  let h : CListHeap := { h with prev := Function.update h.prev next prev }
  { h with next := Function.update h.next prev next }

/-- Modelled from the spec: `c_list_link_before` of the bundled c-list
library: `what` is linked between the node before `pos` and `pos`. -/
def c_list_link_before (pos what : Nat) (h : CListHeap) : CListHeap :=
  let prev := h.prev pos
  let next := pos
  let h : CListHeap := { h with prev := Function.update h.prev next what }
  let h : CListHeap := { h with next := Function.update h.next what next }
  let h : CListHeap := { h with prev := Function.update h.prev what prev }
  { h with next := Function.update h.next prev what }

/-- `nm_c_list_move_before`; the assertions (`lst` and `elem` not NULL,
`elem` linked in the list of `lst`) are conditions on the caller. -/
def nm_c_list_move_before (lst elem : Nat) (h : CListHeap) : Bool × CListHeap :=
  if lst ≠ elem ∧ h.prev lst ≠ elem then
    (true, c_list_link_before lst elem (c_list_unlink_stale elem h))
  else (false, h)

/-- Node `b` follows node `a`: the pointers of both say so. -/
def Linked (h : CListHeap) (a b : Nat) : Prop :=
  h.next a = b ∧ h.prev b = a

/-- The nodes `lst :: xs` are distinct and linked into one circle, in this
order: `xs` are the elements of the list with head `lst`, front to back. -/
def IsRing (h : CListHeap) (lst : Nat) (xs : List Nat) : Prop :=
  (lst :: xs).Nodup ∧ List.Chain' (Linked h) (lst :: xs ++ [lst])

/-- The list with head at address 10 and the elements 11, 12, 13. -/
def ring3 : CListHeap :=
  { next := fun a => if a = 10 then 11 else if a = 11 then 12 else if a = 12 then 13 else 10
    prev := fun a => if a = 10 then 13 else if a = 11 then 10 else if a = 12 then 11 else 12 }

/-! ## Runs that meet a continuation left over from a lease notified early -/

/-- A DHCP manager that holds a lease for the interface. -/
def leaseBackend : Env := { dhcp_ip4_config := some { address := 16885952, mtu := 1500 } }

/-- The run `leaseBeforeStage3` continued by one main-loop iteration: the
stage-3 body runs and `begin_transaction` returns true. -/
def leaseThenStage3 : Option World :=
  leaseBeforeStage3.bind (g_main_context_iteration nm_device_class_init {})

/-- The run `leaseThenStage3` continued: the activation is cancelled, the
device is deactivated, and `nm_device_activate` is called with the fresh
request 8. -/
def secondAttemptStarted : Option World :=
  ((leaseThenStage3.bind (nm_device_activation_cancel {})).bind
    (nm_device_deactivate nm_device_class_init {})).map (nm_device_activate 8)

/-- The attempt of request 8 carried on: five main-loop iterations, a lease
notification for "eth0", two more iterations. -/
def secondAttemptDone : Option World :=
  (((((((secondAttemptStarted.bind
    (g_main_context_iteration nm_device_class_init leaseBackend)).bind
    (g_main_context_iteration nm_device_class_init leaseBackend)).bind
    (g_main_context_iteration nm_device_class_init leaseBackend)).bind
    (g_main_context_iteration nm_device_class_init leaseBackend)).bind
    (g_main_context_iteration nm_device_class_init leaseBackend)).map
    (nm_dhcp_manager_emit_state_changed "eth0" NMDHCPState.bound)).bind
    (g_main_context_iteration nm_device_class_init leaseBackend)).bind
    (g_main_context_iteration nm_device_class_init leaseBackend)
/-! ## Runs along which at most one continuation is queued -/

/-- The lifecycle state in which the continuation of a stage waits in the
queue: stage 1 while the device is still Disconnected, stage 2 in Prepare,
stage 3 in Config, the stage-4 and stage-5 continuations in IpConfig. -/
def queuedIn : StageCallback → NMDeviceState
  | StageCallback.stage1_device_prepare => NMDeviceState.disconnected
  | StageCallback.stage2_device_config => NMDeviceState.prepare
  | StageCallback.stage3_ip_config_start => NMDeviceState.config
  | _ => NMDeviceState.ip_config

/-- The lifecycle state a stage body leaves when it does not fail: the
bodies of stages 1 to 3 set Prepare, Config and IpConfig before they call
their hook, the stage-4 bodies leave the state as it is, the stage-5 body
ends Activated. -/
def afterBody (cb : StageCallback) (st : NMDeviceState) : NMDeviceState :=
  match cb with
  | StageCallback.stage1_device_prepare => NMDeviceState.prepare
  | StageCallback.stage2_device_config => NMDeviceState.config
  | StageCallback.stage3_ip_config_start => NMDeviceState.ip_config
  | StageCallback.stage5_ip_config_commit => NMDeviceState.activated
  | _ => st

/-- The world `x` in which a body started in `w` decides what to do next:
queue, id counter, requests, application data and attached request are those
of `w`, the marker is cleared and the lifecycle state is `st`. -/
def Prepared (st : NMDeviceState) (w x : World) : Prop :=
  x.sources = w.sources ∧ x.sources_created = w.sources_created ∧ x.dev.act_source_id = 0 ∧
  x.reqs = w.reqs ∧ x.dev.app_data = w.dev.app_data ∧
  x.dev.act_request = w.dev.act_request ∧ x.dev.state = st

/-- A body that schedules nothing: queue, id counter, stage tags and
application data as before, the marker cleared. -/
def BodyWaits (w w1 : World) : Prop :=
  w1.sources = w.sources ∧ w1.sources_created = w.sources_created ∧
  w1.dev.act_source_id = 0 ∧ (∀ r, (w1.reqs r).stage = (w.reqs r).stage) ∧
  w1.dev.app_data = w.dev.app_data

/-- A body that schedules callback `cb2` for `req` with tag `tag` and leaves
the lifecycle state `st`. -/
def BodyGoes (cb2 : StageCallback) (tag : NMActStage) (req : ReqId) (st : NMDeviceState)
    (w w1 : World) : Prop :=
  w1.sources = w.sources ++ [⟨w.sources_created + 1, cb2, req⟩] ∧
  w1.sources_created = w.sources_created + 1 ∧
  w1.dev.act_source_id = w.sources_created + 1 ∧
  (∀ r, (w1.reqs r).stage = if r = req then tag else (w.reqs r).stage) ∧
  w1.dev.app_data = w.dev.app_data ∧ w1.dev.state = st ∧
  w1.dev.act_request = w.dev.act_request

/-- What the body of callback `cb` run for `req` does with a device that has
its application data: it fails (the device ends Disconnected without
request), or it is postponed by its hook or, for stage 5, ends Activated,
each time scheduling nothing; or it schedules the next stage. -/
def BodyOutcome (cb : StageCallback) (req : ReqId) (w w1 : World) : Prop :=
  (BodyWaits w w1 ∧
    ((w1.dev.state = NMDeviceState.disconnected ∧ w1.dev.act_request = none) ∨
     (w1.dev.state = afterBody cb w.dev.state ∧ w1.dev.act_request = w.dev.act_request))) ∨
  (∃ cb2 tag, nextStage cb = some (cb2, tag) ∧
    BodyGoes cb2 tag req (afterBody cb w.dev.state) w w1)

/-- Runs of a device from world `w0` by the steps of `Step` along which the
queue never holds more than one stage continuation between two steps. -/
inductive TidyRun (cls : NMDeviceClass) (w0 : World) : World → Prop
  | init : TidyRun cls w0 w0
  | step (w w2 : World) (h : TidyRun cls w0 w) (s : Step cls w w2)
      (hq : w2.sources.length ≤ 1) : TidyRun cls w0 w2

/-- The invariant of such runs for a device with its application data: the
state is not Failed; the queue is empty and the marker 0 (and an attached
request tagged IpConfigStart means the device waits in IpConfig), or the
queue holds one continuation, which the marker names, in the lifecycle state
that goes with its stage, and an attached request is the one the
continuation belongs to, tagged with its stage. -/
def TidyInv (w : World) : Prop :=
  w.dev.app_data = true ∧ w.dev.state ≠ NMDeviceState.failed ∧
  ((w.sources = [] ∧ w.dev.act_source_id = 0 ∧
      ∀ r, w.dev.act_request = some r → (w.reqs r).stage = NMActStage.ip_config_start →
        w.dev.state = NMDeviceState.ip_config) ∨
   (∃ s, w.sources = [s] ∧ w.dev.act_source_id = s.id ∧ 0 < s.id ∧
      s.id ≤ w.sources_created ∧ w.dev.state = queuedIn s.callback ∧
      ∀ r, w.dev.act_request = some r →
        r = s.user_data ∧ (w.reqs r).stage = stageTag s.callback))

/-- One main-loop iteration of a device with the default hooks as a function
on worlds, for the example runs: the world is left as it is when the
callback does not return. -/
def iterated (env : Env) (w : World) : World :=
  (g_main_context_iteration nm_device_class_init env w).getD w

/-! # Theorems -/

/-! ## Deactivation of a device that is not activating -/

theorem deactivate_quickly_idle (cls : NMDeviceClass) (env : Env) (w : World)
    (happ : w.dev.app_data = true) (hact : nm_device_is_activating w = false) :
    ∃ w1, nm_device_deactivate_quickly cls env w = some (true, w1) ∧
      w1.dev = { w.dev with act_request := none } ∧ w1.sources = w.sources ∧
      w1.sources_created = w.sources_created ∧ w.trace <+: w1.trace := by
  rcases w with ⟨⟨st, ifc, cap, la, ip, app, ar, sid, cfg, dm, dsi⟩, reqs, srcs, sc, dh, hc, tr⟩
  simp only at happ
  subst happ
  unfold nm_device_deactivate_quickly
  simp only [nm_device_is_activating, nm_device_get_state] at hact
  cases st <;> simp at hact <;>
  cases ar <;> cases hq : cls.deactivate_quickly <;>
  simp [World.emit, nm_device_is_activating, nm_device_get_state, nm_device_get_act_request,
    nm_device_get_iface, nm_act_request_unref, World.setReq, World.callHook, World.emits, hq]

theorem deactivate_idle (cls : NMDeviceClass) (env : Env) (w : World)
    (happ : w.dev.app_data = true) (hact : nm_device_is_activating w = false) :
    ∃ w2, nm_device_deactivate cls env w = some w2 ∧
      w2.dev.state = NMDeviceState.disconnected ∧ w2.dev.act_request = none ∧
      w2.dev.ip4_config = none ∧ w2.dev.act_source_id = w.dev.act_source_id ∧
      w2.dev.app_data = true ∧
      w2.sources = w.sources ∧ w2.sources_created = w.sources_created ∧
      w.trace <+: w2.trace := by
  obtain ⟨w1, h1, hdev, hsrc, hsc, es, htr⟩ := deactivate_quickly_idle cls env w happ hact
  unfold nm_device_deactivate
  simp only [happ, h1]
  rcases w1 with ⟨⟨st, ifc, cap, la, ip, app, ar, sid, cfg, dm, dsi⟩, reqs, srcs, sc, dh, hc, tr⟩
  simp only at hdev hsrc hsc htr
  subst hsrc hsc htr
  simp only [NMDevicePrivate.mk.injEq] at hdev
  obtain ⟨rfl, rfl, rfl, rfl, rfl, rfl, rfl, rfl, rfl, rfl, rfl⟩ := hdev
  cases hcfg : w.dev.ip4_config <;> cases hd : cls.deactivate <;> cases ha : env.ifaddr <;>
  simp [happ, hcfg, hd, ha, nm_device_get_ip4_config, nm_device_set_ip4_config, World.emit,
    nm_device_update_ip4_address, nm_device_state_changed_plain, World.callHook, World.emits] <;>
  split <;> simp [happ]

/-- The failure branch of a stage body, entered in world `x` reached from
`w` within the callback. -/
theorem stage_failed_outcome (cls : NMDeviceClass) (env : Env) (req : ReqId) (w x : World)
    (happ : x.dev.app_data = true) (hpre : w.trace <+: x.trace) :
    StageFailureOutcome req w (stage_failed cls env req x) := by
  obtain ⟨e1, he1⟩ := hpre
  obtain ⟨w2, h2, hst, hreq, -, -, -, -, -, e2, he2⟩ :=
    deactivate_idle cls env { x with dev := { x.dev with state := NMDeviceState.failed } }
      happ rfl
  refine ⟨(w2.emit (Event.state_changed_signal NMDeviceState.failed)).emit
      (Event.policy_activation_failed req),
    e1 ++ e2 ++ [Event.state_changed_signal NMDeviceState.failed,
      Event.policy_activation_failed req], ?_, ?_, hst, hreq, ?_, ?_⟩
  · simp [stage_failed, nm_device_state_changed, nm_device_interface_deactivate, h2,
      nm_policy_schedule_activation_failed]
  · simp only at he2
    simp [World.emit, ← he2, ← he1]
  · simp
  · simp [List.getLast?_append]

theorem cancel_releases_once (env : Env) (w : World) (r : ReqId)
    (hact : nm_device_is_activating w = true) (happ : w.dev.app_data = true)
    (hreq : w.dev.act_request = some r) :
    ∃ w2, nm_device_activation_cancel env w = some w2 ∧ w2.dev.act_request = none ∧
      w2.dev.state = w.dev.state ∧ w2.dev.app_data = true ∧
      unrefs r w2.trace = unrefs r w.trace + 1 ∧
      (w2.reqs r).refcount = (w.reqs r).refcount - 1 := by
  rcases w with ⟨⟨st, ifc, cap, la, ip, app, ar, sid, cfg, dm, dsi⟩, reqs, srcs, sc, dh, hc, tr⟩
  simp only at happ hreq
  subst happ hreq
  unfold nm_device_activation_cancel
  simp only [hact]
  simp only [nm_device_is_activating, nm_device_get_state] at hact ⊢
  by_cases hs : sid = 0 <;> cases st <;> simp at hact <;>
  simp [hs, nm_device_class_init, World.callHook, World.emit, World.emits, g_source_remove,
    nm_act_request_unref, World.setReq, real_activation_cancel_handler, nm_device_get_state,
    nm_device_get_iface, unrefs, List.count_cons]

/-! ## Effects on the main-loop queue and the marker -/

theorem bodyEffect_to_queueEffect {w w2 : World} (h : BodyEffect w w2) : QueueEffect w w2 := by
  rcases h with ⟨h1, h2, h3⟩ | h
  · exact Or.inl ⟨h1, h2, Or.inr h3⟩
  · exact Or.inr (Or.inl h)

theorem queueEffect_inv {w w2 : World} (h : QueueEffect w w2) (hi : MarkerInv w) :
    MarkerInv w2 := by
  obtain ⟨⟨hle, hnd⟩, hm⟩ := hi
  rcases h with ⟨h1, h2, h3⟩ | ⟨cb, r, h1, h2, h3⟩ | ⟨h1, h2, h3⟩
  · refine ⟨⟨by rw [h1, h2]; exact hle, by rw [h1]; exact hnd⟩, ?_⟩
    rcases h3 with h3 | h3
    · rw [h3, h1]; exact hm
    · exact Or.inl h3
  · refine ⟨⟨?_, ?_⟩, Or.inr ⟨⟨w.sources_created + 1, cb, r⟩, by simp [h1], by simp [h3]⟩⟩
    · intro s hs
      rw [h1] at hs
      rw [h2]
      rcases List.mem_append.mp hs with hs | hs
      · exact Nat.le_succ_of_le (hle s hs)
      · simp at hs; simp [hs]
    · rw [h1, List.map_append, List.nodup_append]
      refine ⟨hnd, by simp, ?_⟩
      intro a ha hb
      simp at hb
      obtain ⟨s, hs, rfl⟩ := List.mem_map.mp ha
      have := hle s hs
      omega
  · refine ⟨⟨?_, ?_⟩, Or.inl h3⟩
    · intro s hs
      rw [h1] at hs
      rw [h2]
      exact hle s (List.mem_of_mem_filter hs)
    · rw [h1]
      exact List.Nodup.sublist (List.Sublist.map _ (List.filter_sublist _)) hnd

theorem activate_queueEffect (r : ReqId) (w : World) : QueueEffect w (nm_device_activate r w) := by
  unfold nm_device_activate
  split
  · exact Or.inl ⟨rfl, rfl, Or.inl rfl⟩
  · exact Or.inr (Or.inl ⟨StageCallback.stage1_device_prepare, r, rfl, rfl, rfl⟩)

theorem schedule_stage_bodyEffect (tag : NMActStage) (cb : StageCallback) (r : ReqId) (w x : World)
    (h1 : x.sources = w.sources) (h2 : x.sources_created = w.sources_created) :
    BodyEffect w (schedule_stage tag cb r x) :=
  Or.inr ⟨cb, r, by simp [schedule_stage, g_idle_add, nm_act_request_set_stage, World.setReq, h1, h2],
    by simp [schedule_stage, g_idle_add, nm_act_request_set_stage, World.setReq, h2],
    by simp [schedule_stage, g_idle_add, nm_act_request_set_stage, World.setReq, h2]⟩

theorem dhcp_queueEffect (iface : String) (st : NMDHCPState) (w : World) :
    QueueEffect w (dhcp_state_changed iface st w) := by
  unfold dhcp_state_changed
  split
  · exact Or.inl ⟨rfl, rfl, Or.inl rfl⟩
  · split
    · split
      all_goals first
        | exact Or.inl ⟨rfl, rfl, Or.inl rfl⟩
        | exact bodyEffect_to_queueEffect (schedule_stage_bodyEffect _ _ _ w w rfl rfl)
    · exact Or.inl ⟨rfl, rfl, Or.inl rfl⟩

theorem cancel_queueEffect (env : Env) (w w2 : World)
    (h : nm_device_activation_cancel env w = some w2) : QueueEffect w w2 := by
  unfold nm_device_activation_cancel at h
  split at h
  · cases h; exact Or.inl ⟨rfl, rfl, Or.inl rfl⟩
  · split at h
    · cases h
    · simp only [Option.some.injEq] at h
      subst h
      by_cases hs : w.dev.act_source_id = 0
      · refine Or.inl ⟨?_, ?_, Or.inr ?_⟩ <;>
        cases hr : w.dev.act_request <;>
        simp [hs, hr, nm_device_class_init, World.callHook, World.emit, World.emits,
          nm_act_request_unref, World.setReq]
      · refine Or.inr (Or.inr ⟨?_, ?_, ?_⟩) <;>
        cases hr : w.dev.act_request <;>
        simp [hs, hr, nm_device_class_init, World.callHook, World.emit, World.emits,
          nm_act_request_unref, World.setReq, g_source_remove]


theorem sameQueue_refl (x : World) : SameQueue x x := ⟨rfl, rfl, rfl⟩

theorem sameQueue_trans {x y z : World} (h1 : SameQueue x y) (h2 : SameQueue y z) :
    SameQueue x z :=
  ⟨h2.1.trans h1.1, h2.2.1.trans h1.2.1, h2.2.2.trans h1.2.2⟩

theorem queueEffect_of_same_left {x y z : World} (h1 : SameQueue x y) (h2 : QueueEffect y z) :
    QueueEffect x z := by
  obtain ⟨a, b, c⟩ := h1
  unfold QueueEffect at h2 ⊢
  rw [a, b, c] at h2
  exact h2

theorem queueEffect_of_same_right {x y z : World} (h1 : QueueEffect x y) (h2 : SameQueue y z) :
    QueueEffect x z := by
  obtain ⟨a, b, c⟩ := h2
  unfold QueueEffect at h1 ⊢
  rw [a, b, c]
  exact h1

theorem sameQueue_to_queueEffect {x y : World} (h : SameQueue x y) : QueueEffect x y :=
  Or.inl ⟨h.1, h.2.1, Or.inl h.2.2⟩

theorem emit_sameQueue (x : World) (e : Event) : SameQueue x (x.emit e) := ⟨rfl, rfl, rfl⟩

theorem callHook_sameQueue (x : World) (h : ClassHook) (es : List Event) :
    SameQueue x (x.callHook h es) := ⟨rfl, rfl, rfl⟩

theorem deactivate_quickly_queueEffect (cls : NMDeviceClass) (env : Env) (w w2 : World) (b : Bool)
    (h : nm_device_deactivate_quickly cls env w = some (b, w2)) : QueueEffect w w2 := by
  unfold nm_device_deactivate_quickly at h
  by_cases happ : w.dev.app_data = false
  · simp only [happ, if_true, Option.some.injEq, Prod.mk.injEq] at h
    obtain ⟨-, rfl⟩ := h
    exact sameQueue_to_queueEffect (sameQueue_refl w)
  · rw [if_neg happ] at h
    simp only [] at h
    split at h
    · cases h
    · rename_i w1 h1
      simp only [Option.some.injEq, Prod.mk.injEq] at h
      obtain ⟨-, rfl⟩ := h
      have ha : QueueEffect w w1 := by
        split at h1
        · cases h1; exact Or.inl ⟨rfl, rfl, Or.inl rfl⟩
        · split at h1
          · exact queueEffect_of_same_left (y := (w.emit Event.system_shutdown_nis).emit
              Event.vpn_manager_deactivate_vpn_connection) ⟨rfl, rfl, rfl⟩
              (cancel_queueEffect env _ w1 h1)
          · cases h1; exact Or.inl ⟨rfl, rfl, Or.inl rfl⟩
      refine queueEffect_of_same_right ha ?_
      cases hr : nm_device_get_act_request w1 <;> cases hq : cls.deactivate_quickly <;>
      exact ⟨rfl, rfl, rfl⟩

theorem update_ip4_address_sameQueue (env : Env) (x : World) :
    SameQueue x (nm_device_update_ip4_address env x) := by
  unfold nm_device_update_ip4_address
  split
  · exact sameQueue_refl x
  · simp only
    split
    · exact ⟨rfl, rfl, rfl⟩
    · split <;> exact ⟨rfl, rfl, rfl⟩

theorem deactivate_queueEffect (cls : NMDeviceClass) (env : Env) (w w2 : World)
    (h : nm_device_deactivate cls env w = some w2) : QueueEffect w w2 := by
  unfold nm_device_deactivate at h
  by_cases happ : w.dev.app_data = false
  · simp only [happ, if_true, Option.some.injEq] at h
    subst h
    exact sameQueue_to_queueEffect (sameQueue_refl w)
  · rw [if_neg happ] at h
    simp only [] at h
    split at h
    · cases h
    · rename_i b w1 h1
      simp only [Option.some.injEq] at h
      subst h
      refine queueEffect_of_same_right (deactivate_quickly_queueEffect cls env w w1 b h1) ?_
      have hu := fun x => update_ip4_address_sameQueue env x
      cases hc : nm_device_get_ip4_config w1 <;> cases hd : cls.deactivate <;>
      simp only [SameQueue, nm_device_state_changed_plain, World.emit, World.callHook,
        World.emits, (hu _).1, (hu _).2.1, (hu _).2.2, nm_device_set_ip4_config, and_self]


theorem clear_cleared (w : World) : Cleared w (clear_act_source_id w) := by
  unfold clear_act_source_id
  split
  · exact ⟨rfl, rfl, rfl⟩
  · exact ⟨rfl, rfl, by omega⟩

theorem cleared_same {w x y : World} (h : Cleared w x) (h2 : SameQueue x y) : Cleared w y :=
  ⟨h2.1.trans h.1, h2.2.1.trans h.2.1, h2.2.2.trans h.2.2⟩

theorem cleared_bodyEffect {w x : World} (h : Cleared w x) : BodyEffect w x := Or.inl h

theorem cleared_schedule {w x : World} (h : Cleared w x) (tag : NMActStage) (cb : StageCallback)
    (r : ReqId) : BodyEffect w (schedule_stage tag cb r x) :=
  schedule_stage_bodyEffect tag cb r w x h.1 h.2.1

theorem deactivate_sameQueue (cls : NMDeviceClass) (env : Env) (w w2 : World)
    (hact : nm_device_is_activating w = false)
    (h : nm_device_deactivate cls env w = some w2) : SameQueue w w2 := by
  by_cases happ : w.dev.app_data = true
  · obtain ⟨w3, h3, -, -, -, hm, -, hs, hc, -⟩ := deactivate_idle cls env w happ hact
    rw [h3] at h
    cases h
    exact ⟨hs, hc, hm⟩
  · have hf : w.dev.app_data = false := by simpa using happ
    unfold nm_device_deactivate at h
    rw [if_pos hf] at h
    cases h
    exact sameQueue_refl w

theorem stage_failed_sameQueue (cls : NMDeviceClass) (env : Env) (req : ReqId) (x w2 : World)
    (h : stage_failed cls env req x = some w2) : SameQueue x w2 := by
  unfold stage_failed nm_device_state_changed nm_device_interface_deactivate at h
  simp only at h
  split at h
  · cases h
  · rename_i y hy
    split at hy
    · cases hy
    · rename_i z hz
      cases hy
      cases h
      have := deactivate_sameQueue cls env
        { x with dev := { x.dev with state := NMDeviceState.failed } } z rfl hz
      exact ⟨this.1, this.2.1, this.2.2⟩

theorem cleared_failed {w x w2 : World} (h : Cleared w x) (cls : NMDeviceClass) (env : Env)
    (req : ReqId) (hf : stage_failed cls env req x = some w2) : BodyEffect w w2 :=
  cleared_bodyEffect (cleared_same h (stage_failed_sameQueue cls env req x w2 hf))

theorem bring_up_sameQueue (hw : Option VoidHook) (env : Env) (x : World) :
    SameQueue x (nm_device_bring_up hw env x) := by
  unfold nm_device_bring_up nm_device_set_up_down nm_device_set_address
  cases hw <;> exact ⟨rfl, rfl, rfl⟩

theorem stage1_bodyEffect (cls : NMDeviceClass) (env : Env) (req : ReqId) (w w2 : World)
    (h : nm_device_activate_stage1_device_prepare cls env req w = some w2) : BodyEffect w w2 := by
  unfold nm_device_activate_stage1_device_prepare at h
  simp only [nm_device_state_changed, Option.bind_eq_bind, Option.some_bind] at h
  have hc : Cleared w ((nm_device_state_changed_plain NMDeviceState.prepare
      (clear_act_source_id w)).callHook ClassHook.act_stage1_prepare
      (cls.act_stage1_prepare env (nm_device_state_changed_plain NMDeviceState.prepare
        (clear_act_source_id w)) req).2) :=
    cleared_same (clear_cleared w) ⟨rfl, rfl, rfl⟩
  split at h
  · cases h; exact cleared_bodyEffect hc
  · exact cleared_failed hc cls env req h
  · cases h; exact cleared_schedule hc _ _ _

theorem stage2_bodyEffect (cls : NMDeviceClass) (env : Env) (req : ReqId) (w w2 : World)
    (h : nm_device_activate_stage2_device_config cls env req w = some w2) : BodyEffect w w2 := by
  unfold nm_device_activate_stage2_device_config at h
  simp only [nm_device_state_changed, Option.bind_eq_bind, Option.some_bind] at h
  have hc : ∀ es, Cleared w ((if nm_device_is_up env (nm_device_state_changed_plain
        NMDeviceState.config (clear_act_source_id w)) = true then
        nm_device_state_changed_plain NMDeviceState.config (clear_act_source_id w)
      else nm_device_bring_up cls.set_hw_address env (nm_device_state_changed_plain
        NMDeviceState.config (clear_act_source_id w))).callHook ClassHook.act_stage2_config es) := by
    intro es
    refine cleared_same (clear_cleared w) (sameQueue_trans (y := nm_device_state_changed_plain
        NMDeviceState.config (clear_act_source_id w)) ⟨rfl, rfl, rfl⟩ ?_)
    split
    · exact ⟨rfl, rfl, rfl⟩
    · exact sameQueue_trans (bring_up_sameQueue _ _ _) ⟨rfl, rfl, rfl⟩
  split at h
  · cases h; exact cleared_bodyEffect (hc _)
  · exact cleared_failed (hc _) cls env req h
  · cases h; exact cleared_schedule (hc _) _ _ _

theorem stage3_bodyEffect (cls : NMDeviceClass) (env : Env) (req : ReqId) (w w2 : World)
    (h : nm_device_activate_stage3_ip_config_start cls env req w = some w2) : BodyEffect w w2 := by
  unfold nm_device_activate_stage3_ip_config_start at h
  simp only [nm_device_state_changed, Option.bind_eq_bind, Option.some_bind] at h
  have hc : Cleared w ((nm_device_state_changed_plain NMDeviceState.ip_config
      (clear_act_source_id w)).callHook ClassHook.act_stage3_ip_config_start
      (cls.act_stage3_ip_config_start env (nm_device_state_changed_plain NMDeviceState.ip_config
        (clear_act_source_id w)) req).2) :=
    cleared_same (clear_cleared w) ⟨rfl, rfl, rfl⟩
  split at h
  · cases h; exact cleared_bodyEffect hc
  · exact cleared_failed hc cls env req h
  · cases h; exact cleared_schedule hc _ _ _

theorem stage4_finish_bodyEffect (cls : NMDeviceClass) (env : Env) (req : ReqId)
    (r : NMActStageReturn × Option NMIP4Config) (w x w2 : World) (hc : Cleared w x)
    (h : stage4_finish cls env req r x = some w2) : BodyEffect w w2 := by
  unfold stage4_finish at h
  split at h
  · cases h; exact cleared_bodyEffect hc
  · exact cleared_failed hc cls env req h
  · exact cleared_failed hc cls env req h
  · cases h
    exact cleared_schedule (x := nm_act_request_set_ip4_config req _ x)
      ⟨hc.1, hc.2.1, hc.2.2⟩ _ _ _

theorem stage4_get_bodyEffect (cls : NMDeviceClass) (env : Env) (req : ReqId) (w w2 : World)
    (h : nm_device_activate_stage4_ip_config_get cls env req w = some w2) : BodyEffect w w2 := by
  unfold nm_device_activate_stage4_ip_config_get at h
  exact stage4_finish_bodyEffect cls env req _ w _ w2
    (cleared_same (clear_cleared w) (callHook_sameQueue _ _ _)) h

theorem stage4_timeout_bodyEffect (cls : NMDeviceClass) (env : Env) (req : ReqId) (w w2 : World)
    (h : nm_device_activate_stage4_ip_config_timeout cls env req w = some w2) : BodyEffect w w2 := by
  unfold nm_device_activate_stage4_ip_config_timeout at h
  exact stage4_finish_bodyEffect cls env req _ w _ w2
    (cleared_same (clear_cleared w) (callHook_sameQueue _ _ _)) h

theorem stage5_bodyEffect (cls : NMDeviceClass) (env : Env) (req : ReqId) (w w2 : World)
    (h : nm_device_activate_stage5_ip_config_commit cls env req w = some w2) : BodyEffect w w2 := by
  unfold nm_device_activate_stage5_ip_config_commit at h
  have hu := update_ip4_address_sameQueue env
  have hcl := clear_cleared w
  split at h
  · cases h
  · rename_i c hcfg
    simp only at h
    split at h
    · simp only [nm_device_state_changed, Option.bind_eq_bind, Option.some_bind,
        Option.some.injEq] at h
      subst h
      refine Or.inl ?_
      cases hul : cls.update_link <;>
      simp only [Cleared, nm_policy_schedule_activation_finish, nm_device_state_changed_plain,
        World.emit, World.callHook, World.emits, (hu _).1, (hu _).2.1, (hu _).2.2,
        nm_device_set_ip4_config] <;>
      exact hcl
    · refine cleared_failed (x := (nm_device_set_ip4_config (some c) (clear_act_source_id w)).emit
        (Event.system_device_set_from_ip4_config
          (nm_device_set_ip4_config (some c) (clear_act_source_id w)).dev.ip4_config))
        ?_ cls env req h
      exact hcl

theorem run_callback_bodyEffect (cls : NMDeviceClass) (env : Env) (cb : StageCallback)
    (req : ReqId) (w w2 : World) (h : run_callback cls env cb req w = some w2) :
    BodyEffect w w2 := by
  cases cb
  · exact stage1_bodyEffect cls env req w w2 h
  · exact stage2_bodyEffect cls env req w w2 h
  · exact stage3_bodyEffect cls env req w w2 h
  · exact stage4_get_bodyEffect cls env req w w2 h
  · exact stage4_timeout_bodyEffect cls env req w w2 h
  · exact stage5_bodyEffect cls env req w w2 h

theorem dhcp_emit_inv (iface : String) (st : NMDHCPState) (w : World) (hi : MarkerInv w) :
    MarkerInv (nm_dhcp_manager_emit_state_changed iface st w) := by
  unfold nm_dhcp_manager_emit_state_changed
  generalize w.dhcp_handlers = l
  induction l generalizing w with
  | nil => exact hi
  | cons a l ih => exact ih _ (queueEffect_inv (dhcp_queueEffect iface st w) hi)

theorem iteration_inv (cls : NMDeviceClass) (env : Env) (w w2 : World)
    (h : g_main_context_iteration cls env w = some w2) (hi : MarkerInv w) : MarkerInv w2 := by
  unfold g_main_context_iteration at h
  split at h
  · cases h; exact hi
  · rename_i s rest hs
    simp only [Option.map_eq_some'] at h
    obtain ⟨w1, h1, rfl⟩ := h
    have hb := run_callback_bodyEffect cls env _ _ w w1 h1
    obtain ⟨⟨hle, hnd⟩, hm⟩ := queueEffect_inv (bodyEffect_to_queueEffect hb) hi
    have hsid : s.id ≤ w.sources_created := hi.1.1 s (by simp [hs])
    refine ⟨⟨fun x hx => hle x (List.mem_of_mem_filter hx),
      List.Nodup.sublist (List.Sublist.map _ (List.filter_sublist _)) hnd⟩, ?_⟩
    rcases hb with ⟨-, -, h0⟩ | ⟨cb, r, hsrc, -, hmk⟩
    · exact Or.inl h0
    · refine Or.inr ⟨⟨w.sources_created + 1, cb, r⟩, ?_, hmk.symm⟩
      simp only [g_source_remove, List.mem_filter, hsrc, List.mem_append, List.mem_singleton,
        or_true, true_and, decide_eq_true_eq, ne_eq]
      omega

theorem reachable_markerInv (cls : NMDeviceClass) (w : World) (h : Reachable cls w) :
    MarkerInv w := by
  induction h with
  | init w h =>
      obtain ⟨-, -, hm, hs⟩ := h
      exact ⟨⟨by simp [hs], by simp [hs]⟩, Or.inl hm⟩
  | step w w2 _ s ih =>
      cases s with
      | activate req => exact queueEffect_inv (activate_queueEffect req w) ih
      | run _ env h => exact iteration_inv cls env w w2 h ih
      | dhcp iface st => exact dhcp_emit_inv iface st w ih
      | cancel _ env h => exact queueEffect_inv (cancel_queueEffect env w w2 h) ih
      | deactivate _ env h => exact queueEffect_inv (deactivate_queueEffect cls env w w2 h) ih

theorem filter_id_length_le_one (l : List GSource) (m : Nat) (h : (l.map GSource.id).Nodup) :
    (l.filter (fun s => s.id = m)).length ≤ 1 := by
  have h1 := List.nodup_iff_count_le_one.mp h m
  rw [List.count, List.countP_map] at h1
  rw [← List.countP_eq_length_filter]
  exact h1

/-! ## C1: a failing stage -/

/-- C1, as stated, fails: with a stage-1 hook that reports Failure, the
stage-1 callback of the freshly activated "eth0" notifies the policy but
returns with the device in state Disconnected, not Failed. -/
theorem failed_stage1_state_is_not_failed :
    (failingClass.act_stage1_prepare {} (stage1_hook_world (nm_device_activate 7 eth0)) 7).1
        = NMActStageReturn.failure ∧
    (g_main_context_iteration failingClass {} (nm_device_activate 7 eth0)).map
        (fun w => (w.dev.state, w.trace.getLast?))
      = some (NMDeviceState.disconnected, some (Event.policy_activation_failed 7)) ∧
    (g_main_context_iteration failingClass {} (nm_device_activate 7 eth0)).map
        (fun w => w.dev.state)
      ≠ some NMDeviceState.failed := by
  decide

/-- C1, amended: on a device that has its application data, when a stage
callback fails (the hook of stage 1, 2 or 3 returns Failure; a stage-4 hook
does not postpone and returns Failure or no configuration; in stage 5 the
backend install fails), the callback returns, the device has been set to
Failed and fully deactivated, so that its state on return is Disconnected
with no request attached, and the last call is the policy's
activation-failed notification for the request. -/
theorem failed_stage_ends_disconnected (cls : NMDeviceClass) (env : Env) (req : ReqId) (w : World)
    (happ : w.dev.app_data = true) :
    ((cls.act_stage1_prepare env (stage1_hook_world w) req).1 = NMActStageReturn.failure →
      StageFailureOutcome req w (nm_device_activate_stage1_device_prepare cls env req w)) ∧
    ((cls.act_stage2_config env (stage2_hook_world cls env w) req).1 = NMActStageReturn.failure →
      StageFailureOutcome req w (nm_device_activate_stage2_device_config cls env req w)) ∧
    ((cls.act_stage3_ip_config_start env (stage3_hook_world w) req).1 = NMActStageReturn.failure →
      StageFailureOutcome req w (nm_device_activate_stage3_ip_config_start cls env req w)) ∧
    ((cls.act_stage4_get_ip4_config cls.set_hw_address env (clear_act_source_id w) req).1.1
          ≠ NMActStageReturn.postpone ∧
        ((cls.act_stage4_get_ip4_config cls.set_hw_address env (clear_act_source_id w) req).1.2 = none ∨
         (cls.act_stage4_get_ip4_config cls.set_hw_address env (clear_act_source_id w) req).1.1
          = NMActStageReturn.failure) →
      StageFailureOutcome req w (nm_device_activate_stage4_ip_config_get cls env req w)) ∧
    ((cls.act_stage4_ip_config_timeout cls.set_hw_address env (clear_act_source_id w) req).1.1
          ≠ NMActStageReturn.postpone ∧
        ((cls.act_stage4_ip_config_timeout cls.set_hw_address env (clear_act_source_id w) req).1.2 = none ∨
         (cls.act_stage4_ip_config_timeout cls.set_hw_address env (clear_act_source_id w) req).1.1
          = NMActStageReturn.failure) →
      StageFailureOutcome req w (nm_device_activate_stage4_ip_config_timeout cls env req w)) ∧
    (nm_act_request_get_ip4_config w req ≠ none ∧ env.set_from_ip4_config = false →
      StageFailureOutcome req w (nm_device_activate_stage5_ip_config_commit cls env req w)) := by
  have hclr : (clear_act_source_id w).dev.app_data = true := by
    unfold clear_act_source_id; split <;> simp [happ]
  have hclrt : (clear_act_source_id w).trace = w.trace := by
    unfold clear_act_source_id; split <;> rfl
  have hup : ∀ x : World, x.dev.app_data = true →
      (nm_device_bring_up cls.set_hw_address env x).dev.app_data = true := by
    intro x hx
    unfold nm_device_bring_up nm_device_set_up_down nm_device_set_address
    cases cls.set_hw_address <;> simp [World.callHook, World.emits, World.emit, hx]
  have hupt : ∀ x : World, x.trace <+: (nm_device_bring_up cls.set_hw_address env x).trace := by
    intro x
    unfold nm_device_bring_up nm_device_set_up_down nm_device_set_address
    cases cls.set_hw_address <;> simp [World.callHook, World.emits, World.emit]
  refine ⟨?_, ?_, ?_, ?_, ?_, ?_⟩
  · intro h
    have hb : nm_device_activate_stage1_device_prepare cls env req w =
        stage_failed cls env req ((stage1_hook_world w).callHook ClassHook.act_stage1_prepare
          (cls.act_stage1_prepare env (stage1_hook_world w) req).2) := by
      unfold stage1_hook_world at h ⊢
      simp [nm_device_activate_stage1_device_prepare, nm_device_state_changed, h]
    rw [hb]
    apply stage_failed_outcome
    · simp [World.callHook, World.emits, World.emit, stage1_hook_world, nm_device_state_changed_plain, hclr]
    · simp [World.callHook, World.emits, World.emit, stage1_hook_world, nm_device_state_changed_plain, hclrt]
  · intro h
    have hb : nm_device_activate_stage2_device_config cls env req w =
        stage_failed cls env req ((stage2_hook_world cls env w).callHook ClassHook.act_stage2_config
          (cls.act_stage2_config env (stage2_hook_world cls env w) req).2) := by
      unfold stage2_hook_world at h ⊢
      simp only [nm_device_activate_stage2_device_config, nm_device_state_changed,
        Option.bind_eq_bind, Option.some_bind] at h ⊢
      simp [h]
    rw [hb]
    apply stage_failed_outcome
    · unfold stage2_hook_world
      simp only [World.callHook, World.emits, World.emit]
      split
      · simp [nm_device_state_changed_plain, World.emit, hclr]
      · apply hup
        simp [nm_device_state_changed_plain, World.emit, hclr]
    · unfold stage2_hook_world
      simp only [World.callHook, World.emits, World.emit]
      split
      · simp [nm_device_state_changed_plain, World.emit, hclrt]
      · have h0 : w.trace <+:
            (nm_device_state_changed_plain NMDeviceState.config (clear_act_source_id w)).trace := by
          simp [nm_device_state_changed_plain, World.emit, hclrt]
        refine List.IsPrefix.trans h0 (List.IsPrefix.trans (hupt _) ?_)
        simp
  · intro h
    have hb : nm_device_activate_stage3_ip_config_start cls env req w =
        stage_failed cls env req ((stage3_hook_world w).callHook ClassHook.act_stage3_ip_config_start
          (cls.act_stage3_ip_config_start env (stage3_hook_world w) req).2) := by
      unfold stage3_hook_world at h ⊢
      simp [nm_device_activate_stage3_ip_config_start, nm_device_state_changed, h]
    rw [hb]
    apply stage_failed_outcome
    · simp [World.callHook, World.emits, World.emit, stage3_hook_world, nm_device_state_changed_plain, hclr]
    · simp [World.callHook, World.emits, World.emit, stage3_hook_world, nm_device_state_changed_plain, hclrt]
  · rintro ⟨h1, h2⟩
    have hb : nm_device_activate_stage4_ip_config_get cls env req w =
        stage_failed cls env req ((clear_act_source_id w).callHook ClassHook.act_stage4_get_ip4_config
          (cls.act_stage4_get_ip4_config cls.set_hw_address env (clear_act_source_id w) req).2) := by
      unfold nm_device_activate_stage4_ip_config_get
      simp only []
      generalize (cls.act_stage4_get_ip4_config cls.set_hw_address env (clear_act_source_id w) req).1 = r at h1 h2 ⊢
      rcases r with ⟨ret, c⟩
      cases ret <;> cases c <;> simp_all [stage4_finish]
    rw [hb]
    apply stage_failed_outcome
    · simp [World.callHook, World.emits, World.emit, hclr]
    · simp [World.callHook, World.emits, World.emit, hclrt]
  · rintro ⟨h1, h2⟩
    have hb : nm_device_activate_stage4_ip_config_timeout cls env req w =
        stage_failed cls env req ((clear_act_source_id w).callHook ClassHook.act_stage4_ip_config_timeout
          (cls.act_stage4_ip_config_timeout cls.set_hw_address env (clear_act_source_id w) req).2) := by
      unfold nm_device_activate_stage4_ip_config_timeout
      simp only []
      generalize (cls.act_stage4_ip_config_timeout cls.set_hw_address env (clear_act_source_id w) req).1 = r at h1 h2 ⊢
      rcases r with ⟨ret, c⟩
      cases ret <;> cases c <;> simp_all [stage4_finish]
    rw [hb]
    apply stage_failed_outcome
    · simp [World.callHook, World.emits, World.emit, hclr]
    · simp [World.callHook, World.emits, World.emit, hclrt]
  · rintro ⟨h1, h2⟩
    obtain ⟨c, hc⟩ := Option.ne_none_iff_exists'.mp h1
    have hb : nm_device_activate_stage5_ip_config_commit cls env req w =
        stage_failed cls env req
          ((nm_device_set_ip4_config (some c) (clear_act_source_id w)).emit
            (Event.system_device_set_from_ip4_config (some c))) := by
      simp [nm_device_activate_stage5_ip_config_commit, hc, h2, nm_device_set_ip4_config]
    rw [hb]
    apply stage_failed_outcome
    · simp [World.emit, nm_device_set_ip4_config, hclr]
    · simp [World.emit, nm_device_set_ip4_config, hclrt]


/-- C1, amended, at the failing variant on "eth0" in state Config. -/
theorem failed_stage_ends_disconnected_witness :
    StageFailureOutcome 7 eth0Config
      (nm_device_activate_stage1_device_prepare failingClass failingInstall 7 eth0Config) ∧
    StageFailureOutcome 7 eth0Config
      (nm_device_activate_stage2_device_config failingClass failingInstall 7 eth0Config) ∧
    StageFailureOutcome 7 eth0Config
      (nm_device_activate_stage3_ip_config_start failingClass failingInstall 7 eth0Config) ∧
    StageFailureOutcome 7 eth0Config
      (nm_device_activate_stage4_ip_config_get failingClass failingInstall 7 eth0Config) ∧
    StageFailureOutcome 7 eth0Config
      (nm_device_activate_stage4_ip_config_timeout failingClass failingInstall 7 eth0Config) ∧
    StageFailureOutcome 7 eth0Config
      (nm_device_activate_stage5_ip_config_commit failingClass failingInstall 7 eth0Config) :=
  ⟨(failed_stage_ends_disconnected failingClass failingInstall 7 eth0Config rfl).1 rfl,
   (failed_stage_ends_disconnected failingClass failingInstall 7 eth0Config rfl).2.1 rfl,
   (failed_stage_ends_disconnected failingClass failingInstall 7 eth0Config rfl).2.2.1 rfl,
   (failed_stage_ends_disconnected failingClass failingInstall 7 eth0Config rfl).2.2.2.1
     (by decide),
   (failed_stage_ends_disconnected failingClass failingInstall 7 eth0Config rfl).2.2.2.2.1
     (by decide),
   (failed_stage_ends_disconnected failingClass failingInstall 7 eth0Config rfl).2.2.2.2.2
     (by decide)⟩

/-! ## C2: cancellation and the lifecycle state -/

/-- C2, as stated, fails: "eth0" is in state Config (activating) with
request 7; after the cancellation it is still in state Config. -/
theorem cancel_leaves_config_state :
    nm_device_is_activating eth0Config = true ∧
    (nm_device_activation_cancel {} eth0Config).map (fun w => w.dev.state)
      = some NMDeviceState.config ∧
    (nm_device_activation_cancel {} eth0Config).map nm_device_is_activating = some true := by
  decide

/-- C2, amended: for every activating device (with its application data)
`nm_device_activation_cancel` returns with the lifecycle state unchanged,
hence still one of Prepare, Config, NeedAuth, IpConfig, while the request
is detached and the pending-continuation marker is 0. -/
theorem cancel_keeps_lifecycle_state (env : Env) (w : World)
    (hact : nm_device_is_activating w = true) (happ : w.dev.app_data = true) :
    ∃ w2, nm_device_activation_cancel env w = some w2 ∧
      w2.dev.state = w.dev.state ∧ nm_device_is_activating w2 = true ∧
      w2.dev.act_request = none ∧ w2.dev.act_source_id = 0 := by
  rcases w with ⟨⟨st, ifc, cap, la, ip, app, ar, sid, cfg, dm, dsi⟩, reqs, srcs, sc, dh, hc, tr⟩
  simp only at happ
  subst happ
  unfold nm_device_activation_cancel
  simp only [hact]
  simp only [nm_device_is_activating, nm_device_get_state] at hact ⊢
  cases ar <;> by_cases hs : sid = 0 <;>
  simp [hs, nm_device_class_init, World.callHook, World.emit, World.emits, g_source_remove,
    nm_act_request_unref, World.setReq, hact]

/-- C2, amended, on "eth0" in state Config. -/
theorem cancel_keeps_lifecycle_state_witness :
    ∃ w2, nm_device_activation_cancel {} eth0Config = some w2 ∧
      w2.dev.state = eth0Config.dev.state ∧ nm_device_is_activating w2 = true ∧
      w2.dev.act_request = none ∧ w2.dev.act_source_id = 0 :=
  cancel_keeps_lifecycle_state {} eth0Config (by decide) (by decide)

/-! ## C3: scheduling and the pending-continuation marker -/

/-- C3 fails on the code: two reachable worlds hold two scheduled
continuations of request 7, one after a second `nm_device_activate` before
stage 1 has run (the guard commented "Already activating or activated"
tests the lifecycle state, which is still Disconnected), one after a DHCP
lease notification delivered between the scheduling and the running of
stage 3 (the stage tag is IpConfigStart from the scheduling on).  No
schedule function removes the continuation queued before. -/
theorem two_continuations_reachable :
    Reachable nm_device_class_init (nm_device_activate 7 (nm_device_activate 7 eth0)) ∧
    (nm_device_activate 7 (nm_device_activate 7 eth0)).scheduledFor 7 = 2 ∧
    leaseBeforeStage3.map (fun w => w.scheduledFor 7) = some 2 := by
  refine ⟨?_, by decide, by decide⟩
  exact Reachable.step _ _ (Reachable.step _ _ (Reachable.init eth0 ⟨rfl, rfl, rfl, rfl⟩)
    (Step.activate eth0 7)) (Step.activate _ 7)

/-- What the schedule functions do keep: in every reachable world the ids
of the queued continuations are pairwise distinct and the
pending-continuation marker is 0 or the id of a queued continuation, so the
marker records at most one continuation; and every
`nm_device_activate_schedule_stage*` appends one continuation for the
request to the queue (those already queued stay), stores its id in the
marker in place of the previous value and sets the stage tag. -/
theorem schedule_records_marker (cls : NMDeviceClass) :
    (∀ w, Reachable cls w →
      (w.sources.map GSource.id).Nodup ∧
      (w.dev.act_source_id = 0 ∨ ∃ s ∈ w.sources, s.id = w.dev.act_source_id) ∧
      (w.sources.filter (fun s => s.id = w.dev.act_source_id)).length ≤ 1) ∧
    (∀ req w,
      ScheduleEffect NMActStage.device_prepare StageCallback.stage1_device_prepare req w
        (nm_device_activate_schedule_stage1_device_prepare req w) ∧
      ScheduleEffect NMActStage.device_config StageCallback.stage2_device_config req w
        (nm_device_activate_schedule_stage2_device_config req w) ∧
      ScheduleEffect NMActStage.ip_config_start StageCallback.stage3_ip_config_start req w
        (nm_device_activate_schedule_stage3_ip_config_start req w) ∧
      ScheduleEffect NMActStage.ip_config_get StageCallback.stage4_ip_config_get req w
        (nm_device_activate_schedule_stage4_ip_config_get req w) ∧
      ScheduleEffect NMActStage.ip_config_get StageCallback.stage4_ip_config_timeout req w
        (nm_device_activate_schedule_stage4_ip_config_timeout req w) ∧
      ScheduleEffect NMActStage.ip_config_commit StageCallback.stage5_ip_config_commit req w
        (nm_device_activate_schedule_stage5_ip_config_commit req w)) := by
  constructor
  · intro w h
    obtain ⟨⟨-, hnd⟩, hm⟩ := reachable_markerInv cls w h
    exact ⟨hnd, hm, filter_id_length_le_one _ _ hnd⟩
  · intro req w
    refine ⟨?_, ?_, ?_, ?_, ?_, ?_⟩ <;>
    simp [ScheduleEffect, nm_device_activate_schedule_stage1_device_prepare,
      nm_device_activate_schedule_stage2_device_config,
      nm_device_activate_schedule_stage3_ip_config_start,
      nm_device_activate_schedule_stage4_ip_config_get,
      nm_device_activate_schedule_stage4_ip_config_timeout,
      nm_device_activate_schedule_stage5_ip_config_commit,
      schedule_stage, g_idle_add, nm_act_request_set_stage, World.setReq]

/-- The marker on "eth0" after `nm_device_activate`. -/
theorem schedule_records_marker_witness :
    ((nm_device_activate 7 eth0).sources.map GSource.id).Nodup ∧
    ((nm_device_activate 7 eth0).dev.act_source_id = 0 ∨
      ∃ s ∈ (nm_device_activate 7 eth0).sources,
        s.id = (nm_device_activate 7 eth0).dev.act_source_id) ∧
    ((nm_device_activate 7 eth0).sources.filter
      (fun s => s.id = (nm_device_activate 7 eth0).dev.act_source_id)).length ≤ 1 :=
  (schedule_records_marker nm_device_class_init).1 (nm_device_activate 7 eth0)
    (Reachable.step _ _ (Reachable.init eth0 ⟨rfl, rfl, rfl, rfl⟩) (Step.activate eth0 7))

/-! ## C4 and C5: DHCP notifications -/

/-- C4: a DHCP notification is discarded, leaving the whole world (device
state, stage tags, scheduled continuations, policy notifications) as it
was, when the device has no request, or the interface name differs from
the device's, or the attached request is not at IpConfigStart; this holds
for the handler and for the delivery to every connected handler. -/
theorem dhcp_notification_discarded (iface : String) (st : NMDHCPState) (w : World)
    (h : w.dev.act_request = none ∨ iface ≠ w.dev.iface ∨
      ∃ r, w.dev.act_request = some r ∧ (w.reqs r).stage ≠ NMActStage.ip_config_start) :
    dhcp_state_changed iface st w = w ∧ nm_dhcp_manager_emit_state_changed iface st w = w := by
  have h1 : dhcp_state_changed iface st w = w := by
    unfold dhcp_state_changed nm_device_get_act_request nm_device_get_iface nm_act_request_get_stage
    rcases h with h | h | ⟨r, hr, hs⟩
    · simp [h]
    · cases hreq : w.dev.act_request with
      | none => rfl
      | some r =>
        have h2 : ¬ (w.dev.iface = iface) := fun e => h e.symm
        simp [h2]
    · simp [hr, hs]
  refine ⟨h1, ?_⟩
  unfold nm_dhcp_manager_emit_state_changed
  induction w.dhcp_handlers with
  | nil => rfl
  | cons a l ih => simpa [List.foldl, h1] using ih

/-- C4 on the idle device "eth0", which has no request. -/
theorem dhcp_notification_discarded_witness :
    dhcp_state_changed "eth0" NMDHCPState.bound eth0 = eth0 ∧
    nm_dhcp_manager_emit_state_changed "eth0" NMDHCPState.bound eth0 = eth0 :=
  dhcp_notification_discarded "eth0" NMDHCPState.bound eth0 (Or.inl rfl)

/-- C5: for a notification the handler accepts (request attached, matching
interface name, request at IpConfigStart), Bound, Renew, Reboot and Rebind
schedule the stage-4 Get continuation, Timeout schedules the stage-4
Timeout continuation, Fail, Abend and End notify the policy of the failure
and schedule nothing, and any other outcome changes nothing. -/
theorem dhcp_outcome_mapping (iface : String) (w : World) (r : ReqId)
    (hreq : w.dev.act_request = some r) (hif : iface = w.dev.iface)
    (hst : (w.reqs r).stage = NMActStage.ip_config_start) :
    (∀ st, st = NMDHCPState.bound ∨ st = NMDHCPState.renew ∨ st = NMDHCPState.reboot ∨
        st = NMDHCPState.rebind →
      dhcp_state_changed iface st w = nm_device_activate_schedule_stage4_ip_config_get r w ∧
      (dhcp_state_changed iface st w).sources =
        w.sources ++ [⟨w.sources_created + 1, StageCallback.stage4_ip_config_get, r⟩] ∧
      (dhcp_state_changed iface st w).trace = w.trace) ∧
    (dhcp_state_changed iface NMDHCPState.timeout w =
        nm_device_activate_schedule_stage4_ip_config_timeout r w ∧
      (dhcp_state_changed iface NMDHCPState.timeout w).sources =
        w.sources ++ [⟨w.sources_created + 1, StageCallback.stage4_ip_config_timeout, r⟩] ∧
      (dhcp_state_changed iface NMDHCPState.timeout w).trace = w.trace) ∧
    (∀ st, st = NMDHCPState.fail ∨ st = NMDHCPState.abend ∨ st = NMDHCPState.end_ →
      dhcp_state_changed iface st w = w.emit (Event.policy_activation_failed r) ∧
      (dhcp_state_changed iface st w).sources = w.sources ∧
      (dhcp_state_changed iface st w).reqs = w.reqs ∧
      (dhcp_state_changed iface st w).dev = w.dev) ∧
    (∀ code, dhcp_state_changed iface (NMDHCPState.other code) w = w) := by
  subst hif
  refine ⟨?_, ?_, ?_, ?_⟩
  · rintro st (rfl | rfl | rfl | rfl) <;>
    simp [dhcp_state_changed, nm_device_get_act_request, nm_device_get_iface,
      nm_act_request_get_stage, hreq, hst, nm_device_activate_schedule_stage4_ip_config_get,
      schedule_stage, g_idle_add, nm_act_request_set_stage, World.setReq]
  · simp [dhcp_state_changed, nm_device_get_act_request, nm_device_get_iface,
      nm_act_request_get_stage, hreq, hst, nm_device_activate_schedule_stage4_ip_config_timeout,
      schedule_stage, g_idle_add, nm_act_request_set_stage, World.setReq]
  · rintro st (rfl | rfl | rfl) <;>
    simp [dhcp_state_changed, nm_device_get_act_request, nm_device_get_iface,
      nm_act_request_get_stage, hreq, hst, nm_policy_schedule_activation_failed, World.emit]
  · intro code
    simp [dhcp_state_changed, nm_device_get_act_request, nm_device_get_iface,
      nm_act_request_get_stage, hreq, hst]


/-- C5 on "eth0" in state Config with request 7 at IpConfigStart. -/
theorem dhcp_outcome_mapping_witness :
    (dhcp_state_changed "eth0" NMDHCPState.timeout eth0Config).sources =
      eth0Config.sources ++ [⟨eth0Config.sources_created + 1,
        StageCallback.stage4_ip_config_timeout, 7⟩] :=
  (dhcp_outcome_mapping "eth0" eth0Config 7 rfl rfl rfl).2.1.2.1

/-! ## C6 and C7: starting an activation -/

/-- C6: on a device that is already activating, `nm_device_activate` changes
nothing at all (request, state, marker, stage tags, queue). -/
theorem activate_while_activating_is_noop (r : ReqId) (w : World)
    (h : nm_device_is_activating w = true) : nm_device_activate r w = w := by
  unfold nm_device_activate
  have : w.dev.state ≠ NMDeviceState.disconnected := by
    intro hs
    simp [nm_device_is_activating, nm_device_get_state, hs] at h
  simp [this]

/-- C6 on "eth0" in state Config. -/
theorem activate_while_activating_is_noop_witness : nm_device_activate 9 eth0Config = eth0Config :=
  activate_while_activating_is_noop 9 eth0Config (by decide)

/-- C7: on a Disconnected device `nm_device_activate` attaches the request,
sets its stage tag to DevicePrepare, appends exactly the stage-1
continuation to the queue and records it in the marker; the state is still
Disconnected and the calls made are the reference, the broadcast and the
status signal, so no stage body and no device hook has run. -/
theorem activate_schedules_stage1_only (r : ReqId) (w : World)
    (h : w.dev.state = NMDeviceState.disconnected) :
    (nm_device_activate r w).dev.act_request = some r ∧
    ((nm_device_activate r w).reqs r).stage = NMActStage.device_prepare ∧
    (nm_device_activate r w).sources =
      w.sources ++ [⟨w.sources_created + 1, StageCallback.stage1_device_prepare, r⟩] ∧
    (nm_device_activate r w).dev.act_source_id = w.sources_created + 1 ∧
    (nm_device_activate r w).dev.state = NMDeviceState.disconnected ∧
    (nm_device_activate r w).trace =
      w.trace ++ [Event.act_request_ref r, Event.state_change_signal_broadcast,
        Event.dbus_device_status_change DeviceStatus.activating] := by
  simp [nm_device_activate, h, nm_device_activate_schedule_stage1_device_prepare, schedule_stage,
    g_idle_add, nm_act_request_set_stage, nm_act_request_ref, World.emit, World.setReq]

/-- C7 on the idle device "eth0". -/
theorem activate_schedules_stage1_only_witness :
    (nm_device_activate 7 eth0).sources = [⟨1, StageCallback.stage1_device_prepare, 7⟩] ∧
    (nm_device_activate 7 eth0).trace =
      [Event.act_request_ref 7, Event.state_change_signal_broadcast,
        Event.dbus_device_status_change DeviceStatus.activating] :=
  ⟨(activate_schedules_stage1_only 7 eth0 rfl).2.2.1, (activate_schedules_stage1_only 7 eth0 rfl).2.2.2.2.2⟩

/-! ## C8, C9 and C10: cancellation -/

/-- C8: on a device that is not activating, `nm_device_activation_cancel`
returns with the world unchanged: request, state, marker, queue and
reference counts are as before and no call (cancel hook, unref, broadcast)
is added to the trace. -/
theorem cancel_when_idle_is_noop (env : Env) (w : World)
    (h : nm_device_is_activating w = false) : nm_device_activation_cancel env w = some w := by
  simp [nm_device_activation_cancel, h]

/-- C8 on the idle device "eth0". -/
theorem cancel_when_idle_is_noop_witness : nm_device_activation_cancel {} eth0 = some eth0 :=
  cancel_when_idle_is_noop {} eth0 (by decide)

/-- C9: on an activating device holding request `r`,
`nm_device_activation_cancel` drops the reference on `r` exactly once and
leaves no request attached; `nm_device_deactivate_quickly` runs that
cancellation and, the request being gone, its own tear-down releases
nothing more: after it the only further calls are those of the variant's
`deactivate_quickly` hook, so `r` is released once, never twice. -/
theorem request_released_once (cls : NMDeviceClass) (env : Env) (w : World) (r : ReqId)
    (hact : nm_device_is_activating w = true) (happ : w.dev.app_data = true)
    (hreq : w.dev.act_request = some r) :
    (∃ w2, nm_device_activation_cancel env w = some w2 ∧ w2.dev.act_request = none ∧
      unrefs r w2.trace = unrefs r w.trace + 1 ∧
      (w2.reqs r).refcount = (w.reqs r).refcount - 1) ∧
    (∃ w1 w2, nm_device_activation_cancel env
          ((w.emit Event.system_shutdown_nis).emit Event.vpn_manager_deactivate_vpn_connection)
          = some w1 ∧
      unrefs r w1.trace = unrefs r w.trace + 1 ∧
      nm_device_deactivate_quickly cls env w = some (true, w2) ∧
      w2.dev.act_request = none ∧
      (w2.reqs r).refcount = (w.reqs r).refcount - 1 ∧
      w2.trace = w1.trace ++
        (match cls.deactivate_quickly with
         | some h => Event.class_hook ClassHook.deactivate_quickly :: h env w1
         | none => []) ∧
      (cls.deactivate_quickly = none → unrefs r w2.trace = unrefs r w.trace + 1)) := by
  constructor
  · obtain ⟨w2, h, h1, -, -, h2, h3⟩ := cancel_releases_once env w r hact happ hreq
    exact ⟨w2, h, h1, h2, h3⟩
  · obtain ⟨w1, h, h1, hst, happ1, h2, h3⟩ := cancel_releases_once env
      ((w.emit Event.system_shutdown_nis).emit Event.vpn_manager_deactivate_vpn_connection) r
      hact happ hreq
    have h2' : unrefs r w1.trace = unrefs r w.trace + 1 := by
      rw [h2]; simp [World.emit, unrefs, List.count_cons]
    have hna : (nm_device_get_state
        ((w.emit Event.system_shutdown_nis).emit Event.vpn_manager_deactivate_vpn_connection)
          = NMDeviceState.activated) = False := by
      simp only [nm_device_is_activating, nm_device_get_state, World.emit] at hact ⊢
      cases hs : w.dev.state <;> simp [hs] at hact <;> simp
    have hact' : nm_device_is_activating
        ((w.emit Event.system_shutdown_nis).emit Event.vpn_manager_deactivate_vpn_connection)
          = true := hact
    cases hq : cls.deactivate_quickly with
    | none =>
        refine ⟨w1, w1, h, h2', ?_, h1, h3, by simp, fun _ => h2'⟩
        unfold nm_device_deactivate_quickly
        simp [happ, hna, hact', h, nm_device_get_act_request, h1, hq]
    | some hk =>
        refine ⟨w1, w1.callHook ClassHook.deactivate_quickly (hk env w1), h, h2', ?_, h1, h3,
          by simp [World.callHook, World.emit, World.emits], fun hn => by simp at hn⟩
        unfold nm_device_deactivate_quickly
        simp [happ, hna, hact', h, nm_device_get_act_request, h1, hq]


/-- C9 on "eth0" in state Config with request 7. -/
theorem request_released_once_witness :
    ∃ w2, nm_device_activation_cancel {} eth0Config = some w2 ∧ w2.dev.act_request = none ∧
      unrefs 7 w2.trace = unrefs 7 eth0Config.trace + 1 ∧
      (w2.reqs 7).refcount = (eth0Config.reqs 7).refcount - 1 :=
  (request_released_once nm_device_class_init {} eth0Config 7 (by decide) rfl rfl).1

/-- C10 fails on the code: after the run `leaseBeforeStage3` the device is
activating with two continuations of request 7 queued (stage 3 as source 3,
stage 4 as source 4, the marker naming source 4);
`nm_device_activation_cancel` removes source 4 only, so the stage-3
continuation of the cancelled request stays queued, and the next main-loop
iteration runs the stage-3 body for it (state IpConfig, a DHCP transaction
is begun). -/
theorem cancel_leaves_stage3_scheduled :
    leaseBeforeStage3.map (fun w => (nm_device_is_activating w, w.dev.act_request, w.sources))
      = some (true, some 7, [⟨3, StageCallback.stage3_ip_config_start, 7⟩,
                    ⟨4, StageCallback.stage4_ip_config_get, 7⟩]) ∧
    (leaseBeforeStage3.bind (nm_device_activation_cancel {})).map
        (fun w => (w.dev.act_request, w.sources))
      = some (none, [⟨3, StageCallback.stage3_ip_config_start, 7⟩]) ∧
    ((leaseBeforeStage3.bind (nm_device_activation_cancel {})).bind
        (g_main_context_iteration nm_device_class_init {})).map
        (fun w => (w.dev.state, w.trace.getLast?))
      = some (NMDeviceState.ip_config, some (Event.dhcp_begin_transaction "eth0")) := by
  decide

/-! ## What the stage bodies leave untouched -/

theorem frame_refl (x : World) : Frame x x :=
  ⟨fun _ => rfl, fun _ => rfl, rfl, rfl, rfl, rfl, Or.inl rfl⟩

theorem frame_trans {x y z : World} (h1 : Frame x y) (h2 : Frame y z) : Frame x z := by
  obtain ⟨a1, b1, c1, d1, e1, f1, g1⟩ := h1
  obtain ⟨a2, b2, c2, d2, e2, f2, g2⟩ := h2
  refine ⟨fun r => (a2 r).trans (a1 r), fun r => (b2 r).trans (b1 r), c2.trans c1, d2.trans d1,
    e2.trans e1, f2.trans f1, ?_⟩
  rcases g2 with g2 | g2
  · rcases g1 with g1 | g1
    · exact Or.inl (g2.trans g1)
    · exact Or.inr (g2.trans g1)
  · exact Or.inr g2

theorem cancel_frame (env : Env) (w w2 : World)
    (h : nm_device_activation_cancel env w = some w2) : Frame w w2 := by
  unfold nm_device_activation_cancel at h
  split at h
  · cases h; exact frame_refl w
  · split at h
    · cases h
    · simp only [Option.some.injEq] at h
      subst h
      rcases w with ⟨⟨st, ifc, cap, la, ip, app, ar, sid, cfg, dm, dsi⟩, reqs, srcs, sc, dh, hcn, tr⟩
      by_cases hs : sid = 0 <;> cases ar <;>
      simp [Frame, hs, nm_device_class_init, World.callHook, World.emit, World.emits,
        nm_act_request_unref, World.setReq, g_source_remove] <;>
      constructor <;> intro r <;> split <;> simp_all

theorem update_ip4_address_frame (env : Env) (x : World) :
    Frame x (nm_device_update_ip4_address env x) := by
  unfold nm_device_update_ip4_address
  split
  · exact frame_refl x
  · simp only
    split
    · exact frame_refl _
    · split <;> exact frame_refl _

theorem deactivate_quickly_frame (cls : NMDeviceClass) (env : Env) (w w2 : World) (b : Bool)
    (h : nm_device_deactivate_quickly cls env w = some (b, w2)) : Frame w w2 := by
  unfold nm_device_deactivate_quickly at h
  by_cases happ : w.dev.app_data = false
  · simp only [happ, if_true, Option.some.injEq, Prod.mk.injEq] at h
    obtain ⟨-, rfl⟩ := h
    exact frame_refl w
  · rw [if_neg happ] at h
    simp only [] at h
    split at h
    · cases h
    · rename_i w1 h1
      simp only [Option.some.injEq, Prod.mk.injEq] at h
      obtain ⟨-, rfl⟩ := h
      have ha : Frame w w1 := by
        split at h1
        · cases h1; exact frame_refl w
        · split at h1
          · exact frame_trans (y := (w.emit Event.system_shutdown_nis).emit
              Event.vpn_manager_deactivate_vpn_connection) (frame_refl w)
              (cancel_frame env _ w1 h1)
          · cases h1; exact frame_refl w
      refine frame_trans ha ?_
      rcases w1 with ⟨⟨st, ifc, cap, la, ip, app, ar, sid, cfg, dm, dsi⟩, reqs, srcs, sc, dh, hcn, tr⟩
      cases ar <;> cases hq : cls.deactivate_quickly <;>
      simp [Frame, nm_device_get_act_request, World.callHook, World.emit, World.emits,
        nm_act_request_unref, World.setReq, nm_device_get_iface] <;>
      constructor <;> intro r <;> split <;> simp_all

theorem update_ip4_address_shape (env : Env) (x : World) :
    ∃ a t, nm_device_update_ip4_address env x =
      { x with dev := { x.dev with ip4_address := a }, trace := t } := by
  unfold nm_device_update_ip4_address
  split
  · exact ⟨_, _, rfl⟩
  · simp only
    split
    · exact ⟨_, _, rfl⟩
    · split
      · exact ⟨_, _, rfl⟩
      · exact ⟨_, _, rfl⟩

theorem deactivate_frame (cls : NMDeviceClass) (env : Env) (w w2 : World)
    (h : nm_device_deactivate cls env w = some w2) : Frame w w2 := by
  unfold nm_device_deactivate at h
  by_cases happ : w.dev.app_data = false
  · simp only [happ, if_true, Option.some.injEq] at h
    subst h
    exact frame_refl w
  · rw [if_neg happ] at h
    simp only [] at h
    split at h
    · cases h
    · rename_i b w1 h1
      simp only [Option.some.injEq] at h
      subst h
      refine frame_trans (deactivate_quickly_frame cls env w w1 b h1) ?_
      cases hc : nm_device_get_ip4_config w1 <;> cases hd : cls.deactivate <;>
      simp only [] <;>
      (obtain ⟨a, t, hu⟩ := update_ip4_address_shape env _
       rw [hu]
       simp [Frame, nm_device_state_changed_plain, World.emit, World.callHook,
        World.emits, nm_device_set_ip4_config])

theorem stage_failed_frame (cls : NMDeviceClass) (env : Env) (req : ReqId) (x w2 : World)
    (h : stage_failed cls env req x = some w2) : Frame x w2 := by
  unfold stage_failed nm_device_state_changed nm_device_interface_deactivate at h
  simp only at h
  split at h
  · cases h
  · rename_i y hy
    split at hy
    · cases hy
    · rename_i z hz
      cases hy
      cases h
      have := deactivate_frame cls env
        { x with dev := { x.dev with state := NMDeviceState.failed } } z hz
      exact frame_trans (y := z) this (frame_refl _)

/-! ## C14 and C15: the commit of stage 5 -/

theorem stage5_link_world_spec (env : Env) (c : NMIP4Config) (w : World)
    (happ : w.dev.app_data = true) :
    (stage5_link_world env c w).trace = w.trace ++
        [Event.system_device_set_from_ip4_config (some c), Event.get_ifaddr,
         Event.system_device_add_ip6_link_address, Event.system_restart_mdns_responder,
         Event.system_set_hostname (some c), Event.system_activate_nis (some c),
         Event.system_set_mtu] ∧
    (stage5_link_world env c w).dev.ip4_config = some c := by
  rcases w with ⟨⟨st, ifc, cap, la, ip, app, ar, sid, cfg, dm, dsi⟩, reqs, srcs, sc, dh, hcn, tr⟩
  simp only at happ
  subst happ
  unfold stage5_link_world clear_act_source_id nm_device_update_ip4_address
  constructor <;>
  · split <;> cases env.ifaddr <;>
      simp [nm_device_set_ip4_config, World.emit] <;> split <;> simp


/-- C14: when the stage-5 body runs on a device for a request holding
configuration `c` and the backend's `set_from_ip4_config` returns true, the
body returns, the device's committed configuration is `c`, the state is
Activated, and the calls made are, in this order: the installation of `c`,
the refresh of the cached address, the IPv6 link-local address, the mDNS
restart, hostname, NIS, MTU, the `update_link` hook when the variant has
one, the state-changed signal for Activated and last, once, the policy's
`activation_finish` for the request. -/
theorem commit_success_effects (cls : NMDeviceClass) (env : Env) (req : ReqId) (w : World)
    (c : NMIP4Config) (happ : w.dev.app_data = true)
    (hc : nm_act_request_get_ip4_config w req = some c)
    (hok : env.set_from_ip4_config = true) :
    ∃ w2, nm_device_activate_stage5_ip_config_commit cls env req w = some w2 ∧
      w2.dev.ip4_config = some c ∧ w2.dev.state = NMDeviceState.activated ∧
      w2.trace = w.trace ++
        [Event.system_device_set_from_ip4_config (some c), Event.get_ifaddr,
         Event.system_device_add_ip6_link_address, Event.system_restart_mdns_responder,
         Event.system_set_hostname (some c), Event.system_activate_nis (some c),
         Event.system_set_mtu] ++ update_link_events cls env (stage5_link_world env c w) ++
        [Event.state_changed_signal NMDeviceState.activated,
         Event.policy_activation_finish req] := by
  obtain ⟨htr, hcfg⟩ := stage5_link_world_spec env c w happ
  have hb : nm_device_activate_stage5_ip_config_commit cls env req w =
      some (nm_policy_schedule_activation_finish req
        (nm_device_state_changed_plain NMDeviceState.activated
          ((stage5_link_world env c w).emits (update_link_events cls env (stage5_link_world env c w))))) := by
    unfold nm_device_activate_stage5_ip_config_commit update_link_events
    simp only [hc, hok, if_true, nm_device_state_changed, Option.bind_eq_bind, Option.some_bind]
    cases cls.update_link <;> simp [stage5_link_world, World.callHook, World.emits, World.emit]
  refine ⟨_, hb, ?_, ?_, ?_⟩
  · simpa [nm_policy_schedule_activation_finish, nm_device_state_changed_plain, World.emit,
      World.emits] using hcfg
  · simp [nm_policy_schedule_activation_finish, nm_device_state_changed_plain, World.emit,
      World.emits]
  · simp [nm_policy_schedule_activation_finish, nm_device_state_changed_plain, World.emit,
      World.emits, htr]

/-- C14 on "eth0" with request 7, base class (no `update_link` hook). -/
theorem commit_success_effects_witness :
    ∃ w2, nm_device_activate_stage5_ip_config_commit nm_device_class_init {} 7 eth0Config
        = some w2 ∧
      w2.dev.ip4_config = some {} ∧ w2.dev.state = NMDeviceState.activated ∧
      w2.trace = eth0Config.trace ++
        [Event.system_device_set_from_ip4_config (some {}), Event.get_ifaddr,
         Event.system_device_add_ip6_link_address, Event.system_restart_mdns_responder,
         Event.system_set_hostname (some {}), Event.system_activate_nis (some {}),
         Event.system_set_mtu] ++
        update_link_events nm_device_class_init {} (stage5_link_world {} {} eth0Config) ++
        [Event.state_changed_signal NMDeviceState.activated,
         Event.policy_activation_finish 7] :=
  commit_success_effects nm_device_class_init {} 7 eth0Config {} rfl rfl rfl

theorem newCalls_of_drop {x y l : List Event} (h1 : x <+: y)
    (h2 : (y.drop x.length).filter isCommitOrPolicyCall = l) : NewCalls x y l := by
  obtain ⟨es, rfl⟩ := h1
  exact ⟨es, rfl, by simpa using h2⟩

theorem newCalls_trans {x y z l1 l2 : List Event} (h1 : NewCalls x y l1) (h2 : NewCalls y z l2) :
    NewCalls x z (l1 ++ l2) := by
  obtain ⟨e1, rfl, rfl⟩ := h1
  obtain ⟨e2, rfl, rfl⟩ := h2
  exact ⟨e1 ++ e2, by simp, by simp⟩

theorem deactivate_eq_tail (cls : NMDeviceClass) (env : Env) (w : World)
    (happ : w.dev.app_data = true) (hst : w.dev.state ≠ NMDeviceState.activated)
    (hact : nm_device_is_activating w = false) :
    nm_device_deactivate_quickly cls env w = some (true, deactivate_quickly_tail cls env
      ((w.emit Event.system_shutdown_nis).emit Event.vpn_manager_deactivate_vpn_connection)) ∧
    nm_device_deactivate cls env w = some (deactivated_world cls env w) := by
  have h1 : nm_device_deactivate_quickly cls env w = some (true, deactivate_quickly_tail cls env
      ((w.emit Event.system_shutdown_nis).emit Event.vpn_manager_deactivate_vpn_connection)) := by
    have hact' : nm_device_is_activating
        ((w.emit Event.system_shutdown_nis).emit Event.vpn_manager_deactivate_vpn_connection)
          = false := hact
    have hst' : ¬ nm_device_get_state
        ((w.emit Event.system_shutdown_nis).emit Event.vpn_manager_deactivate_vpn_connection)
          = NMDeviceState.activated := hst
    unfold nm_device_deactivate_quickly
    simp only [happ, Bool.true_eq_false, if_false, hact', hst']
    rfl
  refine ⟨h1, ?_⟩
  unfold nm_device_deactivate
  simp only [happ, Bool.true_eq_false, if_false, h1]
  rfl

theorem deactivate_quickly_tail_calls (cls : NMDeviceClass) (env : Env) (w : World)
    (hquiet : DeactivateHooksQuiet cls env) :
    NewCalls w.trace (deactivate_quickly_tail cls env w).trace [] := by
  rcases w with ⟨⟨st, ifc, cap, la, ip, app, ar, sid, cfg, dm, dsi⟩, reqs, srcs, sc, dh, hcn, tr⟩
  have hq := hquiet.2
  unfold isCommitOrPolicyCall at hq
  unfold deactivate_quickly_tail
  cases ar <;> cases hqq : cls.deactivate_quickly <;>
    refine newCalls_of_drop ?_ ?_ <;>
    simp [nm_device_get_act_request, World.emit, World.callHook, World.emits,
      nm_act_request_unref, World.setReq, nm_device_get_iface, isCommitOrPolicyCall] <;>
    exact hq _ _ hqq

theorem deactivate_tail_calls (cls : NMDeviceClass) (env : Env) (w : World)
    (hquiet : DeactivateHooksQuiet cls env) :
    NewCalls w.trace (deactivate_tail cls env w).trace [] := by
  rcases w with ⟨⟨st, ifc, cap, la, ip, app, ar, sid, cfg, dm, dsi⟩, reqs, srcs, sc, dh, hcn, tr⟩
  have hd := hquiet.1
  unfold isCommitOrPolicyCall at hd
  unfold deactivate_tail nm_device_update_ip4_address
  cases app <;> cases cfg <;> cases hdd : cls.deactivate <;> cases ha : env.ifaddr <;>
    refine newCalls_of_drop ?_ ?_ <;>
    simp [nm_device_get_ip4_config, nm_device_set_ip4_config, World.emit, World.callHook,
      World.emits, nm_device_state_changed_plain, isCommitOrPolicyCall] <;>
    (try split) <;>
    (try simp [isCommitOrPolicyCall]) <;>
    (try (first
      | exact hd _ _ hdd
      | (rintro a (ha | rfl | rfl) <;> first | exact hd _ _ hdd a ha | rfl)))
theorem newCalls_refl (x : List Event) : NewCalls x x [] := ⟨[], by simp, rfl⟩

theorem newCalls_emit (w : World) (e : Event) :
    NewCalls w.trace (w.emit e).trace (if isCommitOrPolicyCall e then [e] else []) := by
  refine ⟨[e], rfl, ?_⟩
  cases h : isCommitOrPolicyCall e <;> simp [List.filter, h]

theorem stage_failed_calls (cls : NMDeviceClass) (env : Env) (req : ReqId) (w : World)
    (hquiet : DeactivateHooksQuiet cls env) :
    ∃ w2 : World, stage_failed cls env req w = some w2 ∧
      NewCalls w.trace w2.trace [Event.policy_activation_failed req] := by
  cases happ : w.dev.app_data
  · refine ⟨((({ w with dev := { w.dev with state := NMDeviceState.failed } } : World).emit
        (Event.state_changed_signal NMDeviceState.failed)).emit
        (Event.policy_activation_failed req)), ?_, ?_⟩
    · unfold stage_failed nm_device_state_changed nm_device_interface_deactivate
        nm_device_deactivate
      simp only [happ, if_true]
      rfl
    · exact newCalls_trans
        (newCalls_emit { w with dev := { w.dev with state := NMDeviceState.failed } }
          (Event.state_changed_signal NMDeviceState.failed))
        (newCalls_emit _ (Event.policy_activation_failed req))
  · have h2 := (deactivate_eq_tail cls env
      { w with dev := { w.dev with state := NMDeviceState.failed } } happ
      (by simp) rfl).2
    refine ⟨((deactivated_world cls env
        { w with dev := { w.dev with state := NMDeviceState.failed } }).emit
        (Event.state_changed_signal NMDeviceState.failed)).emit
        (Event.policy_activation_failed req), ?_, ?_⟩
    · unfold stage_failed nm_device_state_changed nm_device_interface_deactivate
      simp only [h2]
      rfl
    · have e1 := newCalls_emit
        { w with dev := { w.dev with state := NMDeviceState.failed } } Event.system_shutdown_nis
      have e2 := newCalls_emit
        (({ w with dev := { w.dev with state := NMDeviceState.failed } } : World).emit
          Event.system_shutdown_nis) Event.vpn_manager_deactivate_vpn_connection
      have e3 := deactivate_quickly_tail_calls cls env
        ((({ w with dev := { w.dev with state := NMDeviceState.failed } } : World).emit
          Event.system_shutdown_nis).emit Event.vpn_manager_deactivate_vpn_connection) hquiet
      have e4 := deactivate_tail_calls cls env (deactivate_quickly_tail cls env
        ((({ w with dev := { w.dev with state := NMDeviceState.failed } } : World).emit
          Event.system_shutdown_nis).emit Event.vpn_manager_deactivate_vpn_connection)) hquiet
      have e5 := newCalls_emit (deactivated_world cls env
        { w with dev := { w.dev with state := NMDeviceState.failed } })
        (Event.state_changed_signal NMDeviceState.failed)
      have e6 := newCalls_emit ((deactivated_world cls env
        { w with dev := { w.dev with state := NMDeviceState.failed } }).emit
        (Event.state_changed_signal NMDeviceState.failed)) (Event.policy_activation_failed req)
      exact newCalls_trans (newCalls_trans (newCalls_trans (newCalls_trans
        (newCalls_trans e1 e2) e3) e4) e5) e6

/-- C15: when the stage-5 body runs for a request holding a configuration
and the backend's `set_from_ip4_config` returns false, the body returns and,
among the calls it made, those adding the IPv6 link-local address,
restarting mDNS, applying hostname, NIS or MTU, or notifying the policy are
exactly one: the policy's `activation_failed` for the request.  The variant's
deactivation hooks are taken not to make such calls themselves. -/
theorem commit_failure_effects (cls : NMDeviceClass) (env : Env) (req : ReqId) (w : World)
    (c : NMIP4Config)
    (hc : nm_act_request_get_ip4_config w req = some c)
    (hset : env.set_from_ip4_config = false)
    (hquiet : DeactivateHooksQuiet cls env) :
    ∃ w2 : World, nm_device_activate_stage5_ip_config_commit cls env req w = some w2 ∧
      NewCalls w.trace w2.trace [Event.policy_activation_failed req] := by
  have hb : nm_device_activate_stage5_ip_config_commit cls env req w =
      stage_failed cls env req
        ((nm_device_set_ip4_config (some c) (clear_act_source_id w)).emit
          (Event.system_device_set_from_ip4_config (some c))) := by
    unfold nm_device_activate_stage5_ip_config_commit
    simp only [hc, hset]
    rfl
  obtain ⟨w2, h1, h2⟩ := stage_failed_calls cls env req
    ((nm_device_set_ip4_config (some c) (clear_act_source_id w)).emit
      (Event.system_device_set_from_ip4_config (some c))) hquiet
  refine ⟨w2, hb.trans h1, ?_⟩
  have e0 : NewCalls w.trace
      ((nm_device_set_ip4_config (some c) (clear_act_source_id w)).emit
        (Event.system_device_set_from_ip4_config (some c))).trace [] := by
    refine ⟨[Event.system_device_set_from_ip4_config (some c)], ?_, rfl⟩
    unfold clear_act_source_id nm_device_set_ip4_config World.emit
    split <;> rfl
  exact newCalls_trans e0 h2

/-- C15 on "eth0" with request 7 and a backend whose installation fails. -/
theorem commit_failure_effects_witness :
    ∃ w2 : World,
      nm_device_activate_stage5_ip_config_commit nm_device_class_init failingInstall 7 eth0Config
        = some w2 ∧
      NewCalls eth0Config.trace w2.trace [Event.policy_activation_failed 7] :=
  commit_failure_effects nm_device_class_init failingInstall 7 eth0Config {} rfl rfl
    ⟨fun _ _ h => by simp [nm_device_class_init] at h,
     fun _ _ h => by simp [nm_device_class_init] at h⟩

/-! ## C17 and the stage-3 body: DHCP in stages 3 and 4 -/

/-- The stage-3 body when no notification has come before it: on a DHCP
device with the default stage-3 hook, request `req` attached and tagged
IpConfigStart and the stage-3 continuation the only one queued, when
`begin_transaction` returns true the stage-3 body returns with
the state IpConfig, the stage tag IpConfigStart, nothing added to the queue,
the marker cleared and no call to the policy (the calls are the state
signal, the hook and `begin_transaction` on the interface); the main-loop
iteration that ran it leaves the queue empty, every further iteration
changes nothing, and a Bound notification for the interface then schedules
stage 4 Get. -/
theorem dhcp_start_postpones (cls : NMDeviceClass) (env : Env) (req : ReqId) (w : World)
    (id : Nat)
    (hhook : cls.act_stage3_ip_config_start = real_act_stage3_ip_config_start)
    (hdhcp : nm_device_get_use_dhcp w = true)
    (hbegin : env.dhcp_begin_transaction = true)
    (htag : (w.reqs req).stage = NMActStage.ip_config_start)
    (hreq : w.dev.act_request = some req)
    (hq : w.sources = [⟨id, StageCallback.stage3_ip_config_start, req⟩]) :
    ∃ w1 w2, nm_device_activate_stage3_ip_config_start cls env req w = some w1 ∧
      g_main_context_iteration cls env w = some w2 ∧
      w1.dev.state = NMDeviceState.ip_config ∧ w2.dev.state = NMDeviceState.ip_config ∧
      (w1.reqs req).stage = NMActStage.ip_config_start ∧
      (w2.reqs req).stage = NMActStage.ip_config_start ∧
      w1.sources = w.sources ∧ w1.dev.act_source_id = 0 ∧
      w2.sources = [] ∧ w2.dev.act_source_id = 0 ∧
      w1.trace = w.trace ++ [Event.state_changed_signal NMDeviceState.ip_config,
        Event.class_hook ClassHook.act_stage3_ip_config_start,
        Event.dhcp_begin_transaction w.dev.iface] ∧
      w2.trace = w1.trace ∧
      (∀ env2, g_main_context_iteration cls env2 w2 = some w2) ∧
      (dhcp_state_changed w.dev.iface NMDHCPState.bound w2).sources =
        [⟨w.sources_created + 1, StageCallback.stage4_ip_config_get, req⟩] := by
  have hb : nm_device_activate_stage3_ip_config_start cls env req w = some
      ((nm_device_state_changed_plain NMDeviceState.ip_config (clear_act_source_id w)).callHook
        ClassHook.act_stage3_ip_config_start [Event.dhcp_begin_transaction w.dev.iface]) := by
    have hd : nm_device_get_use_dhcp
        (nm_device_state_changed_plain NMDeviceState.ip_config (clear_act_source_id w)) = true := by
      unfold clear_act_source_id
      split <;> simpa [nm_device_get_use_dhcp, nm_device_state_changed_plain, World.emit] using hdhcp
    have hi : nm_device_get_iface
        (nm_device_state_changed_plain NMDeviceState.ip_config (clear_act_source_id w))
          = w.dev.iface := by
      unfold clear_act_source_id; split <;> rfl
    unfold nm_device_activate_stage3_ip_config_start
    simp only [nm_device_state_changed, Option.bind_eq_bind, Option.some_bind, hhook,
      real_act_stage3_ip_config_start, hd, hbegin, if_true, hi]
  have hcl := clear_cleared w
  have hr : (clear_act_source_id w).reqs = w.reqs := by
    unfold clear_act_source_id; split <;> rfl
  have ht : (clear_act_source_id w).trace = w.trace := by
    unfold clear_act_source_id; split <;> rfl
  have hdev : (clear_act_source_id w).dev.act_request = some req ∧
      (clear_act_source_id w).dev.iface = w.dev.iface := by
    unfold clear_act_source_id; split <;> exact ⟨hreq, rfl⟩
  have hit : g_main_context_iteration cls env w = some (g_source_remove id
      ((nm_device_state_changed_plain NMDeviceState.ip_config (clear_act_source_id w)).callHook
        ClassHook.act_stage3_ip_config_start [Event.dhcp_begin_transaction w.dev.iface])) := by
    unfold g_main_context_iteration
    rw [hq]
    simp only [run_callback, hb, Option.map_some']
  refine ⟨_, _, hb, hit, rfl, rfl, ?_, ?_, ?_, ?_, ?_, ?_, ?_, rfl, ?_, ?_⟩
  · simp [World.callHook, World.emit, World.emits, nm_device_state_changed_plain, hr, htag]
  · simp [World.callHook, World.emit, World.emits, nm_device_state_changed_plain, hr, htag,
      g_source_remove]
  · simpa [World.callHook, World.emit, World.emits, nm_device_state_changed_plain] using hcl.1
  · simpa [World.callHook, World.emit, World.emits, nm_device_state_changed_plain] using hcl.2.2
  · simp [World.callHook, World.emit, World.emits, nm_device_state_changed_plain, g_source_remove,
      hcl.1, hq]
  · simpa [World.callHook, World.emit, World.emits, nm_device_state_changed_plain,
      g_source_remove] using hcl.2.2
  · simp [World.callHook, World.emit, World.emits, nm_device_state_changed_plain, ht]
  · intro env2
    unfold g_main_context_iteration
    simp [World.callHook, World.emit, World.emits, nm_device_state_changed_plain, g_source_remove,
      hcl.1, hq]
  · simp [dhcp_state_changed, nm_device_get_act_request, nm_device_get_iface,
      nm_act_request_get_stage, World.callHook, World.emit, World.emits,
      nm_device_state_changed_plain, g_source_remove, hdev.1, hdev.2, hr, htag,
      nm_device_activate_schedule_stage4_ip_config_get, schedule_stage, g_idle_add,
      nm_act_request_set_stage, World.setReq, hcl.1, hcl.2.1, hq]

/-- The stage-3 body on "eth0" in state Config with stage 3 of request 7
alone in the queue. -/
theorem dhcp_start_postpones_witness :
    ∃ w2, g_main_context_iteration nm_device_class_init {} eth0Config = some w2 ∧
      w2.dev.state = NMDeviceState.ip_config ∧
      (w2.reqs 7).stage = NMActStage.ip_config_start ∧ w2.sources = [] ∧
      (∀ env2, g_main_context_iteration nm_device_class_init env2 w2 = some w2) := by
  obtain ⟨w1, w2, -, h2, -, h4, -, h6, -, -, h9, -, -, -, h13, -⟩ :=
    dhcp_start_postpones nm_device_class_init {} 7 eth0Config 3 rfl rfl rfl rfl rfl rfl
  exact ⟨w2, h2, h4, h6, h9, h13⟩

/-- C17: on a DHCP device with the default stage-4 hook, when the DHCP
manager returns configuration `c`: if `c` has MTU 0 the stage-4 Get body
stores on the request `c` with the MTU replaced by the backend's `get_mtu`
value (every other field as in `c`), after calling `get_mtu`; if the MTU of
`c` is not 0 the body stores `c` itself, does not call `get_mtu`, and its
result is the same whatever value `get_mtu` would return. -/
theorem dhcp_mtu_backfill (cls : NMDeviceClass) (env : Env) (req : ReqId) (w : World)
    (c : NMIP4Config)
    (hhook : cls.act_stage4_get_ip4_config = real_act_stage4_get_ip4_config)
    (hdhcp : nm_device_get_use_dhcp w = true)
    (hcfg : env.dhcp_ip4_config = some c) :
    (c.mtu = 0 →
      ∃ w2, nm_device_activate_stage4_ip_config_get cls env req w = some w2 ∧
        (w2.reqs req).ip4_config = some { c with mtu := env.system_mtu } ∧
        w2.trace = w.trace ++ [Event.class_hook ClassHook.act_stage4_get_ip4_config,
          Event.dhcp_get_ip4_config w.dev.iface, Event.system_get_mtu]) ∧
    (c.mtu ≠ 0 →
      ∃ w2, nm_device_activate_stage4_ip_config_get cls env req w = some w2 ∧
        (w2.reqs req).ip4_config = some c ∧
        w2.trace = w.trace ++ [Event.class_hook ClassHook.act_stage4_get_ip4_config,
          Event.dhcp_get_ip4_config w.dev.iface] ∧
        ∀ m, nm_device_activate_stage4_ip_config_get cls { env with system_mtu := m } req w
          = some w2) := by
  have hd : nm_device_get_use_dhcp (clear_act_source_id w) = true := by
    unfold clear_act_source_id; split <;> simpa [nm_device_get_use_dhcp] using hdhcp
  have hi : nm_device_get_iface (clear_act_source_id w) = w.dev.iface := by
    unfold clear_act_source_id; split <;> rfl
  have ht : (clear_act_source_id w).trace = w.trace := by
    unfold clear_act_source_id; split <;> rfl
  constructor
  · intro hm
    have hb : nm_device_activate_stage4_ip_config_get cls env req w = some
        (nm_device_activate_schedule_stage5_ip_config_commit req
          (nm_act_request_set_ip4_config req { c with mtu := env.system_mtu }
            ((clear_act_source_id w).callHook ClassHook.act_stage4_get_ip4_config
              [Event.dhcp_get_ip4_config w.dev.iface, Event.system_get_mtu]))) := by
      unfold nm_device_activate_stage4_ip_config_get
      simp only [hhook, real_act_stage4_get_ip4_config, hd, hcfg, hm, if_true, stage4_finish, hi]
    refine ⟨_, hb, ?_, ?_⟩
    · simp [nm_device_activate_schedule_stage5_ip_config_commit, schedule_stage, g_idle_add,
        nm_act_request_set_stage, nm_act_request_set_ip4_config, World.setReq]
    · simp [nm_device_activate_schedule_stage5_ip_config_commit, schedule_stage, g_idle_add,
        nm_act_request_set_stage, nm_act_request_set_ip4_config, World.setReq, World.callHook,
        World.emit, World.emits, ht]
  · intro hm
    have hb : ∀ m, nm_device_activate_stage4_ip_config_get cls { env with system_mtu := m } req w
        = some (nm_device_activate_schedule_stage5_ip_config_commit req
          (nm_act_request_set_ip4_config req c
            ((clear_act_source_id w).callHook ClassHook.act_stage4_get_ip4_config
              [Event.dhcp_get_ip4_config w.dev.iface]))) := by
      intro m
      unfold nm_device_activate_stage4_ip_config_get
      simp only [hhook, real_act_stage4_get_ip4_config, hd, hcfg, hm, if_true, if_false,
        stage4_finish, hi]
    refine ⟨_, hb env.system_mtu, ?_, ?_, hb⟩
    · simp [nm_device_activate_schedule_stage5_ip_config_commit, schedule_stage, g_idle_add,
        nm_act_request_set_stage, nm_act_request_set_ip4_config, World.setReq]
    · simp [nm_device_activate_schedule_stage5_ip_config_commit, schedule_stage, g_idle_add,
        nm_act_request_set_stage, nm_act_request_set_ip4_config, World.setReq, World.callHook,
        World.emit, World.emits, ht]

/-- C17 on "eth0" with a lease without MTU and a backend MTU of 1500. -/
theorem dhcp_mtu_backfill_witness :
    ∃ w2, nm_device_activate_stage4_ip_config_get nm_device_class_init leaseWithoutMtu 7
        eth0Config = some w2 ∧
      (w2.reqs 7).ip4_config = some { ({} : NMIP4Config) with mtu := leaseWithoutMtu.system_mtu } ∧
      w2.trace = eth0Config.trace ++ [Event.class_hook ClassHook.act_stage4_get_ip4_config,
        Event.dhcp_get_ip4_config eth0Config.dev.iface, Event.system_get_mtu] :=
  (dhcp_mtu_backfill nm_device_class_init leaseWithoutMtu 7 eth0Config {} rfl rfl rfl).1 rfl

/-! ## C18: stage 4 without a configuration -/

theorem stage_failed_returns (cls : NMDeviceClass) (env : Env) (req : ReqId) (x : World) :
    ∃ z : World, stage_failed cls env req x =
      some (nm_policy_schedule_activation_failed req
        (z.emit (Event.state_changed_signal NMDeviceState.failed))) := by
  unfold stage_failed nm_device_state_changed nm_device_interface_deactivate
  simp only
  by_cases happ : x.dev.app_data = true
  · obtain ⟨w2, h2, -⟩ := deactivate_idle cls env
      { x with dev := { x.dev with state := NMDeviceState.failed } } happ rfl
    exact ⟨w2, by rw [h2]⟩
  · have hf : x.dev.app_data = false := by simpa using happ
    refine ⟨{ x with dev := { x.dev with state := NMDeviceState.failed } }, ?_⟩
    have : nm_device_deactivate cls env
        { x with dev := { x.dev with state := NMDeviceState.failed } } =
        some { x with dev := { x.dev with state := NMDeviceState.failed } } := by
      unfold nm_device_deactivate
      rw [if_pos hf]
    rw [this]

theorem stage4_failure_taken (cls : NMDeviceClass) (env : Env) (req : ReqId) (w x : World)
    (hs : x.sources = w.sources) (hc : (x.reqs req).ip4_config = (w.reqs req).ip4_config) :
    Stage4FailureTaken req w (stage_failed cls env req x) := by
  obtain ⟨z, hz⟩ := stage_failed_returns cls env req x
  refine ⟨_, hz, ?_, ?_, ?_⟩
  · simp [nm_policy_schedule_activation_failed, World.emit]
  · rw [(stage_failed_sameQueue cls env req x _ hz).1, hs]
  · rw [(stage_failed_frame cls env req x _ hz).2.1 req, hc]


/-- C18: in the common tail of both stage-4 bodies the hook result "Success
without a configuration" is handled exactly as Failure (with or without a
configuration); and when the hook of the Get body, or of the Timeout body,
returns Success without a configuration, the failure transition is taken:
the body returns, its last call is the policy's `activation_failed` for the
request, no configuration is stored on the request and nothing is added to
the queue, so stage 5 is not scheduled. -/
theorem missing_config_is_failure (cls : NMDeviceClass) (env : Env) (req : ReqId) (w : World) :
    (∀ (c : Option NMIP4Config) (x : World),
      stage4_finish cls env req (NMActStageReturn.success, none) x =
        stage4_finish cls env req (NMActStageReturn.failure, c) x) ∧
    ((cls.act_stage4_get_ip4_config cls.set_hw_address env (clear_act_source_id w) req).1
        = (NMActStageReturn.success, none) →
      Stage4FailureTaken req w (nm_device_activate_stage4_ip_config_get cls env req w)) ∧
    ((cls.act_stage4_ip_config_timeout cls.set_hw_address env (clear_act_source_id w) req).1
        = (NMActStageReturn.success, none) →
      Stage4FailureTaken req w (nm_device_activate_stage4_ip_config_timeout cls env req w)) := by
  have hs : (clear_act_source_id w).sources = w.sources := (clear_cleared w).1
  have hr : (clear_act_source_id w).reqs = w.reqs := by
    unfold clear_act_source_id; split <;> rfl
  refine ⟨fun c x => ?_, fun h => ?_, fun h => ?_⟩
  · cases c <;> rfl
  · unfold nm_device_activate_stage4_ip_config_get
    simp only [h, stage4_finish]
    exact stage4_failure_taken cls env req w _ (by simpa [World.callHook, World.emit, World.emits] using hs)
      (by simp [World.callHook, World.emit, World.emits, hr])
  · unfold nm_device_activate_stage4_ip_config_timeout
    simp only [h, stage4_finish]
    exact stage4_failure_taken cls env req w _ (by simpa [World.callHook, World.emit, World.emits] using hs)
      (by simp [World.callHook, World.emit, World.emits, hr])

/-- C18 at a variant whose stage-4 hook reports Success without a
configuration, on "eth0". -/
theorem missing_config_is_failure_witness :
    Stage4FailureTaken 7 eth0Config
      (nm_device_activate_stage4_ip_config_get failingClass {} 7 eth0Config) :=
  (missing_config_is_failure failingClass {} 7 eth0Config).2.1 rfl

/-! ## C19: the link-local fallback configuration -/

theorem ntohl_netmask_bytes (le : Bool) :
    memory_bytes le (ntohl le 0xFFFF0000) = [255, 255, 0, 0] := by
  cases le <;> decide

theorem ntohl_broadcast_bytes (le : Bool) :
    memory_bytes le (ntohl le LINKLOCAL_BCAST) = [169, 254, 255, 255] := by
  cases le <;> decide


/-- C19: when `get_autoip` yields an address (one in 169.254.0.0/16, as it
promises), `nm_device_new_ip4_autoip_config` builds a configuration, it is
the one the default timeout hook returns with Success, and on either byte
order its netmask reads 255.255.0.0, its broadcast 169.254.255.255, its
gateway is 0 and its address starts with 169.254. -/
theorem autoip_config_is_link_local (env : Env) (ip : Nat) (h : env.autoip = some ip)
    (hll : AutoipLinkLocal env) :
    ∃ c, nm_device_new_ip4_autoip_config env = some c ∧
      (∀ hw w req, (real_act_stage4_ip_config_timeout hw env w req).1
        = (NMActStageReturn.success, some c)) ∧
      memory_bytes env.little_endian c.netmask = [255, 255, 0, 0] ∧
      memory_bytes env.little_endian c.broadcast = [169, 254, 255, 255] ∧
      c.gateway = 0 ∧
      (memory_bytes env.little_endian c.address).take 2 = [169, 254] := by
  refine ⟨{ address := ip % 4294967296,
             netmask := ntohl env.little_endian 0xFFFF0000,
             broadcast := ntohl env.little_endian LINKLOCAL_BCAST,
             gateway := 0 }, ?_, ?_, ?_, ?_, rfl, hll ip h⟩
  · simp only [nm_device_new_ip4_autoip_config, h]
  · intro hw w req
    simp only [real_act_stage4_ip_config_timeout, nm_device_new_ip4_autoip_config, h]
  · exact ntohl_netmask_bytes env.little_endian
  · exact ntohl_broadcast_bytes env.little_endian


/-- C19 on a little-endian host where `get_autoip` yields 169.254.1.2. -/
theorem autoip_config_is_link_local_witness :
    ∃ c, nm_device_new_ip4_autoip_config linkLocalBackend = some c ∧
      (∀ hw w req, (real_act_stage4_ip_config_timeout hw linkLocalBackend w req).1
        = (NMActStageReturn.success, some c)) ∧
      memory_bytes linkLocalBackend.little_endian c.netmask = [255, 255, 0, 0] ∧
      memory_bytes linkLocalBackend.little_endian c.broadcast = [169, 254, 255, 255] ∧
      c.gateway = 0 ∧
      (memory_bytes linkLocalBackend.little_endian c.address).take 2 = [169, 254] :=
  autoip_config_is_link_local linkLocalBackend 33685161 rfl
    (fun ip h => by cases h; decide)

/-! ## C20: full deactivation of an Activated device -/

/-- C20: on an Activated device with committed configuration `C`,
`nm_device_deactivate` returns; among its calls are the removal of `C` from
the named manager and the flushes of the routes and of the addresses of the
interface; afterwards the state is Disconnected, no configuration is
committed and no request is attached; and `nm_device_activate` on the
result attaches the new request, tags it DevicePrepare and appends the
stage-1 continuation to the queue. -/
theorem deactivate_activated_device (cls : NMDeviceClass) (env : Env) (w : World)
    (C : NMIP4Config) (r : ReqId)
    (happ : w.dev.app_data = true) (hst : w.dev.state = NMDeviceState.activated)
    (hcfg : w.dev.ip4_config = some C) :
    ∃ w2, nm_device_deactivate cls env w = some w2 ∧
      w2.dev.state = NMDeviceState.disconnected ∧ w2.dev.ip4_config = none ∧
      w2.dev.act_request = none ∧
      Event.named_manager_remove_ip4_config C ∈ w2.trace.drop w.trace.length ∧
      Event.system_device_flush_routes ∈ w2.trace.drop w.trace.length ∧
      Event.system_device_flush_addresses ∈ w2.trace.drop w.trace.length ∧
      (nm_device_activate r w2).dev.act_request = some r ∧
      ((nm_device_activate r w2).reqs r).stage = NMActStage.device_prepare ∧
      (nm_device_activate r w2).sources =
        w.sources ++ [⟨w.sources_created + 1, StageCallback.stage1_device_prepare, r⟩] := by
  rcases w with ⟨⟨st, ifc, cap, la, ip, app, ar, sid, cfg, dm, dsi⟩, reqs, srcs, sc, dh, hcn, tr⟩
  simp only at happ hst hcfg
  subst happ hst hcfg
  unfold nm_device_deactivate nm_device_deactivate_quickly
  cases ar <;> cases hq : cls.deactivate_quickly <;> cases hd : cls.deactivate <;>
    cases ha : env.ifaddr <;>
  simp [hq, hd, ha, nm_device_get_state, nm_device_get_act_request, nm_device_get_ip4_config,
    nm_device_set_ip4_config, World.emit, nm_device_update_ip4_address,
    nm_device_state_changed_plain, World.callHook, World.emits, nm_act_request_unref,
    World.setReq, nm_device_get_iface, nm_device_activate,
    nm_device_activate_schedule_stage1_device_prepare, schedule_stage, g_idle_add,
    nm_act_request_set_stage, nm_act_request_ref] <;>
  split <;> simp

/-- C20 on "eth0" Activated, then activated again with request 8. -/
theorem deactivate_activated_device_witness :
    ∃ w2, nm_device_deactivate nm_device_class_init {} eth0Activated = some w2 ∧
      w2.dev.state = NMDeviceState.disconnected ∧ w2.dev.ip4_config = none ∧
      w2.dev.act_request = none ∧
      (nm_device_activate 8 w2).dev.act_request = some 8 ∧
      (nm_device_activate 8 w2).sources = [⟨1, StageCallback.stage1_device_prepare, 8⟩] := by
  obtain ⟨w2, h1, h2, h3, h4, -, -, -, h8, -, h10⟩ :=
    deactivate_activated_device nm_device_class_init {} eth0Activated {} 8 rfl rfl rfl
  exact ⟨w2, h1, h2, h3, h4, h8, h10⟩

/-! ## C13: activation with a static configuration -/

theorem clear_act_source_id_eq (w : World) :
    clear_act_source_id w = { w with dev := { w.dev with act_source_id := 0 } } := by
  rcases w with ⟨⟨st, ifc, cap, la, ip, app, ar, sid, cfg, dm, dsi⟩, reqs, srcs, sc, dh, hcn, tr⟩
  unfold clear_act_source_id
  split
  · rfl
  · have : sid = 0 := by simp at *; assumption
    subst this
    rfl

theorem static_run_stage1 (e : Env) (r : ReqId) (w : World)
    (hst : w.dev.state = NMDeviceState.disconnected)
    (hdhcp : w.dev.dhcp_manager = false) (hq : w.sources = []) :
    ∃ w1 : World, g_main_context_iteration nm_device_class_init e (nm_device_activate r w)
        = some w1 ∧
      w1.sources = [⟨w1.sources_created, StageCallback.stage2_device_config, r⟩] ∧
      w1.dev.dhcp_manager = false ∧ NewCalls w.trace w1.trace [] := by
  rcases w with ⟨⟨st, ifc, cap, la, ip, app, ar, sid, cfg, dm, dsi⟩, reqs, srcs, sc, dh, hcn, tr⟩
  simp only at hst hdhcp hq
  subst hst hq hdhcp
  refine ⟨_, rfl, ?_, ?_, newCalls_of_drop ?_ ?_⟩ <;>
  simp [g_main_context_iteration, nm_device_activate, nm_act_request_ref, World.setReq,
      World.emit, nm_act_request_set_stage, nm_device_activate_schedule_stage1_device_prepare,
      schedule_stage, g_idle_add, run_callback, nm_device_activate_stage1_device_prepare,
      clear_act_source_id, nm_device_state_changed, nm_device_state_changed_plain,
      nm_device_class_init, real_act_stage1_prepare, World.callHook, World.emits,
      nm_device_activate_schedule_stage2_device_config, g_source_remove, isCommitOrPolicyCall]

theorem static_run_stage2 (e : Env) (r : ReqId) (w : World)
    (hq : w.sources = [⟨w.sources_created, StageCallback.stage2_device_config, r⟩])
    (hdhcp : w.dev.dhcp_manager = false) :
    ∃ w1 : World, g_main_context_iteration nm_device_class_init e w = some w1 ∧
      w1.sources = [⟨w1.sources_created, StageCallback.stage3_ip_config_start, r⟩] ∧
      w1.dev.dhcp_manager = false ∧ NewCalls w.trace w1.trace [] := by
  rcases w with ⟨⟨st, ifc, cap, la, ip, app, ar, sid, cfg, dm, dsi⟩, reqs, srcs, sc, dh, hcn, tr⟩
  simp only at hdhcp hq
  subst hq hdhcp
  cases hup : e.device_is_up <;>
  simp [g_main_context_iteration, World.setReq,
      World.emit, nm_act_request_set_stage,
      schedule_stage, g_idle_add, run_callback,
      clear_act_source_id_eq, nm_device_state_changed, nm_device_state_changed_plain,
      nm_device_class_init, World.callHook, World.emits,
      g_source_remove, isCommitOrPolicyCall,
      nm_device_activate_stage2_device_config, nm_device_is_up, nm_device_bring_up,
      nm_device_set_up_down, nm_device_set_address, real_act_stage2_config,
      nm_device_activate_schedule_stage3_ip_config_start, hup] <;>
  refine newCalls_of_drop ?_ ?_ <;> simp [isCommitOrPolicyCall]

theorem static_run_stage3 (e : Env) (r : ReqId) (w : World)
    (hq : w.sources = [⟨w.sources_created, StageCallback.stage3_ip_config_start, r⟩])
    (hdhcp : w.dev.dhcp_manager = false) :
    ∃ w1 : World, g_main_context_iteration nm_device_class_init e w = some w1 ∧
      w1.sources = [⟨w1.sources_created, StageCallback.stage4_ip_config_get, r⟩] ∧
      w1.dev.dhcp_manager = false ∧ NewCalls w.trace w1.trace [] := by
  rcases w with ⟨⟨st, ifc, cap, la, ip, app, ar, sid, cfg, dm, dsi⟩, reqs, srcs, sc, dh, hcn, tr⟩
  simp only at hdhcp hq
  subst hq hdhcp
  simp [g_main_context_iteration, World.setReq,
      World.emit, nm_act_request_set_stage,
      schedule_stage, g_idle_add, run_callback,
      clear_act_source_id_eq, nm_device_state_changed, nm_device_state_changed_plain,
      nm_device_class_init, World.callHook, World.emits,
      g_source_remove, isCommitOrPolicyCall,
      nm_device_activate_stage3_ip_config_start, real_act_stage3_ip_config_start,
      nm_device_get_use_dhcp, nm_device_activate_schedule_stage4_ip_config_get]
  refine newCalls_of_drop ?_ ?_ <;> simp [isCommitOrPolicyCall]

theorem static_run_stage4 (e : Env) (r : ReqId) (w : World) (c : NMIP4Config)
    (hq : w.sources = [⟨w.sources_created, StageCallback.stage4_ip_config_get, r⟩])
    (hdhcp : w.dev.dhcp_manager = false) (hcfg : e.system_ip4_config = some c) :
    ∃ w1 : World, g_main_context_iteration nm_device_class_init e w = some w1 ∧
      w1.sources = [⟨w1.sources_created, StageCallback.stage5_ip_config_commit, r⟩] ∧
      (w1.reqs r).ip4_config = some c ∧ NewCalls w.trace w1.trace [] := by
  rcases w with ⟨⟨st, ifc, cap, la, ip, app, ar, sid, cfg, dm, dsi⟩, reqs, srcs, sc, dh, hcn, tr⟩
  simp only at hdhcp hq
  subst hq hdhcp
  simp [g_main_context_iteration, World.setReq,
      World.emit, nm_act_request_set_stage,
      schedule_stage, g_idle_add, run_callback,
      clear_act_source_id_eq,
      nm_device_class_init, World.callHook, World.emits,
      g_source_remove, isCommitOrPolicyCall,
      nm_device_get_use_dhcp,
      nm_device_activate_stage4_ip_config_get, real_act_stage4_get_ip4_config, stage4_finish,
      nm_act_request_set_ip4_config, nm_device_activate_schedule_stage5_ip_config_commit, hcfg]
  refine newCalls_of_drop ?_ ?_ <;> simp [isCommitOrPolicyCall]

theorem static_run_stage5 (e : Env) (r : ReqId) (w : World) (c : NMIP4Config)
    (hq : w.sources = [⟨w.sources_created, StageCallback.stage5_ip_config_commit, r⟩])
    (hc : (w.reqs r).ip4_config = some c) (hok : e.set_from_ip4_config = true) :
    ∃ w1 : World, g_main_context_iteration nm_device_class_init e w = some w1 ∧
      w1.dev.state = NMDeviceState.activated ∧ w1.dev.ip4_config = some c ∧
      w1.sources = [] ∧
      NewCalls w.trace w1.trace
        [Event.system_device_add_ip6_link_address, Event.system_restart_mdns_responder,
         Event.system_set_hostname (some c), Event.system_activate_nis (some c),
         Event.system_set_mtu, Event.policy_activation_finish r] := by
  rcases w with ⟨⟨st, ifc, cap, la, ip, app, ar, sid, cfg, dm, dsi⟩, reqs, srcs, sc, dh, hcn, tr⟩
  simp only at hc hq
  subst hq
  cases app <;> cases hif : e.ifaddr <;>
  simp [g_main_context_iteration, World.setReq,
      World.emit,
      run_callback,
      clear_act_source_id_eq, nm_device_state_changed, nm_device_state_changed_plain,
      nm_device_class_init, World.callHook, World.emits,
      g_source_remove, isCommitOrPolicyCall,
      nm_device_activate_stage5_ip_config_commit, nm_act_request_get_ip4_config,
      nm_device_set_ip4_config, nm_device_update_ip4_address,
      nm_policy_schedule_activation_finish, hc, hok, hif] <;>
  (try split) <;> (try simp) <;>
  refine newCalls_of_drop ?_ ?_ <;> simp [isCommitOrPolicyCall]

/-- C13: on a Disconnected device without DHCP and with an empty main-loop
queue, all hooks being the defaults of the base class, when the backend
yields the static configuration `c` in stage 4 and its
`set_from_ip4_config` succeeds in stage 5: `nm_device_activate` followed by
five iterations of the main loop (whatever the backend answers otherwise)
returns with the state Activated, `c` committed on the device and the queue
empty; among the calls made, the commit calls appear once each in their
order, the policy's `activation_finish` for the request once, and
`activation_failed` not at all. -/
theorem static_activation_succeeds (e1 e2 e3 e4 e5 : Env) (r : ReqId) (w : World)
    (c : NMIP4Config)
    (hst : w.dev.state = NMDeviceState.disconnected)
    (hdhcp : nm_device_get_use_dhcp w = false)
    (hq : w.sources = [])
    (hcfg : e4.system_ip4_config = some c)
    (hok : e5.set_from_ip4_config = true) :
    ∃ w5 : World,
      (((((g_main_context_iteration nm_device_class_init e1 (nm_device_activate r w)).bind
        (g_main_context_iteration nm_device_class_init e2)).bind
        (g_main_context_iteration nm_device_class_init e3)).bind
        (g_main_context_iteration nm_device_class_init e4)).bind
        (g_main_context_iteration nm_device_class_init e5)) = some w5 ∧
      w5.dev.state = NMDeviceState.activated ∧ w5.dev.ip4_config = some c ∧
      w5.sources = [] ∧
      NewCalls w.trace w5.trace
        [Event.system_device_add_ip6_link_address, Event.system_restart_mdns_responder,
         Event.system_set_hostname (some c), Event.system_activate_nis (some c),
         Event.system_set_mtu, Event.policy_activation_finish r] := by
  obtain ⟨w1, h1, q1, d1, n1⟩ := static_run_stage1 e1 r w hst hdhcp hq
  obtain ⟨w2, h2, q2, d2, n2⟩ := static_run_stage2 e2 r w1 q1 d1
  obtain ⟨w3, h3, q3, d3, n3⟩ := static_run_stage3 e3 r w2 q2 d2
  obtain ⟨w4, h4, q4, c4, n4⟩ := static_run_stage4 e4 r w3 c q3 d3 hcfg
  obtain ⟨w5, h5, s5, c5, q5, n5⟩ := static_run_stage5 e5 r w4 c q4 c4 hok
  refine ⟨w5, ?_, s5, c5, q5, ?_⟩
  · simp only [h1, h2, h3, h4, h5, Option.some_bind]
  · exact newCalls_trans (newCalls_trans (newCalls_trans (newCalls_trans n1 n2) n3) n4) n5


/-- C13 on "eth1" with request 7 and a backend holding a static
configuration. -/
theorem static_activation_succeeds_witness :
    ∃ w5 : World,
      (((((g_main_context_iteration nm_device_class_init {} (nm_device_activate 7 eth1Static)).bind
        (g_main_context_iteration nm_device_class_init {})).bind
        (g_main_context_iteration nm_device_class_init {})).bind
        (g_main_context_iteration nm_device_class_init staticBackend)).bind
        (g_main_context_iteration nm_device_class_init {})) = some w5 ∧
      w5.dev.state = NMDeviceState.activated ∧
      w5.dev.ip4_config = some { address := 16885952, mtu := 1500 } ∧
      w5.sources = [] ∧
      NewCalls eth1Static.trace w5.trace
        [Event.system_device_add_ip6_link_address, Event.system_restart_mdns_responder,
         Event.system_set_hostname (some { address := 16885952, mtu := 1500 }),
         Event.system_activate_nis (some { address := 16885952, mtu := 1500 }),
         Event.system_set_mtu, Event.policy_activation_finish 7] :=
  static_activation_succeeds {} {} {} staticBackend {} 7 eth1Static
    { address := 16885952, mtu := 1500 } rfl rfl rfl rfl rfl

/-! ## Effects of the operations on queue, tags and installations -/

theorem installs_append (a b : List Event) : installs (a ++ b) = installs a + installs b := by
  simp [installs, List.countP_append]

theorem kept_refl (x : World) : Kept 0 x x :=
  ⟨rfl, rfl, Or.inl rfl, frame_refl x, rfl⟩

theorem kept_trans {m n : Nat} {x y z : World} (h1 : Kept m x y) (h2 : Kept n y z) :
    Kept (m + n) x z := by
  obtain ⟨a1, b1, c1, d1, e1⟩ := h1
  obtain ⟨a2, b2, c2, d2, e2⟩ := h2
  refine ⟨a2.trans a1, b2.trans b1, ?_, frame_trans d1 d2, by omega⟩
  rcases c2 with c2 | c2
  · rcases c1 with c1 | c1
    · exact Or.inl (c2.trans c1)
    · exact Or.inr (c2.trans c1)
  · exact Or.inr c2

theorem cancel_effect (env : Env) (w w2 : World)
    (h : nm_device_activation_cancel env w = some w2) : Kept 0 w w2 ∨ Cancelled w w2 := by
  have hf := cancel_frame env w w2 h
  unfold nm_device_activation_cancel at h
  split at h
  · cases h; exact Or.inl (kept_refl w)
  · split at h
    · cases h
    · simp only [Option.some.injEq] at h
      subst h
      rcases w with ⟨⟨st, ifc, cap, la, ip, app, ar, sid, cfg, dm, dsi⟩, reqs, srcs, sc, dh, hcn, tr⟩
      by_cases hs : sid = 0
      · refine Or.inl ⟨?_, ?_, ?_, hf, ?_⟩ <;> cases ar <;>
        simp [hs, nm_device_class_init, World.callHook, World.emit, World.emits,
          nm_act_request_unref, World.setReq, g_source_remove, installs_append,
          real_activation_cancel_handler] <;>
        (try split) <;> simp [installs, isInstall]
      · refine Or.inr ⟨hs, ?_, ?_, ?_, hf, ?_, ?_⟩ <;> cases ar <;>
        simp [hs, nm_device_class_init, World.callHook, World.emit, World.emits,
          nm_act_request_unref, World.setReq, g_source_remove, installs_append,
          real_activation_cancel_handler] <;>
        (try split) <;> simp [installs, isInstall]

theorem effect_after_kept {x y z : World} (h1 : Kept 0 x y)
    (h2 : Kept 0 y z ∨ Cancelled y z) : Kept 0 x z ∨ Cancelled x z := by
  rcases h2 with h2 | h2
  · exact Or.inl (kept_trans h1 h2)
  · obtain ⟨a1, b1, c1, d1, e1⟩ := h1
    obtain ⟨m2, a2, b2, c2, d2, f2, e2⟩ := h2
    have hm : y.dev.act_source_id = x.dev.act_source_id := by
      rcases c1 with c1 | c1
      · exact c1
      · exact absurd c1 m2
    refine Or.inr ⟨hm ▸ m2, ?_, b2.trans b1, c2, frame_trans d1 d2, f2, by omega⟩
    rw [a2, a1, hm]

theorem effect_then_kept {x y z : World} (h1 : Kept 0 x y ∨ Cancelled x y)
    (h2 : Kept 0 y z) : Kept 0 x z ∨ Cancelled x z := by
  rcases h1 with h1 | h1
  · exact Or.inl (kept_trans h1 h2)
  · obtain ⟨m1, a1, b1, c1, d1, f1, e1⟩ := h1
    obtain ⟨a2, b2, c2, d2, e2⟩ := h2
    refine Or.inr ⟨m1, a2.trans a1, b2.trans b1, ?_, frame_trans d1 d2, ?_, by omega⟩
    · rcases c2 with c2 | c2
      · exact c2.trans c1
      · exact c2
    · rcases d2.2.2.2.2.2.2 with h | h
      · exact h.trans f1
      · exact h

theorem deactivate_quickly_tail_kept (env : Env) (w : World) :
    Kept 0 w (deactivate_quickly_tail nm_device_class_init env w) := by
  rcases w with ⟨⟨st, ifc, cap, la, ip, app, ar, sid, cfg, dm, dsi⟩, reqs, srcs, sc, dh, hcn, tr⟩
  cases ar with
  | none =>
      simp [Kept, Frame, deactivate_quickly_tail, nm_device_class_init,
        nm_device_get_act_request]
  | some r =>
      simp [Kept, Frame, deactivate_quickly_tail, nm_device_class_init,
        nm_device_get_act_request, World.emit, nm_act_request_unref, World.setReq,
        nm_device_get_iface, installs_append]
      simp [installs, isInstall]
      constructor <;> intro r <;> split <;> simp_all

theorem deactivate_tail_kept (env : Env) (w : World) :
    Kept 0 w (deactivate_tail nm_device_class_init env w) := by
  rcases w with ⟨⟨st, ifc, cap, la, ip, app, ar, sid, cfg, dm, dsi⟩, reqs, srcs, sc, dh, hcn, tr⟩
  cases app <;> cases cfg <;> cases ha : env.ifaddr <;>
  simp [Kept, Frame, deactivate_tail, nm_device_class_init, nm_device_get_ip4_config,
    nm_device_set_ip4_config, nm_device_update_ip4_address, nm_device_state_changed_plain,
    World.emit, installs_append, ha] <;>
  (try split) <;>
  simp [installs, isInstall, installs_append]

theorem emit_kept (x : World) (e : Event) (h : isInstall e = false) : Kept 0 x (x.emit e) :=
  ⟨rfl, rfl, Or.inl rfl, frame_refl _, by simp [World.emit, installs_append, installs, h]⟩

theorem deactivate_quickly_effect (env : Env) (w w2 : World) (b : Bool)
    (h : nm_device_deactivate_quickly nm_device_class_init env w = some (b, w2)) :
    Kept 0 w w2 ∨ Cancelled w w2 := by
  unfold nm_device_deactivate_quickly at h
  by_cases happ : w.dev.app_data = false
  · simp only [happ, if_true, Option.some.injEq, Prod.mk.injEq] at h
    obtain ⟨-, rfl⟩ := h
    exact Or.inl (kept_refl w)
  · rw [if_neg happ] at h
    simp only [] at h
    have h0 : Kept 0 w ((w.emit Event.system_shutdown_nis).emit
        Event.vpn_manager_deactivate_vpn_connection) :=
      kept_trans (emit_kept w Event.system_shutdown_nis rfl)
        (emit_kept _ Event.vpn_manager_deactivate_vpn_connection rfl)
    split at h
    · cases h
    · rename_i w1 h1
      simp only [Option.some.injEq, Prod.mk.injEq] at h
      obtain ⟨-, rfl⟩ := h
      have ha : Kept 0 w w1 ∨ Cancelled w w1 := by
        split at h1
        · cases h1
          exact Or.inl (kept_trans h0 (emit_kept _
            (Event.dbus_device_status_change DeviceStatus.no_longer_active) rfl))
        · split at h1
          · exact effect_after_kept h0 (cancel_effect env _ w1 h1)
          · cases h1; exact Or.inl h0
      exact effect_then_kept ha (deactivate_quickly_tail_kept env w1)

theorem deactivate_effect (env : Env) (w w2 : World)
    (h : nm_device_deactivate nm_device_class_init env w = some w2) :
    Kept 0 w w2 ∨ Cancelled w w2 := by
  unfold nm_device_deactivate at h
  by_cases happ : w.dev.app_data = false
  · simp only [happ, if_true, Option.some.injEq] at h
    subst h
    exact Or.inl (kept_refl w)
  · rw [if_neg happ] at h
    simp only [] at h
    split at h
    · cases h
    · rename_i b w1 h1
      simp only [Option.some.injEq] at h
      subst h
      exact effect_then_kept (deactivate_quickly_effect env w w1 b h1)
        (deactivate_tail_kept env w1)

theorem stage_failed_kept (env : Env) (req : ReqId) (x w2 : World)
    (h : stage_failed nm_device_class_init env req x = some w2) : Kept 0 x w2 := by
  have hq := stage_failed_sameQueue nm_device_class_init env req x w2 h
  have hf := stage_failed_frame nm_device_class_init env req x w2 h
  refine ⟨hq.1, hq.2.1, Or.inl hq.2.2, hf, ?_⟩
  unfold stage_failed nm_device_state_changed nm_device_interface_deactivate at h
  simp only at h
  split at h
  · cases h
  · rename_i y hy
    split at hy
    · cases hy
    · rename_i z hz
      cases hy
      cases h
      have hi : installs z.trace = installs x.trace := by
        rcases deactivate_effect env _ z hz with hk | hk
        · simpa using hk.2.2.2.2
        · simpa using hk.2.2.2.2.2.2
      simp only [nm_policy_schedule_activation_failed, World.emit, installs_append, hi]
      simp [installs, isInstall]

theorem kept_trans0 {x y z : World} (h1 : Kept 0 x y) (h2 : Kept 0 y z) : Kept 0 x z :=
  kept_trans h1 h2

theorem clear_kept (w : World) : Kept 0 w (clear_act_source_id w) := by
  rw [clear_act_source_id_eq]
  exact ⟨rfl, rfl, Or.inr rfl, frame_refl _, rfl⟩

theorem state_plain_kept (st : NMDeviceState) (x : World) :
    Kept 0 x (nm_device_state_changed_plain st x) :=
  ⟨rfl, rfl, Or.inl rfl, ⟨fun _ => rfl, fun _ => rfl, rfl, rfl, rfl, rfl, Or.inl rfl⟩,
    by simp [nm_device_state_changed_plain, World.emit, installs_append, installs, isInstall]⟩

theorem hook_kept (x : World) (hk : ClassHook) (es : List Event) (h : installs es = 0) :
    Kept 0 x (x.callHook hk es) :=
  ⟨rfl, rfl, Or.inl rfl, frame_refl _, by
    simp only [World.callHook, World.emit, World.emits, installs_append, h]
    simp [installs, isInstall]⟩

theorem bring_up_kept (env : Env) (x : World) :
    Kept 0 x (nm_device_bring_up nm_device_class_init.set_hw_address env x) :=
  ⟨rfl, rfl, Or.inl rfl, frame_refl _, by
    simp [nm_device_bring_up, nm_device_set_up_down, nm_device_set_address, nm_device_class_init,
      World.emit, installs_append, installs, isInstall]⟩

theorem schedule_after_kept {w x : World} (tag : NMActStage) (cb : StageCallback) (req : ReqId)
    (h : Kept 0 w x) : Scheduled cb tag req w (schedule_stage tag cb req x) := by
  obtain ⟨a, b, -, ⟨f1, -, f3, f4, -, -, f7⟩, e⟩ := h
  refine ⟨?_, ?_, ?_, ?_, f3, f4, f7, by simpa using e⟩
  · simp [schedule_stage, g_idle_add, nm_act_request_set_stage, World.setReq, a, b]
  · simp [schedule_stage, g_idle_add, nm_act_request_set_stage, World.setReq, b]
  · simp [schedule_stage, g_idle_add, nm_act_request_set_stage, World.setReq, b]
  · intro r
    simp only [schedule_stage, g_idle_add, nm_act_request_set_stage, World.setReq]
    split
    · rfl
    · exact f1 r

theorem schedule_config_after_kept {w x : World} (tag : NMActStage) (cb : StageCallback)
    (req : ReqId) (c : NMIP4Config) (h : Kept 0 w x) :
    Scheduled cb tag req w (schedule_stage tag cb req (nm_act_request_set_ip4_config req c x)) := by
  obtain ⟨a, b, -, ⟨f1, -, f3, f4, -, -, f7⟩, e⟩ := h
  refine ⟨?_, ?_, ?_, ?_, f3, f4, f7, by simpa using e⟩
  · simp [schedule_stage, g_idle_add, nm_act_request_set_stage, World.setReq,
      nm_act_request_set_ip4_config, a, b]
  · simp [schedule_stage, g_idle_add, nm_act_request_set_stage, World.setReq,
      nm_act_request_set_ip4_config, b]
  · simp [schedule_stage, g_idle_add, nm_act_request_set_stage, World.setReq,
      nm_act_request_set_ip4_config, b]
  · intro r
    simp only [schedule_stage, g_idle_add, nm_act_request_set_stage, World.setReq,
      nm_act_request_set_ip4_config]
    split
    · rfl
    · exact f1 r

theorem stage1_effect (env : Env) (req : ReqId) (w w2 : World)
    (h : nm_device_activate_stage1_device_prepare nm_device_class_init env req w = some w2) :
    Kept 0 w w2 ∨
      Scheduled StageCallback.stage2_device_config NMActStage.device_config req w w2 := by
  unfold nm_device_activate_stage1_device_prepare at h
  simp only [nm_device_state_changed, Option.bind_eq_bind, Option.some_bind] at h
  have hc : Kept 0 w ((nm_device_state_changed_plain NMDeviceState.prepare
      (clear_act_source_id w)).callHook ClassHook.act_stage1_prepare
      (nm_device_class_init.act_stage1_prepare env (nm_device_state_changed_plain
        NMDeviceState.prepare (clear_act_source_id w)) req).2) :=
    kept_trans0 (kept_trans0 (clear_kept w) (state_plain_kept _ _)) (hook_kept _ _ _ (by rfl))
  split at h
  · cases h; exact Or.inl hc
  · exact Or.inl (kept_trans0 hc (stage_failed_kept env req _ w2 h))
  · cases h; exact Or.inr (schedule_after_kept _ _ _ hc)

theorem stage2_effect (env : Env) (req : ReqId) (w w2 : World)
    (h : nm_device_activate_stage2_device_config nm_device_class_init env req w = some w2) :
    Kept 0 w w2 ∨
      Scheduled StageCallback.stage3_ip_config_start NMActStage.ip_config_start req w w2 := by
  unfold nm_device_activate_stage2_device_config at h
  simp only [nm_device_state_changed, Option.bind_eq_bind, Option.some_bind] at h
  have hc : ∀ es, installs es = 0 → Kept 0 w ((if nm_device_is_up env
        (nm_device_state_changed_plain NMDeviceState.config (clear_act_source_id w)) = true then
        nm_device_state_changed_plain NMDeviceState.config (clear_act_source_id w)
      else nm_device_bring_up nm_device_class_init.set_hw_address env
        (nm_device_state_changed_plain NMDeviceState.config
          (clear_act_source_id w))).callHook ClassHook.act_stage2_config es) := by
    intro es hes
    refine kept_trans0 (kept_trans0 (kept_trans0 (clear_kept w)
      (state_plain_kept NMDeviceState.config _)) ?_) (hook_kept _ _ es hes)
    split
    · exact kept_refl _
    · exact bring_up_kept env _
  split at h
  · cases h; exact Or.inl (hc _ (by rfl))
  · exact Or.inl (kept_trans0 (hc _ (by rfl)) (stage_failed_kept env req _ w2 h))
  · cases h; exact Or.inr (schedule_after_kept _ _ _ (hc _ (by rfl)))

theorem stage3_hook_installs (env : Env) (x : World) (req : ReqId) :
    installs (nm_device_class_init.act_stage3_ip_config_start env x req).2 = 0 := by
  show installs (real_act_stage3_ip_config_start env x req).2 = 0
  unfold real_act_stage3_ip_config_start
  split
  · split <;> rfl
  · rfl

theorem stage3_hook_dhcp (env : Env) (x : World) (req : ReqId)
    (h : x.dev.dhcp_manager = true) :
    (nm_device_class_init.act_stage3_ip_config_start env x req).1 ≠ NMActStageReturn.success := by
  show (real_act_stage3_ip_config_start env x req).1 ≠ NMActStageReturn.success
  unfold real_act_stage3_ip_config_start nm_device_get_use_dhcp
  rw [if_pos h]
  split <;> simp

theorem stage3_effect (env : Env) (req : ReqId) (w w2 : World)
    (h : nm_device_activate_stage3_ip_config_start nm_device_class_init env req w = some w2) :
    (Kept 0 w w2 ∨
      Scheduled StageCallback.stage4_ip_config_get NMActStage.ip_config_get req w w2) ∧
    (w.dev.dhcp_manager = true → Kept 0 w w2) := by
  unfold nm_device_activate_stage3_ip_config_start at h
  simp only [nm_device_state_changed, Option.bind_eq_bind, Option.some_bind] at h
  have hk : Kept 0 w (nm_device_state_changed_plain NMDeviceState.ip_config
      (clear_act_source_id w)) :=
    kept_trans0 (clear_kept w) (state_plain_kept NMDeviceState.ip_config _)
  have hc : Kept 0 w ((nm_device_state_changed_plain NMDeviceState.ip_config
      (clear_act_source_id w)).callHook ClassHook.act_stage3_ip_config_start
      (nm_device_class_init.act_stage3_ip_config_start env (nm_device_state_changed_plain
        NMDeviceState.ip_config (clear_act_source_id w)) req).2) :=
    kept_trans0 hk (hook_kept _ _ _ (stage3_hook_installs env _ req))
  split at h
  · cases h; exact ⟨Or.inl hc, fun _ => hc⟩
  · exact ⟨Or.inl (kept_trans0 hc (stage_failed_kept env req _ w2 h)),
      fun _ => kept_trans0 hc (stage_failed_kept env req _ w2 h)⟩
  · rename_i hs
    cases h
    refine ⟨Or.inr (schedule_after_kept _ _ _ hc), fun hd => ?_⟩
    exact absurd hs (stage3_hook_dhcp env _ req (hk.2.2.2.1.2.2.1.trans hd))

theorem stage4_finish_effect (env : Env) (req : ReqId)
    (r : NMActStageReturn × Option NMIP4Config) (w x w2 : World) (hc : Kept 0 w x)
    (h : stage4_finish nm_device_class_init env req r x = some w2) :
    Kept 0 w w2 ∨
      Scheduled StageCallback.stage5_ip_config_commit NMActStage.ip_config_commit req w w2 := by
  unfold stage4_finish at h
  split at h
  · cases h; exact Or.inl hc
  · exact Or.inl (kept_trans0 hc (stage_failed_kept env req _ w2 h))
  · exact Or.inl (kept_trans0 hc (stage_failed_kept env req _ w2 h))
  · cases h
    exact Or.inr (schedule_config_after_kept _ _ _ _ hc)

theorem stage4_get_hook_installs (env : Env) (x : World) (req : ReqId) :
    installs (nm_device_class_init.act_stage4_get_ip4_config
      nm_device_class_init.set_hw_address env x req).2 = 0 := by
  show installs (real_act_stage4_get_ip4_config none env x req).2 = 0
  unfold real_act_stage4_get_ip4_config
  cases hd : nm_device_get_use_dhcp x
  · cases env.system_ip4_config <;> cases nm_device_is_up env x <;>
      simp [installs, isInstall, nm_device_bring_up, nm_device_set_up_down,
        nm_device_set_address, World.emit]
  · cases env.dhcp_ip4_config with
    | none =>
        cases nm_device_is_up env x <;>
          simp [installs, isInstall, nm_device_bring_up, nm_device_set_up_down,
            nm_device_set_address, World.emit]
    | some c =>
        by_cases hm : c.mtu = 0 <;> simp [hm, installs, isInstall]

theorem stage4_get_effect (env : Env) (req : ReqId) (w w2 : World)
    (h : nm_device_activate_stage4_ip_config_get nm_device_class_init env req w = some w2) :
    Kept 0 w w2 ∨
      Scheduled StageCallback.stage5_ip_config_commit NMActStage.ip_config_commit req w w2 := by
  unfold nm_device_activate_stage4_ip_config_get at h
  exact stage4_finish_effect env req _ w _ w2
    (kept_trans0 (clear_kept w) (hook_kept _ _ _ (stage4_get_hook_installs env _ req))) h

theorem stage4_timeout_effect (env : Env) (req : ReqId) (w w2 : World)
    (h : nm_device_activate_stage4_ip_config_timeout nm_device_class_init env req w = some w2) :
    Kept 0 w w2 ∨
      Scheduled StageCallback.stage5_ip_config_commit NMActStage.ip_config_commit req w w2 := by
  unfold nm_device_activate_stage4_ip_config_timeout at h
  exact stage4_finish_effect env req _ w _ w2
    (kept_trans0 (clear_kept w) (hook_kept _ _ _ (by rfl))) h

theorem kept_then0 {n : Nat} {x y z : World} (h1 : Kept n x y) (h2 : Kept 0 y z) : Kept n x z :=
  kept_trans h1 h2

theorem update_ip4_address_kept (env : Env) (x : World) :
    Kept 0 x (nm_device_update_ip4_address env x) := by
  refine ⟨(update_ip4_address_sameQueue env x).1, (update_ip4_address_sameQueue env x).2.1,
    Or.inl (update_ip4_address_sameQueue env x).2.2, update_ip4_address_frame env x, ?_⟩
  unfold nm_device_update_ip4_address
  split
  · rfl
  · simp only
    split
    · simp [World.emit, installs_append, installs, isInstall]
    · split <;> simp [World.emit, installs_append, installs, isInstall]

theorem install_kept (c : NMIP4Config) (w : World) :
    Kept 1 w ((nm_device_set_ip4_config (some c) (clear_act_source_id w)).emit
      (Event.system_device_set_from_ip4_config
        (nm_device_set_ip4_config (some c) (clear_act_source_id w)).dev.ip4_config)) := by
  obtain ⟨a, b, m, f, e⟩ := clear_kept w
  refine ⟨a, b, m, f, ?_⟩
  simp only [World.emit, nm_device_set_ip4_config, installs_append]
  simp only [Nat.add_zero] at e
  rw [e]
  simp [installs, isInstall]

theorem stage5_effect (env : Env) (req : ReqId) (w w2 : World)
    (h : nm_device_activate_stage5_ip_config_commit nm_device_class_init env req w = some w2) :
    Kept 1 w w2 := by
  unfold nm_device_activate_stage5_ip_config_commit at h
  split at h
  · cases h
  · rename_i c hcfg
    simp only at h
    have hi := install_kept c w
    split at h
    · simp only [nm_device_state_changed, Option.bind_eq_bind, Option.some_bind,
        Option.some.injEq] at h
      subst h
      refine kept_then0 hi ?_
      refine kept_trans0 ?_ (emit_kept _ (Event.policy_activation_finish req) rfl)
      refine kept_trans0 ?_ (state_plain_kept NMDeviceState.activated _)
      show Kept 0 _ (World.emit _ Event.system_set_mtu)
      refine kept_trans0 ?_ (emit_kept _ Event.system_set_mtu rfl)
      refine kept_trans0 ?_ (emit_kept _ (Event.system_activate_nis _) rfl)
      refine kept_trans0 ?_ (emit_kept _ (Event.system_set_hostname _) rfl)
      refine kept_trans0 ?_ (emit_kept _ Event.system_restart_mdns_responder rfl)
      refine kept_trans0 ?_ (emit_kept _ Event.system_device_add_ip6_link_address rfl)
      exact update_ip4_address_kept env _
    · exact kept_then0 hi (stage_failed_kept env req _ w2 h)

theorem dhcp_effect (iface : String) (st : NMDHCPState) (w : World) :
    Kept 0 w (dhcp_state_changed iface st w) ∨
    ∃ r cb, w.dev.act_request = some r ∧ (w.reqs r).stage = NMActStage.ip_config_start ∧
      (cb = StageCallback.stage4_ip_config_get ∨ cb = StageCallback.stage4_ip_config_timeout) ∧
      Scheduled cb NMActStage.ip_config_get r w (dhcp_state_changed iface st w) := by
  unfold dhcp_state_changed
  cases hr : nm_device_get_act_request w with
  | none => exact Or.inl (kept_refl w)
  | some r =>
      simp only
      split
      · rename_i hcond
        have hs : (w.reqs r).stage = NMActStage.ip_config_start := hcond.2
        cases st
        case fail => exact Or.inl (emit_kept w _ rfl)
        case abend => exact Or.inl (emit_kept w _ rfl)
        case end_ => exact Or.inl (emit_kept w _ rfl)
        case other => exact Or.inl (kept_refl w)
        case timeout =>
          exact Or.inr ⟨r, _, hr, hs, Or.inr rfl, schedule_after_kept _ _ _ (kept_refl w)⟩
        all_goals
          exact Or.inr ⟨r, _, hr, hs, Or.inl rfl, schedule_after_kept _ _ _ (kept_refl w)⟩
      · exact Or.inl (kept_refl w)

theorem activate_effect (req : ReqId) (w : World) :
    nm_device_activate req w = w ∨
    ((nm_device_activate req w).sources =
        w.sources ++ [⟨w.sources_created + 1, StageCallback.stage1_device_prepare, req⟩] ∧
      (nm_device_activate req w).sources_created = w.sources_created + 1 ∧
      (nm_device_activate req w).dev.act_source_id = w.sources_created + 1 ∧
      (∀ r, ((nm_device_activate req w).reqs r).stage =
        if r = req then NMActStage.device_prepare else (w.reqs r).stage) ∧
      (nm_device_activate req w).dev.dhcp_manager = w.dev.dhcp_manager ∧
      (nm_device_activate req w).dhcp_handlers = w.dhcp_handlers ∧
      (nm_device_activate req w).dev.act_request = some req ∧
      installs (nm_device_activate req w).trace = installs w.trace) := by
  unfold nm_device_activate
  split
  · exact Or.inl rfl
  · refine Or.inr ⟨?_, ?_, ?_, ?_, ?_, ?_, ?_, ?_⟩ <;>
    simp [nm_device_activate_schedule_stage1_device_prepare, schedule_stage, g_idle_add,
      nm_act_request_set_stage, nm_act_request_ref, World.setReq, World.emit, installs_append]
    · intro r
      split <;> rfl
    · simp [installs, isInstall]

/-! ## The invariant behind the stage order -/

theorem passed_mono {l : List StageCallback} {r : ReqId} {hist hist2 : History}
    (h : Passed l r hist) (hh : hist.Sublist hist2) : Passed l r hist2 :=
  List.Sublist.trans h hh

theorem passed_snoc {l : List StageCallback} {r : ReqId} {hist : History}
    (h : Passed l r hist) (cb : StageCallback) : Passed (l ++ [cb]) r (hist ++ [(cb, r)]) := by
  unfold Passed at h ⊢
  rw [List.map_append]
  exact List.Sublist.append h (List.Sublist.refl _)

theorem passedFour_mono {r : ReqId} {hist hist2 : History}
    (h : PassedFour r hist) (hh : hist.Sublist hist2) : PassedFour r hist2 :=
  Or.imp (fun h => passed_mono h hh) (fun h => passed_mono h hh) h

theorem justified_mono {hist hist2 : History} {q q2 : List GSource} {s : GSource}
    (h : Justified hist q s) (hh : hist.Sublist hist2) (hq : ∀ t ∈ q, t ∈ q2) :
    Justified hist2 q2 s := by
  unfold Justified at h ⊢
  cases hcb : s.callback <;> rw [hcb] at h <;> simp only at h ⊢
  · exact passed_mono h hh
  · exact passed_mono h hh
  · rcases h with h | ⟨h, t, ht, h1, h2, h3⟩
    · exact Or.inl (passed_mono h hh)
    · exact Or.inr ⟨passed_mono h hh, t, hq t ht, h1, h2, h3⟩
  · rcases h with h | ⟨h, t, ht, h1, h2, h3⟩
    · exact Or.inl (passed_mono h hh)
    · exact Or.inr ⟨passed_mono h hh, t, hq t ht, h1, h2, h3⟩
  · exact passedFour_mono h hh

theorem orderInv_kept {n : Nat} {w w2 : World} {hist : History}
    (hi : OrderInv w hist) (hk : Kept n w w2) : OrderInv w2 hist := by
  obtain ⟨i1, i2, i3, i4, i5, i6⟩ := hi
  obtain ⟨k1, k2, k3, ⟨f1, -, -, -, -, -, f7⟩, -⟩ := hk
  refine ⟨k1 ▸ i1, ?_, ?_, ?_, ?_, i6⟩
  · rw [k1, k2]; exact i2
  · rcases k3 with k3 | k3
    · rw [k3, k2]; exact i3
    · exact Or.inl k3
  · rw [k1]; exact i4
  · intro r hr hs
    rw [k1]
    rcases f7 with f7 | f7
    · exact i5 r (f7 ▸ hr) ((f1 r) ▸ hs)
    · rw [f7] at hr; cases hr

theorem orderInv_cancelled {w w2 : World} {hist : History}
    (hi : OrderInv w hist) (hk : Cancelled w w2) : OrderInv w2 hist := by
  obtain ⟨i1, i2, i3, i4, i5, i6⟩ := hi
  obtain ⟨m, k1, k2, k3, -, k6, -⟩ := hk
  have hm : w.dev.act_source_id = w.sources_created := by
    rcases i3 with h | h
    · exact absurd h m
    · exact h
  refine ⟨?_, ?_, Or.inl k3, ?_, ?_, i6⟩
  · rw [k1]; exact List.Pairwise.filter _ i1
  · intro s hs
    rw [k1] at hs
    rw [k2]
    exact i2 s (List.mem_of_mem_filter hs)
  · intro s hs
    rw [k1] at hs
    have hsw := List.mem_of_mem_filter hs
    have hj := i4 s hsw
    unfold Justified at hj ⊢
    cases hcb : s.callback <;> rw [hcb] at hj <;> simp only at hj ⊢
    · exact hj
    · exact hj
    · rcases hj with h | ⟨h, t, ht, h1, h2, h3⟩
      · exact Or.inl h
      · refine Or.inr ⟨h, t, ?_, h1, h2, h3⟩
        rw [k1]
        refine List.mem_filter.mpr ⟨ht, ?_⟩
        have := i2 s hsw
        simp only [ne_eq, decide_not, Bool.not_eq_true', decide_eq_false_iff_not]
        omega
    · rcases hj with h | ⟨h, t, ht, h1, h2, h3⟩
      · exact Or.inl h
      · refine Or.inr ⟨h, t, ?_, h1, h2, h3⟩
        rw [k1]
        refine List.mem_filter.mpr ⟨ht, ?_⟩
        have := i2 s hsw
        simp only [ne_eq, decide_not, Bool.not_eq_true', decide_eq_false_iff_not]
        omega
    · exact hj
  · intro r hr
    rw [k6] at hr
    cases hr

theorem orderInv_append {w w2 : World} {hist : History} {cb : StageCallback} {tag : NMActStage}
    {req : ReqId} (hi : OrderInv w hist)
    (hs : w2.sources = w.sources ++ [⟨w.sources_created + 1, cb, req⟩])
    (hc : w2.sources_created = w.sources_created + 1)
    (hm : w2.dev.act_source_id = w.sources_created + 1)
    (ht : ∀ r, (w2.reqs r).stage = if r = req then tag else (w.reqs r).stage)
    (ha : w2.dev.act_request = w.dev.act_request ∨ w2.dev.act_request = none ∨
      (w2.dev.act_request = some req ∧ tag ≠ NMActStage.ip_config_start))
    (hj : Justified hist w2.sources ⟨w.sources_created + 1, cb, req⟩)
    (hk : tag = NMActStage.ip_config_start → cb = StageCallback.stage3_ip_config_start) :
    OrderInv w2 hist := by
  obtain ⟨i1, i2, i3, i4, i5, i6⟩ := hi
  have hsub : ∀ t ∈ w.sources, t ∈ w2.sources := fun t h => by
    rw [hs]; exact List.mem_append_left _ h
  have hnew : (⟨w.sources_created + 1, cb, req⟩ : GSource) ∈ w2.sources := by
    rw [hs]; simp
  refine ⟨?_, ?_, Or.inr (hm.trans hc.symm), ?_, ?_, i6⟩
  · rw [hs, List.pairwise_append]
    refine ⟨i1, List.pairwise_singleton _ _, ?_⟩
    intro a ha b hb
    rw [List.mem_singleton] at hb
    subst hb
    have := i2 a ha
    show a.id < w.sources_created + 1
    omega
  · intro s hsm
    rw [hs, List.mem_append, List.mem_singleton] at hsm
    rw [hc]
    rcases hsm with h | h
    · have := i2 s h; omega
    · subst h; exact Nat.le_refl _
  · intro s hsm
    rw [hs, List.mem_append, List.mem_singleton] at hsm
    rcases hsm with h | h
    · exact justified_mono (i4 s h) (List.Sublist.refl _) hsub
    · subst h; exact hj
  · intro r hr hst
    rw [ht r] at hst
    by_cases hreq : r = req
    · subst hreq
      rw [if_pos rfl] at hst
      have hcb := hk hst
      subst hcb
      unfold Justified at hj
      simp only at hj
      exact Or.inr ⟨hj, _, hnew, rfl, rfl⟩
    · rw [if_neg hreq] at hst
      rcases ha with ha | ha | ha
      · rcases i5 r (ha ▸ hr) hst with h | ⟨h, t, htm, h1, h2⟩
        · exact Or.inl h
        · exact Or.inr ⟨h, t, hsub t htm, h1, h2⟩
      · rw [ha] at hr; cases hr
      · rw [ha.1] at hr
        exact absurd (Option.some.inj hr).symm hreq

theorem filter_head {s : GSource} {rest : List GSource}
    (h : (s :: rest).Pairwise (fun a b => a.id < b.id)) :
    (s :: rest).filter (fun t => t.id ≠ s.id) = rest := by
  rw [List.pairwise_cons] at h
  rw [List.filter_cons_of_neg (by simp)]
  rw [List.filter_eq_self]
  intro a ha
  have := h.1 a ha
  simp only [ne_eq, decide_not, Bool.not_eq_true', decide_eq_false_iff_not]
  omega

theorem orderInv_pop {w : World} {hist : History} {s : GSource} {rest : List GSource}
    (hi : OrderInv w hist) (hq : w.sources = s :: rest) :
    OrderInv (g_source_remove s.id w) (hist ++ [(s.callback, s.user_data)]) := by
  obtain ⟨i1, i2, i3, i4, i5, i6⟩ := hi
  have hsrc : (g_source_remove s.id w).sources = rest := by
    unfold g_source_remove
    simp only
    rw [hq] at i1 ⊢
    exact filter_head i1
  have hsub : hist.Sublist (hist ++ [(s.callback, s.user_data)]) :=
    List.sublist_append_left _ _
  have hmem : ∀ t ∈ rest, t ∈ w.sources := fun t h => by rw [hq]; exact List.mem_cons_of_mem _ h
  have hsj := i4 s (by rw [hq]; exact List.mem_cons_self _ _)
  have hlt : ∀ t ∈ rest, s.id < t.id := by
    rw [hq, List.pairwise_cons] at i1
    exact i1.1
  refine ⟨?_, ?_, i3, ?_, ?_, ?_⟩
  · rw [hsrc]
    rw [hq, List.pairwise_cons] at i1
    exact i1.2
  · intro t ht
    rw [hsrc] at ht
    exact i2 t (hmem t ht)
  · intro t ht
    rw [hsrc] at ht ⊢
    have hj := i4 t (hmem t ht)
    unfold Justified at hj ⊢
    cases hcb : t.callback <;> rw [hcb] at hj <;> simp only at hj ⊢
    · exact passed_mono hj hsub
    · exact passed_mono hj hsub
    · rcases hj with h | ⟨h, u, hu, h1, h2, h3⟩
      · exact Or.inl (passed_mono h hsub)
      · rw [hq, List.mem_cons] at hu
        rcases hu with hu | hu
        · subst hu
          refine Or.inl ?_
          have := passed_snoc h StageCallback.stage3_ip_config_start
          rw [h1, h2]
          exact this
        · exact Or.inr ⟨passed_mono h hsub, u, hu, h1, h2, h3⟩
    · rcases hj with h | ⟨h, u, hu, h1, h2, h3⟩
      · exact Or.inl (passed_mono h hsub)
      · rw [hq, List.mem_cons] at hu
        rcases hu with hu | hu
        · subst hu
          refine Or.inl ?_
          have := passed_snoc h StageCallback.stage3_ip_config_start
          rw [h1, h2]
          exact this
        · exact Or.inr ⟨passed_mono h hsub, u, hu, h1, h2, h3⟩
    · exact passedFour_mono hj hsub
  · intro r hr hst
    rw [hsrc]
    rcases i5 r hr hst with h | ⟨h, u, hu, h1, h2⟩
    · exact Or.inl (passed_mono h hsub)
    · rw [hq, List.mem_cons] at hu
      rcases hu with hu | hu
      · subst hu
        refine Or.inl ?_
        have := passed_snoc h StageCallback.stage3_ip_config_start
        rw [h1, h2]
        exact this
      · exact Or.inr ⟨passed_mono h hsub, u, hu, h1, h2⟩
  · intro pre post r hh
    rcases List.eq_nil_or_concat post with hp | ⟨post2, x, hp⟩
    · subst hp
      have h1 : hist ++ [(s.callback, s.user_data)] =
          pre ++ [(StageCallback.stage5_ip_config_commit, r)] := hh
      have h2 := List.append_inj_left' h1 rfl
      have h3 := List.append_inj_right' h1 rfl
      simp only [List.cons.injEq, Prod.mk.injEq, and_true] at h3
      subst h2
      unfold Justified at hsj
      rw [h3.1] at hsj
      simp only at hsj
      rw [h3.2] at hsj
      exact hsj
    · subst hp
      have h1 : hist ++ [(s.callback, s.user_data)] =
          (pre ++ (StageCallback.stage5_ip_config_commit, r) :: post2) ++ [x] := by
        rw [hh]; simp
      have h2 := List.append_inj_left' h1 rfl
      exact i6 pre post2 r h2

theorem kept_pop {n : Nat} {w w1 : World} (id : Nat) (h : Kept n w w1) :
    Kept n (g_source_remove id w) (g_source_remove id w1) := by
  obtain ⟨k1, k2, k3, k4, k5⟩ := h
  refine ⟨?_, k2, k3, k4, k5⟩
  simp only [g_source_remove, k1]

theorem scheduled_pop {cb : StageCallback} {tag : NMActStage} {req : ReqId} {w w1 : World}
    (id : Nat) (hid : id ≤ w.sources_created) (h : Scheduled cb tag req w w1) :
    Scheduled cb tag req (g_source_remove id w) (g_source_remove id w1) := by
  obtain ⟨k1, k2, k3, k4, k5, k6, k7, k8⟩ := h
  refine ⟨?_, k2, k3, k4, k5, k6, k7, k8⟩
  simp only [g_source_remove, k1, List.filter_append]
  congr 1
  rw [List.filter_cons_of_pos]
  · rfl
  · simp only [ne_eq, decide_not, Bool.not_eq_true', decide_eq_false_iff_not]
    omega

theorem orderInv_scheduled {w w2 : World} {hist : History} {cb : StageCallback}
    {tag : NMActStage} {req : ReqId} (hi : OrderInv w hist) (h : Scheduled cb tag req w w2)
    (hj : Justified hist w2.sources ⟨w.sources_created + 1, cb, req⟩)
    (hk : tag = NMActStage.ip_config_start → cb = StageCallback.stage3_ip_config_start) :
    OrderInv w2 hist := by
  obtain ⟨k1, k2, k3, k4, -, -, k7, -⟩ := h
  refine orderInv_append hi k1 k2 k3 k4 ?_ hj hk
  rcases k7 with k7 | k7
  · exact Or.inl k7
  · exact Or.inr (Or.inl k7)

theorem head_passed_three {w : World} {hist : History} {s : GSource} {rest : List GSource}
    (hi : OrderInv w hist) (hq : w.sources = s :: rest)
    (hcb : s.callback = StageCallback.stage4_ip_config_get ∨
      s.callback = StageCallback.stage4_ip_config_timeout) :
    Passed [StageCallback.stage1_device_prepare, StageCallback.stage2_device_config,
      StageCallback.stage3_ip_config_start] s.user_data hist := by
  obtain ⟨i1, -, -, i4, -, -⟩ := hi
  have hj := i4 s (by rw [hq]; exact List.mem_cons_self _ _)
  rw [hq, List.pairwise_cons] at i1
  have hx : Passed [StageCallback.stage1_device_prepare, StageCallback.stage2_device_config,
      StageCallback.stage3_ip_config_start] s.user_data hist ∨
      (Passed [StageCallback.stage1_device_prepare, StageCallback.stage2_device_config]
          s.user_data hist ∧
        ∃ t ∈ w.sources, t.callback = StageCallback.stage3_ip_config_start ∧
          t.user_data = s.user_data ∧ t.id < s.id) := by
    unfold Justified at hj
    rcases hcb with hcb | hcb <;> rw [hcb] at hj <;> exact hj
  rcases hx with h | ⟨-, t, ht, -, -, h3⟩
  · exact h
  · rw [hq, List.mem_cons] at ht
    rcases ht with ht | ht
    · subst ht; exact absurd h3 (Nat.lt_irrefl _)
    · have := i1.1 t ht
      omega

theorem run_orderInv (env : Env) (w w2 : World) (hist : History) (s : GSource)
    (rest : List GSource) (hi : OrderInv w hist) (hq : w.sources = s :: rest)
    (hr : g_main_context_iteration nm_device_class_init env w = some w2) :
    OrderInv w2 (hist ++ [(s.callback, s.user_data)]) := by
  unfold g_main_context_iteration at hr
  rw [hq] at hr
  simp only [Option.map_eq_some'] at hr
  obtain ⟨w1, hb, rfl⟩ := hr
  have hpop := orderInv_pop hi hq
  have hsj := hi.2.2.2.1 s (by rw [hq]; exact List.mem_cons_self _ _)
  have hid : s.id ≤ w.sources_created := hi.2.1 s (by rw [hq]; exact List.mem_cons_self _ _)
  have hlast : [(s.callback, s.user_data)].Sublist (hist ++ [(s.callback, s.user_data)]) :=
    List.sublist_append_right _ _
  unfold run_callback at hb
  cases hcb : s.callback <;> rw [hcb] at hb hpop hlast <;> simp only at hb
  · rcases stage1_effect env _ w w1 hb with hk | hk
    · exact orderInv_kept hpop (kept_pop s.id hk)
    · refine orderInv_scheduled hpop (scheduled_pop s.id hid hk) ?_ (by simp)
      exact hlast
  · rcases stage2_effect env _ w w1 hb with hk | hk
    · exact orderInv_kept hpop (kept_pop s.id hk)
    · refine orderInv_scheduled hpop (scheduled_pop s.id hid hk) ?_ (fun _ => rfl)
      unfold Justified at hsj ⊢
      rw [hcb] at hsj
      exact passed_snoc hsj StageCallback.stage2_device_config
  · rcases (stage3_effect env _ w w1 hb).1 with hk | hk
    · exact orderInv_kept hpop (kept_pop s.id hk)
    · refine orderInv_scheduled hpop (scheduled_pop s.id hid hk) ?_ (by simp)
      unfold Justified at hsj ⊢
      rw [hcb] at hsj
      exact Or.inl (passed_snoc hsj StageCallback.stage3_ip_config_start)
  · have h3 := head_passed_three hi hq (Or.inl hcb)
    rcases stage4_get_effect env _ w w1 hb with hk | hk
    · exact orderInv_kept hpop (kept_pop s.id hk)
    · refine orderInv_scheduled hpop (scheduled_pop s.id hid hk) ?_ (by simp)
      exact Or.inl (passed_snoc h3 StageCallback.stage4_ip_config_get)
  · have h3 := head_passed_three hi hq (Or.inr hcb)
    rcases stage4_timeout_effect env _ w w1 hb with hk | hk
    · exact orderInv_kept hpop (kept_pop s.id hk)
    · refine orderInv_scheduled hpop (scheduled_pop s.id hid hk) ?_ (by simp)
      exact Or.inr (passed_snoc h3 StageCallback.stage4_ip_config_timeout)
  · exact orderInv_kept hpop (kept_pop s.id (stage5_effect env _ w w1 hb))

theorem dhcp_orderInv (iface : String) (st : NMDHCPState) (w : World) (hist : History)
    (hi : OrderInv w hist) : OrderInv (dhcp_state_changed iface st w) hist := by
  rcases dhcp_effect iface st w with hk | ⟨r, cb, hr, hs, hcb, hk⟩
  · exact orderInv_kept hi hk
  · refine orderInv_scheduled hi hk ?_ (by simp)
    have h5 := hi.2.2.2.2.1 r hr hs
    have hle := hi.2.1
    have hx : Passed [StageCallback.stage1_device_prepare, StageCallback.stage2_device_config,
        StageCallback.stage3_ip_config_start] r hist ∨
        (Passed [StageCallback.stage1_device_prepare, StageCallback.stage2_device_config]
            r hist ∧
          ∃ t ∈ (dhcp_state_changed iface st w).sources,
            t.callback = StageCallback.stage3_ip_config_start ∧
            t.user_data = r ∧ t.id < w.sources_created + 1) := by
      rcases h5 with h | ⟨h, t, ht, h1, h2⟩
      · exact Or.inl h
      · refine Or.inr ⟨h, t, ?_, h1, h2, ?_⟩
        · rw [hk.1]; exact List.mem_append_left _ ht
        · have := hle t ht; omega
    unfold Justified
    rcases hcb with hcb | hcb <;> rw [hcb] <;> exact hx

theorem dhcp_emit_orderInv (iface : String) (st : NMDHCPState) (w : World) (hist : History)
    (hi : OrderInv w hist) :
    OrderInv (nm_dhcp_manager_emit_state_changed iface st w) hist := by
  unfold nm_dhcp_manager_emit_state_changed
  generalize w.dhcp_handlers = l
  induction l generalizing w with
  | nil => exact hi
  | cons a l ih => exact ih _ (dhcp_orderInv iface st w hist hi)

theorem activate_orderInv (req : ReqId) (w : World) (hist : History) (hi : OrderInv w hist) :
    OrderInv (nm_device_activate req w) hist := by
  rcases activate_effect req w with h | ⟨h1, h2, h3, h4, -, -, h7, -⟩
  · rw [h]; exact hi
  · exact orderInv_append hi h1 h2 h3 h4 (Or.inr (Or.inr ⟨h7, by simp⟩)) trivial (by simp)

theorem run_all_orderInv (w0 w : World) (n : Nat) (hist : History) (h0 : Initial w0)
    (h : Run nm_device_class_init w0 w n hist) : OrderInv w hist := by
  induction h with
  | init =>
      obtain ⟨-, hr, hm, hs⟩ := h0
      refine ⟨by simp [hs], by simp [hs], Or.inl hm, by simp [hs], ?_, ?_⟩
      · intro r h; rw [hr] at h; cases h
      · intro pre post r h
        exact absurd h (by simp)
  | activate w n hist req _ ih => exact activate_orderInv req w hist ih
  | run w w2 n hist env s rest _ hq hr ih => exact run_orderInv env w w2 hist s rest ih hq hr
  | dhcp w n hist iface st _ ih => exact dhcp_emit_orderInv iface st w hist ih
  | cancel w w2 n hist env _ hc ih =>
      rcases cancel_effect env w w2 hc with hk | hk
      · exact orderInv_kept ih hk
      · exact orderInv_cancelled ih hk
  | deactivate w w2 n hist env _ hd ih =>
      rcases deactivate_effect env w w2 hd with hk | hk
      · exact orderInv_kept ih hk
      · exact orderInv_cancelled ih hk

/-! ## The installation budget of a run -/

theorem armed_le_one (w : World) : armed w ≤ 1 := by
  unfold armed
  split
  · split <;> omega
  · omega

theorem armed_frame {x y : World} (h : Frame x y) : armed y ≤ armed x := by
  obtain ⟨f1, -, f3, -, -, -, f7⟩ := h
  unfold armed
  rcases f7 with f7 | f7
  · rw [f7, f3]
    cases x.dev.act_request with
    | none => exact Nat.le_refl _
    | some r => simp only [f1 r]; exact Nat.le_refl _
  · rw [f7]; exact Nat.zero_le _

theorem weight_sum_filter_le (d : Bool) (p : GSource → Bool) (l : List GSource) :
    ((l.filter p).map (weight d)).sum ≤ (l.map (weight d)).sum := by
  induction l with
  | nil => simp
  | cons a l ih =>
      rw [List.filter_cons]
      split
      · simp only [List.map_cons, List.sum_cons]; omega
      · simp only [List.map_cons, List.sum_cons]; omega

theorem budget_kept {n : Nat} {w w2 : World} (h : Kept n w w2) : budget w2 ≤ budget w + n := by
  obtain ⟨k1, -, -, hf, k5⟩ := h
  have ha := armed_frame hf
  unfold budget
  rw [k1, k5, hf.2.2.1]
  omega

theorem budget_cancelled {w w2 : World} (h : Cancelled w w2) : budget w2 ≤ budget w := by
  obtain ⟨-, k1, -, -, hf, k6, k7⟩ := h
  have ha : armed w2 = 0 := by unfold armed; rw [k6]
  have hs := weight_sum_filter_le w.dev.dhcp_manager
    (fun s => s.id ≠ w.dev.act_source_id) w.sources
  unfold budget
  rw [k1, k7, hf.2.2.1, ha]
  omega

theorem armed_scheduled {cb : StageCallback} {tag : NMActStage} {req : ReqId} {w w2 : World}
    (h : Scheduled cb tag req w w2) (ht : tag ≠ NMActStage.ip_config_start) :
    armed w2 ≤ armed w ∧ (w.dev.act_request = some req → armed w2 = 0) := by
  obtain ⟨-, -, -, k4, k5, -, k7, -⟩ := h
  unfold armed
  rcases k7 with k7 | k7
  · rw [k7, k5]
    cases hr : w.dev.act_request with
    | none => exact ⟨Nat.le_refl _, fun h => by cases h⟩
    | some r =>
        simp only [k4 r]
        by_cases hreq : r = req
        · subst hreq
          simp [ht]
        · simp only [if_neg hreq]
          exact ⟨Nat.le_refl _, fun h => absurd (Option.some.inj h) hreq⟩
  · rw [k7]
    exact ⟨Nat.zero_le _, fun _ => rfl⟩

theorem budget_pop_kept {n : Nat} {w w1 : World} {s : GSource} {rest : List GSource}
    (hq : w.sources = s :: rest) (h : Kept n w w1) :
    budget (g_source_remove s.id w1) + weight w.dev.dhcp_manager s ≤ budget w + n := by
  obtain ⟨k1, -, -, hf, k5⟩ := h
  have ha := armed_frame hf
  have hs := weight_sum_filter_le w.dev.dhcp_manager (fun t => t.id ≠ s.id) rest
  have ha2 : armed (g_source_remove s.id w1) = armed w1 := rfl
  unfold budget
  rw [ha2]
  simp only [g_source_remove, k1, hq, k5, hf.2.2.1]
  rw [List.filter_cons_of_neg (by simp)]
  simp only [List.map_cons, List.sum_cons]
  omega

theorem budget_pop_scheduled {cb : StageCallback} {tag : NMActStage} {req : ReqId}
    {w w1 : World} {s : GSource} {rest : List GSource}
    (hq : w.sources = s :: rest) (h : Scheduled cb tag req w w1) :
    budget (g_source_remove s.id w1) + weight w.dev.dhcp_manager s + armed w ≤
      budget w + weight w.dev.dhcp_manager ⟨w.sources_created + 1, cb, req⟩ + armed w1 := by
  obtain ⟨k1, -, -, -, k5, -, -, k8⟩ := h
  have hs := weight_sum_filter_le w.dev.dhcp_manager (fun t => t.id ≠ s.id)
    (rest ++ [⟨w.sources_created + 1, cb, req⟩])
  have ha2 : armed (g_source_remove s.id w1) = armed w1 := rfl
  unfold budget
  rw [ha2]
  simp only [g_source_remove, k1, hq, k8, k5]
  rw [List.cons_append, List.filter_cons_of_neg (by simp)]
  simp only [List.map_cons, List.sum_cons, List.map_append, List.sum_append, List.map_nil,
    List.sum_nil] at hs ⊢
  omega

theorem armed_static {w : World} (h : w.dev.dhcp_manager = false) : armed w = 0 := by
  unfold armed
  split
  · simp [h]
  · rfl

theorem weight_other (d : Bool) (s : GSource)
    (h : s.callback ≠ StageCallback.stage3_ip_config_start) : weight d s = 1 := by
  unfold weight
  rw [if_neg (fun hc => h hc.1)]

theorem run_budget (env : Env) (w w2 : World) (s : GSource) (rest : List GSource)
    (hq : w.sources = s :: rest)
    (hr : g_main_context_iteration nm_device_class_init env w = some w2) :
    budget w2 ≤ budget w ∧ w2.dev.dhcp_manager = w.dev.dhcp_manager ∧
      w2.dhcp_handlers = w.dhcp_handlers := by
  unfold g_main_context_iteration at hr
  rw [hq] at hr
  simp only [Option.map_eq_some'] at hr
  obtain ⟨w1, hb, rfl⟩ := hr
  have keptCase : ∀ n, Kept n w w1 → n ≤ weight w.dev.dhcp_manager s →
      budget (g_source_remove s.id w1) ≤ budget w ∧
      (g_source_remove s.id w1).dev.dhcp_manager = w.dev.dhcp_manager ∧
      (g_source_remove s.id w1).dhcp_handlers = w.dhcp_handlers := by
    intro n hk hn
    have := budget_pop_kept hq hk
    exact ⟨by omega, hk.2.2.2.1.2.2.1, hk.2.2.2.1.2.2.2.1⟩
  have schedCase : ∀ cb tag, Scheduled cb tag s.user_data w w1 →
      weight w.dev.dhcp_manager ⟨w.sources_created + 1, cb, s.user_data⟩ + armed w1 ≤
        weight w.dev.dhcp_manager s + armed w →
      budget (g_source_remove s.id w1) ≤ budget w ∧
      (g_source_remove s.id w1).dev.dhcp_manager = w.dev.dhcp_manager ∧
      (g_source_remove s.id w1).dhcp_handlers = w.dhcp_handlers := by
    intro cb tag hk hn
    have := budget_pop_scheduled hq hk
    exact ⟨by omega, hk.2.2.2.2.1, hk.2.2.2.2.2.1⟩
  unfold run_callback at hb
  cases hcb : s.callback <;> rw [hcb] at hb <;> simp only at hb
  · have hw : weight w.dev.dhcp_manager s = 1 := weight_other _ s (by simp [hcb])
    rcases stage1_effect env _ w w1 hb with hk | hk
    · exact keptCase 0 hk (Nat.zero_le _)
    · refine schedCase _ _ hk ?_
      have := (armed_scheduled hk (by simp)).1
      rw [hw, weight_other _ _ (by simp)]
      omega
  · have hw : weight w.dev.dhcp_manager s = 1 := weight_other _ s (by simp [hcb])
    rcases stage2_effect env _ w w1 hb with hk | hk
    · exact keptCase 0 hk (Nat.zero_le _)
    · refine schedCase _ _ hk ?_
      rw [hw]
      cases hd : w.dev.dhcp_manager
      · have : armed w1 = 0 := armed_static (hk.2.2.2.2.1.trans hd)
        simp [weight, this]
      · have := armed_le_one w1
        simp only [weight, and_self, if_true]
        omega
  · cases hd : w.dev.dhcp_manager
    · have hw : weight w.dev.dhcp_manager s = 1 := by simp [weight, hd]
      rcases (stage3_effect env _ w w1 hb).1 with hk | hk
      · exact hd ▸ keptCase 0 hk (Nat.zero_le _)
      · refine hd ▸ schedCase _ _ hk ?_
        have := (armed_scheduled hk (by simp)).1
        rw [hw, weight_other _ _ (by simp)]
        omega
    · exact hd ▸ keptCase 0 ((stage3_effect env _ w w1 hb).2 hd) (Nat.zero_le _)
  · have hw : weight w.dev.dhcp_manager s = 1 := weight_other _ s (by simp [hcb])
    rcases stage4_get_effect env _ w w1 hb with hk | hk
    · exact keptCase 0 hk (Nat.zero_le _)
    · refine schedCase _ _ hk ?_
      have := (armed_scheduled hk (by simp)).1
      rw [hw, weight_other _ _ (by simp)]
      omega
  · have hw : weight w.dev.dhcp_manager s = 1 := weight_other _ s (by simp [hcb])
    rcases stage4_timeout_effect env _ w w1 hb with hk | hk
    · exact keptCase 0 hk (Nat.zero_le _)
    · refine schedCase _ _ hk ?_
      have := (armed_scheduled hk (by simp)).1
      rw [hw, weight_other _ _ (by simp)]
      omega
  · have hw : weight w.dev.dhcp_manager s = 1 := weight_other _ s (by simp [hcb])
    exact keptCase 1 (stage5_effect env _ w w1 hb) (by omega)

theorem dhcp_budget (iface : String) (st : NMDHCPState) (w : World)
    (hd : w.dev.dhcp_manager = true) :
    budget (dhcp_state_changed iface st w) ≤ budget w ∧
      (dhcp_state_changed iface st w).dev.dhcp_manager = w.dev.dhcp_manager ∧
      (dhcp_state_changed iface st w).dhcp_handlers = w.dhcp_handlers := by
  rcases dhcp_effect iface st w with hk | ⟨r, cb, hr, hs, hcb, hk⟩
  · exact ⟨by simpa using budget_kept hk, hk.2.2.2.1.2.2.1, hk.2.2.2.1.2.2.2.1⟩
  · refine ⟨?_, hk.2.2.2.2.1, hk.2.2.2.2.2.1⟩
    have h0 := (armed_scheduled hk (by simp)).2 hr
    have h1 : armed w = 1 := by
      unfold armed
      rw [hr]
      simp [hd, hs]
    have hw : weight w.dev.dhcp_manager ⟨w.sources_created + 1, cb, r⟩ = 1 := by
      rcases hcb with h | h <;> subst h <;> exact weight_other _ _ (by simp)
    unfold budget
    rw [hk.1, hk.2.2.2.2.2.2.2, hk.2.2.2.2.1, h0, h1]
    simp only [List.map_append, List.sum_append, List.map_cons, List.map_nil, List.sum_cons,
      List.sum_nil, hw]
    omega

theorem dhcp_emit_budget (iface : String) (st : NMDHCPState) (w : World)
    (hc : w.dhcp_handlers ≠ [] → w.dev.dhcp_manager = true) :
    budget (nm_dhcp_manager_emit_state_changed iface st w) ≤ budget w ∧
      (nm_dhcp_manager_emit_state_changed iface st w).dev.dhcp_manager = w.dev.dhcp_manager ∧
      (nm_dhcp_manager_emit_state_changed iface st w).dhcp_handlers = w.dhcp_handlers := by
  unfold nm_dhcp_manager_emit_state_changed
  cases hl : w.dhcp_handlers with
  | nil => exact ⟨Nat.le_refl _, rfl, hl⟩
  | cons a l =>
      have hd : w.dev.dhcp_manager = true := hc (by simp [hl])
      have key : ∀ (l : List Nat) (x : World), x.dev.dhcp_manager = true →
          budget (l.foldl (fun acc _ => dhcp_state_changed iface st acc) x) ≤ budget x ∧
          (l.foldl (fun acc _ => dhcp_state_changed iface st acc) x).dev.dhcp_manager
            = x.dev.dhcp_manager ∧
          (l.foldl (fun acc _ => dhcp_state_changed iface st acc) x).dhcp_handlers
            = x.dhcp_handlers := by
        intro l
        induction l with
        | nil => intro x _; exact ⟨Nat.le_refl _, rfl, rfl⟩
        | cons b l ih =>
            intro x hx
            obtain ⟨b1, b2, b3⟩ := dhcp_budget iface st x hx
            obtain ⟨c1, c2, c3⟩ := ih (dhcp_state_changed iface st x) (b2.trans hx)
            exact ⟨Nat.le_trans c1 b1, c2.trans b2, c3.trans b3⟩
      have := key (a :: l) w hd
      exact ⟨this.1, this.2.1, this.2.2.trans hl⟩

theorem activate_budget (req : ReqId) (w : World) :
    budget (nm_device_activate req w) ≤ budget w + 1 ∧
      (nm_device_activate req w).dev.dhcp_manager = w.dev.dhcp_manager ∧
      (nm_device_activate req w).dhcp_handlers = w.dhcp_handlers := by
  rcases activate_effect req w with h | ⟨h1, h2, h3, h4, h5, h6, h7, h8⟩
  · rw [h]; exact ⟨Nat.le_succ _, rfl, rfl⟩
  · refine ⟨?_, h5, h6⟩
    have ha : armed (nm_device_activate req w) = 0 := by
      unfold armed
      rw [h7]
      simp [h4 req]
    unfold budget
    rw [h1, h8, h5, ha]
    simp only [List.map_append, List.sum_append, List.map_cons, List.map_nil, List.sum_cons,
      List.sum_nil, weight_other _ _ (by simp : (⟨w.sources_created + 1,
        StageCallback.stage1_device_prepare, req⟩ : GSource).callback ≠
          StageCallback.stage3_ip_config_start)]
    omega

theorem run_all_budget (w0 w : World) (n : Nat) (hist : History)
    (hc : w0.dhcp_handlers ≠ [] → w0.dev.dhcp_manager = true)
    (h : Run nm_device_class_init w0 w n hist) :
    budget w ≤ budget w0 + n ∧ w.dev.dhcp_manager = w0.dev.dhcp_manager ∧
      w.dhcp_handlers = w0.dhcp_handlers := by
  induction h with
  | init => exact ⟨Nat.le_refl _, rfl, rfl⟩
  | activate w n hist req _ ih =>
      obtain ⟨a1, a2, a3⟩ := activate_budget req w
      exact ⟨by omega, a2.trans ih.2.1, a3.trans ih.2.2⟩
  | run w w2 n hist env s rest _ hq hr ih =>
      obtain ⟨a1, a2, a3⟩ := run_budget env w w2 s rest hq hr
      exact ⟨by omega, a2.trans ih.2.1, a3.trans ih.2.2⟩
  | dhcp w n hist iface st _ ih =>
      obtain ⟨a1, a2, a3⟩ := dhcp_emit_budget iface st w
        (fun hne => by rw [ih.2.1]; exact hc (by rw [← ih.2.2]; exact hne))
      exact ⟨by omega, a2.trans ih.2.1, a3.trans ih.2.2⟩
  | cancel w w2 n hist env _ hcn ih =>
      rcases cancel_effect env w w2 hcn with hk | hk
      · have := budget_kept hk
        exact ⟨by omega, hk.2.2.2.1.2.2.1.trans ih.2.1, hk.2.2.2.1.2.2.2.1.trans ih.2.2⟩
      · have := budget_cancelled hk
        exact ⟨by omega, hk.2.2.2.2.1.2.2.1.trans ih.2.1, hk.2.2.2.2.1.2.2.2.1.trans ih.2.2⟩
  | deactivate w w2 n hist env _ hd ih =>
      rcases deactivate_effect env w w2 hd with hk | hk
      · have := budget_kept hk
        exact ⟨by omega, hk.2.2.2.1.2.2.1.trans ih.2.1, hk.2.2.2.1.2.2.2.1.trans ih.2.2⟩
      · have := budget_cancelled hk
        exact ⟨by omega, hk.2.2.2.2.1.2.2.1.trans ih.2.1, hk.2.2.2.2.1.2.2.2.1.trans ih.2.2⟩

/-- A run of the DHCP device "eth0": request 7 is activated, stages 1 to 3
run, the DHCP manager reports a lease, stage 4 Get fetches it and stage 5
commits it. -/
theorem eth0_lease_run :
    ∃ w, Run nm_device_class_init eth0 w 1
      [(StageCallback.stage1_device_prepare, 7), (StageCallback.stage2_device_config, 7),
       (StageCallback.stage3_ip_config_start, 7), (StageCallback.stage4_ip_config_get, 7),
       (StageCallback.stage5_ip_config_commit, 7)] ∧ installs w.trace = 1 := by
  have r0 : Run nm_device_class_init eth0 eth0 0 [] := Run.init
  have r1 := Run.activate _ _ _ 7 r0
  have r2 := Run.run _ _ _ _ {} _ _ r1 rfl rfl
  have r3 := Run.run _ _ _ _ {} _ _ r2 rfl rfl
  have r4 := Run.run _ _ _ _ {} _ _ r3 rfl rfl
  have r5 := Run.dhcp _ _ _ "eth0" NMDHCPState.bound r4
  have r6 := Run.run _ _ _ _ leaseWithoutMtu _ _ r5 rfl rfl
  have r7 := Run.run _ _ _ _ {} _ _ r6 rfl rfl
  exact ⟨_, r7, by decide⟩

/-! ## C11: the order of the stages -/

/-- C11: in every run of a device with the default hooks from its initial
state (activations, main-loop iterations, DHCP notifications, cancellations
and deactivations in any order), whenever the stage-5 body has run for a
request `r`, the bodies that ran before it include, for `r` and in this
order, stage 1, stage 2, stage 3 and one of stage 4 Get and stage 4
Timeout. -/
theorem stage_order (w0 w : World) (n : Nat) (hist pre post : History) (r : ReqId)
    (h0 : Initial w0) (h : Run nm_device_class_init w0 w n hist)
    (hh : hist = pre ++ (StageCallback.stage5_ip_config_commit, r) :: post) :
    PassedFour r pre :=
  (run_all_orderInv w0 w n hist h0 h).2.2.2.2.2 pre post r hh

/-- C11 on the run of "eth0" in which a lease arrives after stage 3. -/
theorem stage_order_witness :
    PassedFour 7
      [(StageCallback.stage1_device_prepare, 7), (StageCallback.stage2_device_config, 7),
       (StageCallback.stage3_ip_config_start, 7), (StageCallback.stage4_ip_config_get, 7)] := by
  obtain ⟨w, hr, -⟩ := eth0_lease_run
  exact stage_order eth0 w 1 _ _ [] 7 ⟨rfl, rfl, rfl, rfl⟩ hr rfl

/-! ## Installations counted over whole runs -/

/-- A bound over whole runs: on a device with the default hooks that starts
with no request attached and no continuation queued (its DHCP handler
connected only if it uses DHCP), in every run (activations, main-loop
iterations, DHCP notifications, cancellations and deactivations in any
order) the backend's `set_from_ip4_config` has been called at most as many
times as `nm_device_activate`.  It does not say in which attempt an
installation falls. -/
theorem installs_bounded_by_attempts (w0 w : World) (n : Nat) (hist : History)
    (hq : w0.sources = []) (ha : w0.dev.act_request = none)
    (hc : w0.dhcp_handlers ≠ [] → w0.dev.dhcp_manager = true)
    (h : Run nm_device_class_init w0 w n hist) :
    installs w.trace ≤ installs w0.trace + n := by
  have hb := (run_all_budget w0 w n hist hc h).1
  have h0 : budget w0 = installs w0.trace := by
    unfold budget armed
    rw [hq, ha]
    simp
  have h1 : installs w.trace ≤ budget w := by
    unfold budget
    omega
  omega

/-- The bound on the run of "eth0" in which a lease arrives after stage 3:
one attempt, one installation. -/
theorem installs_bounded_by_attempts_witness :
    ∃ w : World, Run nm_device_class_init eth0 w 1
      [(StageCallback.stage1_device_prepare, 7), (StageCallback.stage2_device_config, 7),
       (StageCallback.stage3_ip_config_start, 7), (StageCallback.stage4_ip_config_get, 7),
       (StageCallback.stage5_ip_config_commit, 7)] ∧
      installs w.trace = 1 ∧ installs w.trace ≤ installs eth0.trace + 1 := by
  obtain ⟨w, hr, hi⟩ := eth0_lease_run
  exact ⟨w, hr, hi, installs_bounded_by_attempts eth0 w 1 _ rfl rfl (fun _ => rfl) hr⟩

/-! ## C21: quick deactivation -/

theorem quietStep_refl (x : World) : QuietStep x x :=
  ⟨rfl, rfl, [], by simp, by simp⟩

theorem quietStep_trans {x y z : World} (h1 : QuietStep x y) (h2 : QuietStep y z) :
    QuietStep x z := by
  obtain ⟨a1, b1, e1, t1, f1⟩ := h1
  obtain ⟨a2, b2, e2, t2, f2⟩ := h2
  refine ⟨a2.trans a1, b2.trans b1, e1 ++ e2, by rw [t2, t1, List.append_assoc], ?_⟩
  intro e he
  rcases List.mem_append.mp he with h | h
  · exact f1 e h
  · exact f2 e h

theorem quietStep_emit (x : World) (e : Event) (h : isFlush e = false) :
    QuietStep x (x.emit e) :=
  ⟨rfl, rfl, [e], rfl, by simpa using h⟩

theorem cancel_quietStep (env : Env) (w w2 : World)
    (h : nm_device_activation_cancel env w = some w2) :
    QuietStep w w2 ∧ (nm_device_is_activating w = true → w2.dev.act_request = none) := by
  unfold nm_device_activation_cancel at h
  split at h
  · rename_i hn
    cases h
    exact ⟨quietStep_refl w, fun ha => by rw [hn] at ha; cases ha⟩
  · split at h
    · cases h
    · simp only [Option.some.injEq] at h
      subst h
      rcases w with ⟨⟨st, ifc, cap, la, ip, app, ar, sid, cfg, dm, dsi⟩, reqs, srcs, sc, dh, hcn, tr⟩
      refine ⟨⟨?_, ?_, ?_⟩, fun _ => ?_⟩
      · by_cases hs : sid = 0 <;> cases ar <;> simp [hs, World.emit, World.callHook,
          World.emits, nm_act_request_unref, World.setReq, g_source_remove, nm_device_class_init]
      · by_cases hs : sid = 0 <;> cases ar <;> simp [hs, World.emit, World.callHook,
          World.emits, nm_act_request_unref, World.setReq, g_source_remove, nm_device_class_init]
      · by_cases hs : sid = 0 <;> cases ar <;> by_cases hst : st = NMDeviceState.ip_config <;>
          simp [hs, hst, World.emit, World.callHook, World.emits, nm_act_request_unref,
            World.setReq, g_source_remove, nm_device_class_init, real_activation_cancel_handler,
            nm_device_get_state, nm_device_get_iface, isFlush]
      · by_cases hs : sid = 0 <;> cases ar <;> simp [hs, World.emit, World.callHook,
          World.emits, nm_act_request_unref, World.setReq, g_source_remove, nm_device_class_init]

theorem cancel_returns (env : Env) (w : World) (happ : w.dev.app_data = true) :
    ∃ w2, nm_device_activation_cancel env w = some w2 := by
  unfold nm_device_activation_cancel
  split
  · exact ⟨_, rfl⟩
  · rw [if_neg (by simp [happ])]
    exact ⟨_, rfl⟩

theorem deactivate_quickly_tail_quiet (cls : NMDeviceClass) (env : Env) (w : World)
    (hq : ∀ h x, cls.deactivate_quickly = some h → ∀ e ∈ h env x, isFlush e = false) :
    QuietStep w (deactivate_quickly_tail cls env w) ∧
      (deactivate_quickly_tail cls env w).dev.act_request = none := by
  rcases w with ⟨⟨st, ifc, cap, la, ip, app, ar, sid, cfg, dm, dsi⟩, reqs, srcs, sc, dh, hcn, tr⟩
  unfold isFlush at hq
  cases ar <;> cases hdq : cls.deactivate_quickly <;>
    simp [QuietStep, deactivate_quickly_tail, hdq, nm_device_get_act_request, World.emit,
      World.callHook, World.emits, nm_act_request_unref, World.setReq, nm_device_get_iface,
      isFlush] <;>
    exact hq _ _ hdq

/-- C21: on every device, in every lifecycle state,
`nm_device_deactivate_quickly` returns; the lifecycle state and the
committed configuration are as before, it calls neither
`nm_system_device_flush_routes` nor `nm_system_device_flush_addresses` (the
variant's `deactivate_quickly` hook being taken not to), and on a device
with its application data no request is attached afterwards. -/
theorem deactivate_quickly_keeps_state (cls : NMDeviceClass) (env : Env) (w : World)
    (hq : ∀ h x, cls.deactivate_quickly = some h → ∀ e ∈ h env x, isFlush e = false) :
    ∃ b w2, nm_device_deactivate_quickly cls env w = some (b, w2) ∧
      w2.dev.state = w.dev.state ∧ w2.dev.ip4_config = w.dev.ip4_config ∧
      (∃ es, w2.trace = w.trace ++ es ∧ ∀ e ∈ es, isFlush e = false) ∧
      (w.dev.app_data = true → w2.dev.act_request = none) := by
  by_cases happ : w.dev.app_data = false
  · refine ⟨false, w, ?_, rfl, rfl, ⟨[], by simp, by simp⟩, fun h => ?_⟩
    · unfold nm_device_deactivate_quickly
      rw [if_pos happ]
    · rw [happ] at h; cases h
  · have h0 : QuietStep w ((w.emit Event.system_shutdown_nis).emit
        Event.vpn_manager_deactivate_vpn_connection) :=
      quietStep_trans (quietStep_emit w Event.system_shutdown_nis rfl)
        (quietStep_emit _ Event.vpn_manager_deactivate_vpn_connection rfl)
    have hc : ∃ w1, (if nm_device_get_state ((w.emit Event.system_shutdown_nis).emit
          Event.vpn_manager_deactivate_vpn_connection) = NMDeviceState.activated then
          some (((w.emit Event.system_shutdown_nis).emit
            Event.vpn_manager_deactivate_vpn_connection).emit
              (Event.dbus_device_status_change DeviceStatus.no_longer_active))
        else if nm_device_is_activating ((w.emit Event.system_shutdown_nis).emit
            Event.vpn_manager_deactivate_vpn_connection) = true then
          nm_device_activation_cancel env ((w.emit Event.system_shutdown_nis).emit
            Event.vpn_manager_deactivate_vpn_connection)
        else some ((w.emit Event.system_shutdown_nis).emit
            Event.vpn_manager_deactivate_vpn_connection)) = some w1 ∧ QuietStep w w1 := by
      split
      · exact ⟨_, rfl, quietStep_trans h0 (quietStep_emit _ _ rfl)⟩
      · split
        · obtain ⟨w1, h1⟩ := cancel_returns env ((w.emit Event.system_shutdown_nis).emit
            Event.vpn_manager_deactivate_vpn_connection) (by simpa [World.emit] using happ)
          exact ⟨w1, h1, quietStep_trans h0 (cancel_quietStep env _ w1 h1).1⟩
        · exact ⟨_, rfl, h0⟩
    obtain ⟨w1, h1, q1⟩ := hc
    obtain ⟨q2, a2⟩ := deactivate_quickly_tail_quiet cls env w1 hq
    have q := quietStep_trans q1 q2
    refine ⟨true, deactivate_quickly_tail cls env w1, ?_, q.1, q.2.1, q.2.2, fun _ => a2⟩
    unfold nm_device_deactivate_quickly
    rw [if_neg happ]
    simp only []
    rw [h1]
    rfl

/-- C21 on "eth0" in state Config with request 7 attached. -/
theorem deactivate_quickly_keeps_state_witness :
    ∃ b w2, nm_device_deactivate_quickly nm_device_class_init {} eth0Config = some (b, w2) ∧
      w2.dev.state = NMDeviceState.config ∧ w2.dev.ip4_config = none ∧
      w2.dev.act_request = none := by
  obtain ⟨b, w2, h1, h2, h3, -, h5⟩ := deactivate_quickly_keeps_state nm_device_class_init {}
    eth0Config (fun _ _ h => by simp [nm_device_class_init] at h)
  exact ⟨b, w2, h1, h2, h3, h5 rfl⟩

/-! ## C22 and C23: hard DHCP failures -/

/-- C22 fails on the code: "eth0" waits in state IpConfig with request 7
tagged IpConfigStart; the DHCP manager reports Fail (likewise Abend, End)
for "eth0".  The handler only notifies the policy: the lifecycle state is
still IpConfig, the request is still attached and tagged IpConfigStart, and
no "state-changed" signal for Failed is among the calls. -/
theorem dhcp_failure_leaves_state :
    eth0WaitingForLease.map (fun w => (w.dev.state, (w.reqs 7).stage, w.dev.act_request))
      = some (NMDeviceState.ip_config, NMActStage.ip_config_start, some 7) ∧
    eth0WaitingForLease.map (fun w =>
        [NMDHCPState.fail, NMDHCPState.abend, NMDHCPState.end_].map (fun st =>
          ((nm_dhcp_manager_emit_state_changed "eth0" st w).dev.state,
           (nm_dhcp_manager_emit_state_changed "eth0" st w).dev.act_request,
           (nm_dhcp_manager_emit_state_changed "eth0" st w).trace.getLast?,
           decide (Event.state_changed_signal NMDeviceState.failed ∈
             (nm_dhcp_manager_emit_state_changed "eth0" st w).trace))))
      = some [(NMDeviceState.ip_config, some 7, some (Event.policy_activation_failed 7), false),
              (NMDeviceState.ip_config, some 7, some (Event.policy_activation_failed 7), false),
              (NMDeviceState.ip_config, some 7, some (Event.policy_activation_failed 7), false)] := by
  decide

/-- C23 fails on the code: "eth0" waits in state IpConfig with request 7
tagged IpConfigStart; the DHCP manager reports Fail and then End for
"eth0".  Neither notification changes the state, the request or its tag, so
both are accepted and the policy's `activation_failed` is invoked twice for
request 7 within the one attempt. -/
theorem dhcp_failure_notifies_twice :
    eth0WaitingForLease.map (fun w =>
        ((nm_dhcp_manager_emit_state_changed "eth0" NMDHCPState.end_
            (nm_dhcp_manager_emit_state_changed "eth0" NMDHCPState.fail w)).trace.count
          (Event.policy_activation_failed 7),
         w.trace.count (Event.policy_activation_failed 7)))
      = some (2, 0) := by
  decide

/-! ## C29: the cancel handler of a variant -/

/-- C29 fails on the code: a variant overrides the activation-cancel handler
(its handler makes the call `custom 1`); "eth0" of that variant is in state
Config with request 7.  `nm_device_activation_cancel`, and
`nm_device_deactivate_quickly` through it, call the handler of the base
class looked up with `g_type_class_peek (NM_TYPE_DEVICE)`: the calls made are
the handler slot, the release of the request and the broadcast, and the
variant's call is not among them. -/
theorem cancel_ignores_variant_handler :
    overridingClass.activation_cancel_handler.map (fun h => h {} eth0Config (some 7))
      = some [Event.custom 1] ∧
    (nm_device_activation_cancel {} eth0Config).map (fun w => w.trace)
      = some [Event.class_hook ClassHook.activation_cancel_handler, Event.act_request_unref 7,
              Event.state_change_signal_broadcast] ∧
    (nm_device_deactivate_quickly overridingClass {} eth0Config).map
        (fun p => decide (Event.custom 1 ∈ p.2.trace))
      = some false := by
  decide

/-! ## C28 and C30: the default stage-3 hook and the default cancel handler -/

/-- C28: the default stage-3 hook returns Success without any call when the
device does not use DHCP; when it does, the hook makes exactly one call,
`begin_transaction` for the interface of the device, and returns Postpone if
that call returned true and Failure if it returned false, so never
Success. -/
theorem default_stage3_hook (env : Env) (w : World) (req : ReqId) :
    (nm_device_get_use_dhcp w = false →
      real_act_stage3_ip_config_start env w req = (NMActStageReturn.success, [])) ∧
    (nm_device_get_use_dhcp w = true →
      (real_act_stage3_ip_config_start env w req).2 =
          [Event.dhcp_begin_transaction (nm_device_get_iface w)] ∧
        (env.dhcp_begin_transaction = true →
          (real_act_stage3_ip_config_start env w req).1 = NMActStageReturn.postpone) ∧
        (env.dhcp_begin_transaction = false →
          (real_act_stage3_ip_config_start env w req).1 = NMActStageReturn.failure) ∧
        (real_act_stage3_ip_config_start env w req).1 ≠ NMActStageReturn.success) := by
  unfold real_act_stage3_ip_config_start
  constructor
  · intro h
    simp [h]
  · intro h
    cases hb : env.dhcp_begin_transaction <;> simp [h, hb]

/-- C28 on "eth0" (DHCP) and "eth1" (static). -/
theorem default_stage3_hook_witness :
    real_act_stage3_ip_config_start {} eth1Static 7 = (NMActStageReturn.success, []) ∧
    real_act_stage3_ip_config_start {} eth0 7 =
      (NMActStageReturn.postpone, [Event.dhcp_begin_transaction "eth0"]) :=
  ⟨(default_stage3_hook {} eth1Static 7).1 rfl, by
    have h := (default_stage3_hook {} eth0 7).2 rfl
    exact Prod.ext (h.2.1 rfl) h.1⟩

/-- C30: called with a request, the default activation-cancel handler makes
one call, `cancel_transaction` of the DHCP manager for the interface of the
device, when the lifecycle state is IpConfig, and no call at all in any
other state. -/
theorem default_cancel_handler (env : Env) (w : World) (r : ReqId) :
    (nm_device_get_state w = NMDeviceState.ip_config →
      real_activation_cancel_handler env w (some r) =
        [Event.dhcp_cancel_transaction w.dev.dhcp_manager (nm_device_get_iface w) true]) ∧
    (nm_device_get_state w ≠ NMDeviceState.ip_config →
      real_activation_cancel_handler env w (some r) = []) := by
  unfold real_activation_cancel_handler
  exact ⟨fun h => by simp [h], fun h => by simp [h]⟩

/-- C30 on "eth0" in state Config: no DHCP call. -/
theorem default_cancel_handler_witness :
    real_activation_cancel_handler {} eth0Config (some 7) = [] :=
  (default_cancel_handler {} eth0Config 7).2 (by decide)

/-! ## C27: a postponing hook -/

theorem stage_failed_state (cls : NMDeviceClass) (env : Env) (req : ReqId) (x w2 : World)
    (h : stage_failed cls env req x = some w2) : w2.dev.state ≠ NMDeviceState.activated := by
  by_cases happ : x.dev.app_data = true
  · obtain ⟨w3, es, h3, -, hst, -⟩ :=
      stage_failed_outcome cls env req x x happ (List.prefix_refl _)
    rw [h] at h3
    cases h3
    rw [hst]
    decide
  · have hf : x.dev.app_data = false := by simpa using happ
    unfold stage_failed nm_device_state_changed nm_device_interface_deactivate
      nm_device_deactivate at h
    simp only [hf, if_true] at h
    cases h
    simp [nm_policy_schedule_activation_failed, World.emit]

theorem schedule_stage_state (tag : NMActStage) (cb : StageCallback) (req : ReqId) (x : World) :
    (schedule_stage tag cb req x).dev.state = x.dev.state := by
  simp [schedule_stage, g_idle_add, nm_act_request_set_stage, World.setReq]

theorem run_callback_state (env : Env) (cb : StageCallback) (req : ReqId) (w w1 : World)
    (h : run_callback nm_device_class_init env cb req w = some w1)
    (hcb : cb ≠ StageCallback.stage5_ip_config_commit)
    (hst : w.dev.state ≠ NMDeviceState.activated) :
    w1.dev.state ≠ NMDeviceState.activated := by
  have hclear : (clear_act_source_id w).dev.state = w.dev.state := by
    rw [clear_act_source_id_eq]
  unfold run_callback at h
  cases cb <;> simp only at h
  · unfold nm_device_activate_stage1_device_prepare at h
    simp only [nm_device_state_changed, Option.bind_eq_bind, Option.some_bind] at h
    split at h
    · cases h; simp [World.callHook, World.emit, World.emits, nm_device_state_changed_plain]
    · exact stage_failed_state _ env req _ w1 h
    · cases h
      simp [nm_device_activate_schedule_stage2_device_config, schedule_stage_state,
        World.callHook, World.emit, World.emits, nm_device_state_changed_plain]
  · unfold nm_device_activate_stage2_device_config at h
    simp only [nm_device_state_changed, Option.bind_eq_bind, Option.some_bind] at h
    have hs : ∀ es, ((if nm_device_is_up env (nm_device_state_changed_plain NMDeviceState.config
        (clear_act_source_id w)) = true then
          nm_device_state_changed_plain NMDeviceState.config (clear_act_source_id w)
        else nm_device_bring_up nm_device_class_init.set_hw_address env
          (nm_device_state_changed_plain NMDeviceState.config
            (clear_act_source_id w))).callHook ClassHook.act_stage2_config es).dev.state
          = NMDeviceState.config := by
      intro es
      split <;> rfl
    split at h
    · cases h; rw [hs]; decide
    · exact stage_failed_state _ env req _ w1 h
    · cases h
      rw [nm_device_activate_schedule_stage3_ip_config_start, schedule_stage_state, hs]
      decide
  · unfold nm_device_activate_stage3_ip_config_start at h
    simp only [nm_device_state_changed, Option.bind_eq_bind, Option.some_bind] at h
    split at h
    · cases h; simp [World.callHook, World.emit, World.emits, nm_device_state_changed_plain]
    · exact stage_failed_state _ env req _ w1 h
    · cases h
      simp [nm_device_activate_schedule_stage4_ip_config_get, schedule_stage_state,
        World.callHook, World.emit, World.emits, nm_device_state_changed_plain]
  · unfold nm_device_activate_stage4_ip_config_get stage4_finish at h
    simp only at h
    split at h
    · cases h; simpa [World.callHook, World.emit, World.emits] using hclear ▸ hst
    · exact stage_failed_state _ env req _ w1 h
    · exact stage_failed_state _ env req _ w1 h
    · cases h
      rw [nm_device_activate_schedule_stage5_ip_config_commit, schedule_stage_state]
      simpa [World.callHook, World.emit, World.emits, nm_act_request_set_ip4_config,
        World.setReq] using hclear ▸ hst
  · unfold nm_device_activate_stage4_ip_config_timeout stage4_finish at h
    simp only at h
    split at h
    · cases h; simpa [World.callHook, World.emit, World.emits] using hclear ▸ hst
    · exact stage_failed_state _ env req _ w1 h
    · exact stage_failed_state _ env req _ w1 h
    · cases h
      rw [nm_device_activate_schedule_stage5_ip_config_commit, schedule_stage_state]
      simpa [World.callHook, World.emit, World.emits, nm_act_request_set_ip4_config,
        World.setReq] using hclear ▸ hst
  · exact absurd rfl hcb

theorem run_callback_effect (env : Env) (cb : StageCallback) (req : ReqId) (w w1 : World)
    (h : run_callback nm_device_class_init env cb req w = some w1) :
    (∃ n, Kept n w w1) ∨
    (∃ cb2 tag, nextStage cb = some (cb2, tag) ∧
      (cb = StageCallback.stage3_ip_config_start → w.dev.dhcp_manager = false) ∧
      Scheduled cb2 tag req w w1) := by
  unfold run_callback at h
  cases cb <;> simp only at h
  · rcases stage1_effect env req w w1 h with hk | hk
    · exact Or.inl ⟨0, hk⟩
    · exact Or.inr ⟨_, _, rfl, by simp, hk⟩
  · rcases stage2_effect env req w w1 h with hk | hk
    · exact Or.inl ⟨0, hk⟩
    · exact Or.inr ⟨_, _, rfl, by simp, hk⟩
  · cases hd : w.dev.dhcp_manager
    · rcases (stage3_effect env req w w1 h).1 with hk | hk
      · exact Or.inl ⟨0, hk⟩
      · exact Or.inr ⟨_, _, rfl, fun _ => rfl, hk⟩
    · exact Or.inl ⟨0, (stage3_effect env req w w1 h).2 hd⟩
  · rcases stage4_get_effect env req w w1 h with hk | hk
    · exact Or.inl ⟨0, hk⟩
    · exact Or.inr ⟨_, _, rfl, by simp, hk⟩
  · rcases stage4_timeout_effect env req w w1 h with hk | hk
    · exact Or.inl ⟨0, hk⟩
    · exact Or.inr ⟨_, _, rfl, by simp, hk⟩
  · exact Or.inl ⟨1, stage5_effect env req w w1 h⟩

theorem run_summary (env : Env) (w w2 : World) (hist : History) (s : GSource)
    (rest : List GSource) (hi : OrderInv w hist) (hq : w.sources = s :: rest)
    (hr : g_main_context_iteration nm_device_class_init env w = some w2) :
    w2.dev.dhcp_manager = w.dev.dhcp_manager ∧ w2.dhcp_handlers = w.dhcp_handlers ∧
    (w2.dev.act_request = w.dev.act_request ∨ w2.dev.act_request = none) ∧
    (s.callback ≠ StageCallback.stage5_ip_config_commit →
      w.dev.state ≠ NMDeviceState.activated → w2.dev.state ≠ NMDeviceState.activated) ∧
    ((w2.sources = rest ∧ w2.dev.act_source_id = 0 ∧
        ∀ x, (w2.reqs x).stage = (w.reqs x).stage) ∨
      (∃ cb tag, nextStage s.callback = some (cb, tag) ∧
        (s.callback = StageCallback.stage3_ip_config_start → w.dev.dhcp_manager = false) ∧
        w2.sources = rest ++ [⟨w.sources_created + 1, cb, s.user_data⟩] ∧
        ∀ x, (w2.reqs x).stage = if x = s.user_data then tag else (w.reqs x).stage)) := by
  unfold g_main_context_iteration at hr
  rw [hq] at hr
  simp only [Option.map_eq_some'] at hr
  obtain ⟨w1, hb, rfl⟩ := hr
  have hsorted := hi.1
  have hid : s.id ≤ w.sources_created := hi.2.1 s (by rw [hq]; exact List.mem_cons_self _ _)
  have hpop : (w.sources).filter (fun t => t.id ≠ s.id) = rest := by
    rw [hq] at hsorted ⊢
    exact filter_head hsorted
  have hstate := run_callback_state env s.callback s.user_data w w1 hb
  rcases run_callback_effect env s.callback s.user_data w w1 hb with ⟨n, hk⟩ | ⟨cb, tag, hn, h3, hk⟩
  · obtain ⟨k1, k2, k3, hf, k5⟩ := hk
    refine ⟨hf.2.2.1, hf.2.2.2.1, hf.2.2.2.2.2.2, hstate, Or.inl ⟨?_, ?_, hf.1⟩⟩
    · show (w1.sources).filter (fun t => t.id ≠ s.id) = rest
      rw [k1]; exact hpop
    · rcases run_callback_bodyEffect nm_device_class_init env _ _ w w1 hb with hc | ⟨cb, r, hs, -, -⟩
      · exact hc.2.2
      · rw [k1] at hs
        have := congrArg List.length hs
        simp at this
  · obtain ⟨k1, k2, k3, k4, k5, k6, k7, k8⟩ := hk
    refine ⟨k5, k6, k7, hstate, Or.inr ⟨cb, tag, hn, h3, ?_, k4⟩⟩
    show (w1.sources).filter (fun t => t.id ≠ s.id) = _
    rw [k1, List.filter_append, hpop]
    congr 1
    rw [List.filter_cons_of_pos]
    · rfl
    · simp only [ne_eq, decide_not, Bool.not_eq_true', decide_eq_false_iff_not]
      omega

theorem nextStage_tag {cb cb2 : StageCallback} {tag : NMActStage}
    (h : nextStage cb = some (cb2, tag)) :
    tag = stageTag cb2 ∧ stageRank (stageTag cb) ≤ stageRank tag ∧
      cb ≠ StageCallback.stage5_ip_config_commit := by
  cases cb <;> simp only [nextStage, Option.some.injEq, Prod.mk.injEq] at h <;>
    (try (obtain ⟨rfl, rfl⟩ := h; exact ⟨rfl, by decide, by decide⟩))
  cases h

theorem dhcp_state_same (iface : String) (st : NMDHCPState) (w : World) :
    (dhcp_state_changed iface st w).dev.state = w.dev.state := by
  unfold dhcp_state_changed
  split
  · rfl
  · split
    · cases st <;> rfl
    · rfl

theorem core_run (env : Env) (r : ReqId) (w w2 : World) (hist : History)
    (hc : AttemptCore r w) (hi : OrderInv w hist)
    (hr : g_main_context_iteration nm_device_class_init env w = some w2) :
    AttemptCore r w2 ∧ stageRank (w.reqs r).stage ≤ stageRank (w2.reqs r).stage ∧
      w2.dev.dhcp_manager = w.dev.dhcp_manager ∧ w2.dhcp_handlers = w.dhcp_handlers := by
  obtain ⟨c1, c2, c3, c4⟩ := hc
  have hact : ∀ (x : World), (x.dev.act_request = w.dev.act_request ∨ x.dev.act_request = none) →
      (x.dev.act_request = none ∨ x.dev.act_request = some r) := by
    intro x hx
    rcases hx with hx | hx
    · rw [hx]; exact c1
    · exact Or.inl hx
  rcases c4 with he | ⟨id, cb, hq, ht⟩ | ⟨id, id2, cb, hq, hcb, ht, hd⟩
  · have : w2 = w := by
      unfold g_main_context_iteration at hr
      rw [he] at hr
      exact (Option.some.inj hr).symm
    subst this
    exact ⟨⟨c1, c2, c3, Or.inl he⟩, Nat.le_refl _, rfl, rfl⟩
  · have hna : w.dev.state ≠ NMDeviceState.activated := by
      intro h
      have := (c3 h).1
      rw [hq] at this
      cases this
    obtain ⟨s1, s2, s3, s4, s5⟩ := run_summary env w w2 hist _ _ hi hq hr
    rcases s5 with ⟨k1, k2, k3⟩ | ⟨cb2, tag, hn, -, k1, k3⟩
    · refine ⟨⟨hact w2 s3, fun _ => k2, fun h => ⟨k1, ?_⟩, Or.inl k1⟩, by rw [k3 r], s1, s2⟩
      by_cases h5 : cb = StageCallback.stage5_ip_config_commit
      · subst h5
        rw [k3 r, ht]
        rfl
      · exact absurd h (s4 h5 hna)
    · obtain ⟨n1, n2, n3⟩ := nextStage_tag hn
      have htag : (w2.reqs r).stage = tag := by
        rw [k3 r]
        simp
      refine ⟨⟨hact w2 s3, fun h => ?_, fun h => absurd h (s4 n3 hna),
        Or.inr (Or.inl ⟨_, cb2, k1, htag.trans n1⟩)⟩, ?_, s1, s2⟩
      · rw [k1] at h; cases h
      · rw [htag, ht]; exact n2
  · have hna : w.dev.state ≠ NMDeviceState.activated := by
      intro h
      have := (c3 h).1
      rw [hq] at this
      cases this
    obtain ⟨s1, s2, s3, s4, s5⟩ := run_summary env w w2 hist _ _ hi hq hr
    rcases s5 with ⟨k1, k2, k3⟩ | ⟨cb2, tag, hn, hdm, k1, k3⟩
    · refine ⟨⟨hact w2 s3, fun h => ?_, fun h => absurd h (s4 (by simp) hna),
        Or.inr (Or.inl ⟨id2, cb, k1, ?_⟩)⟩, by rw [k3 r], s1, s2⟩
      · rw [k1] at h; cases h
      · rw [k3 r, ht]
        rcases hcb with rfl | rfl <;> rfl
    · rw [hdm rfl] at hd
      cases hd

theorem core_dhcp (iface : String) (st : NMDHCPState) (r : ReqId) (w : World)
    (hc : AttemptCore r w) (hd : w.dev.dhcp_manager = true) :
    AttemptCore r (dhcp_state_changed iface st w) ∧
      stageRank (w.reqs r).stage ≤ stageRank ((dhcp_state_changed iface st w).reqs r).stage ∧
      (dhcp_state_changed iface st w).dev.dhcp_manager = w.dev.dhcp_manager ∧
      (dhcp_state_changed iface st w).dhcp_handlers = w.dhcp_handlers := by
  obtain ⟨c1, c2, c3, c4⟩ := hc
  have hstate := dhcp_state_same iface st w
  rcases dhcp_effect iface st w with hk | ⟨r2, cb, hr, hs, hcb, hk⟩
  · obtain ⟨k1, k2, k3, hf, -⟩ := hk
    refine ⟨⟨?_, ?_, ?_, ?_⟩, by rw [hf.1 r], hf.2.2.1, hf.2.2.2.1⟩
    · rcases hf.2.2.2.2.2.2 with h | h
      · rw [h]; exact c1
      · exact Or.inl h
    · intro h
      rw [k1] at h
      rcases k3 with k3 | k3
      · rw [k3]; exact c2 h
      · exact k3
    · intro h
      rw [hstate] at h
      rw [k1, hf.1 r]
      exact c3 h
    · rcases c4 with he | ⟨id, cb, hq, ht⟩ | ⟨id, id2, cb, hq, hcb, ht, hd2⟩
      · exact Or.inl (k1.trans he)
      · exact Or.inr (Or.inl ⟨id, cb, k1.trans hq, (hf.1 r).trans ht⟩)
      · exact Or.inr (Or.inr ⟨id, id2, cb, k1.trans hq, hcb, (hf.1 r).trans ht,
          hf.2.2.1.trans hd2⟩)
  · have hrr : r2 = r := by
      rcases c1 with c1 | c1
      · rw [c1] at hr; cases hr
      · rw [c1] at hr; exact (Option.some.inj hr).symm
    subst hrr
    obtain ⟨k1, k2, k3, k4, k5, k6, k7, -⟩ := hk
    have htag : ((dhcp_state_changed iface st w).reqs r2).stage = NMActStage.ip_config_get := by
      rw [k4 r2]; simp
    have hna : w.dev.state ≠ NMDeviceState.activated := by
      intro h
      have := (c3 h).2
      rw [hs] at this
      cases this
    refine ⟨⟨?_, ?_, ?_, ?_⟩, by rw [htag, hs]; decide, k5, k6⟩
    · rcases k7 with h | h
      · rw [h]; exact c1
      · exact Or.inl h
    · intro h
      rw [k1] at h
      simp at h
    · intro h
      rw [hstate] at h
      exact absurd h hna
    · rcases c4 with he | ⟨id, cb0, hq, ht⟩ | ⟨id, id2, cb0, hq, hcb0, ht, hd2⟩
      · refine Or.inr (Or.inl ⟨_, cb, by rw [k1, he]; rfl, ?_⟩)
        rw [htag]
        rcases hcb with rfl | rfl <;> rfl
      · have h3 : cb0 = StageCallback.stage3_ip_config_start := by
          rw [hs] at ht
          cases cb0 <;> simp [stageTag] at ht
          rfl
        subst h3
        exact Or.inr (Or.inr ⟨id, _, cb, by rw [k1, hq]; rfl, hcb, htag, k5.trans hd⟩)
      · rw [hs] at ht
        cases ht

theorem core_dhcp_emit (iface : String) (st : NMDHCPState) (r : ReqId) (w : World)
    (hc : AttemptCore r w) (hcons : w.dhcp_handlers ≠ [] → w.dev.dhcp_manager = true) :
    AttemptCore r (nm_dhcp_manager_emit_state_changed iface st w) ∧
      stageRank (w.reqs r).stage ≤
        stageRank ((nm_dhcp_manager_emit_state_changed iface st w).reqs r).stage ∧
      (nm_dhcp_manager_emit_state_changed iface st w).dev.dhcp_manager = w.dev.dhcp_manager ∧
      (nm_dhcp_manager_emit_state_changed iface st w).dhcp_handlers = w.dhcp_handlers := by
  unfold nm_dhcp_manager_emit_state_changed
  cases hl : w.dhcp_handlers with
  | nil => exact ⟨hc, Nat.le_refl _, rfl, hl⟩
  | cons a l =>
      have hd : w.dev.dhcp_manager = true := hcons (by simp [hl])
      have key : ∀ (l : List Nat) (x : World), AttemptCore r x → x.dev.dhcp_manager = true →
          AttemptCore r (l.foldl (fun acc _ => dhcp_state_changed iface st acc) x) ∧
          stageRank (x.reqs r).stage ≤
            stageRank ((l.foldl (fun acc _ => dhcp_state_changed iface st acc) x).reqs r).stage ∧
          (l.foldl (fun acc _ => dhcp_state_changed iface st acc) x).dev.dhcp_manager
            = x.dev.dhcp_manager ∧
          (l.foldl (fun acc _ => dhcp_state_changed iface st acc) x).dhcp_handlers
            = x.dhcp_handlers := by
        intro l
        induction l with
        | nil => intro x hx _; exact ⟨hx, Nat.le_refl _, rfl, rfl⟩
        | cons b l ih =>
            intro x hx hdx
            obtain ⟨b1, b2, b3, b4⟩ := core_dhcp iface st r x hx hdx
            obtain ⟨c1, c2, c3, c4⟩ := ih (dhcp_state_changed iface st x) b1 (b3.trans hdx)
            exact ⟨c1, Nat.le_trans b2 c2, c3.trans b3, c4.trans b4⟩
      have := key (a :: l) w hc hd
      exact ⟨this.1, this.2.1, this.2.2.1, this.2.2.2.trans hl⟩

theorem core_start (r : ReqId) (w0 : World) (h0 : Initial w0) :
    AttemptCore r (nm_device_activate r w0) := by
  obtain ⟨hst, hr, hm, hs⟩ := h0
  rcases activate_effect r w0 with h | ⟨h1, h2, h3, h4, h5, h6, h7, h8⟩
  · exfalso
    have := congrArg (fun w => w.sources) h
    simp [nm_device_activate, hst, nm_device_activate_schedule_stage1_device_prepare,
      schedule_stage, g_idle_add, nm_act_request_set_stage, nm_act_request_ref, World.setReq,
      World.emit, hs] at this
  · refine ⟨Or.inr h7, fun h => ?_, fun h => ?_, Or.inr (Or.inl ⟨_, _, by rw [h1, hs]; rfl, ?_⟩)⟩
    · rw [h1] at h; simp at h
    · exfalso
      have : (nm_device_activate r w0).dev.state = NMDeviceState.disconnected := by
        simp [nm_device_activate, hst, nm_device_activate_schedule_stage1_device_prepare,
          schedule_stage, g_idle_add, nm_act_request_set_stage, nm_act_request_ref,
          World.setReq, World.emit]
      rw [this] at h
      cases h
    · rw [h4 r]; simp [stageTag]

theorem attempt_is_run (w0 w : World) (r : ReqId) (tags : List NMActStage)
    (h : Attempt nm_device_class_init w0 r w tags) :
    ∃ hist, Run nm_device_class_init w0 w 1 hist := by
  induction h with
  | start => exact ⟨[], Run.activate _ _ _ r Run.init⟩
  | run w w2 tags env _ hr ih =>
      obtain ⟨hist, hrun⟩ := ih
      cases hq : w.sources with
      | nil =>
          have : w2 = w := by
            unfold g_main_context_iteration at hr
            rw [hq] at hr
            exact (Option.some.inj hr).symm
          subst this
          exact ⟨hist, hrun⟩
      | cons s rest => exact ⟨_, Run.run w w2 1 hist env s rest hrun hq hr⟩
  | dhcp w tags iface st _ ih =>
      obtain ⟨hist, hrun⟩ := ih
      exact ⟨hist, Run.dhcp w 1 hist iface st hrun⟩

theorem attempt_inv (w0 w : World) (r : ReqId) (tags : List NMActStage) (h0 : Initial w0)
    (hcons : w0.dhcp_handlers ≠ [] → w0.dev.dhcp_manager = true)
    (h : Attempt nm_device_class_init w0 r w tags) :
    AttemptInv r w tags ∧ w.dev.dhcp_manager = w0.dev.dhcp_manager ∧
      w.dhcp_handlers = w0.dhcp_handlers := by
  induction h with
  | start =>
      refine ⟨⟨core_start r w0 h0, List.pairwise_singleton _ _, ?_⟩, ?_, ?_⟩
      · intro t ht
        rw [List.mem_singleton] at ht
        rw [ht]
      · rcases activate_effect r w0 with h | h
        · rw [h]
        · exact h.2.2.2.2.1
      · rcases activate_effect r w0 with h | h
        · rw [h]
        · exact h.2.2.2.2.2.1
  | run w w2 tags env hat hr ih =>
      obtain ⟨⟨hc, hp, hb⟩, hd, hh⟩ := ih
      obtain ⟨hist, hrun⟩ := attempt_is_run w0 w r tags hat
      have hi := run_all_orderInv w0 w 1 hist h0 hrun
      obtain ⟨c1, c2, c3, c4⟩ := core_run env r w w2 hist hc hi hr
      refine ⟨⟨c1, ?_, ?_⟩, c3.trans hd, c4.trans hh⟩
      · rw [List.pairwise_append]
        refine ⟨hp, List.pairwise_singleton _ _, ?_⟩
        intro a ha b hb2
        rw [List.mem_singleton] at hb2
        subst hb2
        exact Nat.le_trans (hb a ha) c2
      · intro t ht
        rcases List.mem_append.mp ht with ht | ht
        · exact Nat.le_trans (hb t ht) c2
        · rw [List.mem_singleton] at ht
          rw [ht]
  | dhcp w tags iface st hat ih =>
      obtain ⟨⟨hc, hp, hb⟩, hd, hh⟩ := ih
      obtain ⟨c1, c2, c3, c4⟩ := core_dhcp_emit iface st r w hc
        (fun hne => by rw [hd]; exact hcons (by rw [← hh]; exact hne))
      refine ⟨⟨c1, ?_, ?_⟩, c3.trans hd, c4.trans hh⟩
      · rw [List.pairwise_append]
        refine ⟨hp, List.pairwise_singleton _ _, ?_⟩
        intro a ha b hb2
        rw [List.mem_singleton] at hb2
        subst hb2
        exact Nat.le_trans (hb a ha) c2
      · intro t ht
        rcases List.mem_append.mp ht with ht | ht
        · exact Nat.le_trans (hb t ht) c2
        · rw [List.mem_singleton] at ht
          rw [ht]

/-- The attempt on the DHCP device "eth0" in which a lease arrives after
stage 3: it ends Activated, and the tags of request 7 seen on the way. -/
theorem eth0_lease_attempt :
    ∃ w, Attempt nm_device_class_init eth0 7 w
      [NMActStage.device_prepare, NMActStage.device_config, NMActStage.ip_config_start,
       NMActStage.ip_config_start, NMActStage.ip_config_get, NMActStage.ip_config_commit,
       NMActStage.ip_config_commit] ∧ w.dev.state = NMDeviceState.activated := by
  have r1 : Attempt nm_device_class_init eth0 7 _ _ := Attempt.start
  have r2 := Attempt.run _ _ _ {} r1 rfl
  have r3 := Attempt.run _ _ _ {} r2 rfl
  have r4 := Attempt.run _ _ _ {} r3 rfl
  have r5 := Attempt.dhcp _ _ "eth0" NMDHCPState.bound r4
  have r6 := Attempt.run _ _ _ leaseWithoutMtu r5 rfl
  have r7 := Attempt.run _ _ _ {} r6 rfl
  exact ⟨_, r7, by decide⟩

theorem attempt_first_tag (w0 w : World) (r : ReqId) (tags : List NMActStage)
    (h0 : Initial w0) (h : Attempt nm_device_class_init w0 r w tags) :
    tags.head? = some NMActStage.device_prepare := by
  induction h with
  | start =>
      rcases activate_effect r w0 with h | h
      · exfalso
        have hs := congrArg (fun w => w.sources) h
        simp [nm_device_activate, h0.1, nm_device_activate_schedule_stage1_device_prepare,
          schedule_stage, g_idle_add, nm_act_request_set_stage, nm_act_request_ref,
          World.setReq, World.emit, h0.2.2.2] at hs
      · simp [h.2.2.2.1 r]
  | run w w2 tags env _ _ ih =>
      cases tags with
      | nil => cases ih
      | cons a l => exact ih
  | dhcp w tags iface st _ ih =>
      cases tags with
      | nil => cases ih
      | cons a l => exact ih

/-! ## C24: a continuation scheduled in state Disconnected -/

/-- C24, as stated, fails: right after `nm_device_activate` the reachable
device "eth0" is still Disconnected (the state changes when the stage-1
body runs) while stage 1 of request 7 is queued as source 1 and recorded in
the marker. -/
theorem disconnected_with_stage1_scheduled :
    Reachable nm_device_class_init (nm_device_activate 7 eth0) ∧
    (nm_device_activate 7 eth0).dev.state = NMDeviceState.disconnected ∧
    (nm_device_activate 7 eth0).dev.act_source_id = 1 ∧
    (nm_device_activate 7 eth0).sources = [⟨1, StageCallback.stage1_device_prepare, 7⟩] :=
  ⟨Reachable.step _ _ (Reachable.init eth0 ⟨rfl, rfl, rfl, rfl⟩) (Step.activate eth0 7),
    by decide, by decide, by decide⟩

/-- Within one uninterrupted activation attempt with the default hooks
(`nm_device_activate` on a device in its initial state, then main-loop
iterations and DHCP notifications in any order), whenever the lifecycle
state is Activated no continuation is scheduled: the queue is empty and the
marker is 0. -/
theorem activated_has_nothing_scheduled (w0 w : World) (r : ReqId) (tags : List NMActStage)
    (h0 : Initial w0) (hcons : w0.dhcp_handlers ≠ [] → w0.dev.dhcp_manager = true)
    (h : Attempt nm_device_class_init w0 r w tags)
    (hs : w.dev.state = NMDeviceState.activated) :
    w.sources = [] ∧ w.dev.act_source_id = 0 := by
  obtain ⟨⟨⟨-, c2, c3, -⟩, -, -⟩, -, -⟩ := attempt_inv w0 w r tags h0 hcons h
  exact ⟨(c3 hs).1, c2 (c3 hs).1⟩

/-- The attempt of "eth0" that ends Activated has nothing scheduled. -/
theorem activated_has_nothing_scheduled_witness :
    ∃ w : World, Attempt nm_device_class_init eth0 7 w
      [NMActStage.device_prepare, NMActStage.device_config, NMActStage.ip_config_start,
       NMActStage.ip_config_start, NMActStage.ip_config_get, NMActStage.ip_config_commit,
       NMActStage.ip_config_commit] ∧
      w.dev.state = NMDeviceState.activated ∧ w.sources = [] ∧ w.dev.act_source_id = 0 := by
  obtain ⟨w, ha, hs⟩ := eth0_lease_attempt
  exact ⟨w, ha, hs, activated_has_nothing_scheduled eth0 w 7 _ ⟨rfl, rfl, rfl, rfl⟩
    (fun _ => rfl) ha hs⟩

/-! ## C25: the stage tag within one attempt -/

/-- C25: within one uninterrupted activation attempt with the default hooks
(`nm_device_activate` on a device in its initial state, then main-loop
iterations and DHCP notifications in any order), the stage tags of the
request, taken after the activation and after every step, start at
DevicePrepare and never move backwards in the order DevicePrepare <
DeviceConfig < IpConfigStart < IpConfigGet < IpConfigCommit; and scheduling
the stage-4 Timeout continuation sets the tag to IpConfigGet. -/
theorem stage_tag_never_moves_back (w0 w : World) (r : ReqId) (tags : List NMActStage)
    (h0 : Initial w0) (hcons : w0.dhcp_handlers ≠ [] → w0.dev.dhcp_manager = true)
    (h : Attempt nm_device_class_init w0 r w tags) :
    tags.head? = some NMActStage.device_prepare ∧
    tags.Pairwise (fun a b => stageRank a ≤ stageRank b) ∧
    ∀ x : World, ((nm_device_activate_schedule_stage4_ip_config_timeout r x).reqs r).stage
      = NMActStage.ip_config_get := by
  refine ⟨attempt_first_tag w0 w r tags h0 h, (attempt_inv w0 w r tags h0 hcons h).1.2.1, ?_⟩
  intro x
  simp [nm_device_activate_schedule_stage4_ip_config_timeout, schedule_stage, g_idle_add,
    nm_act_request_set_stage, World.setReq]

/-- C25 on the attempt of "eth0" in which a lease arrives after stage 3. -/
theorem stage_tag_never_moves_back_witness :
    [NMActStage.device_prepare, NMActStage.device_config, NMActStage.ip_config_start,
     NMActStage.ip_config_start, NMActStage.ip_config_get, NMActStage.ip_config_commit,
     NMActStage.ip_config_commit].Pairwise (fun a b => stageRank a ≤ stageRank b) := by
  obtain ⟨w, ha, -⟩ := eth0_lease_attempt
  exact (stage_tag_never_moves_back eth0 w 7 _ ⟨rfl, rfl, rfl, rfl⟩ (fun _ => rfl) ha).2.1

/-! ## C26: construction of an unsupported device -/

/-- C26: when the capabilities of the new object, with the generic
capabilities of its class added, lack the bit `NM_DEVICE_CAP_NM_SUPPORTED`,
`constructor` returns NULL; the only call it makes is the release of the
object, so the device is not brought up, no configuration is read, no DHCP
handler is connected, neither `init` nor `start` of the class is called and
nothing is registered on the bus. -/
theorem unsupported_device_not_constructed (NM_DEVICE_CAP_NM_SUPPORTED : Nat)
    (cls : NMDeviceClass) (env : Env) (w : World)
    (h : (w.dev.capabilities ||| cls.get_generic_capabilities) &&& NM_DEVICE_CAP_NM_SUPPORTED
      = 0) :
    ∃ w2, NetworkManager.constructor NM_DEVICE_CAP_NM_SUPPORTED cls env (some w)
        = some (false, w2) ∧
      w2.trace = w.trace ++ [Event.object_unref] ∧
      w2.dhcp_handlers = w.dhcp_handlers ∧ w2.dev.dhcp_manager = w.dev.dhcp_manager ∧
      w2.handlers_connected = w.handlers_connected := by
  refine ⟨({ w with dev := { w.dev with
    capabilities := w.dev.capabilities ||| cls.get_generic_capabilities } } : World).emit
      Event.object_unref, ?_, rfl, rfl, rfl, rfl⟩
  unfold NetworkManager.constructor
  simp only [h, if_true]

/-- C26 on a new object of the base class, whose generic capabilities are
0, with the supported bit taken as 1; with the bit present the same object
is constructed. -/
theorem unsupported_device_not_constructed_witness :
    (∃ w2, NetworkManager.constructor 1 nm_device_class_init {} (some {}) = some (false, w2) ∧
      w2.trace = [Event.object_unref]) ∧
    (NetworkManager.constructor 1 nm_device_class_init {}
        (some { dev := { capabilities := 1 } })).map (fun p => p.1) = some true := by
  obtain ⟨w2, h1, h2, -⟩ := unsupported_device_not_constructed 1 nm_device_class_init {} {}
    (by decide)
  exact ⟨⟨w2, h1, h2⟩, by decide⟩

/-! ## C31: the way back to Disconnected -/

theorem cancel_state_same (env : Env) (w w2 : World)
    (h : nm_device_activation_cancel env w = some w2) : w2.dev.state = w.dev.state :=
  (cancel_quietStep env w w2 h).1.1

theorem deactivate_quickly_state_same (cls : NMDeviceClass) (env : Env) (w w2 : World)
    (b : Bool) (h : nm_device_deactivate_quickly cls env w = some (b, w2)) :
    w2.dev.state = w.dev.state := by
  unfold nm_device_deactivate_quickly at h
  by_cases happ : w.dev.app_data = false
  · simp only [happ, if_true, Option.some.injEq, Prod.mk.injEq] at h
    obtain ⟨-, rfl⟩ := h
    rfl
  · rw [if_neg happ] at h
    simp only [] at h
    split at h
    · cases h
    · rename_i w1 h1
      simp only [Option.some.injEq, Prod.mk.injEq] at h
      obtain ⟨-, rfl⟩ := h
      have ha : w1.dev.state = w.dev.state := by
        split at h1
        · cases h1; rfl
        · split at h1
          · exact cancel_state_same env
              ((w.emit Event.system_shutdown_nis).emit
                Event.vpn_manager_deactivate_vpn_connection) w1 h1
          · cases h1; rfl
      rw [← ha]
      rcases w1 with ⟨⟨st, ifc, cap, la, ip, app, ar, sid, cfg, dm, dsi⟩, reqs, srcs, sc, dh, hcn, tr⟩
      cases ar <;> cases hq : cls.deactivate_quickly <;> rfl

theorem dhcp_emit_state_same (iface : String) (st : NMDHCPState) (w : World) :
    (nm_dhcp_manager_emit_state_changed iface st w).dev.state = w.dev.state := by
  unfold nm_dhcp_manager_emit_state_changed
  generalize w.dhcp_handlers = l
  induction l generalizing w with
  | nil => rfl
  | cons a l ih =>
      rw [List.foldl_cons, ih, dhcp_state_same]

theorem stage_failed_by_deactivation (cls : NMDeviceClass) (env : Env) (req : ReqId)
    (x w1 : World) (h : stage_failed cls env req x = some w1)
    (hd : w1.dev.state = NMDeviceState.disconnected) :
    ∃ x2 y, x2.dev.app_data = true ∧ nm_device_deactivate cls env x2 = some y ∧
      x2.trace = x.trace ∧ y.trace <+: w1.trace ∧ w1.dev = y.dev := by
  unfold stage_failed nm_device_state_changed nm_device_interface_deactivate at h
  simp only at h
  split at h
  · cases h
  · rename_i y hy
    split at hy
    · cases hy
    · rename_i z hz
      cases hy
      cases h
      by_cases happ : x.dev.app_data = true
      · refine ⟨{ x with dev := { x.dev with state := NMDeviceState.failed } }, z, happ, hz, rfl,
          ⟨[Event.state_changed_signal NMDeviceState.failed, Event.policy_activation_failed req],
            ?_⟩, rfl⟩
        simp [nm_policy_schedule_activation_failed, World.emit]
      · have hf : x.dev.app_data = false := by simpa using happ
        unfold nm_device_deactivate at hz
        simp only [hf, if_true, Option.some.injEq] at hz
        subst hz
        cases hd

theorem run_callback_disconnects (cls : NMDeviceClass) (env : Env) (cb : StageCallback)
    (req : ReqId) (w w1 : World) (h : run_callback cls env cb req w = some w1)
    (hst : w.dev.state ≠ NMDeviceState.disconnected)
    (hd : w1.dev.state = NMDeviceState.disconnected) :
    ∃ x, w.trace <+: x.trace ∧ stage_failed cls env req x = some w1 := by
  have hclear : (clear_act_source_id w).dev.state = w.dev.state := by
    rw [clear_act_source_id_eq]
  have htrace : (clear_act_source_id w).trace = w.trace := by
    rw [clear_act_source_id_eq]
  unfold run_callback at h
  cases cb <;> simp only at h
  · unfold nm_device_activate_stage1_device_prepare at h
    simp only [nm_device_state_changed, Option.bind_eq_bind, Option.some_bind] at h
    split at h
    · cases h; cases hd
    · refine ⟨_, ?_, h⟩
      simp [World.callHook, World.emit, World.emits, nm_device_state_changed_plain, htrace]
    · cases h
      rw [nm_device_activate_schedule_stage2_device_config, schedule_stage_state] at hd
      cases hd
  · unfold nm_device_activate_stage2_device_config at h
    simp only [nm_device_state_changed, Option.bind_eq_bind, Option.some_bind] at h
    have hs : ∀ es, ((if nm_device_is_up env (nm_device_state_changed_plain NMDeviceState.config
        (clear_act_source_id w)) = true then
          nm_device_state_changed_plain NMDeviceState.config (clear_act_source_id w)
        else nm_device_bring_up cls.set_hw_address env
          (nm_device_state_changed_plain NMDeviceState.config
            (clear_act_source_id w))).callHook ClassHook.act_stage2_config es).dev.state
          = NMDeviceState.config := by
      intro es
      split
      · rfl
      · unfold nm_device_bring_up nm_device_set_up_down nm_device_set_address
        cases cls.set_hw_address <;> rfl
    have ht : ∀ es, w.trace <+: ((if nm_device_is_up env (nm_device_state_changed_plain
        NMDeviceState.config (clear_act_source_id w)) = true then
          nm_device_state_changed_plain NMDeviceState.config (clear_act_source_id w)
        else nm_device_bring_up cls.set_hw_address env
          (nm_device_state_changed_plain NMDeviceState.config
            (clear_act_source_id w))).callHook ClassHook.act_stage2_config es).trace := by
      intro es
      split
      · simp [World.callHook, World.emit, World.emits, nm_device_state_changed_plain, htrace]
      · unfold nm_device_bring_up nm_device_set_up_down nm_device_set_address
        cases cls.set_hw_address <;>
          simp [World.callHook, World.emit, World.emits, nm_device_state_changed_plain, htrace,
            List.append_assoc]
    split at h
    · cases h; rw [hs] at hd; cases hd
    · exact ⟨_, ht _, h⟩
    · cases h
      rw [nm_device_activate_schedule_stage3_ip_config_start, schedule_stage_state, hs] at hd
      cases hd
  · unfold nm_device_activate_stage3_ip_config_start at h
    simp only [nm_device_state_changed, Option.bind_eq_bind, Option.some_bind] at h
    split at h
    · cases h; cases hd
    · refine ⟨_, ?_, h⟩
      simp [World.callHook, World.emit, World.emits, nm_device_state_changed_plain, htrace]
    · cases h
      rw [nm_device_activate_schedule_stage4_ip_config_get, schedule_stage_state] at hd
      cases hd
  · unfold nm_device_activate_stage4_ip_config_get stage4_finish at h
    simp only at h
    have ht : ∀ es, w.trace <+:
        ((clear_act_source_id w).callHook ClassHook.act_stage4_get_ip4_config es).trace := by
      intro es
      simp [World.callHook, World.emit, World.emits, htrace]
    split at h
    · cases h
      exact absurd (hclear ▸ hd) hst
    · exact ⟨_, ht _, h⟩
    · exact ⟨_, ht _, h⟩
    · cases h
      rw [nm_device_activate_schedule_stage5_ip_config_commit, schedule_stage_state] at hd
      exact absurd (hclear ▸ hd) hst
  · unfold nm_device_activate_stage4_ip_config_timeout stage4_finish at h
    simp only at h
    have ht : ∀ es, w.trace <+:
        ((clear_act_source_id w).callHook ClassHook.act_stage4_ip_config_timeout es).trace := by
      intro es
      simp [World.callHook, World.emit, World.emits, htrace]
    split at h
    · cases h
      exact absurd (hclear ▸ hd) hst
    · exact ⟨_, ht _, h⟩
    · exact ⟨_, ht _, h⟩
    · cases h
      rw [nm_device_activate_schedule_stage5_ip_config_commit, schedule_stage_state] at hd
      exact absurd (hclear ▸ hd) hst
  · unfold nm_device_activate_stage5_ip_config_commit at h
    split at h
    · cases h
    · simp only [nm_device_state_changed, Option.bind_eq_bind, Option.some_bind] at h
      split at h
      · cases h
        cases hd
      · refine ⟨_, ?_, h⟩
        simp [World.emit, nm_device_set_ip4_config, htrace]

/-- C31: an operation of the device (a request to activate, an iteration of
the main loop, a notification of the DHCP manager, a cancellation, a
deactivation) that takes the lifecycle state from a state other than
Disconnected to Disconnected performs full deactivation: within it
`nm_device_deactivate` runs, past its guard, and leaves the device fields
the operation ends with.  `nm_device_activation_cancel`,
`nm_device_deactivate_quickly` and `dhcp_state_changed` leave the lifecycle
state as it is. -/
theorem disconnected_only_by_full_deactivation (cls : NMDeviceClass) (env : Env)
    (w w2 : World) (iface : String) (st : NMDHCPState) :
    (Step cls w w2 → w.dev.state ≠ NMDeviceState.disconnected →
      w2.dev.state = NMDeviceState.disconnected → ByFullDeactivation cls w w2) ∧
    (nm_device_activation_cancel env w = some w2 → w2.dev.state = w.dev.state) ∧
    (∀ b, nm_device_deactivate_quickly cls env w = some (b, w2) →
      w2.dev.state = w.dev.state) ∧
    (dhcp_state_changed iface st w).dev.state = w.dev.state := by
  refine ⟨?_, cancel_state_same env w w2, fun b => deactivate_quickly_state_same cls env w w2 b,
    dhcp_state_same iface st w⟩
  intro hs hst hd
  cases hs with
  | activate req =>
      unfold nm_device_activate at hd
      rw [if_pos hst] at hd
      exact absurd hd hst
  | run _ env2 h =>
      unfold g_main_context_iteration at h
      split at h
      · cases h
        exact absurd hd hst
      · rename_i s rest hq
        cases hr : run_callback cls env2 s.callback s.user_data w with
        | none => rw [hr] at h; cases h
        | some w1 =>
            rw [hr] at h
            simp only [Option.map_some', Option.some.injEq] at h
            subst h
            have hd1 : w1.dev.state = NMDeviceState.disconnected := hd
            obtain ⟨x, hx, hf⟩ := run_callback_disconnects cls env2 _ _ w w1 hr hst hd1
            obtain ⟨x2, y, happ, hy, hxt, hyt, hdev⟩ :=
              stage_failed_by_deactivation cls env2 _ x w1 hf hd1
            exact ⟨env2, x2, y, happ, hy, hxt ▸ hx, hyt, hdev⟩
  | dhcp iface2 st2 =>
      rw [dhcp_emit_state_same] at hd
      exact absurd hd hst
  | cancel _ env2 h =>
      rw [cancel_state_same env2 w w2 h] at hd
      exact absurd hd hst
  | deactivate _ env2 h =>
      by_cases happ : w.dev.app_data = true
      · exact ⟨env2, w, w2, happ, h, List.prefix_refl _, List.prefix_refl _, rfl⟩
      · have hf : w.dev.app_data = false := by simpa using happ
        unfold nm_device_deactivate at h
        simp only [hf, if_true, Option.some.injEq] at h
        subst h
        exact absurd hd hst

/-- C31 on the Activated device "eth0": its deactivation is a step to
Disconnected, and it is the full deactivation. -/
theorem disconnected_only_by_full_deactivation_witness :
    ∃ w2, Step nm_device_class_init eth0Activated w2 ∧
      w2.dev.state = NMDeviceState.disconnected ∧
      ByFullDeactivation nm_device_class_init eth0Activated w2 := by
  have h : (nm_device_deactivate nm_device_class_init {} eth0Activated).map
      (fun w => w.dev.state) = some NMDeviceState.disconnected := by decide
  cases hd : nm_device_deactivate nm_device_class_init {} eth0Activated with
  | none => rw [hd] at h; cases h
  | some w2 =>
      rw [hd] at h
      have hs : w2.dev.state = NMDeviceState.disconnected := by simpa using h
      exact ⟨w2, Step.deactivate _ _ {} hd, hs,
        (disconnected_only_by_full_deactivation nm_device_class_init {} eth0Activated w2
          "eth0" NMDHCPState.fail).1 (Step.deactivate _ _ {} hd) (by decide) hs⟩
/-! ## C32: the DHCP subscription -/

theorem set_use_dhcp_inv (b : Bool) (w : World) (h : SubscriptionInv w) :
    SubscriptionInv (nm_device_set_use_dhcp b w) ∧
      nm_device_get_use_dhcp (nm_device_set_use_dhcp b w) = b := by
  rcases w with ⟨⟨st, ifc, cap, la, ip, app, ar, sid, cfg, dm, dsi⟩, reqs, srcs, sc, dh, hcn, tr⟩
  obtain ⟨h1, h2⟩ := h
  cases b <;> cases dm <;>
    simp_all [SubscriptionInv, nm_device_set_use_dhcp, nm_device_get_use_dhcp, World.emit]

theorem set_use_dhcp_again (w : World) (hd : w.dev.dhcp_manager = true) :
    nm_device_set_use_dhcp true w = w := by
  unfold nm_device_set_use_dhcp
  simp [hd]

theorem set_use_dhcp_calls_inv (bs : List Bool) (w : World) (h : SubscriptionInv w) :
    SubscriptionInv (set_use_dhcp_calls bs w) := by
  induction bs generalizing w with
  | nil => exact h
  | cons b bs ih => exact ih _ (set_use_dhcp_inv b w h).1

/-- C32: on a device that starts without DHCP manager and without
subscription, after every sequence of `nm_device_set_use_dhcp` calls the
device holds exactly one subscription to the DHCP manager when
`nm_device_get_use_dhcp` is true and none when it is false; a further
`nm_device_set_use_dhcp (b)` makes `nm_device_get_use_dhcp` return `b`, and
repeating `nm_device_set_use_dhcp (TRUE)` leaves the subscriptions as the
first call left them. -/
theorem one_dhcp_subscription (bs : List Bool) (w : World)
    (hm : w.dev.dhcp_manager = false) (hh : w.dhcp_handlers = []) :
    (set_use_dhcp_calls bs w).dhcp_handlers.length =
        (if nm_device_get_use_dhcp (set_use_dhcp_calls bs w) then 1 else 0) ∧
    (∀ b, nm_device_get_use_dhcp (nm_device_set_use_dhcp b (set_use_dhcp_calls bs w)) = b) ∧
    (nm_device_set_use_dhcp true (nm_device_set_use_dhcp true
        (set_use_dhcp_calls bs w))).dhcp_handlers =
      (nm_device_set_use_dhcp true (set_use_dhcp_calls bs w)).dhcp_handlers ∧
    (nm_device_set_use_dhcp true (set_use_dhcp_calls bs w)).dhcp_handlers.length = 1 := by
  have h0 : SubscriptionInv w := ⟨fun h => (by rw [hm] at h; cases h), fun _ => hh⟩
  have hi := set_use_dhcp_calls_inv bs w h0
  have ht := set_use_dhcp_inv true _ hi
  refine ⟨?_, fun b => (set_use_dhcp_inv b _ hi).2, ?_, ?_⟩
  · cases hd : (set_use_dhcp_calls bs w).dev.dhcp_manager
    · simp [nm_device_get_use_dhcp, hd, hi.2 hd]
    · simp [nm_device_get_use_dhcp, hd, hi.1 hd]
  · have hd : (nm_device_set_use_dhcp true (set_use_dhcp_calls bs w)).dev.dhcp_manager = true :=
      ht.2
    rw [set_use_dhcp_again _ hd]
  · have hd : (nm_device_set_use_dhcp true (set_use_dhcp_calls bs w)).dev.dhcp_manager = true :=
      ht.2
    rw [ht.1.1 hd]
    rfl

/-- C32 on "eth1": DHCP switched on, on again, off, on. -/
theorem one_dhcp_subscription_witness :
    (set_use_dhcp_calls [true, true, false, true] eth1Static).dhcp_handlers.length = 1 ∧
    nm_device_get_use_dhcp (set_use_dhcp_calls [true, true, false, true] eth1Static) = true ∧
    (set_use_dhcp_calls [true, true, false] eth1Static).dhcp_handlers.length = 0 := by
  have h := one_dhcp_subscription [true, true, false, true] eth1Static rfl rfl
  have h2 := one_dhcp_subscription [true, true, false] eth1Static rfl rfl
  exact ⟨by rw [h.1]; decide, by decide, by rw [h2.1]; decide⟩
/-! ## C33: the device type tag -/

/-- C33: on a device whose type tag is already set (not Unknown),
`nm_device_set_device_type` leaves the tag as it is, whatever type is
passed; the tag is assigned only while it is Unknown, and then it becomes
the type passed. -/
theorem device_type_assigned_once (cur t : NMDeviceType) :
    (cur ≠ NMDeviceType.unknown →
      nm_device_get_device_type (nm_device_set_device_type cur t) = cur) ∧
    (nm_device_get_device_type (nm_device_set_device_type cur t) ≠ cur →
      cur = NMDeviceType.unknown) ∧
    (cur = NMDeviceType.unknown →
      nm_device_get_device_type (nm_device_set_device_type cur t) = t) := by
  unfold nm_device_set_device_type nm_device_get_device_type
  refine ⟨fun h => by rw [if_pos h], fun h => ?_, fun h => by rw [if_neg (by simp [h])]⟩
  by_contra hc
  rw [if_pos hc] at h
  exact h rfl

/-- C33 on a device tagged with type 1, asked to become type 2. -/
theorem device_type_assigned_once_witness :
    nm_device_get_device_type
      (nm_device_set_device_type (NMDeviceType.other 1) (NMDeviceType.other 2))
      = NMDeviceType.other 1 :=
  (device_type_assigned_once (NMDeviceType.other 1) (NMDeviceType.other 2)).1 (by decide)

/-! ## C37: `cancel_transaction` and the DHCP manager -/

/-- C37 fails on the code: the static device "eth1" (no DHCP manager) is
activated with request 7.  In state IpConfig the default cancel handler
calls `cancel_transaction` with the absent manager, and so does
`nm_device_activation_cancel` through it; once Activated and still holding
the request, `nm_device_deactivate_quickly` calls `cancel_transaction` with
the absent manager as well. -/
theorem cancel_transaction_without_manager :
    eth1InIpConfig.map (fun w => (nm_device_get_use_dhcp w, w.dev.state, w.dev.act_request))
      = some (false, NMDeviceState.ip_config, some 7) ∧
    eth1InIpConfig.map (fun w => real_activation_cancel_handler {} w w.dev.act_request)
      = some [Event.dhcp_cancel_transaction false "eth1" true] ∧
    (eth1InIpConfig.bind (nm_device_activation_cancel {})).map
        (fun w => decide (Event.dhcp_cancel_transaction false "eth1" true ∈ w.trace))
      = some true ∧
    eth1Activated.map (fun w => (nm_device_get_use_dhcp w, w.dev.state, w.dev.act_request))
      = some (false, NMDeviceState.activated, some 7) ∧
    (eth1Activated.bind (nm_device_deactivate_quickly nm_device_class_init {})).map
        (fun p => decide (Event.dhcp_cancel_transaction false "eth1" false ∈ p.2.trace))
      = some true := by
  decide

/-! ## C34: the default netmask and broadcast of the Debian backend -/

/-- C34 fails on the code: `sys_data->config` is NULL throughout
`nm_system_device_get_system_config`, so no call stores anything and the
address is read back as 0.  For interface blocks that give only the address
10.1.2.3, 172.16.5.4 or 192.168.1.2 (little-endian host) the netmask handed
to `nm_ip4_config_set_netmask` is 255.0.0.0 each time, not 255.255.0.0 for
172.16.5.4 or 255.255.255.0 for 192.168.1.2, the broadcast handed over is
255.255.255.255, and the configuration the function ends with is NULL,
whatever the inputs are. -/
theorem default_netmask_ignores_address :
    ((nm_system_device_get_system_config true inet_addr_example
        (some (staticBlock "10.1.2.3")) none).calls =
      [Ip4ConfigCall.set_address 0x0302010a, Ip4ConfigCall.set_netmask 0x000000ff,
       Ip4ConfigCall.set_broadcast 0xffffffff] ∧
     (nm_system_device_get_system_config true inet_addr_example
        (some (staticBlock "172.16.5.4")) none).calls =
      [Ip4ConfigCall.set_address 0x040510ac, Ip4ConfigCall.set_netmask 0x000000ff,
       Ip4ConfigCall.set_broadcast 0xffffffff] ∧
     (nm_system_device_get_system_config true inet_addr_example
        (some (staticBlock "192.168.1.2")) none).calls =
      [Ip4ConfigCall.set_address 0x0201a8c0, Ip4ConfigCall.set_netmask 0x000000ff,
       Ip4ConfigCall.set_broadcast 0xffffffff]) ∧
    (memory_bytes true 0x0201a8c0 = [192, 168, 1, 2] ∧
     memory_bytes true 0x000000ff = [255, 0, 0, 0] ∧
     memory_bytes true 0xffffffff = [255, 255, 255, 255]) ∧
    (∀ (le : Bool) (inet_addr : String → Nat) (curr_device : Option (String → Option String))
        (resolv_conf : Option String),
      (nm_system_device_get_system_config le inet_addr curr_device resolv_conf).sys_data.config
        = none) := by
  refine ⟨by decide, by decide, ?_⟩
  intro le inet_addr curr_device resolv_conf
  unfold nm_system_device_get_system_config
  cases curr_device with
  | none => rfl
  | some getkey =>
      simp only []
      unfold system_config_resolv_conf system_config_broadcast system_config_netmask
        system_config_gateway system_config_address system_config_inet
      cases getkey "inet" <;> cases getkey "address" <;> cases getkey "gateway" <;>
        simp [nm_ip4_config_set_address, nm_ip4_config_set_gateway, nm_ip4_config_set_netmask,
          nm_ip4_config_set_broadcast] <;>
        split <;> simp

/-! ## C35: the link-local IPv6 address -/

theorem hexFold_shift (l : List Char) (acc : Nat) :
    l.foldl (fun a c => 16 * a + hexDigitValue c) acc =
      acc * 16 ^ l.length + l.foldl (fun a c => 16 * a + hexDigitValue c) 0 := by
  induction l generalizing acc with
  | nil => simp
  | cons c l ih =>
      rw [List.foldl_cons, ih, List.foldl_cons, ih (16 * 0 + hexDigitValue c)]
      simp only [List.length_cons, pow_succ]
      ring

set_option maxRecDepth 100000 in
theorem printf_x_byte :
    ∀ v, v < 256 → (printf_x v).foldl (fun a c => 16 * a + hexDigitValue c) 0 = v ∧
      (printf_x v).length ≤ 2 := by
  decide

set_option maxRecDepth 100000 in
theorem printf_02x_byte :
    ∀ v, v < 256 → (printf_02x v).foldl (fun a c => 16 * a + hexDigitValue c) 0 = v ∧
      (printf_02x v).length = 2 := by
  decide

theorem group_value (hi lo : Nat) (hh : hi < 256) (hl : lo < 256) :
    hexValue (String.mk (printf_x hi ++ printf_02x lo)) = 256 * hi + lo ∧
      (String.mk (printf_x hi ++ printf_02x lo)).length ≤ 4 := by
  obtain ⟨h1, h2⟩ := printf_x_byte hi hh
  obtain ⟨h3, h4⟩ := printf_02x_byte lo hl
  constructor
  · unfold hexValue
    simp only []
    rw [List.foldl_append, hexFold_shift, h1, h3, h4]
    ring
  · show (printf_x hi ++ printf_02x lo).length ≤ 4
    rw [List.length_append, h4]
    omega

theorem link_address_eui_bytes (m0 m1 m2 m3 m4 m5 : Nat) (stack : List Nat)
    (hs : stack.length = 8) :
    link_address_eui [m0, m1, m2, m3, m4, m5] stack =
      [m0 ^^^ 2, m1, m2, 0xff, 0xfe, m3, m4, m5] := by
  rcases stack with _ | ⟨s0, _ | ⟨s1, _ | ⟨s2, _ | ⟨s3, _ | ⟨s4, _ | ⟨s5, _ | ⟨s6, _ | ⟨s7, _ |
    ⟨s8, rest⟩⟩⟩⟩⟩⟩⟩⟩⟩ <;> simp at hs
  rfl

/-- C35: for every hardware address `m0 .. m5` (and whatever the array held
before), `nm_system_device_add_ip6_link_address` builds the bytes
`m0 XOR 0x02, m1, m2, 0xff, 0xfe, m3, m4, m5`; the four groups it prints
after `fe80::` are hexadecimal numerals of at most four digits that denote
the 16-bit values of the consecutive byte pairs, and the command gives the
address the prefix length 64 on the interface of the device. -/
theorem link_address_is_modified_eui64 (m0 m1 m2 m3 m4 m5 : Nat) (iface : String)
    (stack : List Nat) (h0 : m0 < 256) (h1 : m1 < 256) (h2 : m2 < 256) (h3 : m3 < 256)
    (h4 : m4 < 256) (h5 : m5 < 256) (hs : stack.length = 8) :
    link_address_eui [m0, m1, m2, m3, m4, m5] stack =
      [m0 ^^^ 2, m1, m2, 0xff, 0xfe, m3, m4, m5] ∧
    (link_address_groups (link_address_eui [m0, m1, m2, m3, m4, m5] stack)).map hexValue =
      [256 * (m0 ^^^ 2) + m1, 256 * m2 + 0xff, 256 * 0xfe + m3, 256 * m4 + m5] ∧
    (∀ g ∈ link_address_groups (link_address_eui [m0, m1, m2, m3, m4, m5] stack),
      g.length ≤ 4) ∧
    nm_system_device_add_ip6_link_address [m0, m1, m2, m3, m4, m5] iface stack =
      "/sbin/ip -6 address add fe80::" ++
        ":".intercalate (link_address_groups [m0 ^^^ 2, m1, m2, 0xff, 0xfe, m3, m4, m5]) ++
        "/64 dev " ++ iface := by
  have he := link_address_eui_bytes m0 m1 m2 m3 m4 m5 stack hs
  have hx : m0 ^^^ 2 < 256 := Nat.xor_lt_two_pow (n := 8) h0 (by decide)
  have g1 := group_value (m0 ^^^ 2) m1 hx h1
  have g2 := group_value m2 0xff h2 (by decide)
  have g3 := group_value 0xfe m3 (by decide) h3
  have g4 := group_value m4 m5 h4 h5
  refine ⟨he, ?_, ?_, ?_⟩
  · rw [he]
    simp only [link_address_groups, List.getD_cons_zero, List.getD_cons_succ, List.map_cons,
      List.map_nil]
    rw [g1.1, g2.1, g3.1, g4.1]
  · rw [he]
    intro g hg
    simp only [link_address_groups, List.getD_cons_zero, List.getD_cons_succ, List.mem_cons,
      List.mem_singleton, List.not_mem_nil, or_false] at hg
    rcases hg with rfl | rfl | rfl | rfl
    · exact g1.2
    · exact g2.2
    · exact g3.2
    · exact g4.2
  · unfold nm_system_device_add_ip6_link_address
    rw [he]

/-- C35 on the hardware address 00:16:3e:1b:2c:3d of "eth0". -/
theorem link_address_is_modified_eui64_witness :
    link_address_eui [0x00, 0x16, 0x3e, 0x1b, 0x2c, 0x3d] [0, 0, 0, 0, 0, 0, 0, 0] =
      [0x02, 0x16, 0x3e, 0xff, 0xfe, 0x1b, 0x2c, 0x3d] ∧
    nm_system_device_add_ip6_link_address [0x00, 0x16, 0x3e, 0x1b, 0x2c, 0x3d] "eth0"
        [0, 0, 0, 0, 0, 0, 0, 0] =
      "/sbin/ip -6 address add fe80::216:3eff:fe1b:2c3d/64 dev eth0" :=
  ⟨(link_address_is_modified_eui64 0x00 0x16 0x3e 0x1b 0x2c 0x3d "eth0"
      [0, 0, 0, 0, 0, 0, 0, 0] (by decide) (by decide) (by decide) (by decide) (by decide)
      (by decide) rfl).1, by decide⟩
/-! ## C36: the search domains of resolv.conf -/

/-- C36 fails on the code: for the line "search example.com example.org"
the vector of `g_strsplit` is compared with the NULL pointer
`split_searches`, not assigned to it, so the branch that adds the domains
one by one is not taken and the rest of the line is added as the single
domain "example.com example.org".  A line with one domain adds that
domain. -/
theorem search_domains_added_as_one :
    (set_ip4_config_from_resolv_conf inet_addr_example
        (some "search example.com example.org") {}).domains
      = ["example.com example.org"] ∧
    (g_strsplit "example.com example.org".data ' ').map String.mk
      = ["example.com", "example.org"] ∧
    (set_ip4_config_from_resolv_conf inet_addr_example (some "search example.com") {}).domains
      = ["example.com"] := by
  decide

/-! ## C38: the wrappers of the settings plugin -/

/-- C38: for a call that passes the argument checks of the wrapper (the
error location, if given, is empty): when the class of the plugin has no
`load_connection`, `add_connection`, `update_connection` or
`delete_connection`, the wrapper of that operation returns FALSE and sets
an error with code `NM_SETTINGS_ERROR_NOT_SUPPORTED`, and the wrappers of
add and update have set the output locations for storage and connection to
NULL; when the class has the operation, the wrapper returns exactly what
the operation of the variant returns (which add and update call with the
output locations set to NULL). -/
theorem plugin_wrappers (dom code : Nat) (self : NMSettingsPlugin) (storage : NMSettingsStorage)
    (conn : NMConnection) (l : LoadCall) (a : AddCall) (u : UpdateCall) (d : DeleteCall)
    (hl1 : l.filename.map (fun f => f.data.head?) = some (some '/'))
    (hl2 : l.out_storage = some none) (hl3 : l.out_connection = some none)
    (hl4 : l.out_replaced_storages = some none) (hl5 : l.error = some none)
    (ha1 : a.connection = some conn) (ha2 : a.error = some none)
    (hu1 : u.storage = some storage) (hu2 : u.connection = some conn)
    (hu3 : u.error = some none)
    (hd1 : d.storage = some storage) (hd2 : d.error = some none)
    (hs : storage.plugin = self.id) :
    (self.klass.load_connection = none →
      (nm_settings_plugin_load_connection dom code (some self) l).1 = false ∧
      NotSupported dom code (nm_settings_plugin_load_connection dom code (some self) l).2.error) ∧
    (∀ f, self.klass.load_connection = some f →
      nm_settings_plugin_load_connection dom code (some self) l = f self.id l) ∧
    (self.klass.add_connection = none →
      (nm_settings_plugin_add_connection dom code (some self) a).1 = false ∧
      NotSupported dom code (nm_settings_plugin_add_connection dom code (some self) a).2.error ∧
      (nm_settings_plugin_add_connection dom code (some self) a).2.out_storage
        = a.out_storage.map (fun _ => none) ∧
      (nm_settings_plugin_add_connection dom code (some self) a).2.out_connection
        = a.out_connection.map (fun _ => none)) ∧
    (∀ f, self.klass.add_connection = some f →
      nm_settings_plugin_add_connection dom code (some self) a =
        f self.id { a with out_storage := NM_SET_OUT a.out_storage none,
                           out_connection := NM_SET_OUT a.out_connection none }) ∧
    (self.klass.update_connection = none →
      (nm_settings_plugin_update_connection dom code (some self) u).1 = false ∧
      NotSupported dom code
        (nm_settings_plugin_update_connection dom code (some self) u).2.error ∧
      (nm_settings_plugin_update_connection dom code (some self) u).2.out_storage
        = u.out_storage.map (fun _ => none) ∧
      (nm_settings_plugin_update_connection dom code (some self) u).2.out_connection
        = u.out_connection.map (fun _ => none)) ∧
    (∀ f, self.klass.update_connection = some f →
      nm_settings_plugin_update_connection dom code (some self) u =
        f self.id { u with out_storage := NM_SET_OUT u.out_storage none,
                           out_connection := NM_SET_OUT u.out_connection none }) ∧
    (self.klass.delete_connection = none →
      (nm_settings_plugin_delete_connection dom code (some self) d).1 = false ∧
      NotSupported dom code
        (nm_settings_plugin_delete_connection dom code (some self) d).2.error) ∧
    (∀ f, self.klass.delete_connection = some f →
      nm_settings_plugin_delete_connection dom code (some self) d = f self.id d) := by
  refine ⟨fun h => ?_, fun f h => ?_, fun h => ?_, fun f h => ?_, fun h => ?_, fun f h => ?_,
    fun h => ?_, fun f h => ?_⟩
  · simp [nm_settings_plugin_load_connection, hl1, hl2, hl3, hl4, hl5, h, NotSupported,
      g_set_error_literal]
  · simp [nm_settings_plugin_load_connection, hl1, hl2, hl3, hl4, h]
  · simp [nm_settings_plugin_add_connection, ha1, ha2, h, NotSupported, g_set_error_literal,
      NM_SET_OUT]
  · simp [nm_settings_plugin_add_connection, ha1, h]
  · simp [nm_settings_plugin_update_connection, hu1, hu2, hu3, hs, h, NotSupported,
      g_set_error_literal, NM_SET_OUT]
  · simp [nm_settings_plugin_update_connection, hu1, hu2, hs, h]
  · simp [nm_settings_plugin_delete_connection, hd1, hd2, hs, h, NotSupported,
      g_set_error_literal]
  · simp [nm_settings_plugin_delete_connection, hd1, hs, h]

/-- C38 on a variant without the operations (adding connection 9 fails as
not supported, the outputs are NULL) and on a variant that stores
connections (adding connection 9 returns the variant's TRUE, storage 5 and
the connection). -/
theorem plugin_wrappers_witness :
    ((nm_settings_plugin_add_connection 10 4 (some readOnlyPlugin)
        { connection := some 9, out_storage := some (some ⟨3, 1⟩), out_connection := some none,
          error := some none }).1 = false ∧
      NotSupported 10 4 (nm_settings_plugin_add_connection 10 4 (some readOnlyPlugin)
        { connection := some 9, out_storage := some (some ⟨3, 1⟩), out_connection := some none,
          error := some none }).2.error ∧
      (nm_settings_plugin_add_connection 10 4 (some readOnlyPlugin)
        { connection := some 9, out_storage := some (some ⟨3, 1⟩), out_connection := some none,
          error := some none }).2.out_storage = some none) ∧
    nm_settings_plugin_add_connection 10 4 (some storingPlugin)
        { connection := some 9, out_storage := some (some ⟨3, 2⟩), out_connection := some none,
          error := some none } =
      (true, { connection := some 9, out_storage := some (some ⟨5, 2⟩),
               out_connection := some (some 9), error := some none }) := by
  have h1 := (plugin_wrappers 10 4 readOnlyPlugin ⟨3, 1⟩ 9
    { filename := some "/etc/network/interfaces", out_storage := some none,
      out_connection := some none, out_replaced_storages := some none, error := some none }
    { connection := some 9, out_storage := some (some ⟨3, 1⟩), out_connection := some none,
      error := some none }
    { storage := some ⟨3, 1⟩, connection := some 9, out_storage := none, out_connection := none,
      error := some none }
    { storage := some ⟨3, 1⟩, remove_from_disk := true, error := some none }
    (by decide) rfl rfl rfl rfl rfl rfl rfl rfl rfl rfl rfl rfl).2.2.1 rfl
  have h2 := (plugin_wrappers 10 4 storingPlugin ⟨3, 2⟩ 9
    { filename := some "/etc/network/interfaces", out_storage := some none,
      out_connection := some none, out_replaced_storages := some none, error := some none }
    { connection := some 9, out_storage := some (some ⟨3, 2⟩), out_connection := some none,
      error := some none }
    { storage := some ⟨3, 2⟩, connection := some 9, out_storage := none, out_connection := none,
      error := some none }
    { storage := some ⟨3, 2⟩, remove_from_disk := true, error := some none }
    (by decide) rfl rfl rfl rfl rfl rfl rfl rfl rfl rfl rfl rfl).2.2.2.1 _ rfl
  exact ⟨⟨h1.1, h1.2.1, h1.2.2.1⟩, h2⟩
/-! ## C39: moving an element to the tail of a circular list -/

theorem chain_frame (h h2 : CListHeap) (l : List Nat) (hc : List.Chain' (Linked h) l)
    (hn : ∀ a ∈ l.dropLast, h2.next a = h.next a) (hp : ∀ b ∈ l.tail, h2.prev b = h.prev b) :
    List.Chain' (Linked h2) l := by
  induction l with
  | nil => exact List.chain'_nil
  | cons a t ih =>
      cases t with
      | nil => exact List.chain'_singleton a
      | cons b t =>
          rw [List.chain'_cons] at hc ⊢
          refine ⟨⟨?_, ?_⟩, ih hc.2 ?_ ?_⟩
          · rw [hn a (by simp), hc.1.1]
          · rw [hp b (by simp), hc.1.2]
          · intro x hx
            exact hn x (by simp only [List.dropLast_cons₂, List.mem_cons]; exact Or.inr hx)
          · intro x hx
            exact hp x (by
              simp only [List.tail_cons, List.mem_cons] at hx ⊢
              exact Or.inr hx)

theorem moved_heap (lst elem : Nat) (h : CListHeap) :
    (c_list_link_before lst elem (c_list_unlink_stale elem h)).next =
      Function.update (Function.update (Function.update h.next (h.prev elem) (h.next elem))
        elem lst) (Function.update h.prev (h.next elem) (h.prev elem) lst) elem ∧
    (c_list_link_before lst elem (c_list_unlink_stale elem h)).prev =
      Function.update (Function.update (Function.update h.prev (h.next elem) (h.prev elem))
        lst elem) elem (Function.update h.prev (h.next elem) (h.prev elem) lst) :=
  ⟨rfl, rfl⟩

/-- The circle `A0 ++ [p, elem, n] ++ post1` closed at the first node of
`A0 ++ [p]`, after `elem` has been moved before that first node `lst`. -/
theorem move_before_chain (h : CListHeap) (lst elem p n z : Nat) (A0 post post0 post1 : List Nat)
    (hA : (A0 ++ [p]).head? = some lst)
    (hpn : post = n :: post1) (hpz : post = post0 ++ [z])
    (hnd : ((A0 ++ [p]) ++ elem :: post).Nodup)
    (hch : List.Chain' (Linked h) ((A0 ++ [p]) ++ elem :: (post ++ [lst]))) :
    List.Chain' (Linked (c_list_link_before lst elem (c_list_unlink_stale elem h)))
      ((A0 ++ [p]) ++ (post ++ [elem, lst])) := by
  obtain ⟨hnext, hprev⟩ := moved_heap lst elem h
  -- the links of the old circle
  rw [List.chain'_split] at hch
  obtain ⟨hc1, hc2⟩ := hch
  have hcA : List.Chain' (Linked h) (A0 ++ [p]) := hc1.left_of_append
  have hpe : Linked h p elem := by
    have h1 : List.Chain' (Linked h) (A0 ++ p :: [elem]) := by simpa using hc1
    exact List.chain'_pair.1 (List.chain'_split.1 h1).2
  have hen : Linked h elem n := by
    rw [hpn] at hc2
    simp only [List.cons_append, List.chain'_cons] at hc2
    exact hc2.1
  have hcP : List.Chain' (Linked h) post := by
    rw [List.chain'_cons'] at hc2
    exact hc2.2.left_of_append
  have hzl : Linked h z lst := by
    rw [hpz, List.chain'_cons'] at hc2
    have h1 : List.Chain' (Linked h) (post0 ++ z :: [lst]) := by simpa using hc2.2
    exact List.chain'_pair.1 (List.chain'_split.1 h1).2
  -- distinctness
  rw [List.nodup_append] at hnd
  obtain ⟨ndA, ndP, hdis⟩ := hnd
  rw [List.nodup_cons] at ndP
  obtain ⟨heP, ndP⟩ := ndP
  have hlstA : lst ∈ A0 ++ [p] := List.mem_of_mem_head? hA
  have hpA : p ∈ A0 ++ [p] := by simp
  have hnP : n ∈ post := by rw [hpn]; simp
  have hzP : z ∈ post := by rw [hpz]; simp
  have dAP : ∀ a ∈ A0 ++ [p], ∀ b ∈ post, a ≠ b := fun a ha b hb hab =>
    hdis ha (by rw [hab]; exact List.mem_cons_of_mem _ hb)
  have dAe : ∀ a ∈ A0 ++ [p], a ≠ elem := fun a ha hab =>
    hdis ha (by rw [hab]; exact List.mem_cons_self _ _)
  have dPe : ∀ b ∈ post, b ≠ elem := fun b hb hbe => heP (hbe ▸ hb)
  have hp_eq : h.prev elem = p := hpe.2
  have hn_eq : h.next elem = n := hen.1
  have hz_eq : Function.update h.prev n p lst = z := by
    rw [Function.update_noteq (dAP lst hlstA n hnP)]
    exact hzl.2
  rw [hp_eq, hn_eq, hz_eq] at hnext hprev
  have next_at : ∀ a, a ≠ p → a ≠ elem → a ≠ z →
      (c_list_link_before lst elem (c_list_unlink_stale elem h)).next a = h.next a := by
    intro a h1 h2 h3
    rw [hnext, Function.update_noteq h3, Function.update_noteq h2, Function.update_noteq h1]
  have prev_at : ∀ b, b ≠ n → b ≠ lst → b ≠ elem →
      (c_list_link_before lst elem (c_list_unlink_stale elem h)).prev b = h.prev b := by
    intro b h1 h2 h3
    rw [hprev, Function.update_noteq h3, Function.update_noteq h2, Function.update_noteq h1]
  have hpA0 : p ∉ A0 := by
    rw [List.nodup_append] at ndA
    intro hm
    exact ndA.2.2 hm (by simp)
  have hzP0 : z ∉ post0 := by
    rw [hpz, List.nodup_append] at ndP
    intro hm
    exact ndP.2.2 hm (by simp)
  have hnP1 : n ∉ post1 := by
    rw [hpn, List.nodup_cons] at ndP
    exact ndP.1
  have hlst_tail : lst ∉ (A0 ++ [p]).tail := by
    cases hl : A0 ++ [p] with
    | nil => simp
    | cons x t =>
        rw [hl] at hA ndA
        simp only [List.head?_cons, Option.some.injEq] at hA
        subst hA
        exact (List.nodup_cons.1 ndA).1
  rw [List.chain'_append]
  refine ⟨?_, ?_, ?_⟩
  · refine chain_frame h _ _ hcA (fun a ha => ?_) (fun b hb => ?_)
    · rw [List.dropLast_concat] at ha
      have haA : a ∈ A0 ++ [p] := List.mem_append_left _ ha
      exact next_at a (fun e => hpA0 (e ▸ ha)) (dAe a haA) (dAP a haA z hzP)
    · have hbA : b ∈ A0 ++ [p] := List.mem_of_mem_tail hb
      exact prev_at b (dAP b hbA n hnP) (fun e => hlst_tail (e ▸ hb)) (dAe b hbA)
  · rw [List.chain'_append]
    refine ⟨?_, ?_, ?_⟩
    · refine chain_frame h _ _ hcP (fun a ha => ?_) (fun b hb => ?_)
      · rw [hpz, List.dropLast_concat] at ha
        have haP : a ∈ post := by rw [hpz]; exact List.mem_append_left _ ha
        exact next_at a (fun e => dAP p hpA a haP e.symm) (dPe a haP) (fun e => hzP0 (e ▸ ha))
      · rw [hpn, List.tail_cons] at hb
        have hbP : b ∈ post := by rw [hpn]; exact List.mem_cons_of_mem _ hb
        exact prev_at b (fun e => hnP1 (e ▸ hb)) (fun e => dAP lst hlstA b hbP e.symm)
          (dPe b hbP)
    · rw [List.chain'_pair]
      constructor
      · rw [hnext, Function.update_noteq (fun e => dPe z hzP e.symm), Function.update_same]
      · rw [hprev, Function.update_noteq (dAe lst hlstA), Function.update_same]
    · intro x hx y hy
      rw [hpz, List.getLast?_concat] at hx
      simp only [List.head?_cons, Option.mem_def, Option.some.injEq] at hx hy
      subst hx
      subst hy
      constructor
      · rw [hnext, Function.update_same]
      · rw [hprev, Function.update_same]
  · intro x hx y hy
    rw [List.getLast?_concat] at hx
    rw [hpn] at hy
    simp only [List.cons_append, List.head?_cons, Option.mem_def, Option.some.injEq] at hx hy
    subst hx
    subst hy
    constructor
    · rw [hnext, Function.update_noteq (dAP p hpA z hzP),
        Function.update_noteq (dAe p hpA), Function.update_same]
    · rw [hprev, Function.update_noteq (dPe n hnP),
        Function.update_noteq (fun e => dAP lst hlstA n hnP e.symm), Function.update_same]

theorem exists_concat (l : List Nat) (h : l ≠ []) : ∃ L b, l = L ++ [b] :=
  ⟨l.dropLast, l.getLast h, (List.dropLast_append_getLast h).symm⟩

theorem ring_prev_head (h : CListHeap) (lst : Nat) (xs : List Nat) (hr : IsRing h lst xs) :
    (xs = [] → h.prev lst = lst) ∧ (∀ z, xs.getLast? = some z → h.prev lst = z) := by
  obtain ⟨-, hc⟩ := hr
  constructor
  · intro hx
    subst hx
    exact (List.chain'_pair.1 hc).2
  · intro z hz
    obtain ⟨ys, rfl⟩ : ∃ ys, xs = ys ++ [z] := by
      have hx : xs ≠ [] := by
        rintro rfl
        simp at hz
      obtain ⟨L, b, rfl⟩ := exists_concat xs hx
      rw [List.getLast?_concat] at hz
      cases hz
      exact ⟨L, rfl⟩
    have h1 : List.Chain' (Linked h) ((lst :: ys) ++ z :: [lst]) := by simpa using hc
    exact (List.chain'_pair.1 (List.chain'_split.1 h1).2).2

theorem moved_prev_head (lst elem : Nat) (h : CListHeap) (hne : lst ≠ elem) :
    (c_list_link_before lst elem (c_list_unlink_stale elem h)).prev lst = elem := by
  rw [(moved_heap lst elem h).2, Function.update_noteq hne, Function.update_same]

theorem move_before_ring (h : CListHeap) (lst elem : Nat) (xs : List Nat)
    (hr : IsRing h lst xs) (hm : elem ∈ xs) (hl : xs.getLast? ≠ some elem) :
    IsRing (c_list_link_before lst elem (c_list_unlink_stale elem h)) lst
        (xs.erase elem ++ [elem]) ∧
      xs.erase elem ++ [elem] ≠ xs := by
  obtain ⟨hnd, hc⟩ := hr
  obtain ⟨pre, post, rfl⟩ := List.append_of_mem hm
  have hnd2 := hnd
  rw [List.nodup_cons, List.nodup_append] at hnd2
  obtain ⟨hlst, -, ndP, hdis⟩ := hnd2
  have hepre : elem ∉ pre := fun hx => hdis hx (List.mem_cons_self _ _)
  have hepost : elem ∉ post := (List.nodup_cons.1 ndP).1
  have herase : (pre ++ elem :: post).erase elem = pre ++ post := by
    rw [List.erase_append_right _ hepre, List.erase_cons_head]
  rw [herase]
  have hpost : post ≠ [] := by
    rintro rfl
    exact hl (by simp)
  obtain ⟨post0, z, hpz⟩ := exists_concat post hpost
  obtain ⟨n, post1, hpn⟩ : ∃ n post1, post = n :: post1 := by
    cases post with
    | nil => simp at hpz
    | cons n post1 => exact ⟨n, post1, rfl⟩
  obtain ⟨A0, p, hA⟩ := exists_concat (lst :: pre) (List.cons_ne_nil _ _)
  refine ⟨⟨?_, ?_⟩, ?_⟩
  · have hperm : (lst :: (pre ++ post ++ [elem])).Perm (lst :: (pre ++ elem :: post)) := by
      refine List.Perm.cons _ ?_
      rw [List.append_assoc]
      exact List.Perm.append_left _ (List.perm_append_singleton elem post)
    exact hperm.nodup_iff.2 hnd
  · have hch : List.Chain' (Linked h) ((A0 ++ [p]) ++ elem :: (post ++ [lst])) := by
      rw [← hA]
      simpa using hc
    have hnd3 : ((A0 ++ [p]) ++ elem :: post).Nodup := by
      rw [← hA]
      simpa using hnd
    have hhead : (A0 ++ [p]).head? = some lst := by rw [← hA]; rfl
    have := move_before_chain h lst elem p n z A0 post post0 post1 hhead hpn hpz hnd3 hch
    rw [← hA] at this
    simpa using this
  · intro heq
    have h1 : post ++ [elem] = elem :: post := by
      rw [List.append_assoc] at heq
      exact List.append_cancel_left heq
    have h2 := congrArg List.getLast? h1
    rw [List.getLast?_concat] at h2
    rw [hpz, ← List.cons_append, List.getLast?_concat] at h2
    have hz : z ∈ post := by rw [hpz]; simp
    exact hepost ((Option.some.inj h2) ▸ hz)

/-- C39: for a circular list with head `lst` and elements `xs` (front to
back) and `elem` the head itself or one of the elements:
`nm_c_list_move_before (lst, elem)` returns FALSE exactly when `elem` is
`lst` or the last element, the one immediately before `lst`, and then
memory is as before; otherwise it returns TRUE, and then the list is a
circular list again whose elements are the other elements of `xs` in their
old order followed by `elem`, which is now immediately before `lst`, so the
list has changed; a second call returns FALSE. -/
theorem move_before_spec (h : CListHeap) (lst elem : Nat) (xs : List Nat)
    (hr : IsRing h lst xs) (he : elem = lst ∨ elem ∈ xs) :
    ((nm_c_list_move_before lst elem h).1 = false ↔
      (elem = lst ∨ xs.getLast? = some elem)) ∧
    ((nm_c_list_move_before lst elem h).1 = false →
      (nm_c_list_move_before lst elem h).2 = h) ∧
    ((nm_c_list_move_before lst elem h).1 = true →
      IsRing (nm_c_list_move_before lst elem h).2 lst (xs.erase elem ++ [elem]) ∧
      (nm_c_list_move_before lst elem h).2.prev lst = elem ∧
      xs.erase elem ++ [elem] ≠ xs) ∧
    (nm_c_list_move_before lst elem (nm_c_list_move_before lst elem h).2).1 = false := by
  obtain ⟨hp0, hp1⟩ := ring_prev_head h lst xs hr
  by_cases hcond : lst ≠ elem ∧ h.prev lst ≠ elem
  · obtain ⟨hne, hpr⟩ := hcond
    have hm : elem ∈ xs := by
      rcases he with h1 | h1
      · exact absurd h1.symm hne
      · exact h1
    have hl : xs.getLast? ≠ some elem := fun hx => hpr (hp1 elem hx)
    have hres : nm_c_list_move_before lst elem h =
        (true, c_list_link_before lst elem (c_list_unlink_stale elem h)) := by
      unfold nm_c_list_move_before
      rw [if_pos ⟨hne, hpr⟩]
    have hprev := moved_prev_head lst elem h hne
    obtain ⟨hring, hchg⟩ := move_before_ring h lst elem xs hr hm hl
    rw [hres]
    refine ⟨⟨fun hf => (by cases hf), fun hx => ?_⟩, fun hf => (by cases hf),
      fun _ => ⟨hring, hprev, hchg⟩, ?_⟩
    · rcases hx with h1 | h1
      · exact absurd h1.symm hne
      · exact absurd h1 hl
    · show (nm_c_list_move_before lst elem
        (c_list_link_before lst elem (c_list_unlink_stale elem h))).1 = false
      unfold nm_c_list_move_before
      rw [if_neg (fun hx => hx.2 hprev)]
  · have hres : nm_c_list_move_before lst elem h = (false, h) := by
      unfold nm_c_list_move_before
      rw [if_neg hcond]
    rw [hres]
    refine ⟨⟨fun _ => ?_, fun _ => rfl⟩, fun _ => rfl, fun hf => (by cases hf), ?_⟩
    · by_cases hne : lst = elem
      · exact Or.inl hne.symm
      · right
        have hpr : h.prev lst = elem := by
          by_contra hx
          exact hcond ⟨hne, hx⟩
        have hm : elem ∈ xs := by
          rcases he with h1 | h1
          · exact absurd h1.symm hne
          · exact h1
        obtain ⟨L, b, rfl⟩ := exists_concat xs (List.ne_nil_of_mem hm)
        rw [List.getLast?_concat]
        have := hp1 b (List.getLast?_concat L)
        rw [← hpr, this]
    · show (nm_c_list_move_before lst elem h).1 = false
      rw [hres]

/-- C39 on the list with head 10 and elements 11, 12, 13: moving 11 gives
the elements 12, 13, 11, and moving it again does nothing. -/
theorem move_before_spec_witness :
    (nm_c_list_move_before 10 11 ring3).1 = true ∧
    IsRing (nm_c_list_move_before 10 11 ring3).2 10 [12, 13, 11] ∧
    (nm_c_list_move_before 10 11 (nm_c_list_move_before 10 11 ring3).2).1 = false := by
  have hr : IsRing ring3 10 [11, 12, 13] := by
    refine ⟨by decide, ?_⟩
    simp only [List.cons_append, List.nil_append, List.chain'_cons, List.chain'_singleton,
      and_true, Linked]
    decide
  have h := move_before_spec ring3 10 11 [11, 12, 13] hr (Or.inr (by decide))
  have ht : (nm_c_list_move_before 10 11 ring3).1 = true := by decide
  exact ⟨ht, (h.2.2.1 ht).1, h.2.2.2⟩

/-! ## C16: the stage-3 body after an early lease notification -/

set_option maxRecDepth 100000 in
/-- C16 fails on the code: "eth0" uses DHCP and has the default hooks;
request 7 is attached, stages 1 and 2 have run, and the DHCP manager has
reported a lease before stage 3 has run, which the handler accepted, so
stage 4 is queued behind stage 3 and the tag is IpConfigGet.  The stage-3
body runs and `begin_transaction ("eth0")` returns true: the state is
IpConfig and the policy has not been notified, but the tag is IpConfigGet,
not IpConfigStart, the stage-4 continuation is scheduled, and the next
main-loop iteration runs stage 4 although no notification was delivered
after the body. -/
theorem stage3_postpones_with_stage4_queued :
    leaseBeforeStage3.map (fun w =>
        (nm_device_get_use_dhcp w, w.dev.act_request, (w.reqs 7).stage,
          w.sources.map (fun s => (s.callback, s.user_data))))
      = some (true, some 7, NMActStage.ip_config_get,
          [(StageCallback.stage3_ip_config_start, 7), (StageCallback.stage4_ip_config_get, 7)]) ∧
    (leaseBeforeStage3.bind
        (nm_device_activate_stage3_ip_config_start nm_device_class_init {} 7)).map (fun w =>
        (w.dev.state, (w.reqs 7).stage, w.trace.getLast?,
          decide (Event.policy_activation_failed 7 ∈ w.trace)))
      = some (NMDeviceState.ip_config, NMActStage.ip_config_get,
          some (Event.dhcp_begin_transaction "eth0"), false) ∧
    leaseThenStage3.map (fun w =>
        (w.dev.state, (w.reqs 7).stage, w.dev.act_source_id,
          w.sources.map (fun s => (s.callback, s.user_data))))
      = some (NMDeviceState.ip_config, NMActStage.ip_config_get, 0,
          [(StageCallback.stage4_ip_config_get, 7)]) ∧
    (leaseThenStage3.bind (g_main_context_iteration nm_device_class_init leaseBackend)).map
        (fun w =>
          (decide (Event.class_hook ClassHook.act_stage4_get_ip4_config ∈ w.trace),
            decide (Event.dhcp_get_ip4_config "eth0" ∈ w.trace),
            w.sources.map (fun s => (s.callback, s.user_data))))
      = some (true, true, [(StageCallback.stage5_ip_config_commit, 7)]) := by
  refine ⟨by decide, by decide, by decide, by decide⟩

/-! ## C12: installations within one activation attempt -/

set_option maxRecDepth 100000 in
/-- C12 fails on the code: after the run `leaseThenStage3` of request 7,
the activation is cancelled and the device deactivated; the stage-4
continuation of request 7 that the early lease notification scheduled is
still queued.  `nm_device_activate` is then called with the fresh request
8 (nothing installed so far).  With the default hooks, main-loop iterations
and one lease notification, the backend's `set_from_ip4_config` is invoked
twice before request 8 is released: once by the continuation left over
from request 7, once by stage 5 of request 8. -/
theorem two_installs_in_one_attempt :
    secondAttemptStarted.map (fun w =>
        (w.dev.state, w.dev.act_request, installs w.trace,
          w.sources.map (fun s => (s.callback, s.user_data))))
      = some (NMDeviceState.disconnected, some 8, 0,
          [(StageCallback.stage4_ip_config_get, 7), (StageCallback.stage1_device_prepare, 8)]) ∧
    secondAttemptDone.map (fun w =>
        (w.dev.state, w.dev.act_request, installs w.trace, unrefs 8 w.trace))
      = some (NMDeviceState.activated, some 8, 2, 0) := by
  refine ⟨by decide, by decide⟩
/-! ## The stage bodies on a device with its application data -/

theorem prepared_plain (st : NMDeviceState) (w : World) (hk : ClassHook) (es : List Event) :
    Prepared st w ((nm_device_state_changed_plain st (clear_act_source_id w)).callHook hk es) := by
  rw [clear_act_source_id_eq]
  exact ⟨rfl, rfl, rfl, rfl, rfl, rfl, rfl⟩

theorem prepared_clear (w : World) (hk : ClassHook) (es : List Event) :
    Prepared w.dev.state w ((clear_act_source_id w).callHook hk es) := by
  rw [clear_act_source_id_eq]
  exact ⟨rfl, rfl, rfl, rfl, rfl, rfl, rfl⟩

theorem prepared_waits {st : NMDeviceState} {w x : World} (h : Prepared st w x) :
    BodyWaits w x := by
  obtain ⟨a, b, c, d, e, -, -⟩ := h
  exact ⟨a, b, c, fun r => by rw [d], e⟩

theorem prepared_postponed {st : NMDeviceState} {w x : World} (cb : StageCallback) (req : ReqId)
    (h : Prepared st w x) (hst : st = afterBody cb w.dev.state) : BodyOutcome cb req w x :=
  Or.inl ⟨prepared_waits h, Or.inr ⟨h.2.2.2.2.2.2.trans hst, h.2.2.2.2.2.1⟩⟩

theorem prepared_failed {st : NMDeviceState} {w x w1 : World} (cls : NMDeviceClass)
    (env : Env) (cb : StageCallback) (req : ReqId)
    (h : Prepared st w x) (happ : w.dev.app_data = true)
    (hf : stage_failed cls env req x = some w1) : BodyOutcome cb req w w1 := by
  obtain ⟨a, b, c, d, e, -, -⟩ := h
  obtain ⟨q1, q2, q3⟩ := stage_failed_sameQueue cls env req x w1 hf
  obtain ⟨f1, -, -, -, -, f6, -⟩ := stage_failed_frame cls env req x w1 hf
  obtain ⟨w2, es, h2, -, hst, hreq, -, -⟩ :=
    stage_failed_outcome cls env req x x (e.trans happ) (List.prefix_refl _)
  rw [hf] at h2
  cases h2
  exact Or.inl ⟨⟨q1.trans a, q2.trans b, q3.trans c, fun r => by rw [f1 r, d], f6.trans e⟩,
    Or.inl ⟨hst, hreq⟩⟩

theorem prepared_goes {st : NMDeviceState} {w x : World} (tag : NMActStage)
    (cb2 : StageCallback) (req : ReqId) (h : Prepared st w x) :
    BodyGoes cb2 tag req st w (schedule_stage tag cb2 req x) := by
  obtain ⟨a, b, -, d, e, f, g⟩ := h
  refine ⟨?_, ?_, ?_, ?_, ?_, ?_, ?_⟩
  · simp [schedule_stage, g_idle_add, nm_act_request_set_stage, World.setReq, a, b]
  · simp [schedule_stage, g_idle_add, nm_act_request_set_stage, World.setReq, b]
  · simp [schedule_stage, g_idle_add, nm_act_request_set_stage, World.setReq, b]
  · intro r
    simp only [schedule_stage, g_idle_add, nm_act_request_set_stage, World.setReq, d]
    split <;> rfl
  · simpa [schedule_stage, g_idle_add, nm_act_request_set_stage, World.setReq] using e
  · simpa [schedule_stage, g_idle_add, nm_act_request_set_stage, World.setReq] using g
  · simpa [schedule_stage, g_idle_add, nm_act_request_set_stage, World.setReq] using f

theorem stage1_outcome (cls : NMDeviceClass) (env : Env) (req : ReqId) (w w1 : World)
    (happ : w.dev.app_data = true)
    (h : nm_device_activate_stage1_device_prepare cls env req w = some w1) :
    BodyOutcome StageCallback.stage1_device_prepare req w w1 := by
  unfold nm_device_activate_stage1_device_prepare at h
  simp only [nm_device_state_changed, Option.bind_eq_bind, Option.some_bind] at h
  have hp := prepared_plain NMDeviceState.prepare w ClassHook.act_stage1_prepare
    (cls.act_stage1_prepare env (nm_device_state_changed_plain
      NMDeviceState.prepare (clear_act_source_id w)) req).2
  split at h
  · cases h
    exact prepared_postponed _ req hp rfl
  · exact prepared_failed cls env _ req hp happ h
  · cases h
    exact Or.inr ⟨_, _, rfl, prepared_goes _ _ req hp⟩

theorem prepared_stage2 (cls : NMDeviceClass) (env : Env) (w : World) (es : List Event) :
    Prepared NMDeviceState.config w
      ((if nm_device_is_up env (nm_device_state_changed_plain NMDeviceState.config
          (clear_act_source_id w)) = true then
          nm_device_state_changed_plain NMDeviceState.config (clear_act_source_id w)
        else nm_device_bring_up cls.set_hw_address env
          (nm_device_state_changed_plain NMDeviceState.config
            (clear_act_source_id w))).callHook ClassHook.act_stage2_config es) := by
  rw [clear_act_source_id_eq]
  split
  · exact ⟨rfl, rfl, rfl, rfl, rfl, rfl, rfl⟩
  · unfold nm_device_bring_up nm_device_set_up_down nm_device_set_address
    cases cls.set_hw_address <;> exact ⟨rfl, rfl, rfl, rfl, rfl, rfl, rfl⟩

theorem stage2_outcome (cls : NMDeviceClass) (env : Env) (req : ReqId) (w w1 : World)
    (happ : w.dev.app_data = true)
    (h : nm_device_activate_stage2_device_config cls env req w = some w1) :
    BodyOutcome StageCallback.stage2_device_config req w w1 := by
  unfold nm_device_activate_stage2_device_config at h
  simp only [nm_device_state_changed, Option.bind_eq_bind, Option.some_bind] at h
  split at h
  · cases h
    exact prepared_postponed _ req (prepared_stage2 cls env w _) rfl
  · exact prepared_failed cls env _ req (prepared_stage2 cls env w _) happ h
  · cases h
    exact Or.inr ⟨_, _, rfl, prepared_goes _ _ req (prepared_stage2 cls env w _)⟩

theorem stage3_outcome (cls : NMDeviceClass) (env : Env) (req : ReqId) (w w1 : World)
    (happ : w.dev.app_data = true)
    (h : nm_device_activate_stage3_ip_config_start cls env req w = some w1) :
    BodyOutcome StageCallback.stage3_ip_config_start req w w1 := by
  unfold nm_device_activate_stage3_ip_config_start at h
  simp only [nm_device_state_changed, Option.bind_eq_bind, Option.some_bind] at h
  have hp := prepared_plain NMDeviceState.ip_config w ClassHook.act_stage3_ip_config_start
    (cls.act_stage3_ip_config_start env (nm_device_state_changed_plain
      NMDeviceState.ip_config (clear_act_source_id w)) req).2
  split at h
  · cases h
    exact prepared_postponed _ req hp rfl
  · exact prepared_failed cls env _ req hp happ h
  · cases h
    exact Or.inr ⟨_, _, rfl, prepared_goes _ _ req hp⟩

theorem prepared_set_config {st : NMDeviceState} {w x : World} (req : ReqId) (c : NMIP4Config)
    (tag : NMActStage) (cb2 : StageCallback) (h : Prepared st w x) :
    BodyGoes cb2 tag req st w (schedule_stage tag cb2 req (nm_act_request_set_ip4_config req c x)) := by
  obtain ⟨a, b, -, d, e, f, g⟩ := h
  refine ⟨?_, ?_, ?_, ?_, ?_, ?_, ?_⟩
  · simp [schedule_stage, g_idle_add, nm_act_request_set_stage, nm_act_request_set_ip4_config,
      World.setReq, a, b]
  · simp [schedule_stage, g_idle_add, nm_act_request_set_stage, nm_act_request_set_ip4_config,
      World.setReq, b]
  · simp [schedule_stage, g_idle_add, nm_act_request_set_stage, nm_act_request_set_ip4_config,
      World.setReq, b]
  · intro r
    simp only [schedule_stage, g_idle_add, nm_act_request_set_stage,
      nm_act_request_set_ip4_config, World.setReq, d]
    by_cases hr : r = req
    · simp [hr]
    · simp [hr]
  · simpa [schedule_stage, g_idle_add, nm_act_request_set_stage, nm_act_request_set_ip4_config,
      World.setReq] using e
  · simpa [schedule_stage, g_idle_add, nm_act_request_set_stage, nm_act_request_set_ip4_config,
      World.setReq] using g
  · simpa [schedule_stage, g_idle_add, nm_act_request_set_stage, nm_act_request_set_ip4_config,
      World.setReq] using f

theorem stage4_finish_outcome (cls : NMDeviceClass) (env : Env) (req : ReqId)
    (r : NMActStageReturn × Option NMIP4Config) (w x w1 : World) (cb : StageCallback)
    (hcb : nextStage cb = some (StageCallback.stage5_ip_config_commit,
      NMActStage.ip_config_commit))
    (hst : afterBody cb w.dev.state = w.dev.state)
    (hp : Prepared w.dev.state w x) (happ : w.dev.app_data = true)
    (h : stage4_finish cls env req r x = some w1) :
    BodyOutcome cb req w w1 := by
  unfold stage4_finish at h
  split at h
  · cases h
    exact prepared_postponed _ req hp hst.symm
  · exact prepared_failed cls env _ req hp happ h
  · exact prepared_failed cls env _ req hp happ h
  · cases h
    refine Or.inr ⟨_, _, hcb, ?_⟩
    rw [hst]
    exact prepared_set_config req _ _ _ hp

theorem stage4_get_outcome (cls : NMDeviceClass) (env : Env) (req : ReqId) (w w1 : World)
    (happ : w.dev.app_data = true)
    (h : nm_device_activate_stage4_ip_config_get cls env req w = some w1) :
    BodyOutcome StageCallback.stage4_ip_config_get req w w1 := by
  unfold nm_device_activate_stage4_ip_config_get at h
  exact stage4_finish_outcome cls env req _ w _ w1 _ rfl rfl (prepared_clear w _ _) happ h

theorem stage4_timeout_outcome (cls : NMDeviceClass) (env : Env) (req : ReqId) (w w1 : World)
    (happ : w.dev.app_data = true)
    (h : nm_device_activate_stage4_ip_config_timeout cls env req w = some w1) :
    BodyOutcome StageCallback.stage4_ip_config_timeout req w w1 := by
  unfold nm_device_activate_stage4_ip_config_timeout at h
  exact stage4_finish_outcome cls env req _ w _ w1 _ rfl rfl (prepared_clear w _ _) happ h

theorem prepared_emit {st : NMDeviceState} {w x : World} (e : Event) (h : Prepared st w x) :
    Prepared st w (x.emit e) := h

theorem prepared_callHook {st : NMDeviceState} {w x : World} (hk : ClassHook)
    (es : List Event) (h : Prepared st w x) : Prepared st w (x.callHook hk es) := h

theorem prepared_state_plain {st : NMDeviceState} {w x : World} (st2 : NMDeviceState)
    (h : Prepared st w x) : Prepared st2 w (nm_device_state_changed_plain st2 x) := by
  obtain ⟨a, b, c, d, e, f, -⟩ := h
  exact ⟨a, b, c, d, e, f, rfl⟩

theorem prepared_update_ip4_address {st : NMDeviceState} {w x : World} (env : Env)
    (h : Prepared st w x) : Prepared st w (nm_device_update_ip4_address env x) := by
  obtain ⟨a, t, hu⟩ := update_ip4_address_shape env x
  rw [hu]
  exact h

theorem stage5_outcome (cls : NMDeviceClass) (env : Env) (req : ReqId) (w w1 : World)
    (happ : w.dev.app_data = true)
    (h : nm_device_activate_stage5_ip_config_commit cls env req w = some w1) :
    BodyOutcome StageCallback.stage5_ip_config_commit req w w1 := by
  unfold nm_device_activate_stage5_ip_config_commit at h
  split at h
  · cases h
  · rename_i c hcfg
    simp only at h
    have hp : Prepared w.dev.state w ((nm_device_set_ip4_config (some c)
        (clear_act_source_id w)).emit (Event.system_device_set_from_ip4_config
          (nm_device_set_ip4_config (some c) (clear_act_source_id w)).dev.ip4_config)) := by
      rw [clear_act_source_id_eq]
      exact ⟨rfl, rfl, rfl, rfl, rfl, rfl, rfl⟩
    split at h
    · simp only [nm_device_state_changed, Option.bind_eq_bind, Option.some_bind,
        Option.some.injEq] at h
      subst h
      refine prepared_postponed _ req ?_ rfl
      refine prepared_emit (Event.policy_activation_finish req) ?_
      refine @prepared_state_plain w.dev.state w _ NMDeviceState.activated ?_
      have h6 : ∀ e1 e2, Prepared w.dev.state w
          ((((((nm_device_update_ip4_address env ((nm_device_set_ip4_config (some c)
            (clear_act_source_id w)).emit (Event.system_device_set_from_ip4_config
              (nm_device_set_ip4_config (some c) (clear_act_source_id w)).dev.ip4_config))).emit
            Event.system_device_add_ip6_link_address).emit
            Event.system_restart_mdns_responder).emit e1).emit e2).emit Event.system_set_mtu) :=
        fun e1 e2 => prepared_emit Event.system_set_mtu (prepared_emit e2 (prepared_emit e1
          (prepared_emit Event.system_restart_mdns_responder
            (prepared_emit Event.system_device_add_ip6_link_address
              (prepared_update_ip4_address env hp)))))
      cases cls.update_link with
      | none => exact h6 _ _
      | some hk => exact prepared_callHook _ _ (h6 _ _)
    · exact prepared_failed cls env _ req hp happ h

theorem run_callback_outcome (cls : NMDeviceClass) (env : Env) (cb : StageCallback)
    (req : ReqId) (w w1 : World) (happ : w.dev.app_data = true)
    (h : run_callback cls env cb req w = some w1) : BodyOutcome cb req w w1 := by
  unfold run_callback at h
  cases cb <;> simp only at h
  · exact stage1_outcome cls env req w w1 happ h
  · exact stage2_outcome cls env req w w1 happ h
  · exact stage3_outcome cls env req w w1 happ h
  · exact stage4_get_outcome cls env req w w1 happ h
  · exact stage4_timeout_outcome cls env req w w1 happ h
  · exact stage5_outcome cls env req w w1 happ h

/-! ## The other operations on a device with its application data -/

theorem activate_shape (req : ReqId) (w : World) :
    (w.dev.state ≠ NMDeviceState.disconnected → nm_device_activate req w = w) ∧
    (w.dev.state = NMDeviceState.disconnected →
      BodyGoes StageCallback.stage1_device_prepare NMActStage.device_prepare req
          NMDeviceState.disconnected { w with dev := { w.dev with act_request := some req } }
          (nm_device_activate req w)) := by
  unfold nm_device_activate
  constructor
  · intro h
    rw [if_pos h]
  · intro h
    rw [if_neg (by simp [h])]
    rcases w with ⟨⟨st, ifc, cap, la, ip, app, ar, sid, cfg, dm, dsi⟩, reqs, srcs, sc, dh, hcn, tr⟩
    simp only at h
    subst h
    refine ⟨?_, ?_, ?_, ?_, ?_, ?_, ?_⟩ <;>
      simp [nm_device_activate_schedule_stage1_device_prepare, schedule_stage, g_idle_add,
        nm_act_request_set_stage, nm_act_request_ref, World.setReq, World.emit]
    intro r
    split <;> simp_all

theorem dhcp_shape (iface : String) (st : NMDHCPState) (w : World) :
    ((dhcp_state_changed iface st w).dev = w.dev ∧
      (dhcp_state_changed iface st w).sources = w.sources ∧
      (dhcp_state_changed iface st w).sources_created = w.sources_created ∧
      (dhcp_state_changed iface st w).reqs = w.reqs ∧
      (dhcp_state_changed iface st w).dhcp_handlers = w.dhcp_handlers) ∨
    (∃ r cb, w.dev.act_request = some r ∧ (w.reqs r).stage = NMActStage.ip_config_start ∧
      (cb = StageCallback.stage4_ip_config_get ∨ cb = StageCallback.stage4_ip_config_timeout) ∧
      dhcp_state_changed iface st w = schedule_stage NMActStage.ip_config_get cb r w) := by
  unfold dhcp_state_changed
  cases hr : nm_device_get_act_request w with
  | none => exact Or.inl ⟨rfl, rfl, rfl, rfl, rfl⟩
  | some r =>
      simp only
      split
      · rename_i hcond
        have hs : (w.reqs r).stage = NMActStage.ip_config_start := hcond.2
        cases st
        case fail => exact Or.inl ⟨rfl, rfl, rfl, rfl, rfl⟩
        case abend => exact Or.inl ⟨rfl, rfl, rfl, rfl, rfl⟩
        case end_ => exact Or.inl ⟨rfl, rfl, rfl, rfl, rfl⟩
        case other => exact Or.inl ⟨rfl, rfl, rfl, rfl, rfl⟩
        case timeout => exact Or.inr ⟨r, _, hr, hs, Or.inr rfl, rfl⟩
        all_goals exact Or.inr ⟨r, _, hr, hs, Or.inl rfl, rfl⟩
      · exact Or.inl ⟨rfl, rfl, rfl, rfl, rfl⟩

theorem cancel_shape (env : Env) (w w2 : World)
    (h : nm_device_activation_cancel env w = some w2) :
    (nm_device_is_activating w = false ∧ w2 = w) ∨
    (nm_device_is_activating w = true ∧
      (w.dev.act_source_id = 0 → w2.sources = w.sources) ∧
      (w.dev.act_source_id ≠ 0 →
        w2.sources = w.sources.filter (fun s => s.id ≠ w.dev.act_source_id)) ∧
      w2.sources_created = w.sources_created ∧ w2.dev.act_source_id = 0 ∧
      w2.dev.act_request = none ∧ w2.dev.state = w.dev.state ∧
      w2.dev.app_data = w.dev.app_data ∧ (∀ r, (w2.reqs r).stage = (w.reqs r).stage)) := by
  unfold nm_device_activation_cancel at h
  split at h
  · rename_i hact
    cases h
    exact Or.inl ⟨hact, rfl⟩
  · rename_i hact
    split at h
    · cases h
    · simp only [Option.some.injEq] at h
      subst h
      right
      rcases w with ⟨⟨st, ifc, cap, la, ip, app, ar, sid, cfg, dm, dsi⟩, reqs, srcs, sc, dh, hcn, tr⟩
      refine ⟨by simpa using hact, ?_⟩
      by_cases hs : sid = 0
      · subst hs
        cases ar <;>
          simp [nm_device_class_init, World.callHook, World.emit, World.emits,
            nm_act_request_unref, World.setReq, g_source_remove]
        intro r
        split <;> simp_all
      · cases ar <;>
          simp [hs, nm_device_class_init, World.callHook, World.emit, World.emits,
            nm_act_request_unref, World.setReq, g_source_remove]
        intro r
        split <;> simp_all

theorem deactivate_quickly_shape (cls : NMDeviceClass) (env : Env) (w w2 : World) (b : Bool)
    (happ : w.dev.app_data = true)
    (h : nm_device_deactivate_quickly cls env w = some (b, w2)) :
    w2.dev.act_request = none ∧ w2.dev.state = w.dev.state ∧ w2.dev.app_data = true ∧
    w2.sources_created = w.sources_created ∧ (∀ r, (w2.reqs r).stage = (w.reqs r).stage) ∧
    ((nm_device_is_activating w = false ∧ w2.sources = w.sources ∧
        w2.dev.act_source_id = w.dev.act_source_id) ∨
     (nm_device_is_activating w = true ∧ w2.dev.act_source_id = 0 ∧
        (w.dev.act_source_id = 0 → w2.sources = w.sources) ∧
        (w.dev.act_source_id ≠ 0 →
          w2.sources = w.sources.filter (fun s => s.id ≠ w.dev.act_source_id)))) := by
  unfold nm_device_deactivate_quickly at h
  rw [if_neg (by simp [happ])] at h
  simp only [] at h
  split at h
  · cases h
  · rename_i w1 h1
    simp only [Option.some.injEq, Prod.mk.injEq] at h
    obtain ⟨-, rfl⟩ := h
    have ha : w1.dev.state = w.dev.state ∧ w1.dev.app_data = true ∧
        w1.sources_created = w.sources_created ∧ (∀ r, (w1.reqs r).stage = (w.reqs r).stage) ∧
        ((nm_device_is_activating w = false ∧ w1.sources = w.sources ∧
            w1.dev.act_source_id = w.dev.act_source_id) ∨
         (nm_device_is_activating w = true ∧ w1.dev.act_source_id = 0 ∧
            (w.dev.act_source_id = 0 → w1.sources = w.sources) ∧
            (w.dev.act_source_id ≠ 0 →
              w1.sources = w.sources.filter (fun s => s.id ≠ w.dev.act_source_id)))) := by
      split at h1
      · rename_i hst
        cases h1
        refine ⟨rfl, happ, rfl, fun _ => rfl, Or.inl ⟨?_, rfl, rfl⟩⟩
        have hst2 : w.dev.state = NMDeviceState.activated := hst
        simp [nm_device_is_activating, nm_device_get_state, hst2]
      · split at h1
        · rename_i hact
          have hact2 : nm_device_is_activating w = true := hact
          rcases cancel_shape env _ w1 h1 with ⟨hc, -⟩ | ⟨-, c1, c2, c3, c4, -, c6, c7, c8⟩
          · rw [hact] at hc
            cases hc
          · exact ⟨c6, c7.trans happ, c3, c8, Or.inr ⟨hact2, c4, c1, c2⟩⟩
        · rename_i hact
          cases h1
          refine ⟨rfl, happ, rfl, fun _ => rfl, Or.inl ⟨?_, rfl, rfl⟩⟩
          have hact2 : ¬ nm_device_is_activating w = true := hact
          simpa using hact2
    obtain ⟨a1, a2, a3, a4, a5⟩ := ha
    rcases w1 with ⟨⟨st, ifc, cap, la, ip, app, ar, sid, cfg, dm, dsi⟩, reqs, srcs, sc, dh, hcn, tr⟩
    cases cls.deactivate_quickly <;> cases ar <;>
      simp [nm_device_get_act_request, World.callHook, World.emits, World.emit,
        nm_act_request_unref, World.setReq, nm_device_get_iface] at a1 a2 a3 a4 a5 ⊢
    · exact ⟨a1, a2, a3, a4, a5⟩
    · refine ⟨a1, a2, a3, fun r => ?_, a5⟩
      rw [← a4 r]
      split
      · rename_i hr
        rw [hr]
      · rfl
    · exact ⟨a1, a2, a3, a4, a5⟩
    · refine ⟨a1, a2, a3, fun r => ?_, a5⟩
      rw [← a4 r]
      split
      · rename_i hr
        rw [hr]
      · rfl

theorem deactivate_shape (cls : NMDeviceClass) (env : Env) (w w2 : World)
    (happ : w.dev.app_data = true) (h : nm_device_deactivate cls env w = some w2) :
    w2.dev.act_request = none ∧ w2.dev.state = NMDeviceState.disconnected ∧
    w2.dev.app_data = true ∧
    w2.sources_created = w.sources_created ∧ (∀ r, (w2.reqs r).stage = (w.reqs r).stage) ∧
    ((nm_device_is_activating w = false ∧ w2.sources = w.sources ∧
        w2.dev.act_source_id = w.dev.act_source_id) ∨
     (nm_device_is_activating w = true ∧ w2.dev.act_source_id = 0 ∧
        (w.dev.act_source_id = 0 → w2.sources = w.sources) ∧
        (w.dev.act_source_id ≠ 0 →
          w2.sources = w.sources.filter (fun s => s.id ≠ w.dev.act_source_id)))) := by
  unfold nm_device_deactivate at h
  rw [if_neg (by simp [happ])] at h
  simp only [] at h
  split at h
  · cases h
  · rename_i b w1 h1
    simp only [Option.some.injEq] at h
    subst h
    obtain ⟨q1, -, q3, q4, q5, q6⟩ := deactivate_quickly_shape cls env w w1 b happ h1
    cases cls.deactivate <;> cases hc : nm_device_get_ip4_config w1 <;> simp only [] <;>
    (obtain ⟨a, t, hu⟩ := update_ip4_address_shape env _
     rw [hu]
     simp only [World.callHook, World.emits, nm_device_state_changed_plain, World.emit,
       nm_device_set_ip4_config]
     exact ⟨q1, trivial, q3, q4, q5, q6⟩)

/-! ## The invariant of runs with at most one continuation queued -/

theorem tidy_activate (req : ReqId) (w : World) (hi : TidyInv w)
    (hq : (nm_device_activate req w).sources.length ≤ 1) : TidyInv (nm_device_activate req w) := by
  obtain ⟨h1, h2⟩ := activate_shape req w
  by_cases hs : w.dev.state = NMDeviceState.disconnected
  · obtain ⟨g1, g2, g3, g4, g5, g6, g7⟩ := h2 hs
    obtain ⟨i1, -, i3⟩ := hi
    simp only at g1 g2 g3 g4 g5 g6 g7
    have hempty : w.sources = [] := by
      rw [g1, List.length_append] at hq
      simp only [List.length_singleton] at hq
      exact List.length_eq_zero.1 (by omega)
    refine ⟨g5.trans i1, by rw [g6]; decide,
      Or.inr ⟨⟨w.sources_created + 1, StageCallback.stage1_device_prepare, req⟩,
        by rw [g1, hempty]; rfl, g3, by simp, by simp [g2], g6, ?_⟩⟩
    intro r hr
    rw [g7] at hr
    cases hr
    exact ⟨rfl, by rw [g4]; simp [stageTag]⟩
  · rw [h1 hs]
    exact hi

theorem stageTag_start (cb : StageCallback) (h : stageTag cb = NMActStage.ip_config_start) :
    cb = StageCallback.stage3_ip_config_start := by
  cases cb <;> simp [stageTag] at h ⊢

theorem tidy_run (cls : NMDeviceClass) (env : Env) (w w2 : World) (hi : TidyInv w)
    (h : g_main_context_iteration cls env w = some w2) : TidyInv w2 := by
  obtain ⟨i1, i2, i3⟩ := hi
  unfold g_main_context_iteration at h
  rcases i3 with ⟨e1, e2, e3⟩ | ⟨s, q1, q2, q3, q4, q5, q6⟩
  · rw [e1] at h
    cases h
    exact ⟨i1, i2, Or.inl ⟨e1, e2, e3⟩⟩
  · rw [q1] at h
    simp only [] at h
    cases hr : run_callback cls env s.callback s.user_data w with
    | none => rw [hr] at h; cases h
    | some w1 =>
        rw [hr] at h
        simp only [Option.map_some', Option.some.injEq] at h
        subst h
        have ho := run_callback_outcome cls env s.callback s.user_data w w1 i1 hr
        rcases ho with ⟨⟨b1, b2, b3, b4, b5⟩, hcase⟩ | ⟨cb2, tag, hn, g1, g2, g3, g4, g5, g6, g7⟩
        · have hsrc : (g_source_remove s.id w1).sources = [] := by
            simp [g_source_remove, b1, q1]
          refine ⟨b5.trans i1, ?_, Or.inl ⟨hsrc, b3, ?_⟩⟩
          · show w1.dev.state ≠ NMDeviceState.failed
            rcases hcase with ⟨c1, -⟩ | ⟨c1, -⟩
            · rw [c1]
              decide
            · rw [c1, q5]
              cases s.callback <;> decide
          · intro r hr2 ht
            show w1.dev.state = NMDeviceState.ip_config
            have hr3 : w1.dev.act_request = some r := hr2
            have ht2 : (w1.reqs r).stage = NMActStage.ip_config_start := ht
            rcases hcase with ⟨-, c2⟩ | ⟨c1, c2⟩
            · rw [c2] at hr3
              cases hr3
            · rw [c2] at hr3
              obtain ⟨-, t1⟩ := q6 r hr3
              rw [b4 r, t1] at ht2
              rw [c1, stageTag_start _ ht2]
              rfl
        · have hne : w.sources_created + 1 ≠ s.id := by omega
          have hsrc : (g_source_remove s.id w1).sources =
              [⟨w.sources_created + 1, cb2, s.user_data⟩] := by
            simp [g_source_remove, g1, q1, hne]
          have hst : w1.dev.state = queuedIn cb2 := by
            rw [g6]
            cases hcb : s.callback <;> rw [hcb] at hn q5 <;>
              simp only [nextStage, Option.some.injEq, Prod.mk.injEq] at hn
            all_goals first
              | (obtain ⟨rfl, -⟩ := hn; rfl)
              | (obtain ⟨rfl, -⟩ := hn; simpa [afterBody, queuedIn] using q5)
              | cases hn
          have hcr : (g_source_remove s.id w1).sources_created = w.sources_created + 1 := g2
          refine ⟨g5.trans i1, ?_, Or.inr ⟨_, hsrc, g3, by simp, by simp [hcr], hst, ?_⟩⟩
          · show w1.dev.state ≠ NMDeviceState.failed
            rw [hst]
            cases cb2 <;> decide
          · intro r hr2
            have hr3 : w1.dev.act_request = some r := hr2
            rw [g7] at hr3
            obtain ⟨t0, -⟩ := q6 r hr3
            refine ⟨t0, ?_⟩
            show (w1.reqs r).stage = stageTag cb2
            rw [g4 r, if_pos t0]
            exact (nextStage_tag hn).1

theorem tidy_transfer {w w2 : World} (hi : TidyInv w) (hd : w2.dev = w.dev)
    (hs : w2.sources = w.sources) (hc : w2.sources_created = w.sources_created)
    (hr : w2.reqs = w.reqs) : TidyInv w2 := by
  unfold TidyInv at hi ⊢
  rw [hd, hs, hc, hr]
  exact hi

theorem tidy_dhcp (iface : String) (st : NMDHCPState) (w : World) (hi : TidyInv w)
    (hq : (dhcp_state_changed iface st w).sources.length ≤ 1) :
    TidyInv (dhcp_state_changed iface st w) := by
  rcases dhcp_shape iface st w with ⟨d1, d2, d3, d4, -⟩ | ⟨r, cb, hr, ht, hcb, heq⟩
  · exact tidy_transfer hi d1 d2 d3 d4
  · rw [heq] at hq ⊢
    obtain ⟨i1, i2, i3⟩ := hi
    rcases i3 with ⟨e1, e2, e3⟩ | ⟨s, q1, -⟩
    · have hp : Prepared w.dev.state w w := ⟨rfl, rfl, e2, rfl, rfl, rfl, rfl⟩
      obtain ⟨g1, g2, g3, g4, g5, g6, g7⟩ := prepared_goes NMActStage.ip_config_get cb r hp
      have hst : w.dev.state = NMDeviceState.ip_config := e3 r hr ht
      have hqi : queuedIn cb = NMDeviceState.ip_config := by
        rcases hcb with rfl | rfl <;> rfl
      have htag : stageTag cb = NMActStage.ip_config_get := by
        rcases hcb with rfl | rfl <;> rfl
      refine ⟨g5.trans i1, by rw [g6, hst]; decide,
        Or.inr ⟨⟨w.sources_created + 1, cb, r⟩, by rw [g1, e1]; rfl, g3, by simp,
          by simp [g2], by rw [g6, hst, hqi], ?_⟩⟩
      intro r2 hr2
      rw [g7, hr] at hr2
      cases hr2
      exact ⟨rfl, by rw [g4, if_pos rfl, htag]⟩
    · exfalso
      have : (schedule_stage NMActStage.ip_config_get cb r w).sources.length = 2 := by
        simp [schedule_stage, g_idle_add, nm_act_request_set_stage, World.setReq, q1]
      omega

theorem dhcp_sources_grow (iface : String) (st : NMDHCPState) (w : World) :
    w.sources.length ≤ (dhcp_state_changed iface st w).sources.length := by
  rcases dhcp_shape iface st w with ⟨-, d2, -⟩ | ⟨r, cb, -, -, -, heq⟩
  · rw [d2]
  · rw [heq]
    simp [schedule_stage, g_idle_add, nm_act_request_set_stage, World.setReq]

theorem dhcp_fold_grow (iface : String) (st : NMDHCPState) (l : List Nat) (w : World) :
    w.sources.length ≤
      (l.foldl (fun acc _ => dhcp_state_changed iface st acc) w).sources.length := by
  induction l generalizing w with
  | nil => exact le_refl _
  | cons a l ih =>
      rw [List.foldl_cons]
      exact le_trans (dhcp_sources_grow iface st w) (ih _)

theorem tidy_dhcp_fold (iface : String) (st : NMDHCPState) (l : List Nat) (w : World)
    (hi : TidyInv w)
    (hq : (l.foldl (fun acc _ => dhcp_state_changed iface st acc) w).sources.length ≤ 1) :
    TidyInv (l.foldl (fun acc _ => dhcp_state_changed iface st acc) w) := by
  induction l generalizing w with
  | nil => exact hi
  | cons a l ih =>
      rw [List.foldl_cons] at hq ⊢
      exact ih _ (tidy_dhcp iface st w hi (le_trans (dhcp_fold_grow iface st l _) hq)) hq

theorem tidy_removed {w w2 : World} (hi : TidyInv w)
    (h3 : w2.dev.act_source_id = 0)
    (h1 : w.dev.act_source_id = 0 → w2.sources = w.sources)
    (h2 : w.dev.act_source_id ≠ 0 →
      w2.sources = w.sources.filter (fun s => s.id ≠ w.dev.act_source_id))
    (hr : w2.dev.act_request = none) (hst : w2.dev.state ≠ NMDeviceState.failed)
    (happ : w2.dev.app_data = true) : TidyInv w2 := by
  obtain ⟨-, -, i3⟩ := hi
  refine ⟨happ, hst, Or.inl ⟨?_, h3, fun r hr2 => by rw [hr] at hr2; cases hr2⟩⟩
  rcases i3 with ⟨e1, e2, -⟩ | ⟨s, q1, q2, q3, -⟩
  · rw [h1 e2, e1]
  · rw [h2 (by omega), q1, q2]
    simp

theorem tidy_cancel (env : Env) (w w2 : World) (hi : TidyInv w)
    (h : nm_device_activation_cancel env w = some w2) : TidyInv w2 := by
  rcases cancel_shape env w w2 h with ⟨-, rfl⟩ | ⟨-, c1, c2, -, c4, c5, c6, c7, -⟩
  · exact hi
  · exact tidy_removed hi c4 c1 c2 c5 (by rw [c6]; exact hi.2.1) (c7.trans hi.1)

theorem tidy_deactivate (cls : NMDeviceClass) (env : Env) (w w2 : World) (hi : TidyInv w)
    (h : nm_device_deactivate cls env w = some w2) : TidyInv w2 := by
  obtain ⟨d1, d2, d3, d4, d5, d6⟩ := deactivate_shape cls env w w2 hi.1 h
  rcases d6 with ⟨hact, s1, s2⟩ | ⟨-, s1, s2, s3⟩
  · obtain ⟨i1, i2, i3⟩ := hi
    refine ⟨d3, by rw [d2]; decide, ?_⟩
    rcases i3 with ⟨e1, e2, -⟩ | ⟨s, q1, q2, q3, q4, q5, -⟩
    · exact Or.inl ⟨s1.trans e1, s2.trans e2, fun r hr => by rw [d1] at hr; cases hr⟩
    · refine Or.inr ⟨s, s1.trans q1, s2.trans q2, q3, by rw [d4]; exact q4, ?_,
        fun r hr => by rw [d1] at hr; cases hr⟩
      rw [d2]
      unfold nm_device_is_activating nm_device_get_state at hact
      rw [q5] at hact
      cases hcb : s.callback <;> rw [hcb] at hact <;> simp [queuedIn] at hact ⊢
  · exact tidy_removed hi s1 s2 s3 d1 (by rw [d2]; decide) d3

theorem tidy_run_inv (cls : NMDeviceClass) (w0 w : World) (h0 : Initial w0)
    (happ : w0.dev.app_data = true) (h : TidyRun cls w0 w) : TidyInv w := by
  induction h with
  | init =>
      obtain ⟨a, b, c, d⟩ := h0
      exact ⟨happ, by rw [a]; decide, Or.inl ⟨d, c, fun r hr => by rw [b] at hr; cases hr⟩⟩
  | step w w2 _ s hq ih =>
      cases s with
      | activate req => exact tidy_activate req w ih hq
      | run _ env hr => exact tidy_run cls env w w2 ih hr
      | dhcp iface st => exact tidy_dhcp_fold iface st _ w ih hq
      | cancel _ env hc => exact tidy_cancel env w w2 ih hc
      | deactivate _ env hd => exact tidy_deactivate cls env w w2 ih hd

theorem iterated_step (env : Env) (w : World)
    (h : (g_main_context_iteration nm_device_class_init env w).isSome = true) :
    g_main_context_iteration nm_device_class_init env w = some (iterated env w) := by
  unfold iterated
  cases hx : g_main_context_iteration nm_device_class_init env w with
  | none => rw [hx] at h; cases h
  | some x => rfl

/-! ## C24: lifecycle state and scheduled continuations, over whole runs -/

/-- C24, amended: a device of any class with its application data starts in
its initial state and goes through any steps (activation requests,
main-loop iterations, DHCP notifications, cancellations, deactivations)
along which the queue never holds more than one stage continuation.  Then
between steps the lifecycle state is never Failed; when it is Activated no
continuation is scheduled (the queue is empty and the marker 0); and when it
is Disconnected either no continuation is scheduled or the queue holds
exactly the stage-1 continuation that `nm_device_activate` queued, named by
the marker. -/
theorem nothing_scheduled_at_rest (cls : NMDeviceClass) (w0 w : World) (h0 : Initial w0)
    (happ : w0.dev.app_data = true) (h : TidyRun cls w0 w) :
    w.dev.state ≠ NMDeviceState.failed ∧
    (w.dev.state = NMDeviceState.activated → w.sources = [] ∧ w.dev.act_source_id = 0) ∧
    (w.dev.state = NMDeviceState.disconnected →
      (w.sources = [] ∧ w.dev.act_source_id = 0) ∨
      ∃ id r, w.sources = [⟨id, StageCallback.stage1_device_prepare, r⟩] ∧
        w.dev.act_source_id = id) := by
  obtain ⟨-, i2, i3⟩ := tidy_run_inv cls w0 w h0 happ h
  refine ⟨i2, fun hs => ?_, fun hs => ?_⟩
  · rcases i3 with ⟨e1, e2, -⟩ | ⟨s, -, -, -, -, q5, -⟩
    · exact ⟨e1, e2⟩
    · rw [hs] at q5
      cases hcb : s.callback <;> rw [hcb] at q5 <;> simp [queuedIn] at q5
  · rcases i3 with ⟨e1, e2, -⟩ | ⟨s, q1, q2, -, -, q5, -⟩
    · exact Or.inl ⟨e1, e2⟩
    · right
      rw [hs] at q5
      rcases s with ⟨id, cb, r⟩
      cases cb <;> simp [queuedIn] at q5
      exact ⟨id, r, q1, q2⟩

/-- C24, amended, on the static device "eth1" with the default hooks: it is
in its initial state with its application data; the run that activates it
with request 7 and lets the main loop run the five stages has one
continuation queued after each step and ends Activated, never Failed, with
the queue empty and the marker 0; after the first step the device is still
Disconnected with stage 1 queued as source 1, named by the marker. -/
theorem nothing_scheduled_at_rest_witness :
    (Initial eth1Static ∧ eth1Static.dev.app_data = true ∧
      TidyRun nm_device_class_init eth1Static
        (iterated staticBackend (iterated staticBackend (iterated staticBackend
          (iterated staticBackend (iterated staticBackend
            (nm_device_activate 7 eth1Static))))))) ∧
    ((iterated staticBackend (iterated staticBackend (iterated staticBackend
        (iterated staticBackend (iterated staticBackend
          (nm_device_activate 7 eth1Static)))))).dev.state = NMDeviceState.activated ∧
      (iterated staticBackend (iterated staticBackend (iterated staticBackend
        (iterated staticBackend (iterated staticBackend
          (nm_device_activate 7 eth1Static)))))).dev.state ≠ NMDeviceState.failed ∧
      (iterated staticBackend (iterated staticBackend (iterated staticBackend
        (iterated staticBackend (iterated staticBackend
          (nm_device_activate 7 eth1Static)))))).sources = [] ∧
      (iterated staticBackend (iterated staticBackend (iterated staticBackend
        (iterated staticBackend (iterated staticBackend
          (nm_device_activate 7 eth1Static)))))).dev.act_source_id = 0) ∧
    (TidyRun nm_device_class_init eth1Static (nm_device_activate 7 eth1Static) ∧
      (nm_device_activate 7 eth1Static).dev.state = NMDeviceState.disconnected ∧
      ((nm_device_activate 7 eth1Static).sources = [] ∧
          (nm_device_activate 7 eth1Static).dev.act_source_id = 0 ∨
        ∃ id r, (nm_device_activate 7 eth1Static).sources =
            [⟨id, StageCallback.stage1_device_prepare, r⟩] ∧
          (nm_device_activate 7 eth1Static).dev.act_source_id = id)) := by
  have t0 : TidyRun nm_device_class_init eth1Static (nm_device_activate 7 eth1Static) :=
    TidyRun.step _ _ TidyRun.init (Step.activate eth1Static 7) (by decide)
  have t1 := TidyRun.step _ _ t0
    (Step.run _ _ staticBackend (iterated_step staticBackend _ (by decide))) (by decide)
  have t2 := TidyRun.step _ _ t1
    (Step.run _ _ staticBackend (iterated_step staticBackend _ (by decide))) (by decide)
  have t3 := TidyRun.step _ _ t2
    (Step.run _ _ staticBackend (iterated_step staticBackend _ (by decide))) (by decide)
  have t4 := TidyRun.step _ _ t3
    (Step.run _ _ staticBackend (iterated_step staticBackend _ (by decide))) (by decide)
  have t5 := TidyRun.step _ _ t4
    (Step.run _ _ staticBackend (iterated_step staticBackend _ (by decide))) (by decide)
  have hs : (iterated staticBackend (iterated staticBackend (iterated staticBackend
      (iterated staticBackend (iterated staticBackend
        (nm_device_activate 7 eth1Static)))))).dev.state = NMDeviceState.activated := by decide
  have h5 := nothing_scheduled_at_rest nm_device_class_init eth1Static _
    ⟨rfl, rfl, rfl, rfl⟩ rfl t5
  have h0 := nothing_scheduled_at_rest nm_device_class_init eth1Static _
    ⟨rfl, rfl, rfl, rfl⟩ rfl t0
  exact ⟨⟨⟨rfl, rfl, rfl, rfl⟩, rfl, t5⟩, ⟨hs, h5.1, (h5.2.1 hs).1, (h5.2.1 hs).2⟩,
    t0, by decide, h0.2.2 (by decide)⟩

end NetworkManager
